import Mathlib

/-!
QtFingerprint: frame codec and command layer.

A shallow embedding of `src/fingerprint/qfingerprint.cpp` (class `QFingerprint`).

Conventions of the embedding.

* A byte is a `Nat` below 256; a `QByteArray` is a `List Nat`.
* `ulong` is the 64-bit unsigned type of the LP64 targets of Qt 5 on Linux; every `ulong`
  result is reduced modulo `2 ^ 64`.
* Plain `char` is signed on some targets (x86-64) and unsigned on others (AArch64).  The one
  place where the driver does arithmetic on a plain `char` is the checksum accumulation of
  `writePacket`; the functions that reach it take the signedness as the parameter `signedChar`.
* Comparisons of a `QByteRef` with a constant go through `QByteRef::operator==(char)` and
  `QByteRef::operator!=(char)`, which compare the stored byte with the constant converted to
  `char`: they are equalities of bytes.
* The serial port is a pair of byte queues: the bytes the sensor delivers (in arrival order) and
  the bytes handed to `write`.  `waitForReadyRead` fails exactly when no further byte arrives,
  `getChar` takes the next byte, and `waitForBytesWritten` is the boolean `flushes`.
* A function that throws returns `Except.error`; the session state reached when the exception
  leaves the function is returned next to it.
* A `uint8_t` or `quint16` variable or result holds its value modulo `2 ^ 8` or `2 ^ 16`; where
  the source converts a wider value to such a type the embedding reduces it explicitly.  A
  parameter of type `uint8_t` or `quint32` receives the value already converted.
* Indexing a `QByteArray` past its end through `QByteRef` yields 0; this is `List.getD _ _ 0`.
-/

namespace QtFingerprint

/-! ## Constants of `qfingerprint.h` -/

def FINGERPRINT_STARTCODE : Nat := 0xEF01

def FINGERPRINT_COMMANDPACKET : Nat := 0x01
def FINGERPRINT_ACKPACKET : Nat := 0x07
def FINGERPRINT_DATAPACKET : Nat := 0x02
def FINGERPRINT_ENDDATAPACKET : Nat := 0x08

def FINGERPRINT_VERIFYPASSWORD : Nat := 0x13
def FINGERPRINT_SETPASSWORD : Nat := 0x12
def FINGERPRINT_SETADDRESS : Nat := 0x15
def FINGERPRINT_SETSYSTEMPARAMETER : Nat := 0x0E
def FINGERPRINT_GETSYSTEMPARAMETERS : Nat := 0x0F
def FINGERPRINT_TEMPLATEINDEX : Nat := 0x1F
def FINGERPRINT_TEMPLATECOUNT : Nat := 0x1D
def FINGERPRINT_READIMAGE : Nat := 0x01
def FINGERPRINT_DOWNLOADIMAGE : Nat := 0x0A
def FINGERPRINT_CREATETEMPLATE : Nat := 0x05
def FINGERPRINT_STORETEMPLATE : Nat := 0x06
def FINGERPRINT_SEARCHTEMPLATE : Nat := 0x04
def FINGERPRINT_DELETETEMPLATE : Nat := 0x0C
def FINGERPRINT_CLEARDATABASE : Nat := 0x0D
def FINGERPRINT_COMPARECHARACTERISTICS : Nat := 0x03
def FINGERPRINT_UPLOADCHARACTERISTICS : Nat := 0x09
def FINGERPRINT_DOWNLOADCHARACTERISTICS : Nat := 0x08
def FINGERPRINT_CONVERTIMAGE : Nat := 0x02
def FINGERPRINT_LOADTEMPLATE : Nat := 0x07
def FINGERPRINT_GENERATERANDOMNUMBER : Nat := 0x14

def FINGERPRINT_SETSYSTEMPARAMETER_BAUDRATE : Nat := 4
def FINGERPRINT_SETSYSTEMPARAMETER_SECURITY_LEVEL : Nat := 5
def FINGERPRINT_SETSYSTEMPARAMETER_PACKAGE_SIZE : Nat := 6

def FINGERPRINT_OK : Nat := 0x00
def FINGERPRINT_ERROR_COMMUNICATION : Nat := 0x01
def FINGERPRINT_ERROR_WRONGPASSWORD : Nat := 0x13
def FINGERPRINT_ADDRCODE : Nat := 0x20
def FINGERPRINT_ERROR_INVALIDREGISTER : Nat := 0x1A
def FINGERPRINT_ERROR_NOFINGER : Nat := 0x02
def FINGERPRINT_ERROR_READIMAGE : Nat := 0x03
def FINGERPRINT_ERROR_INVALIDPOSITION : Nat := 0x0B
def FINGERPRINT_ERROR_CHARACTERISTICSMISMATCH : Nat := 0x0A
def FINGERPRINT_ERROR_FLASH : Nat := 0x18
def FINGERPRINT_ERROR_NOTEMPLATEFOUND : Nat := 0x09
def FINGERPRINT_ERROR_DELETETEMPLATE : Nat := 0x10
def FINGERPRINT_ERROR_CLEARDATABASE : Nat := 0x11
def FINGERPRINT_ERROR_NOTMATCHING : Nat := 0x08
def FINGERPRINT_ERROR_DOWNLOADIMAGE : Nat := 0x0F
def FINGERPRINT_ERROR_DOWNLOADCHARACTERISTICS : Nat := 0x0D
def FINGERPRINT_PACKETRESPONSEFAIL : Nat := 0x0E
def FINGERPRINT_ERROR_MESSYIMAGE : Nat := 0x06
def FINGERPRINT_ERROR_FEWFEATUREPOINTS : Nat := 0x07
def FINGERPRINT_ERROR_INVALIDIMAGE : Nat := 0x15
def FINGERPRINT_ERROR_LOADTEMPLATE : Nat := 0x0C

def FINGERPRINT_CHARBUFFER1 : Nat := 0x01
def FINGERPRINT_CHARBUFFER2 : Nat := 0x02

/-- The width of `ulong`: values of that type live modulo `2 ^ 64`. -/
def ULONG_MOD : Nat := 2 ^ 64

/-- The exceptions the driver throws, one constructor per message of `QFingerprintException`. -/
inductive FpError where
  /-- "Write timeout!" -/
  | writeTimeout
  /-- "Read timeout!" -/
  | readTimeout
  /-- "The received packet do not begin with a valid header!" -/
  | badHeader
  /-- "The received packet is corrupted (the checksum is wrong)!" -/
  | badChecksum
  /-- "The received packet is no ack packet!" -/
  | notAck
  /-- "Communication error" -/
  | communication
  /-- "The address is wrong" -/
  | wrongAddress
  /-- "Unknown error 0x" followed by the hexadecimal digits of the status byte -/
  | unknownError (code : Nat)
  /-- "The given password is invalid!" -/
  | invalidPassword
  /-- "The given address is invalid!" -/
  | invalidAddress
  /-- "The given parameter is invalid!" -/
  | invalidParameter
  /-- "The given security level parameter is invalid!" -/
  | invalidSecurityLevel
  /-- "The given length parameter is invalid!" -/
  | invalidLength
  /-- "The given parameter number is invalid!" -/
  | invalidParameterNumber
  /-- "Invalid register number" -/
  | invalidRegister
  /-- "Invalid baudrate" -/
  | invalidBaudrate
  /-- "Invalid packet size" -/
  | invalidPacketSize
  /-- "The given index page is invalid!" -/
  | invalidIndexPage
  /-- "The received0 packet is no ack packet!" (the message of `getTemplateIndex`) -/
  | notAck0
  /-- "Invalid position" -/
  | invalidPosition
  /-- "Could not read image" -/
  | couldNotReadImage
  /-- "The given position number is invalid!" -/
  | invalidPositionNumber
  /-- "The given charbuffer number is invalid!" -/
  | invalidCharBuffer
  /-- "Could not store template in that position" -/
  | couldNotStoreTemplate
  /-- "Error writing to flash" -/
  | flashError
  /-- "The given count is invalid!" -/
  | invalidCount
  /-- "The characteristics data required!" -/
  | dataRequired
  /-- "Could not upload characteristics" -/
  | couldNotUpload
  /-- "Could not download characteristics" -/
  | couldNotDownloadCharacteristics
  /-- "The received packet is no data packet!" -/
  | notDataPacket
  /-- "Could not download image" -/
  | couldNotDownloadImage
  /-- "The given destination directory ... is not writable!" -/
  | notWritable
  /-- "The image is too messy" -/
  | messyImage
  /-- "The image contains too few feature points" -/
  | fewFeaturePoints
  /-- "The image is invalid" -/
  | invalidImage
  /-- "The given positionNumber is invalid!" (the message of `loadTemplate`) -/
  | invalidPositionNumberLoad
  /-- "The template could not be read" -/
  | couldNotReadTemplate
  /-- "Could not load template from that position" -/
  | couldNotLoadTemplate
  deriving DecidableEq, Repr

deriving instance DecidableEq for Except

/-- The serial port as the driver sees it. -/
structure QSerialPort where
  /-- bytes the sensor delivers, in arrival order -/
  incoming : List Nat
  /-- bytes handed to `write`, oldest first -/
  written : List Nat
  /-- result of `waitForBytesWritten(timeout)` -/
  flushes : Bool
  deriving DecidableEq, Repr

/-- The private members of `QFingerprint`. -/
structure QFingerprint where
  m_address : Nat
  m_password : Nat
  m_timeout : Nat
  m_serial : QSerialPort
  deriving DecidableEq, Repr

/-! ## Bit helpers -/

/-- Source: `uint8_t rightShift(ulong n, int x) { return (n >> x & 0xFF); }`. -/
def rightShift (n x : Nat) : Nat := (n >>> x) &&& 0xFF

/-- Source: `ulong leftShift(ulong n, int x) { return n << x; }`. -/
def leftShift (n x : Nat) : Nat := (n <<< x) % ULONG_MOD

/-- The value a plain `char` holding the byte `b` contributes when it is added to a `ulong`:
the byte itself when `char` is unsigned, and its sign extension to 64 bits when it is signed. -/
def charToULong (signedChar : Bool) (b : Nat) : Nat :=
  if signedChar && decide (128 ≤ b) then ULONG_MOD - 256 + b else b

/-! ## `writePacket` -/

/-- The buffer `packetData` that `writePacket` assembles (lines 155-185). -/
def writePacketData (signedChar : Bool) (address packetType : Nat) (packetPayload : List Nat) :
    List Nat :=
  let packetData : List Nat :=
    [rightShift FINGERPRINT_STARTCODE 8, rightShift FINGERPRINT_STARTCODE 0,
     rightShift address 24, rightShift address 16, rightShift address 8, rightShift address 0,
     packetType]
  -- uint8_t packetLength = packetPayload.length() + 2;
  let packetLength := (packetPayload.length + 2) % 256
  let packetData := packetData ++ [rightShift packetLength 8, rightShift packetLength 0]
  let packetChecksum := packetType + rightShift packetLength 8 + rightShift packetLength 0
  -- for (char data : packetPayload) { packetData.append(data); packetChecksum += data; }
  let acc := packetPayload.foldl
    (fun (acc : List Nat × Nat) (data : Nat) =>
      (acc.1 ++ [data], (acc.2 + charToULong signedChar data) % ULONG_MOD))
    (packetData, packetChecksum)
  acc.1 ++ [rightShift acc.2 8, rightShift acc.2 0]

/-- Source: `QFingerprint::writePacket`: the frame is handed to the port, then the call throws
"Write timeout!" when the port does not flush. -/
def QFingerprint.writePacket (signedChar : Bool) (self : QFingerprint) (packetType : Nat)
    (packetPayload : List Nat) : Except FpError Unit × QFingerprint :=
  let packetData := writePacketData signedChar self.m_address packetType packetPayload
  let self1 : QFingerprint :=
    { self with m_serial := { self.m_serial with written := self.m_serial.written ++ packetData } }
  if self.m_serial.flushes then (Except.ok (), self1) else (Except.error FpError.writeTimeout, self1)

/-! ## `readPacket` -/

/-- The payload loop of `readPacket` (lines 238-241), `n` iterations starting at index `j`:
each one appends `receivedPacketData[j]` to `packetData` and adds it to `packetChecksum`. -/
def payloadLoop (receivedPacketData : List Nat) : Nat → Nat → List Nat → Nat → List Nat × Nat
  | 0, _, packetData, packetChecksum => (packetData, packetChecksum)
  | n + 1, j, packetData, packetChecksum =>
    payloadLoop receivedPacketData n (j + 1) (packetData ++ [receivedPacketData.getD j 0])
      ((packetChecksum + receivedPacketData.getD j 0) % ULONG_MOD)

/-- Lines 229-252 of `readPacket`, run once `i >= packetPayloadLength + 9`; `i` is the number of
bytes received, the length of `receivedPacketData`. -/
def readPacketFinish (receivedPacketData : List Nat) (packetPayloadLength : Nat) :
    Except FpError (List Nat) :=
  let i := receivedPacketData.length
  let packetType := receivedPacketData.getD 6 0
  let packetChecksum := packetType + packetPayloadLength
  -- for (int j = 9; j < packetPayloadLength + 9 - 2; j++)
  let acc := payloadLoop receivedPacketData (packetPayloadLength + 9 - 2 - 9) 9
    [packetType] packetChecksum
  let receivedChecksum :=
    leftShift (receivedPacketData.getD (i - 2) 0) 8 ||| leftShift (receivedPacketData.getD (i - 1) 0) 0
  if receivedChecksum ≠ acc.2 then Except.error FpError.badChecksum else Except.ok acc.1

/-- The `while(true)` loop of `readPacket`.  The first argument is `receivedPacketData` (its
length is the counter `i`), the second the bytes still to arrive.  The result is the packet or
the exception, and the bytes left unread. -/
def readPacketLoop : List Nat → List Nat → Except FpError (List Nat) × List Nat
  | _, [] => (Except.error FpError.readTimeout, [])
  | receivedPacketData, receivedFragment :: incoming =>
    let receivedPacketData := receivedPacketData ++ [receivedFragment]
    let i := receivedPacketData.length
    if 12 ≤ i then
      if receivedPacketData.getD 0 0 ≠ rightShift FINGERPRINT_STARTCODE 8
          ∨ receivedPacketData.getD 1 0 ≠ rightShift FINGERPRINT_STARTCODE 0 then
        (Except.error FpError.badHeader, incoming)
      else
        -- uint8_t packetPayloadLength = leftShift(data[7], 8) | leftShift(data[8], 0);
        let packetPayloadLength :=
          (leftShift (receivedPacketData.getD 7 0) 8 ||| leftShift (receivedPacketData.getD 8 0) 0)
            % 256
        if i < packetPayloadLength + 9 then
          readPacketLoop receivedPacketData incoming
        else
          (readPacketFinish receivedPacketData packetPayloadLength, incoming)
    else
      readPacketLoop receivedPacketData incoming

/-- Source: `QFingerprint::readPacket`. -/
def QFingerprint.readPacket (self : QFingerprint) : Except FpError (List Nat) × QFingerprint :=
  let r := readPacketLoop [] self.m_serial.incoming
  (r.1, { self with m_serial := { self.m_serial with incoming := r.2 } })

/-! ## `verifyPassword` -/

/-- Source: `QFingerprint::verifyPassword`. -/
def QFingerprint.verifyPassword (signedChar : Bool) (self : QFingerprint) :
    Except FpError Bool × QFingerprint :=
  let packetPayload : List Nat :=
    [FINGERPRINT_VERIFYPASSWORD, rightShift self.m_password 24, rightShift self.m_password 16,
     rightShift self.m_password 8, rightShift self.m_password 0]
  match self.writePacket signedChar FINGERPRINT_COMMANDPACKET packetPayload with
  | (Except.error e, s1) => (Except.error e, s1)
  | (Except.ok _, s1) =>
    match s1.readPacket with
    | (Except.error e, s2) => (Except.error e, s2)
    | (Except.ok receivedPacket, s2) =>
      let receivedPacketType := receivedPacket.getD 0 0
      let receivedPacketPayload := receivedPacket.drop 1
      if receivedPacketType ≠ FINGERPRINT_ACKPACKET then
        (Except.error FpError.notAck, s2)
      else if receivedPacketPayload.getD 0 0 = FINGERPRINT_OK then
        (Except.ok true, s2)
      else if receivedPacketPayload.getD 0 0 = FINGERPRINT_ERROR_COMMUNICATION then
        (Except.error FpError.communication, s2)
      else if receivedPacketPayload.getD 0 0 = FINGERPRINT_ADDRCODE then
        (Except.error FpError.wrongAddress, s2)
      else if receivedPacketPayload.getD 0 0 = FINGERPRINT_ERROR_WRONGPASSWORD then
        (Except.ok false, s2)
      else
        (Except.error (FpError.unknownError (receivedPacketPayload.getD 0 0)), s2)

/-! ## `setPassword`, `setAddress` -/

/-- Source: `QFingerprint::setPassword(quint32 newPassword)`. -/
def QFingerprint.setPassword (signedChar : Bool) (self : QFingerprint) (newPassword : Nat) :
    Except FpError Bool × QFingerprint :=
  if newPassword < 0x00000000 ∨ newPassword > 0xFFFFFFFF then
    (Except.error FpError.invalidPassword, self)
  else
    let packetPayload : List Nat :=
      [FINGERPRINT_SETPASSWORD, rightShift newPassword 24, rightShift newPassword 16,
       rightShift newPassword 8, rightShift newPassword 0]
    match self.writePacket signedChar FINGERPRINT_COMMANDPACKET packetPayload with
    | (Except.error e, s1) => (Except.error e, s1)
    | (Except.ok _, s1) =>
      match s1.readPacket with
      | (Except.error e, s2) => (Except.error e, s2)
      | (Except.ok receivedPacket, s2) =>
        let receivedPacketType := receivedPacket.getD 0 0
        let receivedPacketPayload := receivedPacket.drop 1
        if receivedPacketType ≠ FINGERPRINT_ACKPACKET then
          (Except.error FpError.notAck, s2)
        else if receivedPacketPayload.getD 0 0 = FINGERPRINT_OK then
          (Except.ok true, { s2 with m_password := newPassword })
        else if receivedPacketPayload.getD 0 0 = FINGERPRINT_ERROR_COMMUNICATION then
          (Except.error FpError.communication, s2)
        else
          (Except.error (FpError.unknownError (receivedPacketPayload.getD 0 0)), s2)

/-- Source: `QFingerprint::setAddress(quint32 newAddress)`. -/
def QFingerprint.setAddress (signedChar : Bool) (self : QFingerprint) (newAddress : Nat) :
    Except FpError Bool × QFingerprint :=
  if newAddress < 0x00000000 ∨ newAddress > 0xFFFFFFFF then
    (Except.error FpError.invalidAddress, self)
  else
    let packetPayload : List Nat :=
      [FINGERPRINT_SETADDRESS, rightShift newAddress 24, rightShift newAddress 16,
       rightShift newAddress 8, rightShift newAddress 0]
    match self.writePacket signedChar FINGERPRINT_COMMANDPACKET packetPayload with
    | (Except.error e, s1) => (Except.error e, s1)
    | (Except.ok _, s1) =>
      match s1.readPacket with
      | (Except.error e, s2) => (Except.error e, s2)
      | (Except.ok receivedPacket, s2) =>
        let receivedPacketType := receivedPacket.getD 0 0
        let receivedPacketPayload := receivedPacket.drop 1
        if receivedPacketType ≠ FINGERPRINT_ACKPACKET then
          (Except.error FpError.notAck, s2)
        else if receivedPacketPayload.getD 0 0 = FINGERPRINT_OK then
          (Except.ok true, { s2 with m_address := newAddress })
        else if receivedPacketPayload.getD 0 0 = FINGERPRINT_ERROR_COMMUNICATION then
          (Except.error FpError.communication, s2)
        else
          (Except.error (FpError.unknownError (receivedPacketPayload.getD 0 0)), s2)

/-! ## `setSystemParameter` and the setters built on it -/

/-- The argument validation of `setSystemParameter` (lines 359-377): the exception it throws,
if any. -/
def setSystemParameterCheck (parameterNumber parameterValue : Nat) : Option FpError :=
  if parameterNumber = FINGERPRINT_SETSYSTEMPARAMETER_BAUDRATE then
    if parameterValue < 1 ∨ parameterValue > 12 then some FpError.invalidParameter else none
  else if parameterNumber = FINGERPRINT_SETSYSTEMPARAMETER_SECURITY_LEVEL then
    if parameterValue < 1 ∨ parameterValue > 5 then some FpError.invalidSecurityLevel else none
  else if parameterNumber = FINGERPRINT_SETSYSTEMPARAMETER_PACKAGE_SIZE then
    if parameterValue < 0 ∨ parameterValue > 3 then some FpError.invalidLength else none
  else
    some FpError.invalidParameterNumber

/-- Source: `QFingerprint::setSystemParameter(uint8_t parameterNumber, uint8_t parameterValue)`. -/
def QFingerprint.setSystemParameter (signedChar : Bool) (self : QFingerprint)
    (parameterNumber parameterValue : Nat) : Except FpError Bool × QFingerprint :=
  match setSystemParameterCheck parameterNumber parameterValue with
  | some e => (Except.error e, self)
  | none =>
    let packetPayload : List Nat :=
      [FINGERPRINT_SETSYSTEMPARAMETER, parameterNumber, parameterValue]
    match self.writePacket signedChar FINGERPRINT_COMMANDPACKET packetPayload with
    | (Except.error e, s1) => (Except.error e, s1)
    | (Except.ok _, s1) =>
      match s1.readPacket with
      | (Except.error e, s2) => (Except.error e, s2)
      | (Except.ok receivedPacket, s2) =>
        let receivedPacketType := receivedPacket.getD 0 0
        let receivedPacketPayload := receivedPacket.drop 1
        if receivedPacketType ≠ FINGERPRINT_ACKPACKET then
          (Except.error FpError.notAck, s2)
        else if receivedPacketPayload.getD 0 0 = FINGERPRINT_OK then
          (Except.ok true, s2)
        else if receivedPacketPayload.getD 0 0 = FINGERPRINT_ERROR_COMMUNICATION then
          (Except.error FpError.communication, s2)
        else if receivedPacketPayload.getD 0 0 = FINGERPRINT_ERROR_INVALIDREGISTER then
          (Except.error FpError.invalidRegister, s2)
        else
          (Except.error (FpError.unknownError (receivedPacketPayload.getD 0 0)), s2)

/-- Source: `QFingerprint::setBaudRate(quint32 baudRate)`; the quotient is cast to `uint8_t`. -/
def QFingerprint.setBaudRate (signedChar : Bool) (self : QFingerprint) (baudRate : Nat) :
    Except FpError Bool × QFingerprint :=
  if baudRate % 9600 ≠ 0 then
    (Except.error FpError.invalidBaudrate, self)
  else
    self.setSystemParameter signedChar FINGERPRINT_SETSYSTEMPARAMETER_BAUDRATE
      ((baudRate / 9600) % 256)

/-- Source: `QFingerprint::setSecurityLevel(uint8_t securityLevel)`. -/
def QFingerprint.setSecurityLevel (signedChar : Bool) (self : QFingerprint)
    (securityLevel : Nat) : Except FpError Bool × QFingerprint :=
  self.setSystemParameter signedChar FINGERPRINT_SETSYSTEMPARAMETER_SECURITY_LEVEL securityLevel

/-- The local `std::map<uint8_t, uint8_t> packetSizes = {{32, 0}, {64, 1}, {128, 2}, {256, 3}}`
of `setMaxPacketSize`: every key is converted to `uint8_t`, so the key written `256` is `0`. -/
def packetSizesMap : List (Nat × Nat) :=
  [(32 % 256, 0), (64 % 256, 1), (128 % 256, 2), (256 % 256, 3)]

/-- Source: `QFingerprint::setMaxPacketSize(uint8_t packetSize)`. -/
def QFingerprint.setMaxPacketSize (signedChar : Bool) (self : QFingerprint) (packetSize : Nat) :
    Except FpError Bool × QFingerprint :=
  match packetSizesMap.lookup packetSize with
  | none => (Except.error FpError.invalidPacketSize, self)
  | some packageSizeType =>
    self.setSystemParameter signedChar FINGERPRINT_SETSYSTEMPARAMETER_PACKAGE_SIZE
      packageSizeType

/-! ## `getSystemParameters` and the getters built on it -/

/-- Source: `QFingerprint::getSystemParameters`. -/
def QFingerprint.getSystemParameters (signedChar : Bool) (self : QFingerprint) :
    Except FpError (List Nat) × QFingerprint :=
  let packetPayload : List Nat := [FINGERPRINT_GETSYSTEMPARAMETERS]
  match self.writePacket signedChar FINGERPRINT_COMMANDPACKET packetPayload with
  | (Except.error e, s1) => (Except.error e, s1)
  | (Except.ok _, s1) =>
    match s1.readPacket with
    | (Except.error e, s2) => (Except.error e, s2)
    | (Except.ok receivedPacket, s2) =>
      let receivedPacketType := receivedPacket.getD 0 0
      let receivedPacketPayload := receivedPacket.drop 1
      if receivedPacketType ≠ FINGERPRINT_ACKPACKET then
        (Except.error FpError.notAck, s2)
      else if receivedPacketPayload.getD 0 0 = FINGERPRINT_OK then
        (Except.ok (receivedPacketPayload.drop 1), s2)
      else if receivedPacketPayload.getD 0 0 = FINGERPRINT_ERROR_COMMUNICATION then
        (Except.error FpError.communication, s2)
      else
        (Except.error (FpError.unknownError (receivedPacketPayload.getD 0 0)), s2)

/-- Source: `QFingerprint::getStorageCapacity`; the result type is `quint16`. -/
def QFingerprint.getStorageCapacity (signedChar : Bool) (self : QFingerprint) :
    Except FpError Nat × QFingerprint :=
  match self.getSystemParameters signedChar with
  | (Except.error e, s1) => (Except.error e, s1)
  | (Except.ok systemParameters, s1) =>
    (Except.ok ((leftShift (systemParameters.getD 4 0) 8
      ||| leftShift (systemParameters.getD 5 0) 0) % 65536), s1)

/-- Source: `QFingerprint::getSecurityLevel`; the result type is `quint16`. -/
def QFingerprint.getSecurityLevel (signedChar : Bool) (self : QFingerprint) :
    Except FpError Nat × QFingerprint :=
  match self.getSystemParameters signedChar with
  | (Except.error e, s1) => (Except.error e, s1)
  | (Except.ok systemParameters, s1) =>
    (Except.ok ((leftShift (systemParameters.getD 6 0) 8
      ||| leftShift (systemParameters.getD 7 0) 0) % 65536), s1)

/-- Source: `QFingerprint::getMaxPacketSize`; `packetMaxSizeType` and the result are `quint16`. -/
def QFingerprint.getMaxPacketSize (signedChar : Bool) (self : QFingerprint) :
    Except FpError Nat × QFingerprint :=
  match self.getSystemParameters signedChar with
  | (Except.error e, s1) => (Except.error e, s1)
  | (Except.ok systemParameters, s1) =>
    let packetMaxSizeType := (leftShift (systemParameters.getD 12 0) 8
      ||| leftShift (systemParameters.getD 13 0) 0) % 65536
    let packetSizes : List Nat := [32, 64, 128, 256]
    if packetMaxSizeType < 0 ∨ packetMaxSizeType > 3 then
      (Except.error FpError.invalidPacketSize, s1)
    else
      (Except.ok (packetSizes.getD packetMaxSizeType 0), s1)

/-- Source: `QFingerprint::getBaudRate`; `baudRateType` is `quint16`, the product is computed in
`int` and converted to the result type `quint16`. -/
def QFingerprint.getBaudRate (signedChar : Bool) (self : QFingerprint) :
    Except FpError Nat × QFingerprint :=
  match self.getSystemParameters signedChar with
  | (Except.error e, s1) => (Except.error e, s1)
  | (Except.ok systemParameters, s1) =>
    let baudRateType := (leftShift (systemParameters.getD 14 0) 8
      ||| leftShift (systemParameters.getD 15 0) 0) % 65536
    (Except.ok ((baudRateType * 9600) % 65536), s1)

/-! ## `getTemplateIndex`, `getTemplateCount`, `readImage` -/

/-- Source: `bool bitAtPosition(ulong n, uint8_t p) { ulong mask = 1 << p; return (n & mask) > 0; }`.
Every call has `p < 8`. -/
def bitAtPosition (n p : Nat) : Bool :=
  let mask := 1 <<< p
  decide ((n &&& mask) > 0)

/-- `QBitArray::setBit(int i, bool val)`. -/
def setBit (bits : List Bool) (i : Nat) (val : Bool) : List Bool := bits.set i val

/-- The two nested loops of `getTemplateIndex` (lines 515-520).  The call is
`templateIndex.setBit(bitAtPosition(pageElements.at(i), j), i * 8 + j)`: the first argument
(`int i` of `setBit`) receives the `bool`, converted to 0 or 1, and the second (`bool val`)
receives `i * 8 + j`, converted to `true` exactly when it is not zero.  `pageElements.at(i)` is
a plain `char` converted to `ulong`. -/
def templateIndexLoop (signedChar : Bool) (pageElements : List Nat) (templateIndex : List Bool) :
    List Bool :=
  (List.range pageElements.length).foldl
    (fun (templateIndex : List Bool) (i : Nat) =>
      (List.range 8).foldl
        (fun (templateIndex : List Bool) (j : Nat) =>
          setBit templateIndex
            (if bitAtPosition (charToULong signedChar (pageElements.getD i 0)) j then 1 else 0)
            (decide (i * 8 + j ≠ 0)))
        templateIndex)
    templateIndex

/-- Source: `QFingerprint::getTemplateIndex(uint8_t page)`; a `QBitArray` is a `List Bool`. -/
def QFingerprint.getTemplateIndex (signedChar : Bool) (self : QFingerprint) (page : Nat) :
    Except FpError (List Bool) × QFingerprint :=
  if page < 0 ∨ page > 3 then
    (Except.error FpError.invalidIndexPage, self)
  else
    let packetPayload : List Nat := [FINGERPRINT_TEMPLATEINDEX, page]
    match self.writePacket signedChar FINGERPRINT_COMMANDPACKET packetPayload with
    | (Except.error e, s1) => (Except.error e, s1)
    | (Except.ok _, s1) =>
      match s1.readPacket with
      | (Except.error e, s2) => (Except.error e, s2)
      | (Except.ok receivedPacket, s2) =>
        let receivedPacketType := receivedPacket.getD 0 0
        let receivedPacketPayload := receivedPacket.drop 1
        if receivedPacketType ≠ FINGERPRINT_ACKPACKET then
          (Except.error FpError.notAck0, s2)
        else if receivedPacketPayload.getD 0 0 = FINGERPRINT_OK then
          let pageElements := receivedPacketPayload.drop 1
          let templateIndex := List.replicate (pageElements.length * 8) false
          (Except.ok (templateIndexLoop signedChar pageElements templateIndex), s2)
        else if receivedPacketPayload.getD 0 0 = FINGERPRINT_ERROR_COMMUNICATION then
          (Except.error FpError.communication, s2)
        else if receivedPacketPayload.getD 0 0 = FINGERPRINT_ERROR_INVALIDPOSITION then
          (Except.error FpError.invalidPosition, s2)
        else
          (Except.error (FpError.unknownError (receivedPacketPayload.getD 0 0)), s2)

/-- Source: `QFingerprint::getTemplateCount`; `templateCount` is `quint16`. -/
def QFingerprint.getTemplateCount (signedChar : Bool) (self : QFingerprint) :
    Except FpError Nat × QFingerprint :=
  let packetPayload : List Nat := [FINGERPRINT_TEMPLATECOUNT]
  match self.writePacket signedChar FINGERPRINT_COMMANDPACKET packetPayload with
  | (Except.error e, s1) => (Except.error e, s1)
  | (Except.ok _, s1) =>
    match s1.readPacket with
    | (Except.error e, s2) => (Except.error e, s2)
    | (Except.ok receivedPacket, s2) =>
      let receivedPacketType := receivedPacket.getD 0 0
      let receivedPacketPayload := receivedPacket.drop 1
      if receivedPacketType ≠ FINGERPRINT_ACKPACKET then
        (Except.error FpError.notAck, s2)
      else if receivedPacketPayload.getD 0 0 = FINGERPRINT_OK then
        let templateCount := leftShift (receivedPacketPayload.getD 1 0) 8 % 65536
        let templateCount :=
          (templateCount ||| leftShift (receivedPacketPayload.getD 2 0) 0) % 65536
        (Except.ok templateCount, s2)
      else if receivedPacketPayload.getD 0 0 = FINGERPRINT_ERROR_COMMUNICATION then
        (Except.error FpError.communication, s2)
      else
        (Except.error (FpError.unknownError (receivedPacketPayload.getD 0 0)), s2)

/-- Source: `QFingerprint::readImage`. -/
def QFingerprint.readImage (signedChar : Bool) (self : QFingerprint) :
    Except FpError Bool × QFingerprint :=
  let packetPayload : List Nat := [FINGERPRINT_READIMAGE]
  match self.writePacket signedChar FINGERPRINT_COMMANDPACKET packetPayload with
  | (Except.error e, s1) => (Except.error e, s1)
  | (Except.ok _, s1) =>
    match s1.readPacket with
    | (Except.error e, s2) => (Except.error e, s2)
    | (Except.ok receivedPacket, s2) =>
      let receivedPacketType := receivedPacket.getD 0 0
      let receivedPacketPayload := receivedPacket.drop 1
      if receivedPacketType ≠ FINGERPRINT_ACKPACKET then
        (Except.error FpError.notAck, s2)
      else if receivedPacketPayload.getD 0 0 = FINGERPRINT_OK then
        (Except.ok true, s2)
      else if receivedPacketPayload.getD 0 0 = FINGERPRINT_ERROR_COMMUNICATION then
        (Except.error FpError.communication, s2)
      else if receivedPacketPayload.getD 0 0 = FINGERPRINT_ERROR_NOFINGER then
        (Except.ok false, s2)
      else if receivedPacketPayload.getD 0 0 = FINGERPRINT_ERROR_READIMAGE then
        (Except.error FpError.couldNotReadImage, s2)
      else
        (Except.error (FpError.unknownError (receivedPacketPayload.getD 0 0)), s2)

/-! ## `createTemplate`, `clearDatabase`, `deleteTemplate`, `compareCharacteristics` -/

/-- Source: `QFingerprint::createTemplate`. -/
def QFingerprint.createTemplate (signedChar : Bool) (self : QFingerprint) :
    Except FpError Bool × QFingerprint :=
  let packetPayload : List Nat := [FINGERPRINT_CREATETEMPLATE]
  match self.writePacket signedChar FINGERPRINT_COMMANDPACKET packetPayload with
  | (Except.error e, s1) => (Except.error e, s1)
  | (Except.ok _, s1) =>
    match s1.readPacket with
    | (Except.error e, s2) => (Except.error e, s2)
    | (Except.ok receivedPacket, s2) =>
      let receivedPacketType := receivedPacket.getD 0 0
      let receivedPacketPayload := receivedPacket.drop 1
      if receivedPacketType ≠ FINGERPRINT_ACKPACKET then
        (Except.error FpError.notAck, s2)
      else if receivedPacketPayload.getD 0 0 = FINGERPRINT_OK then
        (Except.ok true, s2)
      else if receivedPacketPayload.getD 0 0 = FINGERPRINT_ERROR_COMMUNICATION then
        (Except.error FpError.communication, s2)
      else if receivedPacketPayload.getD 0 0 = FINGERPRINT_ERROR_CHARACTERISTICSMISMATCH then
        (Except.ok false, s2)
      else
        (Except.error (FpError.unknownError (receivedPacketPayload.getD 0 0)), s2)

/-- Source: `QFingerprint::clearDatabase`. -/
def QFingerprint.clearDatabase (signedChar : Bool) (self : QFingerprint) :
    Except FpError Bool × QFingerprint :=
  let packetPayload : List Nat := [FINGERPRINT_CLEARDATABASE]
  match self.writePacket signedChar FINGERPRINT_COMMANDPACKET packetPayload with
  | (Except.error e, s1) => (Except.error e, s1)
  | (Except.ok _, s1) =>
    match s1.readPacket with
    | (Except.error e, s2) => (Except.error e, s2)
    | (Except.ok receivedPacket, s2) =>
      let receivedPacketType := receivedPacket.getD 0 0
      let receivedPacketPayload := receivedPacket.drop 1
      if receivedPacketType ≠ FINGERPRINT_ACKPACKET then
        (Except.error FpError.notAck, s2)
      else if receivedPacketPayload.getD 0 0 = FINGERPRINT_OK then
        (Except.ok true, s2)
      else if receivedPacketPayload.getD 0 0 = FINGERPRINT_ERROR_COMMUNICATION then
        (Except.error FpError.communication, s2)
      else if receivedPacketPayload.getD 0 0 = FINGERPRINT_ERROR_CLEARDATABASE then
        (Except.ok false, s2)
      else
        (Except.error (FpError.unknownError (receivedPacketPayload.getD 0 0)), s2)

/-- Source: `QFingerprint::deleteTemplate(quint16 positionNumber, quint16 count)`.  The
comparisons are made in `int`, which holds every difference of two `quint16` values. -/
def QFingerprint.deleteTemplate (signedChar : Bool) (self : QFingerprint)
    (positionNumber count : Nat) : Except FpError Bool × QFingerprint :=
  match self.getStorageCapacity signedChar with
  | (Except.error e, s0) => (Except.error e, s0)
  | (Except.ok capacity, s0) =>
    if positionNumber < 0x0000 ∨ positionNumber ≥ capacity then
      (Except.error FpError.invalidPositionNumber, s0)
    else if count < 0x0000 ∨ (count : Int) > (capacity : Int) - (positionNumber : Int) then
      (Except.error FpError.invalidCount, s0)
    else
      let packetPayload : List Nat :=
        [FINGERPRINT_DELETETEMPLATE, rightShift positionNumber 8, rightShift positionNumber 0,
         rightShift count 8, rightShift count 0]
      match s0.writePacket signedChar FINGERPRINT_COMMANDPACKET packetPayload with
      | (Except.error e, s1) => (Except.error e, s1)
      | (Except.ok _, s1) =>
        match s1.readPacket with
        | (Except.error e, s2) => (Except.error e, s2)
        | (Except.ok receivedPacket, s2) =>
          let receivedPacketType := receivedPacket.getD 0 0
          let receivedPacketPayload := receivedPacket.drop 1
          if receivedPacketType ≠ FINGERPRINT_ACKPACKET then
            (Except.error FpError.notAck, s2)
          else if receivedPacketPayload.getD 0 0 = FINGERPRINT_OK then
            (Except.ok true, s2)
          else if receivedPacketPayload.getD 0 0 = FINGERPRINT_ERROR_COMMUNICATION then
            (Except.error FpError.communication, s2)
          else if receivedPacketPayload.getD 0 0 = FINGERPRINT_ERROR_INVALIDPOSITION then
            (Except.error FpError.invalidPosition, s2)
          else if receivedPacketPayload.getD 0 0 = FINGERPRINT_ERROR_DELETETEMPLATE then
            (Except.ok false, s2)
          else
            (Except.error (FpError.unknownError (receivedPacketPayload.getD 0 0)), s2)

/-- Source: `QFingerprint::compareCharacteristics`; `accuracyScore` is `quint16`.  The third
branch compares with `FINGERPRINT_ERROR_CLEARDATABASE`, as the source does. -/
def QFingerprint.compareCharacteristics (signedChar : Bool) (self : QFingerprint) :
    Except FpError Nat × QFingerprint :=
  let packetPayload : List Nat := [FINGERPRINT_COMPARECHARACTERISTICS]
  match self.writePacket signedChar FINGERPRINT_COMMANDPACKET packetPayload with
  | (Except.error e, s1) => (Except.error e, s1)
  | (Except.ok _, s1) =>
    match s1.readPacket with
    | (Except.error e, s2) => (Except.error e, s2)
    | (Except.ok receivedPacket, s2) =>
      let receivedPacketType := receivedPacket.getD 0 0
      let receivedPacketPayload := receivedPacket.drop 1
      if receivedPacketType ≠ FINGERPRINT_ACKPACKET then
        (Except.error FpError.notAck, s2)
      else if receivedPacketPayload.getD 0 0 = FINGERPRINT_OK then
        let accuracyScore := leftShift (receivedPacketPayload.getD 1 0) 8 % 65536
        let accuracyScore :=
          (accuracyScore ||| leftShift (receivedPacketPayload.getD 2 0) 0) % 65536
        (Except.ok accuracyScore, s2)
      else if receivedPacketPayload.getD 0 0 = FINGERPRINT_ERROR_COMMUNICATION then
        (Except.error FpError.communication, s2)
      else if receivedPacketPayload.getD 0 0 = FINGERPRINT_ERROR_CLEARDATABASE then
        (Except.ok 0, s2)
      else
        (Except.error (FpError.unknownError (receivedPacketPayload.getD 0 0)), s2)

/-! ## `searchTemplate`, `storeTemplate` -/

/-- Conversion of an integer to `qint16` (two's complement, 16 bits). -/
def toInt16 (v : Int) : Int := (v + 32768) % 65536 - 32768

/-- Source: `QFingerprint::searchTemplate(uint8_t charBufferNumber, quint16 positionStart,
qint16 count)`.  The result is a `QList<qint16>`: the two `quint16` values are converted to
`qint16` when the list is built. -/
def QFingerprint.searchTemplate (signedChar : Bool) (self : QFingerprint)
    (charBufferNumber positionStart : Nat) (count : Int) :
    Except FpError (List Int) × QFingerprint :=
  if charBufferNumber ≠ FINGERPRINT_CHARBUFFER1 ∧ charBufferNumber ≠ FINGERPRINT_CHARBUFFER2 then
    (Except.error FpError.invalidCharBuffer, self)
  else
    let counted : Except FpError Nat × QFingerprint :=
      if count > 0 then (Except.ok (count.toNat % 65536), self)
      else self.getStorageCapacity signedChar
    match counted with
    | (Except.error e, s0) => (Except.error e, s0)
    | (Except.ok templatesCount, s0) =>
      let packetPayload : List Nat :=
        [FINGERPRINT_SEARCHTEMPLATE, charBufferNumber,
         rightShift positionStart 8, rightShift positionStart 0,
         rightShift templatesCount 8, rightShift templatesCount 0]
      match s0.writePacket signedChar FINGERPRINT_COMMANDPACKET packetPayload with
      | (Except.error e, s1) => (Except.error e, s1)
      | (Except.ok _, s1) =>
        match s1.readPacket with
        | (Except.error e, s2) => (Except.error e, s2)
        | (Except.ok receivedPacket, s2) =>
          let receivedPacketType := receivedPacket.getD 0 0
          let receivedPacketPayload := receivedPacket.drop 1
          if receivedPacketType ≠ FINGERPRINT_ACKPACKET then
            (Except.error FpError.notAck, s2)
          else if receivedPacketPayload.getD 0 0 = FINGERPRINT_OK then
            let positionNumber := leftShift (receivedPacketPayload.getD 1 0) 8 % 65536
            let positionNumber :=
              (positionNumber ||| leftShift (receivedPacketPayload.getD 2 0) 0) % 65536
            let accuracyScore := leftShift (receivedPacketPayload.getD 3 0) 8 % 65536
            let accuracyScore :=
              (accuracyScore ||| leftShift (receivedPacketPayload.getD 4 0) 0) % 65536
            (Except.ok [toInt16 positionNumber, toInt16 accuracyScore], s2)
          else if receivedPacketPayload.getD 0 0 = FINGERPRINT_ERROR_COMMUNICATION then
            (Except.error FpError.communication, s2)
          else if receivedPacketPayload.getD 0 0 = FINGERPRINT_ERROR_NOTEMPLATEFOUND then
            (Except.ok [-1, -1], s2)
          else
            (Except.error (FpError.unknownError (receivedPacketPayload.getD 0 0)), s2)

/-- The assignment expression `old = new` of C++: its value is `new`. -/
def assign (_old new : Int) : Int := new

/-- The inner loop of `storeTemplate` (lines 736-742): the first index `i` with
`!templateIndex[i]`, if there is one. -/
def firstUnsetBit : List Bool → Option Nat
  | [] => none
  | b :: bs => if b = false then some 0 else (firstUnsetBit bs).map (fun i => i + 1)

/-- The page loop of `storeTemplate` (lines 729-743), `for (int page; page < 4; page++)`.  The
source does not initialise `page`; its value at loop entry is the third argument.  `page` is
converted to `uint8_t` when it is passed to `getTemplateIndex`, which throws unless the
converted value is at most 3, so the loop body runs at most five times: the first argument
bounds the number of iterations and 6 is never exhausted. -/
def storeTemplateScan (signedChar : Bool) :
    Nat → QFingerprint → Int → Int → Except FpError Int × QFingerprint
  | 0, self, _, positionNumber => (Except.ok positionNumber, self)
  | fuel + 1, self, page, positionNumber =>
    if page < 4 then
      if positionNumber ≥ 0 then
        (Except.ok positionNumber, self)
      else
        match self.getTemplateIndex signedChar (page % 256).toNat with
        | (Except.error e, s1) => (Except.error e, s1)
        | (Except.ok templateIndex, s1) =>
          let positionNumber :=
            match firstUnsetBit templateIndex with
            | some i => toInt16 ((templateIndex.length : Int) * page + (i : Int))
            | none => positionNumber
          storeTemplateScan signedChar fuel s1 (page + 1) positionNumber
    else
      (Except.ok positionNumber, self)

/-- Source: `QFingerprint::storeTemplate(qint16 positionNumber, uint8_t charBufferNumber)`.
`page0` is the value the uninitialised loop variable `page` happens to hold.  The first
condition is the assignment `positionNumber = -1`, which is true. -/
def QFingerprint.storeTemplate (signedChar : Bool) (self : QFingerprint) (page0 : Int)
    (positionNumber : Int) (charBufferNumber : Nat) : Except FpError Nat × QFingerprint :=
  let positionNumber := assign positionNumber (-1)
  let scanned : Except FpError Int × QFingerprint :=
    if positionNumber ≠ 0 then storeTemplateScan signedChar 6 self page0 positionNumber
    else (Except.ok positionNumber, self)
  match scanned with
  | (Except.error e, s0) => (Except.error e, s0)
  | (Except.ok positionNumber, s0) =>
    if positionNumber < 0x0000 then
      (Except.error FpError.invalidPositionNumber, s0)
    else
      match s0.getStorageCapacity signedChar with
      | (Except.error e, s1) => (Except.error e, s1)
      | (Except.ok capacity, s1) =>
        if positionNumber ≥ (capacity : Int) then
          (Except.error FpError.invalidPositionNumber, s1)
        else if charBufferNumber ≠ FINGERPRINT_CHARBUFFER1
            ∧ charBufferNumber ≠ FINGERPRINT_CHARBUFFER2 then
          (Except.error FpError.invalidCharBuffer, s1)
        else
          let packetPayload : List Nat :=
            [FINGERPRINT_STORETEMPLATE, charBufferNumber,
             rightShift positionNumber.toNat 8, rightShift positionNumber.toNat 0]
          match s1.writePacket signedChar FINGERPRINT_COMMANDPACKET packetPayload with
          | (Except.error e, s2) => (Except.error e, s2)
          | (Except.ok _, s2) =>
            match s2.readPacket with
            | (Except.error e, s3) => (Except.error e, s3)
            | (Except.ok receivedPacket, s3) =>
              let receivedPacketType := receivedPacket.getD 0 0
              let receivedPacketPayload := receivedPacket.drop 1
              if receivedPacketType ≠ FINGERPRINT_ACKPACKET then
                (Except.error FpError.notAck, s3)
              else if receivedPacketPayload.getD 0 0 = FINGERPRINT_OK then
                -- return (quint8)positionNumber;
                (Except.ok (positionNumber.toNat % 256), s3)
              else if receivedPacketPayload.getD 0 0 = FINGERPRINT_ERROR_COMMUNICATION then
                (Except.error FpError.communication, s3)
              else if receivedPacketPayload.getD 0 0 = FINGERPRINT_ERROR_INVALIDPOSITION then
                (Except.error FpError.couldNotStoreTemplate, s3)
              else if receivedPacketPayload.getD 0 0 = FINGERPRINT_ERROR_FLASH then
                (Except.error FpError.flashError, s3)
              else
                (Except.error (FpError.unknownError (receivedPacketPayload.getD 0 0)), s3)

/-! ## `downloadCharacteristics`, `uploadCharacteristics` -/

/-- The `while` loop of `downloadCharacteristics` (lines 1117-1129).  Every `readPacket` that
returns has consumed at least 12 bytes, so the loop runs fewer times than there are bytes to
arrive: the first argument bounds the iterations and is started above that number. -/
def downloadCharacteristicsLoop :
    Nat → QFingerprint → Nat → List Nat → Except FpError (List Nat) × QFingerprint
  | 0, self, _, _ => (Except.error FpError.readTimeout, self)
  | fuel + 1, self, receivedPacketType, completePayload =>
    if receivedPacketType ≠ FINGERPRINT_ENDDATAPACKET then
      match self.readPacket with
      | (Except.error e, s1) => (Except.error e, s1)
      | (Except.ok receivedPacket, s1) =>
        let receivedPacketType := receivedPacket.getD 0 0
        let receivedPacketPayload := receivedPacket.drop 1
        if receivedPacketType ≠ FINGERPRINT_DATAPACKET
            ∧ receivedPacketType ≠ FINGERPRINT_ENDDATAPACKET then
          (Except.error FpError.notDataPacket, s1)
        else
          downloadCharacteristicsLoop fuel s1 receivedPacketType
            (completePayload ++ receivedPacketPayload)
    else
      (Except.ok completePayload, self)

/-- Source: `QFingerprint::downloadCharacteristics(uint8_t charBufferNumber)`. -/
def QFingerprint.downloadCharacteristics (signedChar : Bool) (self : QFingerprint)
    (charBufferNumber : Nat) : Except FpError (List Nat) × QFingerprint :=
  if charBufferNumber ≠ FINGERPRINT_CHARBUFFER1 ∧ charBufferNumber ≠ FINGERPRINT_CHARBUFFER2 then
    (Except.error FpError.invalidCharBuffer, self)
  else
    let packetPayload : List Nat := [FINGERPRINT_DOWNLOADCHARACTERISTICS, charBufferNumber]
    match self.writePacket signedChar FINGERPRINT_COMMANDPACKET packetPayload with
    | (Except.error e, s1) => (Except.error e, s1)
    | (Except.ok _, s1) =>
      match s1.readPacket with
      | (Except.error e, s2) => (Except.error e, s2)
      | (Except.ok receivedPacket, s2) =>
        let receivedPacketType := receivedPacket.getD 0 0
        let receivedPacketPayload := receivedPacket.drop 1
        if receivedPacketType ≠ FINGERPRINT_ACKPACKET then
          (Except.error FpError.notAck, s2)
        else if receivedPacketPayload.getD 0 0 = FINGERPRINT_OK then
          downloadCharacteristicsLoop (s2.m_serial.incoming.length + 1) s2 receivedPacketType []
        else if receivedPacketPayload.getD 0 0 = FINGERPRINT_ERROR_COMMUNICATION then
          (Except.error FpError.communication, s2)
        else if receivedPacketPayload.getD 0 0
            = FINGERPRINT_ERROR_DOWNLOADCHARACTERISTICS then
          (Except.error FpError.couldNotDownloadCharacteristics, s2)
        else
          (Except.error (FpError.unknownError (receivedPacketPayload.getD 0 0)), s2)

/-- `QByteArray::mid(int pos, int len)` for `pos ≥ 0` and `len ≥ 0`: at most `len` bytes from
position `pos` on, nothing when `pos` is past the end. -/
def mid (a : List Nat) (pos len : Nat) : List Nat := (a.drop pos).take len

/-- The `while (i < packetNbr)` loop of `uploadCharacteristics` (lines 1030-1036), the first
argument being the number `packetNbr - i` of iterations left.  `lfrom` and `lto` are `quint16`;
`(i-1) * maxPacketSize` is computed in `int`. -/
def uploadDataLoop (signedChar : Bool) (characteristicsPayload : List Nat)
    (maxPacketSize : Nat) : Nat → Nat → QFingerprint → Except FpError Unit × QFingerprint
  | 0, _, self => (Except.ok (), self)
  | n + 1, i, self =>
    let lfrom := ((((i : Int) - 1) * (maxPacketSize : Int)) % 65536).toNat
    let lto := (lfrom + maxPacketSize) % 65536
    match self.writePacket signedChar FINGERPRINT_DATAPACKET
        (mid characteristicsPayload lfrom lto) with
    | (Except.error e, s1) => (Except.error e, s1)
    | (Except.ok _, s1) =>
      uploadDataLoop signedChar characteristicsPayload maxPacketSize n (i + 1) s1

/-- Lines 1018-1041 of `uploadCharacteristics`: the data packets. -/
def uploadData (signedChar : Bool) (self : QFingerprint) (maxPacketSize : Nat)
    (characteristicsData : List Nat) : Except FpError Unit × QFingerprint :=
  let packetNbr := (characteristicsData.length / maxPacketSize) % 65536
  let characteristicsPayload := characteristicsData
  if packetNbr ≤ 1 then
    self.writePacket signedChar FINGERPRINT_ENDDATAPACKET characteristicsPayload
  else
    match uploadDataLoop signedChar characteristicsPayload maxPacketSize packetNbr 0 self with
    | (Except.error e, s1) => (Except.error e, s1)
    | (Except.ok _, s1) =>
      -- after the loop i = packetNbr
      let lfrom := ((((packetNbr : Int) - 1) * (maxPacketSize : Int)) % 65536).toNat
      let lto := (lfrom + maxPacketSize) % 65536
      s1.writePacket signedChar FINGERPRINT_ENDDATAPACKET
        (mid characteristicsPayload lfrom lto)

/-- Source: `QFingerprint::uploadCharacteristics(uint8_t charBufferNumber,
QList<uint8_t> characteristicsData)`. -/
def QFingerprint.uploadCharacteristics (signedChar : Bool) (self : QFingerprint)
    (charBufferNumber : Nat) (characteristicsData : List Nat) :
    Except FpError Bool × QFingerprint :=
  if charBufferNumber ≠ FINGERPRINT_CHARBUFFER1 ∧ charBufferNumber ≠ FINGERPRINT_CHARBUFFER2 then
    (Except.error FpError.invalidCharBuffer, self)
  else if characteristicsData = [0] then
    (Except.error FpError.dataRequired, self)
  else
    match self.getMaxPacketSize signedChar with
    | (Except.error e, s0) => (Except.error e, s0)
    | (Except.ok maxPacketSize, s0) =>
      let packetPayload : List Nat := [FINGERPRINT_UPLOADCHARACTERISTICS, charBufferNumber]
      match s0.writePacket signedChar FINGERPRINT_COMMANDPACKET packetPayload with
      | (Except.error e, s1) => (Except.error e, s1)
      | (Except.ok _, s1) =>
        match s1.readPacket with
        | (Except.error e, s2) => (Except.error e, s2)
        | (Except.ok receivedPacket, s2) =>
          let receivedPacketType := receivedPacket.getD 0 0
          let receivedPacketPayload := receivedPacket.drop 1
          if receivedPacketType ≠ FINGERPRINT_ACKPACKET then
            (Except.error FpError.notAck, s2)
          else if receivedPacketPayload.getD 0 0 = FINGERPRINT_OK then
            match uploadData signedChar s2 maxPacketSize characteristicsData with
            | (Except.error e, s3) => (Except.error e, s3)
            | (Except.ok _, s3) =>
              match s3.downloadCharacteristics signedChar charBufferNumber with
              | (Except.error e, s4) => (Except.error e, s4)
              | (Except.ok characteristics, s4) =>
                (Except.ok (decide (characteristics = characteristicsData)), s4)
          else if receivedPacketPayload.getD 0 0 = FINGERPRINT_ERROR_COMMUNICATION then
            (Except.error FpError.communication, s2)
          else if receivedPacketPayload.getD 0 0 = FINGERPRINT_PACKETRESPONSEFAIL then
            (Except.error FpError.couldNotUpload, s2)
          else
            (Except.error (FpError.unknownError (receivedPacketPayload.getD 0 0)), s2)

/-! ## `downloadImage` -/

/-- The `while` loop of `downloadImage` (lines 629-639): the payloads are collected in the
`QByteArrayList imageData`.  The first argument bounds the iterations as in
`downloadCharacteristicsLoop`. -/
def downloadImageLoop :
    Nat → QFingerprint → Nat → List (List Nat) → Except FpError (List (List Nat)) × QFingerprint
  | 0, self, _, _ => (Except.error FpError.readTimeout, self)
  | fuel + 1, self, receivedPacketType, imageData =>
    if receivedPacketType ≠ FINGERPRINT_ENDDATAPACKET then
      match self.readPacket with
      | (Except.error e, s1) => (Except.error e, s1)
      | (Except.ok receivedPacket, s1) =>
        let receivedPacketType := receivedPacket.getD 0 0
        let receivedPacketPayload := receivedPacket.drop 1
        if receivedPacketType ≠ FINGERPRINT_DATAPACKET
            ∧ receivedPacketType ≠ FINGERPRINT_ENDDATAPACKET then
          (Except.error FpError.notDataPacket, s1)
        else
          downloadImageLoop fuel s1 receivedPacketType (imageData ++ [receivedPacketPayload])
    else
      (Except.ok imageData, self)

/-- The value of a plain `char` holding the byte `b`, promoted to `int`. -/
def charToInt (signedChar : Bool) (b : Nat) : Int :=
  if signedChar && decide (128 ≤ b) then (b : Int) - 256 else (b : Int)

/-- The pixel loop of `downloadImage` (lines 644-657), `for (; ptr > start; ptr--)`, as the list
of the stores `*ptr = value` it executes, oldest first; a store is the pair of the offset
`ptr - start` and the `uchar` stored.  The first argument is the number of iterations left,
then `ptr - start`, `x`, `row`, `col` (all three `quint16`).  On an `int`, `>> 4` is the
division by 16 rounded down and `& 0x0F` the remainder modulo 16.  An index past the end of
`imageData` or of one of its arrays (undefined in the source) reads an empty array or the
byte 0. -/
def imagePixelLoop (signedChar : Bool) (imageData : List (List Nat)) :
    Nat → Nat → Nat → Nat → Nat → List (Nat × Nat)
  | 0, _, _, _, _ => []
  | n + 1, ptr, x, row, col =>
    let c := charToInt signedChar ((imageData.getD row []).getD col 0)
    let value := if x % 2 = 0 then (((c / 16) * 17) % 256).toNat
                 else (((c % 16) * 17) % 256).toNat
    let col1 := if x % 2 = 0 then col else (col + 1) % 65536
    let x1 := (x + 1) % 65536
    if col1 ≥ (imageData.getD col1 []).length then
      (ptr, value) :: imagePixelLoop signedChar imageData n (ptr - 1) 0 ((row + 1) % 65536) 0
    else
      (ptr, value) :: imagePixelLoop signedChar imageData n (ptr - 1) x1 row col1

/-- Lines 640-657 of `downloadImage`: the stores into the buffer of the 256 x 288 image, whose
bytes have the offsets `0 .. 256 * 288 - 1`; `ptr` starts at `start + width * height`. -/
def imagePixelStores (signedChar : Bool) (imageData : List (List Nat)) : List (Nat × Nat) :=
  imagePixelLoop signedChar imageData (256 * 288) (256 * 288) 0 0 0

/-- Source: `QFingerprint::downloadImage(QString imageDestination)`.  `destinationWritable` says
whether the destination directory exists and is writable; the result is the list of stores
into the image buffer that `img.save` then writes out. -/
def QFingerprint.downloadImage (signedChar : Bool) (self : QFingerprint)
    (destinationWritable : Bool) : Except FpError (List (Nat × Nat)) × QFingerprint :=
  if destinationWritable = false then
    (Except.error FpError.notWritable, self)
  else
    let packetPayload : List Nat := [FINGERPRINT_DOWNLOADIMAGE]
    match self.writePacket signedChar FINGERPRINT_COMMANDPACKET packetPayload with
    | (Except.error e, s1) => (Except.error e, s1)
    | (Except.ok _, s1) =>
      match s1.readPacket with
      | (Except.error e, s2) => (Except.error e, s2)
      | (Except.ok receivedPacket, s2) =>
        let receivedPacketType := receivedPacket.getD 0 0
        let receivedPacketPayload := receivedPacket.drop 1
        if receivedPacketType ≠ FINGERPRINT_ACKPACKET then
          (Except.error FpError.notAck, s2)
        else if receivedPacketPayload.getD 0 0 = FINGERPRINT_OK then
          match downloadImageLoop (s2.m_serial.incoming.length + 1) s2 receivedPacketType []
            with
          | (Except.error e, s3) => (Except.error e, s3)
          | (Except.ok imageData, s3) => (Except.ok (imagePixelStores signedChar imageData), s3)
        else if receivedPacketPayload.getD 0 0 = FINGERPRINT_ERROR_COMMUNICATION then
          (Except.error FpError.communication, s2)
        else if receivedPacketPayload.getD 0 0 = FINGERPRINT_ERROR_DOWNLOADIMAGE then
          (Except.error FpError.couldNotDownloadImage, s2)
        else
          (Except.error (FpError.unknownError (receivedPacketPayload.getD 0 0)), s2)

/-! ## `convertImage`, `loadTemplate`, `generateRandomNumber` -/

/-- Source: `QFingerprint::convertImage(uint8_t charBufferNumber)`. -/
def QFingerprint.convertImage (signedChar : Bool) (self : QFingerprint)
    (charBufferNumber : Nat) : Except FpError Bool × QFingerprint :=
  if charBufferNumber ≠ FINGERPRINT_CHARBUFFER1 ∧ charBufferNumber ≠ FINGERPRINT_CHARBUFFER2 then
    (Except.error FpError.invalidCharBuffer, self)
  else
    let packetPayload : List Nat := [FINGERPRINT_CONVERTIMAGE, charBufferNumber]
    match self.writePacket signedChar FINGERPRINT_COMMANDPACKET packetPayload with
    | (Except.error e, s1) => (Except.error e, s1)
    | (Except.ok _, s1) =>
      match s1.readPacket with
      | (Except.error e, s2) => (Except.error e, s2)
      | (Except.ok receivedPacket, s2) =>
        let receivedPacketType := receivedPacket.getD 0 0
        let receivedPacketPayload := receivedPacket.drop 1
        if receivedPacketType ≠ FINGERPRINT_ACKPACKET then
          (Except.error FpError.notAck, s2)
        else if receivedPacketPayload.getD 0 0 = FINGERPRINT_OK then
          (Except.ok true, s2)
        else if receivedPacketPayload.getD 0 0 = FINGERPRINT_ERROR_COMMUNICATION then
          (Except.error FpError.communication, s2)
        else if receivedPacketPayload.getD 0 0 = FINGERPRINT_ERROR_MESSYIMAGE then
          (Except.error FpError.messyImage, s2)
        else if receivedPacketPayload.getD 0 0 = FINGERPRINT_ERROR_FEWFEATUREPOINTS then
          (Except.error FpError.fewFeaturePoints, s2)
        else if receivedPacketPayload.getD 0 0 = FINGERPRINT_ERROR_INVALIDIMAGE then
          (Except.error FpError.invalidImage, s2)
        else
          (Except.error (FpError.unknownError (receivedPacketPayload.getD 0 0)), s2)

/-- Source: `QFingerprint::loadTemplate(quint16 positionNumber, uint8_t charBufferNumber)`. -/
def QFingerprint.loadTemplate (signedChar : Bool) (self : QFingerprint)
    (positionNumber charBufferNumber : Nat) : Except FpError Bool × QFingerprint :=
  match self.getStorageCapacity signedChar with
  | (Except.error e, s0) => (Except.error e, s0)
  | (Except.ok capacity, s0) =>
    if positionNumber < 0x0000 ∨ positionNumber ≥ capacity then
      (Except.error FpError.invalidPositionNumberLoad, s0)
    else if charBufferNumber ≠ FINGERPRINT_CHARBUFFER1
        ∧ charBufferNumber ≠ FINGERPRINT_CHARBUFFER2 then
      (Except.error FpError.invalidCharBuffer, s0)
    else
      let packetPayload : List Nat :=
        [FINGERPRINT_LOADTEMPLATE, charBufferNumber,
         rightShift positionNumber 8, rightShift positionNumber 0]
      match s0.writePacket signedChar FINGERPRINT_COMMANDPACKET packetPayload with
      | (Except.error e, s1) => (Except.error e, s1)
      | (Except.ok _, s1) =>
        match s1.readPacket with
        | (Except.error e, s2) => (Except.error e, s2)
        | (Except.ok receivedPacket, s2) =>
          let receivedPacketType := receivedPacket.getD 0 0
          let receivedPacketPayload := receivedPacket.drop 1
          if receivedPacketType ≠ FINGERPRINT_ACKPACKET then
            (Except.error FpError.notAck, s2)
          else if receivedPacketPayload.getD 0 0 = FINGERPRINT_OK then
            (Except.ok true, s2)
          else if receivedPacketPayload.getD 0 0 = FINGERPRINT_ERROR_COMMUNICATION then
            (Except.error FpError.communication, s2)
          else if receivedPacketPayload.getD 0 0 = FINGERPRINT_ERROR_LOADTEMPLATE then
            (Except.error FpError.couldNotReadTemplate, s2)
          else if receivedPacketPayload.getD 0 0 = FINGERPRINT_ERROR_INVALIDPOSITION then
            (Except.error FpError.couldNotLoadTemplate, s2)
          else
            (Except.error (FpError.unknownError (receivedPacketPayload.getD 0 0)), s2)

/-- Source: `QFingerprint::generateRandomNumber`; `number` is `quint32`. -/
def QFingerprint.generateRandomNumber (signedChar : Bool) (self : QFingerprint) :
    Except FpError Nat × QFingerprint :=
  let packetPayload : List Nat := [FINGERPRINT_GENERATERANDOMNUMBER]
  match self.writePacket signedChar FINGERPRINT_COMMANDPACKET packetPayload with
  | (Except.error e, s1) => (Except.error e, s1)
  | (Except.ok _, s1) =>
    match s1.readPacket with
    | (Except.error e, s2) => (Except.error e, s2)
    | (Except.ok receivedPacket, s2) =>
      let receivedPacketType := receivedPacket.getD 0 0
      let receivedPacketPayload := receivedPacket.drop 1
      if receivedPacketType ≠ FINGERPRINT_ACKPACKET then
        (Except.error FpError.notAck, s2)
      else if receivedPacketPayload.getD 0 0 = FINGERPRINT_OK then
        let number := 0
        let number := (number ||| leftShift (receivedPacketPayload.getD 1 0) 24) % 2 ^ 32
        let number := (number ||| leftShift (receivedPacketPayload.getD 2 0) 16) % 2 ^ 32
        let number := (number ||| leftShift (receivedPacketPayload.getD 3 0) 8) % 2 ^ 32
        let number := (number ||| leftShift (receivedPacketPayload.getD 4 0) 0) % 2 ^ 32
        (Except.ok number, s2)
      else if receivedPacketPayload.getD 0 0 = FINGERPRINT_ERROR_COMMUNICATION then
        (Except.error FpError.communication, s2)
      else
        (Except.error (FpError.unknownError (receivedPacketPayload.getD 0 0)), s2)

/-! ## The message of the unknown-status exception -/

/-- One hexadecimal digit as `QByteArray::toHex` writes it (lower case). -/
def hexDigit (n : Nat) : Char := "0123456789abcdef".toList.getD n '0'

/-- `QByteArray::toHex()`: two hexadecimal digits for every byte. -/
def toHex (a : List Nat) : String :=
  String.mk (a.flatMap (fun b => [hexDigit (b / 16), hexDigit (b % 16)]))

/-- The message built in the last branch of every status chain (for instance lines 284-285):
`QString message("Unknown error 0x"); message += receivedPacketPayload.left(1).toHex();`. -/
def unknownErrorMessage (receivedPacketPayload : List Nat) : String :=
  "Unknown error 0x" ++ toHex (receivedPacketPayload.take 1)

/-! ## Auxiliary definitions used to state the properties -/

/-- The header test of `readPacket` (line 215) on the received bytes. -/
def headerBad (s : List Nat) : Prop :=
  s.getD 0 0 ≠ rightShift FINGERPRINT_STARTCODE 8 ∨ s.getD 1 0 ≠ rightShift FINGERPRINT_STARTCODE 0

instance instDecidableHeaderBad (s : List Nat) : Decidable (headerBad s) := by
  unfold headerBad; infer_instance

/-- The value `readPacket` stores in `packetPayloadLength` (line 221). -/
def lengthField (s : List Nat) : Nat :=
  (leftShift (s.getD 7 0) 8 ||| leftShift (s.getD 8 0) 0) % 256

/-- What `readPacketLoop` computes from an empty buffer, without the loop: nothing is decided
before 12 bytes have arrived, and the packet is cut after `max 12 (lengthField s + 9)` bytes. -/
def decodeStream (s : List Nat) : Except FpError (List Nat) × List Nat :=
  if s.length < 12 then (Except.error FpError.readTimeout, [])
  else if headerBad s then (Except.error FpError.badHeader, s.drop 12)
  else if s.length < lengthField s + 9 then (Except.error FpError.readTimeout, [])
  else (readPacketFinish (s.take (max 12 (lengthField s + 9))) (lengthField s),
        s.drop (max 12 (lengthField s + 9)))

/-- All elements are bytes. -/
def IsBytes (s : List Nat) : Prop := ∀ b ∈ s, b < 256

instance instDecidableIsBytes (s : List Nat) : Decidable (IsBytes s) := by
  unfold IsBytes; infer_instance

/-- The checksum of a frame as the data model defines it: the unsigned sum of the type, both
bytes of the length, and every payload byte, modulo `2 ^ 16`. -/
def specChecksum (t : Nat) (p : List Nat) : Nat :=
  (t + (p.length + 2) / 256 % 256 + (p.length + 2) % 256 + p.sum) % 65536

/-- The frame of the data model: start marker `EF 01`, address, type, length (payload length
plus two), payload, checksum, every multi-byte field most-significant byte first. -/
def specFrame (a t : Nat) (p : List Nat) : List Nat :=
  [0xEF, 0x01, a / 2 ^ 24 % 256, a / 2 ^ 16 % 256, a / 2 ^ 8 % 256, a % 256, t,
   (p.length + 2) / 256 % 256, (p.length + 2) % 256] ++ p
    ++ [specChecksum t p / 256, specChecksum t p % 256]

/-- The byte string `s` with bit `j` of its byte number `k` inverted. -/
def flipBitAt : List Nat → Nat → Nat → List Nat
  | [], _, _ => []
  | b :: s, 0, j => (b ^^^ 2 ^ j) :: s
  | b :: s, k + 1, j => b :: flipBitAt s k j

/-- A session whose port will deliver the bytes `incoming` and has written nothing yet. -/
def sessionWith (address password : Nat) (incoming : List Nat) : QFingerprint :=
  { m_address := address, m_password := password, m_timeout := 500,
    m_serial := { incoming := incoming, written := [], flushes := true } }

/-- Successive calls of `readPacket` on the byte stream `s`: the first `n` packets it returns,
in order, and the bytes left unread; `none` when one of the `n` calls throws. -/
def readPackets : Nat → List Nat → Option (List (List Nat) × List Nat)
  | 0, s => some ([], s)
  | n + 1, s =>
    match readPacketLoop [] s with
    | (Except.ok pkt, s1) => (readPackets n s1).map (fun r => (pkt :: r.1, r.2))
    | (Except.error _, _) => none

/-- The status bytes listed in the status table of the specification. -/
def statusTable : List Nat :=
  [0x00, 0x01, 0x02, 0x03, 0x06, 0x07, 0x08, 0x09, 0x0A, 0x0B, 0x0C, 0x0D, 0x0E, 0x0F, 0x10,
   0x11, 0x13, 0x15, 0x18, 0x1A, 0x20]

/-- The command `run` answers the reply packet `pkt` with the exception `e`: in every session
whose port flushes the request and from which `readPacket` then returns `pkt`, the command
throws `e`, and the stored address and password are the ones it started with. -/
def ThrowsOnReply {α : Type} (run : QFingerprint → Except FpError α × QFingerprint)
    (pkt : List Nat) (e : FpError) : Prop :=
  ∀ (s : QFingerprint) (rest : List Nat), s.m_serial.flushes = true →
    readPacketLoop [] s.m_serial.incoming = (Except.ok pkt, rest) →
    (run s).1 = Except.error e ∧ (run s).2.m_address = s.m_address
      ∧ (run s).2.m_password = s.m_password

/-- As `ThrowsOnReply`, for a command that runs the query `pre` before it writes its own
request: in every session in which `pre` returns a value `v` that the command admits, whose
port then flushes the request and from which `readPacket` then returns `pkt`, the command
throws `e`, and the stored address and password are the ones it started with. -/
def ThrowsOnReplyAfter {α β : Type} (pre : QFingerprint → Except FpError β × QFingerprint)
    (admits : β → Prop) (run : QFingerprint → Except FpError α × QFingerprint)
    (pkt : List Nat) (e : FpError) : Prop :=
  ∀ (s s0 : QFingerprint) (v : β) (rest : List Nat), pre s = (Except.ok v, s0) → admits v →
    s0.m_serial.flushes = true →
    readPacketLoop [] s0.m_serial.incoming = (Except.ok pkt, rest) →
    (run s).1 = Except.error e ∧ (run s).2.m_address = s.m_address
      ∧ (run s).2.m_password = s.m_password

/-- Lines 727-748 of `storeTemplate`, the queries that precede its own request: the scan for a
free slot and the capacity query; the value is the position found and the capacity. -/
def storeTemplateQueries (signedChar : Bool) (page0 : Int) (self : QFingerprint) :
    Except FpError (Int × Nat) × QFingerprint :=
  match storeTemplateScan signedChar 6 self page0 (-1) with
  | (Except.error e, s0) => (Except.error e, s0)
  | (Except.ok positionNumber, s0) =>
    if positionNumber < 0x0000 then
      (Except.error FpError.invalidPositionNumber, s0)
    else
      match s0.getStorageCapacity signedChar with
      | (Except.error e, s1) => (Except.error e, s1)
      | (Except.ok capacity, s1) => (Except.ok (positionNumber, capacity), s1)

/-! ## Lemmas on the bit helpers -/

theorem rightShift_eq (n x : Nat) : rightShift n x = n / 2 ^ x % 256 := by
  unfold rightShift
  rw [Nat.shiftRight_eq_div_pow]
  exact Nat.and_pow_two_sub_one_eq_mod _ 8

theorem rightShift_lt (n x : Nat) : rightShift n x < 256 := by
  rw [rightShift_eq]; exact Nat.mod_lt _ (by norm_num)

theorem rightShift_zero (n : Nat) : rightShift n 0 = n % 256 := by
  simp [rightShift_eq]

theorem rightShift_startcode_hi : rightShift FINGERPRINT_STARTCODE 8 = 0xEF := by decide

theorem rightShift_startcode_lo : rightShift FINGERPRINT_STARTCODE 0 = 0x01 := by decide

theorem rightShift_byte_eight (n : Nat) (h : n < 256) : rightShift n 8 = 0 := by
  rw [rightShift_eq]
  have : n / 2 ^ 8 = 0 := Nat.div_eq_of_lt (by simpa using h)
  rw [this]

/-- Only the low byte survives the conversion of the combined length to `uint8_t`. -/
theorem leftShift_or_mod_256 (hi lo : Nat) :
    (leftShift hi 8 ||| leftShift lo 0) % 256 = lo % 256 := by
  unfold leftShift ULONG_MOD
  apply Nat.eq_of_testBit_eq
  intro i
  have e : (256 : Nat) = 2 ^ 8 := by norm_num
  rw [e]
  simp only [Nat.testBit_mod_two_pow, Nat.testBit_or, Nat.testBit_shiftLeft, Nat.shiftLeft_zero]
  by_cases h : i < 8
  · have h1 : ¬ (8 ≤ i) := by omega
    have h2 : i < 64 := by omega
    simp [h, h1, h2]
  · simp [h]

/-- Two bytes combined big-endian. -/
theorem leftShift_or_bytes (hi lo : Nat) (h1 : hi < 256) (h2 : lo < 256) :
    leftShift hi 8 ||| leftShift lo 0 = hi * 256 + lo := by
  unfold leftShift ULONG_MOD
  have a1 : (hi <<< 8) % 2 ^ 64 = 2 ^ 8 * hi := by
    rw [Nat.shiftLeft_eq, Nat.mod_eq_of_lt (by omega)]; ring
  have a2 : (lo <<< 0) % 2 ^ 64 = lo := by
    rw [Nat.shiftLeft_zero, Nat.mod_eq_of_lt (by omega)]
  rw [a1, a2, ← Nat.mul_add_lt_is_or (by simpa using h2)]
  ring

theorem lengthField_eq (s : List Nat) : lengthField s = s.getD 8 0 % 256 :=
  leftShift_or_mod_256 _ _

theorem lengthField_lt (s : List Nat) : lengthField s < 256 := by
  rw [lengthField_eq]; exact Nat.mod_lt _ (by norm_num)

/-! ## Lemmas on `writePacketData` -/

/-- The sum the checksum loop of `writePacket` accumulates over the payload. -/
theorem writeLoop_eq (signedChar : Bool) (p : List Nat) (pd : List Nat) (cs : Nat) :
    p.foldl (fun (acc : List Nat × Nat) (data : Nat) =>
        (acc.1 ++ [data], (acc.2 + charToULong signedChar data) % ULONG_MOD)) (pd, cs)
      = (pd ++ p, if p = [] then cs
                  else (cs + (p.map (charToULong signedChar)).sum) % ULONG_MOD) := by
  induction p generalizing pd cs with
  | nil => simp
  | cons b q ih =>
    rw [List.foldl_cons, ih]
    by_cases hq : q = []
    · subst hq; simp
    · simp only [hq, if_false, List.cons_ne_nil, List.map_cons, List.sum_cons,
        List.append_assoc, List.singleton_append, Prod.mk.injEq, true_and]
      rw [Nat.mod_add_mod, Nat.add_assoc]

theorem charToULong_unsigned (b : Nat) : charToULong false b = b := by
  simp [charToULong]

theorem charToULong_low (signedChar : Bool) (b : Nat) (h : b < 128) :
    charToULong signedChar b = b := by
  unfold charToULong
  have : ¬ (128 ≤ b) := by omega
  simp [this]

theorem map_charToULong_eq (signedChar : Bool) (p : List Nat)
    (h : signedChar = false ∨ ∀ b ∈ p, b < 128) : p.map (charToULong signedChar) = p := by
  have key : ∀ b ∈ p, charToULong signedChar b = id b := by
    intro b hb
    rcases h with h | h
    · subst h
      exact charToULong_unsigned b
    · exact charToULong_low signedChar b (h b hb)
  calc p.map (charToULong signedChar) = p.map id := List.map_congr_left key
    _ = p := List.map_id p

/-- The bytes `writePacket` assembles, field by field; `cs` is the `ulong` checksum. -/
theorem writePacketData_eq (signedChar : Bool) (a t : Nat) (p : List Nat) :
    writePacketData signedChar a t p
      = [0xEF, 0x01, a / 2 ^ 24 % 256, a / 2 ^ 16 % 256, a / 2 ^ 8 % 256, a % 256, t,
         0, (p.length + 2) % 256] ++ p
        ++ [((t + (p.length + 2) % 256 + (p.map (charToULong signedChar)).sum) % ULONG_MOD)
              / 256 % 256,
            ((t + (p.length + 2) % 256 + (p.map (charToULong signedChar)).sum) % ULONG_MOD)
              % 256] := by
  have hL : (p.length + 2) % 256 < 256 := Nat.mod_lt _ (by norm_num)
  unfold writePacketData
  simp only [writeLoop_eq, rightShift_startcode_hi, rightShift_startcode_lo,
    rightShift_byte_eight _ hL]
  by_cases hp : p = []
  · subst hp
    simp [rightShift_eq, ULONG_MOD]
    omega
  · simp only [hp, if_false]
    simp [rightShift_eq]

/-! ## Lemmas on `readPacket` -/

/-- The payload loop copies the slice it walks over and adds it up. -/
theorem payloadLoop_eq (buf : List Nat) (n : Nat) :
    ∀ (j : Nat) (pd : List Nat) (cs : Nat), j + n ≤ buf.length →
      cs + ((buf.drop j).take n).sum < ULONG_MOD →
      payloadLoop buf n j pd cs
        = (pd ++ (buf.drop j).take n, cs + ((buf.drop j).take n).sum) := by
  induction n with
  | zero => intro j pd cs _ _; simp [payloadLoop]
  | succ n ih =>
    intro j pd cs hj hsum
    have hlt : j < buf.length := by omega
    have hd : buf.drop j = buf.getD j 0 :: buf.drop (j + 1) := by
      rw [List.getD_eq_getElem buf 0 hlt]; exact List.drop_eq_getElem_cons hlt
    rw [hd, List.take_succ_cons, List.sum_cons] at hsum
    rw [hd, List.take_succ_cons, List.sum_cons, payloadLoop]
    have hsmall : (cs + buf.getD j 0) % ULONG_MOD = cs + buf.getD j 0 :=
      Nat.mod_eq_of_lt (by omega)
    rw [hsmall, ih (j + 1) _ _ (by omega) (by omega)]
    simp [Nat.add_assoc]

theorem headerBad_append (b r : List Nat) (h : 2 ≤ b.length) :
    headerBad (b ++ r) ↔ headerBad b := by
  unfold headerBad
  rw [List.getD_append b r 0 0 (by omega), List.getD_append b r 0 1 (by omega)]

theorem lengthField_append (b r : List Nat) (h : 9 ≤ b.length) :
    lengthField (b ++ r) = lengthField b := by
  rw [lengthField_eq, lengthField_eq, List.getD_append b r 0 8 (by omega)]

/-- The loop of `readPacket` against its closed form, from any buffer on which the loop has not
yet decided. -/
theorem readPacketLoop_closed (rest : List Nat) :
    ∀ buf : List Nat,
      (buf.length < 12 ∨ (¬ headerBad buf ∧ buf.length < lengthField buf + 9)) →
      readPacketLoop buf rest = decodeStream (buf ++ rest) := by
  induction rest with
  | nil =>
    intro buf hinv
    rw [List.append_nil, readPacketLoop]
    unfold decodeStream
    by_cases h12 : buf.length < 12
    · simp [h12]
    · rcases hinv with h | ⟨hb, hl⟩
      · exact absurd h h12
      · simp [h12, hb, hl]
  | cons c r ih =>
    intro buf hinv
    have happ : buf ++ c :: r = (buf ++ [c]) ++ r := by simp
    have hlen : (buf ++ [c]).length = buf.length + 1 := by simp
    rw [happ, readPacketLoop]
    show (if 12 ≤ (buf ++ [c]).length then
            if headerBad (buf ++ [c]) then (Except.error FpError.badHeader, r)
            else if (buf ++ [c]).length < lengthField (buf ++ [c]) + 9 then
              readPacketLoop (buf ++ [c]) r
            else (readPacketFinish (buf ++ [c]) (lengthField (buf ++ [c])), r)
          else readPacketLoop (buf ++ [c]) r) = decodeStream ((buf ++ [c]) ++ r)
    by_cases h12 : 12 ≤ (buf ++ [c]).length
    · rw [if_pos h12]
      have hge : ¬ ((buf ++ [c]) ++ r).length < 12 := by
        rw [List.length_append]; omega
      by_cases hb : headerBad (buf ++ [c])
      · rw [if_pos hb]
        have hexact : (buf ++ [c]).length = 12 := by
          rcases hinv with h | ⟨hnb, _⟩
          · omega
          · by_cases hs : buf.length < 12
            · omega
            · exact absurd ((headerBad_append buf [c] (by omega)).mp hb) hnb
        unfold decodeStream
        rw [if_neg hge, if_pos ((headerBad_append _ r (by omega)).mpr hb),
          List.drop_left' hexact]
      · rw [if_neg hb]
        have hL : lengthField ((buf ++ [c]) ++ r) = lengthField (buf ++ [c]) :=
          lengthField_append _ r (by omega)
        have hnb : ¬ headerBad ((buf ++ [c]) ++ r) :=
          fun h => hb ((headerBad_append _ r (by omega)).mp h)
        by_cases hl : (buf ++ [c]).length < lengthField (buf ++ [c]) + 9
        · rw [if_pos hl]
          exact ih (buf ++ [c]) (Or.inr ⟨hb, hl⟩)
        · rw [if_neg hl]
          have hexact : (buf ++ [c]).length = max 12 (lengthField (buf ++ [c]) + 9) := by
            rcases hinv with h | ⟨_, hlb⟩
            · have : (buf ++ [c]).length = 12 := by omega
              omega
            · by_cases hs : buf.length < 12
              · have : (buf ++ [c]).length = 12 := by omega
                omega
              · rw [lengthField_append buf [c] (by omega)] at hl ⊢
                omega
          unfold decodeStream
          have hnl : ¬ ((buf ++ [c]) ++ r).length < lengthField (buf ++ [c]) + 9 := by
            rw [List.length_append]; omega
          rw [if_neg hge, if_neg hnb, hL, if_neg hnl, List.take_left' hexact,
            List.drop_left' hexact]
    · rw [if_neg h12]
      exact ih (buf ++ [c]) (Or.inl (by omega))

/-- The loop of `readPacket`, started as the function starts it, is `decodeStream`. -/
theorem readPacketLoop_nil (s : List Nat) : readPacketLoop [] s = decodeStream s := by
  have h := readPacketLoop_closed s [] (Or.inl (by simp))
  simpa using h

theorem sum_le_of_isBytes (p : List Nat) (h : IsBytes p) : p.sum ≤ p.length * 255 := by
  induction p with
  | nil => simp
  | cons b q ih =>
    have hb : b < 256 := h b (List.mem_cons_self b q)
    have hq : IsBytes q := fun x hx => h x (List.mem_cons_of_mem b hx)
    have := ih hq
    simp only [List.sum_cons, List.length_cons]
    omega

/-- The reader on a stream that begins with nine header bytes, a payload of `1..253` bytes and
two checksum bytes.  The byte `b7` (high byte of the length field) plays no role. -/
theorem readPacketLoop_frame (a3 a2 a1 a0 t b7 c1 c2 : Nat) (p rest : List Nat)
    (ht : t < 256) (hp : IsBytes p) (hc1 : c1 < 256) (hc2 : c2 < 256)
    (hlo : 1 ≤ p.length) (hhi : p.length ≤ 253) :
    readPacketLoop []
        ([0xEF, 0x01, a3, a2, a1, a0, t, b7, p.length + 2] ++ p ++ [c1, c2] ++ rest)
      = (if c1 * 256 + c2 = t + (p.length + 2) + p.sum then Except.ok (t :: p)
         else Except.error FpError.badChecksum, rest) := by
  rw [readPacketLoop_nil]
  have hfl : ([0xEF, 0x01, a3, a2, a1, a0, t, b7, p.length + 2] ++ p ++ [c1, c2]).length
      = p.length + 11 := by simp
  have hL : lengthField ([0xEF, 0x01, a3, a2, a1, a0, t, b7, p.length + 2] ++ p ++ [c1, c2]
      ++ rest) = p.length + 2 := by
    rw [lengthField_eq]
    simp only [List.append_assoc, List.cons_append, List.nil_append, List.getD_cons_succ,
      List.getD_cons_zero]
    exact Nat.mod_eq_of_lt (by omega)
  have hnb : ¬ headerBad ([0xEF, 0x01, a3, a2, a1, a0, t, b7, p.length + 2] ++ p ++ [c1, c2]
      ++ rest) := by
    unfold headerBad
    simp [rightShift_startcode_hi, rightShift_startcode_lo]
  have hmax : max 12 (p.length + 2 + 9) = p.length + 11 := by omega
  unfold decodeStream
  rw [if_neg (by rw [List.length_append, hfl]; omega), if_neg hnb, hL,
    if_neg (by rw [List.length_append, hfl]; omega), hmax, List.take_left' hfl,
    List.drop_left' hfl]
  -- the packet is complete: lines 229-252
  unfold readPacketFinish
  have hslice : (([0xEF, 0x01, a3, a2, a1, a0, t, b7, p.length + 2] ++ p ++ [c1, c2]).drop 9).take
      (p.length + 2 + 9 - 2 - 9) = p := by
    have e : p.length + 2 + 9 - 2 - 9 = p.length := by omega
    rw [e]
    simp
  have hsum := sum_le_of_isBytes p hp
  have hloop := payloadLoop_eq ([0xEF, 0x01, a3, a2, a1, a0, t, b7, p.length + 2] ++ p ++ [c1, c2])
    (p.length + 2 + 9 - 2 - 9) 9 [t] (t + (p.length + 2)) (by rw [hfl]; omega)
    (by rw [hslice]; unfold ULONG_MOD; omega)
  rw [hslice] at hloop
  have ht6 : ([0xEF, 0x01, a3, a2, a1, a0, t, b7, p.length + 2] ++ p ++ [c1, c2]).getD 6 0 = t := by
    simp
  have hg1 : ([0xEF, 0x01, a3, a2, a1, a0, t, b7, p.length + 2] ++ p ++ [c1, c2]).getD
      (p.length + 11 - 2) 0 = c1 := by
    have e : p.length + 11 - 2 = ([0xEF, 0x01, a3, a2, a1, a0, t, b7, p.length + 2] ++ p).length + 0 := by
      simp
    rw [e, List.getD_append_right _ _ _ _ (by omega)]
    simp
  have hg2 : ([0xEF, 0x01, a3, a2, a1, a0, t, b7, p.length + 2] ++ p ++ [c1, c2]).getD
      (p.length + 11 - 1) 0 = c2 := by
    have e : p.length + 11 - 1 = ([0xEF, 0x01, a3, a2, a1, a0, t, b7, p.length + 2] ++ p).length + 1 := by
      simp
    rw [e, List.getD_append_right _ _ _ _ (by omega)]
    simp
  simp only [hfl, ht6, hloop, hg1, hg2, leftShift_or_bytes c1 c2 hc1 hc2]
  by_cases hc : c1 * 256 + c2 = t + (p.length + 2) + p.sum
  · simp [hc]
  · simp [hc]

/-! ## The frame of the data model against the code -/

theorem specChecksum_small (t : Nat) (p : List Nat) (ht : t < 256) (hp : IsBytes p)
    (hhi : p.length ≤ 253) : specChecksum t p = t + (p.length + 2) + p.sum := by
  have hsum := sum_le_of_isBytes p hp
  unfold specChecksum
  have h1 : (p.length + 2) / 256 % 256 = 0 := by omega
  have h2 : (p.length + 2) % 256 = p.length + 2 := by omega
  rw [h1, h2]
  omega

theorem specFrame_small (a t : Nat) (p : List Nat) (hhi : p.length ≤ 253) :
    specFrame a t p
      = [0xEF, 0x01, a / 2 ^ 24 % 256, a / 2 ^ 16 % 256, a / 2 ^ 8 % 256, a % 256, t,
         0, p.length + 2] ++ p ++ [specChecksum t p / 256, specChecksum t p % 256] := by
  unfold specFrame
  have h1 : (p.length + 2) / 256 % 256 = 0 := by omega
  have h2 : (p.length + 2) % 256 = p.length + 2 := by omega
  rw [h1, h2]

/-- The reader accepts every frame of the data model with a payload of `1..253` bytes, whatever
its type byte and address, and stops reading at its last byte. -/
theorem readPacketLoop_specFrame (a t : Nat) (p rest : List Nat) (ht : t < 256)
    (hp : IsBytes p) (hlo : 1 ≤ p.length) (hhi : p.length ≤ 253) :
    readPacketLoop [] (specFrame a t p ++ rest) = (Except.ok (t :: p), rest) := by
  have hc := specChecksum_small t p ht hp hhi
  have hsum := sum_le_of_isBytes p hp
  rw [specFrame_small a t p hhi,
    readPacketLoop_frame _ _ _ _ t 0 _ _ p rest ht hp (by omega) (by omega) hlo hhi]
  have hok : specChecksum t p / 256 * 256 + specChecksum t p % 256
      = t + (p.length + 2) + p.sum := by omega
  rw [if_pos hok]

/-- On payloads of at most 253 bytes that are safe from sign extension, `writePacket` emits the
frame of the data model. -/
theorem writePacketData_eq_specFrame (signedChar : Bool) (a t : Nat) (p : List Nat)
    (ht : t < 256) (hp : IsBytes p) (hhi : p.length ≤ 253)
    (hsign : signedChar = false ∨ ∀ b ∈ p, b < 128) :
    writePacketData signedChar a t p = specFrame a t p := by
  have hc := specChecksum_small t p ht hp hhi
  have hsum := sum_le_of_isBytes p hp
  rw [writePacketData_eq, map_charToULong_eq signedChar p hsign, specFrame_small a t p hhi]
  have h2 : (p.length + 2) % 256 = p.length + 2 := by omega
  rw [h2, hc]
  have h3 : (t + (p.length + 2) + p.sum) % ULONG_MOD = t + (p.length + 2) + p.sum :=
    Nat.mod_eq_of_lt (by unfold ULONG_MOD; omega)
  have h4 : (t + (p.length + 2) + p.sum) / 256 % 256 = (t + (p.length + 2) + p.sum) / 256 := by
    omega
  rw [h3, h4]

/-! ## Frame codec: round trip (C1) -/

/-- C1 (counterexample).  The round trip fails on the empty payload: `writePacket` emits an
11-byte frame and `readPacket`, which decides nothing before 12 bytes have arrived, ends with
"Read timeout!" instead of returning the type byte. -/
theorem roundTrip_empty_payload_times_out :
    writePacketData false 0xFFFFFFFF 0x01 []
        = [0xEF, 0x01, 0xFF, 0xFF, 0xFF, 0xFF, 0x01, 0x00, 0x02, 0x00, 0x03]
      ∧ readPacketLoop [] (writePacketData false 0xFFFFFFFF 0x01 [])
        = (Except.error FpError.readTimeout, [])
      ∧ readPacketLoop [] (writePacketData true 0xFFFFFFFF 0x01 [])
        = (Except.error FpError.readTimeout, []) := by
  decide

/-- C1 (amended).  For every type byte `t`, address `a` and payload `p` of 1 to 253 bytes, on a
target with unsigned `char` or with all payload bytes below `0x80`, `readPacket` applied to the
bytes `writePacket` emits returns `t` followed by `p` and leaves nothing unread. -/
theorem roundTrip_writePacket_readPacket (signedChar : Bool) (a t : Nat) (p : List Nat)
    (ht : t < 256) (hp : IsBytes p) (hlo : 1 ≤ p.length) (hhi : p.length ≤ 253)
    (hsign : signedChar = false ∨ ∀ b ∈ p, b < 128) :
    readPacketLoop [] (writePacketData signedChar a t p) = (Except.ok (t :: p), []) := by
  rw [writePacketData_eq_specFrame signedChar a t p ht hp hhi hsign]
  have h := readPacketLoop_specFrame a t p [] ht hp hlo hhi
  rwa [List.append_nil] at h

/-- Witness of C1 (amended): a command frame carrying `13 00 00 00 00`, signed `char`. -/
theorem roundTrip_writePacket_readPacket_witness :
    readPacketLoop [] (writePacketData true 0xFFFFFFFF 0x01 [0x13, 0, 0, 0, 0])
      = (Except.ok [0x01, 0x13, 0, 0, 0, 0], []) :=
  roundTrip_writePacket_readPacket true 0xFFFFFFFF 0x01 [0x13, 0, 0, 0, 0]
    (by decide) (by decide) (by decide) (by decide) (Or.inr (by decide))

/-! ## Frame layout and checksum written by `writePacket` (C2, C3) -/

set_option maxRecDepth 100000 in
/-- C2 (evaluation at the failing input).  For a payload of 254 bytes the length is 256
(`01 00`), but `writePacket` keeps it in a `uint8_t` and writes the length field `00 00`. -/
theorem writePacket_length_field_truncated :
    (writePacketData false 0xFFFFFFFF 0x02 (List.replicate 254 0)).take 9
        = [0xEF, 0x01, 0xFF, 0xFF, 0xFF, 0xFF, 0x02, 0x00, 0x00]
      ∧ (writePacketData true 0xFFFFFFFF 0x02 (List.replicate 254 0)).take 9
        = [0xEF, 0x01, 0xFF, 0xFF, 0xFF, 0xFF, 0x02, 0x00, 0x00]
      ∧ ((List.replicate 254 0).length + 2) / 256 % 256 = 0x01 := by
  decide

set_option maxRecDepth 100000 in
/-- C3 (evaluation at the failing inputs).  With a signed `char` the payload byte `0x80` enters
the checksum as `-128`: the checksum written is `FF 84`, the unsigned sum is `00 84`.  On every
target a payload of 254 zero bytes gets the checksum `00 01`, computed from the truncated length
byte, where the sum over both bytes of the length 256 is `00 02`. -/
theorem writePacket_checksum_sign_extended :
    writePacketData true 0xFFFFFFFF 0x01 [0x80]
        = [0xEF, 0x01, 0xFF, 0xFF, 0xFF, 0xFF, 0x01, 0x00, 0x03, 0x80, 0xFF, 0x84]
      ∧ specChecksum 0x01 [0x80] = 0x0084
      ∧ (writePacketData false 0xFFFFFFFF 0x01 (List.replicate 254 0)).drop 263 = [0x00, 0x01]
      ∧ (writePacketData true 0xFFFFFFFF 0x01 (List.replicate 254 0)).drop 263 = [0x00, 0x01]
      ∧ specChecksum 0x01 (List.replicate 254 0) = 0x0002 := by
  decide

/-! ## Checksum validation in `readPacket` (C4) -/

/-- C4 (counterexample).  A stream that starts with `EF 01`, has the length field `L = 2` and
carries the right checksum `00 09` in the last two of its `9 + L = 11` bytes is not returned:
`readPacket` waits for a twelfth byte and ends with "Read timeout!". -/
theorem readPacket_eleven_byte_frame_times_out :
    readPacketLoop [] [0xEF, 0x01, 0xFF, 0xFF, 0xFF, 0xFF, 0x07, 0x00, 0x02, 0x00, 0x09]
        = (Except.error FpError.readTimeout, [])
      ∧ (0x07 + 0x00 + 0x02) % 65536 = 0x00 * 256 + 0x09 := by
  decide

/-- C4 (amended).  For every byte stream that starts with `EF 01`, whose length field is
`00 L` with `3 ≤ L ≤ 255` and that holds the `9 + L` frame bytes, `readPacket` returns the type
byte followed by the `L - 2` payload bytes when the last two frame bytes `c1 c2` equal
(type + high byte of `L` + low byte of `L` + sum of the payload bytes) modulo `2 ^ 16`, and
fails with the checksum error otherwise; either way it has read exactly the `9 + L` bytes. -/
theorem readPacket_checksum_validation (a3 a2 a1 a0 t c1 c2 : Nat) (p rest : List Nat)
    (ht : t < 256) (hp : IsBytes p) (hc1 : c1 < 256) (hc2 : c2 < 256)
    (hlo : 1 ≤ p.length) (hhi : p.length ≤ 253) :
    readPacketLoop []
        ([0xEF, 0x01, a3, a2, a1, a0, t, 0x00, p.length + 2] ++ p ++ [c1, c2] ++ rest)
      = (if c1 * 256 + c2
              = (t + (p.length + 2) / 256 % 256 + (p.length + 2) % 256 + p.sum) % 65536
         then Except.ok (t :: p) else Except.error FpError.badChecksum, rest) := by
  have hsum := sum_le_of_isBytes p hp
  have h1 : (p.length + 2) / 256 % 256 = 0 := by omega
  have h2 : (p.length + 2) % 256 = p.length + 2 := by omega
  have h3 : (t + 0 + (p.length + 2) + p.sum) % 65536 = t + (p.length + 2) + p.sum := by omega
  rw [h1, h2, h3]
  exact readPacketLoop_frame a3 a2 a1 a0 t 0 c1 c2 p rest ht hp hc1 hc2 hlo hhi

/-- Witness of C4 (amended): the reply `EF 01 FF FF FF FF 07 00 03 00 00 0B` fails with the
checksum error. -/
theorem readPacket_checksum_validation_witness :
    readPacketLoop [] [0xEF, 0x01, 0xFF, 0xFF, 0xFF, 0xFF, 0x07, 0x00, 0x03, 0x00, 0x00, 0x0B]
      = (Except.error FpError.badChecksum, []) :=
  readPacket_checksum_validation 0xFF 0xFF 0xFF 0xFF 0x07 0x00 0x0B [0x00] []
    (by decide) (by decide) (by decide) (by decide) (by decide) (by decide)

/-! ## Single bit flips (C5) -/

theorem xor_two_pow_ne (b j : Nat) : b ^^^ 2 ^ j ≠ b := by
  intro h
  have hc := Nat.xor_cancel_left b (2 ^ j)
  rw [h, Nat.xor_self] at hc
  have hpos : 0 < 2 ^ j := Nat.pow_pos (by norm_num)
  omega

theorem xor_two_pow_lt (b j : Nat) (hb : b < 256) (hj : j < 8) : b ^^^ 2 ^ j < 256 := by
  have h2 : 2 ^ j < 2 ^ 8 := Nat.pow_lt_pow_right (by norm_num) hj
  exact Nat.xor_lt_two_pow (n := 8) (by simpa using hb) h2

theorem flipBitAt_length (s : List Nat) (j : Nat) :
    ∀ k, (flipBitAt s k j).length = s.length := by
  induction s with
  | nil => intro k; simp [flipBitAt]
  | cons b q ih =>
    intro k
    cases k with
    | zero => simp [flipBitAt]
    | succ k => simp [flipBitAt, ih k]

theorem flipBitAt_append_left (l1 l2 : List Nat) (j : Nat) :
    ∀ k, k < l1.length → flipBitAt (l1 ++ l2) k j = flipBitAt l1 k j ++ l2 := by
  induction l1 with
  | nil => intro k hk; simp at hk
  | cons b q ih =>
    intro k hk
    cases k with
    | zero => simp [flipBitAt]
    | succ k =>
      have hk2 : k < q.length := by simpa using hk
      simp [flipBitAt, ih k hk2]

theorem flipBitAt_append_right (l1 l2 : List Nat) (j : Nat) :
    ∀ k, l1.length ≤ k → flipBitAt (l1 ++ l2) k j = l1 ++ flipBitAt l2 (k - l1.length) j := by
  induction l1 with
  | nil => intro k _; simp
  | cons b q ih =>
    intro k hk
    cases k with
    | zero => simp at hk
    | succ k =>
      have hk2 : q.length ≤ k := by simpa using hk
      simp [flipBitAt, ih k hk2]

theorem flipBitAt_isBytes (s : List Nat) (j : Nat) (hj : j < 8) :
    ∀ k, IsBytes s → IsBytes (flipBitAt s k j) := by
  induction s with
  | nil => intro k h; simpa [flipBitAt] using h
  | cons b q ih =>
    intro k h
    have hb : b < 256 := h b (List.mem_cons_self b q)
    have hq : IsBytes q := fun x hx => h x (List.mem_cons_of_mem b hx)
    cases k with
    | zero =>
      intro x hx
      rcases List.mem_cons.mp hx with rfl | hx
      · exact xor_two_pow_lt b j hb hj
      · exact hq x hx
    | succ k =>
      intro x hx
      rcases List.mem_cons.mp hx with rfl | hx
      · exact hb
      · exact ih k hq x hx

theorem flipBitAt_sum_ne (s : List Nat) (j : Nat) :
    ∀ k, k < s.length → (flipBitAt s k j).sum ≠ s.sum := by
  induction s with
  | nil => intro k hk; simp at hk
  | cons b q ih =>
    intro k hk
    cases k with
    | zero =>
      have := xor_two_pow_ne b j
      simp only [flipBitAt, List.sum_cons]
      omega
    | succ k =>
      have hk2 : k < q.length := by simpa using hk
      have := ih k hk2
      simp only [flipBitAt, List.sum_cons]
      omega

/-- C5 (counterexample).  Bit 0 of the first address byte of the well-formed reply
`EF 01 FF FF FF FF 07 00 03 00 00 0A` is flipped: `readPacket` returns the packet. -/
theorem readPacket_address_bit_flip_undetected :
    flipBitAt [0xEF, 0x01, 0xFF, 0xFF, 0xFF, 0xFF, 0x07, 0x00, 0x03, 0x00, 0x00, 0x0A] 2 0
        = [0xEF, 0x01, 0xFE, 0xFF, 0xFF, 0xFF, 0x07, 0x00, 0x03, 0x00, 0x00, 0x0A]
      ∧ specFrame 0xFFFFFFFF 0x07 [0x00]
        = [0xEF, 0x01, 0xFF, 0xFF, 0xFF, 0xFF, 0x07, 0x00, 0x03, 0x00, 0x00, 0x0A]
      ∧ readPacketLoop [] (flipBitAt (specFrame 0xFFFFFFFF 0x07 [0x00]) 2 0)
        = (Except.ok [0x07, 0x00], []) := by
  decide

/-- C5 (amended).  For every well-formed frame with a payload of 1 to 253 bytes and every bit
`j` of its byte `k`: flipped inside the start marker (`k < 2`) the frame fails with the header
error, flipped inside the type byte (`k = 6`), the payload or the checksum (`9 ≤ k`) it fails
with the checksum error, and flipped inside the address (`2 ≤ k ≤ 5`) it is not detected:
`readPacket` returns the packet of the original frame. -/
theorem readPacket_bit_flip (a t : Nat) (p rest : List Nat) (k j : Nat)
    (ht : t < 256) (hp : IsBytes p) (hlo : 1 ≤ p.length) (hhi : p.length ≤ 253)
    (hj : j < 8) (hk : k < p.length + 11) :
    (k < 2 → (readPacketLoop [] (flipBitAt (specFrame a t p) k j ++ rest)).1
        = Except.error FpError.badHeader)
    ∧ (k = 6 ∨ 9 ≤ k → (readPacketLoop [] (flipBitAt (specFrame a t p) k j ++ rest)).1
        = Except.error FpError.badChecksum)
    ∧ (2 ≤ k ∧ k ≤ 5 → readPacketLoop [] (flipBitAt (specFrame a t p) k j ++ rest)
        = (Except.ok (t :: p), rest)) := by
  have hc := specChecksum_small t p ht hp hhi
  have hsum := sum_le_of_isBytes p hp
  have hc1 : specChecksum t p / 256 < 256 := by omega
  have hc2 : specChecksum t p % 256 < 256 := by omega
  have hok : specChecksum t p / 256 * 256 + specChecksum t p % 256
      = t + (p.length + 2) + p.sum := by omega
  rw [specFrame_small a t p hhi]
  refine ⟨?_, ?_, ?_⟩
  · -- start marker
    intro hk2
    rw [readPacketLoop_nil]
    have hlen : ¬ (flipBitAt ([0xEF, 0x01, a / 2 ^ 24 % 256, a / 2 ^ 16 % 256, a / 2 ^ 8 % 256,
        a % 256, t, 0, p.length + 2] ++ p ++ [specChecksum t p / 256, specChecksum t p % 256])
        k j ++ rest).length < 12 := by
      rw [List.length_append, flipBitAt_length]
      simp
      omega
    have hbad : headerBad (flipBitAt ([0xEF, 0x01, a / 2 ^ 24 % 256, a / 2 ^ 16 % 256,
        a / 2 ^ 8 % 256, a % 256, t, 0, p.length + 2] ++ p
        ++ [specChecksum t p / 256, specChecksum t p % 256]) k j ++ rest) := by
      unfold headerBad
      rw [rightShift_startcode_hi, rightShift_startcode_lo]
      have hk01 : k = 0 ∨ k = 1 := by omega
      rcases hk01 with rfl | rfl
      · left
        have := xor_two_pow_ne 0xEF j
        simpa [flipBitAt] using this
      · right
        have := xor_two_pow_ne 0x01 j
        simpa [flipBitAt] using this
    unfold decodeStream
    rw [if_neg hlen, if_pos hbad]
  · -- type, payload, checksum
    intro hk2
    rcases hk2 with rfl | hk9
    · have ht2 : t ^^^ 2 ^ j < 256 := xor_two_pow_lt t j ht hj
      have hne := xor_two_pow_ne t j
      have hfl : flipBitAt ([0xEF, 0x01, a / 2 ^ 24 % 256, a / 2 ^ 16 % 256, a / 2 ^ 8 % 256,
          a % 256, t, 0, p.length + 2] ++ p ++ [specChecksum t p / 256, specChecksum t p % 256])
          6 j = [0xEF, 0x01, a / 2 ^ 24 % 256, a / 2 ^ 16 % 256, a / 2 ^ 8 % 256,
          a % 256, t ^^^ 2 ^ j, 0, p.length + 2] ++ p
          ++ [specChecksum t p / 256, specChecksum t p % 256] := rfl
      rw [hfl, readPacketLoop_frame _ _ _ _ _ 0 _ _ p rest ht2 hp hc1 hc2 hlo hhi,
        if_neg (by omega)]
    · have hassoc : [0xEF, 0x01, a / 2 ^ 24 % 256, a / 2 ^ 16 % 256, a / 2 ^ 8 % 256,
          a % 256, t, 0, p.length + 2] ++ p ++ [specChecksum t p / 256, specChecksum t p % 256]
          = [0xEF, 0x01, a / 2 ^ 24 % 256, a / 2 ^ 16 % 256, a / 2 ^ 8 % 256,
          a % 256, t, 0, p.length + 2]
            ++ (p ++ [specChecksum t p / 256, specChecksum t p % 256]) := by simp
      rw [hassoc, flipBitAt_append_right _ _ j k (by simpa using hk9)]
      have h9 : [0xEF, 0x01, a / 2 ^ 24 % 256, a / 2 ^ 16 % 256, a / 2 ^ 8 % 256,
          a % 256, t, 0, p.length + 2].length = 9 := rfl
      rw [h9]
      by_cases hm : k - 9 < p.length
      · -- a payload bit
        rw [flipBitAt_append_left _ _ j (k - 9) hm, ← List.append_assoc]
        have hlen2 := flipBitAt_length p j (k - 9)
        have hp2 := flipBitAt_isBytes p j hj (k - 9) hp
        have hne := flipBitAt_sum_ne p j (k - 9) hm
        rw [← hlen2, readPacketLoop_frame _ _ _ _ t 0 _ _ (flipBitAt p (k - 9) j) rest ht hp2
          hc1 hc2 (by omega) (by omega), if_neg (by omega)]
      · -- a checksum bit
        rw [flipBitAt_append_right _ _ j (k - 9) (by omega), ← List.append_assoc]
        have hcase : k - 9 - p.length = 0 ∨ k - 9 - p.length = 1 := by omega
        rcases hcase with h0 | h1
        · rw [h0]
          have hx := xor_two_pow_lt _ j hc1 hj
          have hne := xor_two_pow_ne (specChecksum t p / 256) j
          have hfl : flipBitAt [specChecksum t p / 256, specChecksum t p % 256] 0 j
              = [specChecksum t p / 256 ^^^ 2 ^ j, specChecksum t p % 256] := rfl
          rw [hfl, readPacketLoop_frame _ _ _ _ t 0 _ _ p rest ht hp hx hc2 hlo hhi,
            if_neg (by omega)]
        · rw [h1]
          have hx := xor_two_pow_lt _ j hc2 hj
          have hne := xor_two_pow_ne (specChecksum t p % 256) j
          have hfl : flipBitAt [specChecksum t p / 256, specChecksum t p % 256] 1 j
              = [specChecksum t p / 256, specChecksum t p % 256 ^^^ 2 ^ j] := rfl
          rw [hfl, readPacketLoop_frame _ _ _ _ t 0 _ _ p rest ht hp hc1 hx hlo hhi,
            if_neg (by omega)]
  · -- address
    intro hk2
    have hcases : k = 2 ∨ k = 3 ∨ k = 4 ∨ k = 5 := by omega
    rcases hcases with rfl | rfl | rfl | rfl
    · have hfl : flipBitAt ([0xEF, 0x01, a / 2 ^ 24 % 256, a / 2 ^ 16 % 256, a / 2 ^ 8 % 256,
          a % 256, t, 0, p.length + 2] ++ p ++ [specChecksum t p / 256, specChecksum t p % 256])
          2 j = [0xEF, 0x01, a / 2 ^ 24 % 256 ^^^ 2 ^ j, a / 2 ^ 16 % 256, a / 2 ^ 8 % 256,
          a % 256, t, 0, p.length + 2] ++ p
          ++ [specChecksum t p / 256, specChecksum t p % 256] := rfl
      rw [hfl, readPacketLoop_frame _ _ _ _ t 0 _ _ p rest ht hp hc1 hc2 hlo hhi, if_pos hok]
    · have hfl : flipBitAt ([0xEF, 0x01, a / 2 ^ 24 % 256, a / 2 ^ 16 % 256, a / 2 ^ 8 % 256,
          a % 256, t, 0, p.length + 2] ++ p ++ [specChecksum t p / 256, specChecksum t p % 256])
          3 j = [0xEF, 0x01, a / 2 ^ 24 % 256, a / 2 ^ 16 % 256 ^^^ 2 ^ j, a / 2 ^ 8 % 256,
          a % 256, t, 0, p.length + 2] ++ p
          ++ [specChecksum t p / 256, specChecksum t p % 256] := rfl
      rw [hfl, readPacketLoop_frame _ _ _ _ t 0 _ _ p rest ht hp hc1 hc2 hlo hhi, if_pos hok]
    · have hfl : flipBitAt ([0xEF, 0x01, a / 2 ^ 24 % 256, a / 2 ^ 16 % 256, a / 2 ^ 8 % 256,
          a % 256, t, 0, p.length + 2] ++ p ++ [specChecksum t p / 256, specChecksum t p % 256])
          4 j = [0xEF, 0x01, a / 2 ^ 24 % 256, a / 2 ^ 16 % 256, a / 2 ^ 8 % 256 ^^^ 2 ^ j,
          a % 256, t, 0, p.length + 2] ++ p
          ++ [specChecksum t p / 256, specChecksum t p % 256] := rfl
      rw [hfl, readPacketLoop_frame _ _ _ _ t 0 _ _ p rest ht hp hc1 hc2 hlo hhi, if_pos hok]
    · have hfl : flipBitAt ([0xEF, 0x01, a / 2 ^ 24 % 256, a / 2 ^ 16 % 256, a / 2 ^ 8 % 256,
          a % 256, t, 0, p.length + 2] ++ p ++ [specChecksum t p / 256, specChecksum t p % 256])
          5 j = [0xEF, 0x01, a / 2 ^ 24 % 256, a / 2 ^ 16 % 256, a / 2 ^ 8 % 256,
          a % 256 ^^^ 2 ^ j, t, 0, p.length + 2] ++ p
          ++ [specChecksum t p / 256, specChecksum t p % 256] := rfl
      rw [hfl, readPacketLoop_frame _ _ _ _ t 0 _ _ p rest ht hp hc1 hc2 hlo hhi, if_pos hok]

/-- Witness of C5 (amended): bit 0 of the payload byte of `EF 01 FF FF FF FF 07 00 03 00 00 0A`
is flipped and the frame fails with the checksum error. -/
theorem readPacket_bit_flip_witness :
    (readPacketLoop [] (flipBitAt (specFrame 0xFFFFFFFF 0x07 [0x00]) 9 0 ++ [])).1
      = Except.error FpError.badChecksum :=
  (readPacket_bit_flip 0xFFFFFFFF 0x07 [0x00] [] 9 0 (by decide) (by decide) (by decide)
    (by decide) (by decide) (by decide)).2.1 (Or.inr (by decide))

/-- A flip inside the length field is outside C5 (amended): here bit 2 of the low length byte
of a well-formed frame with five payload bytes is flipped (`07` becomes `03`), and `readPacket`
returns a shorter packet instead of failing. -/
theorem readPacket_length_bit_flip_example :
    flipBitAt (specFrame 0xFFFFFFFF 0x07 [0x00, 0x00, 0x0A, 0x00, 0x00]) 8 2
        = [0xEF, 0x01, 0xFF, 0xFF, 0xFF, 0xFF, 0x07, 0x00, 0x03, 0x00, 0x00, 0x0A, 0x00, 0x00,
           0x00, 0x18]
      ∧ readPacketLoop [] (flipBitAt (specFrame 0xFFFFFFFF 0x07 [0x00, 0x00, 0x0A, 0x00, 0x00]) 8 2)
        = (Except.ok [0x07, 0x00], [0x00, 0x00, 0x00, 0x18]) := by
  decide

/-! ## Frame boundary (C6) -/

theorem specFrame_length (a t : Nat) (p : List Nat) : (specFrame a t p).length = p.length + 11 := by
  simp [specFrame]

/-- `readPacket` on a session whose port delivers a well-formed frame and then `rest`. -/
theorem readPacket_specFrame (s : QFingerprint) (a t : Nat) (p rest : List Nat) (ht : t < 256)
    (hp : IsBytes p) (hlo : 1 ≤ p.length) (hhi : p.length ≤ 253)
    (hin : s.m_serial.incoming = specFrame a t p ++ rest) :
    s.readPacket
      = (Except.ok (t :: p), { s with m_serial := { s.m_serial with incoming := rest } }) := by
  unfold QFingerprint.readPacket
  rw [hin, readPacketLoop_specFrame a t p rest ht hp hlo hhi]

/-- C6 (counterexample).  The well-formed frame `EF 01 FF FF FF FF 07 00 02 00 09` (length field
`L = 2`, 11 bytes) is followed by a second well-formed frame: `readPacket` consumes 12 bytes,
one more than `9 + L`, and fails with the checksum error instead of returning the first. -/
theorem readPacket_overreads_empty_frame :
    specFrame 0xFFFFFFFF 0x07 []
        = [0xEF, 0x01, 0xFF, 0xFF, 0xFF, 0xFF, 0x07, 0x00, 0x02, 0x00, 0x09]
      ∧ readPacketLoop [] (specFrame 0xFFFFFFFF 0x07 [] ++ specFrame 0xFFFFFFFF 0x07 [0x00])
        = (Except.error FpError.badChecksum,
           [0x01, 0xFF, 0xFF, 0xFF, 0xFF, 0x07, 0x00, 0x03, 0x00, 0x00, 0x0A])
      ∧ (specFrame 0xFFFFFFFF 0x07 [] ++ specFrame 0xFFFFFFFF 0x07 [0x00]).drop 12
        = [0x01, 0xFF, 0xFF, 0xFF, 0xFF, 0x07, 0x00, 0x03, 0x00, 0x00, 0x0A] := by
  decide

/-- C6 (amended).  For every well-formed frame whose length field is `00 L` with
`3 ≤ L ≤ 255`, `readPacket` consumes exactly the `9 + L` bytes of the frame, so that for two such
frames sent back to back two successive `readPacket` calls return the first and then the
second, and leave unread exactly what follows the second. -/
theorem readPacket_back_to_back (s : QFingerprint) (a1 t1 a2 t2 : Nat) (p1 p2 rest : List Nat)
    (ht1 : t1 < 256) (hp1 : IsBytes p1) (hlo1 : 1 ≤ p1.length) (hhi1 : p1.length ≤ 253)
    (ht2 : t2 < 256) (hp2 : IsBytes p2) (hlo2 : 1 ≤ p2.length) (hhi2 : p2.length ≤ 253)
    (hin : s.m_serial.incoming = specFrame a1 t1 p1 ++ specFrame a2 t2 p2 ++ rest) :
    s.readPacket.1 = Except.ok (t1 :: p1)
      ∧ s.readPacket.2.m_serial.incoming = s.m_serial.incoming.drop (9 + (p1.length + 2))
      ∧ s.readPacket.2.m_serial.incoming = specFrame a2 t2 p2 ++ rest
      ∧ s.readPacket.2.readPacket.1 = Except.ok (t2 :: p2)
      ∧ s.readPacket.2.readPacket.2.m_serial.incoming = rest := by
  have hin1 : s.m_serial.incoming = specFrame a1 t1 p1 ++ (specFrame a2 t2 p2 ++ rest) := by
    rw [hin, List.append_assoc]
  have h1 := readPacket_specFrame s a1 t1 p1 (specFrame a2 t2 p2 ++ rest) ht1 hp1 hlo1 hhi1 hin1
  have h2 := readPacket_specFrame
    { s with m_serial := { s.m_serial with incoming := specFrame a2 t2 p2 ++ rest } }
    a2 t2 p2 rest ht2 hp2 hlo2 hhi2 rfl
  have hdrop : s.m_serial.incoming.drop (9 + (p1.length + 2)) = specFrame a2 t2 p2 ++ rest := by
    rw [hin1]
    exact List.drop_left' (by rw [specFrame_length]; omega)
  rw [h1]
  simp only [h2, hdrop]
  exact ⟨trivial, trivial, trivial, trivial, trivial⟩

/-- Witness of C6 (amended): two acknowledge frames with status bytes `00` and `13`. -/
theorem readPacket_back_to_back_witness :
    (sessionWith 0xFFFFFFFF 0
        (specFrame 0xFFFFFFFF 0x07 [0x00] ++ specFrame 0xFFFFFFFF 0x07 [0x13] ++ [])).readPacket.1
      = Except.ok [0x07, 0x00]
    ∧ (sessionWith 0xFFFFFFFF 0
        (specFrame 0xFFFFFFFF 0x07 [0x00] ++ specFrame 0xFFFFFFFF 0x07 [0x13] ++ [])).readPacket.2.readPacket.1
      = Except.ok [0x07, 0x13] :=
  have h := readPacket_back_to_back
    (sessionWith 0xFFFFFFFF 0
      (specFrame 0xFFFFFFFF 0x07 [0x00] ++ specFrame 0xFFFFFFFF 0x07 [0x13] ++ []))
    0xFFFFFFFF 0x07 0xFFFFFFFF 0x07 [0x00] [0x13] []
    (by decide) (by decide) (by decide) (by decide)
    (by decide) (by decide) (by decide) (by decide) rfl
  ⟨h.1, h.2.2.2.1⟩

/-! ## Header validation (C7) -/

/-- C7 (counterexample).  Streams of 9, 10 and 11 bytes whose first two bytes are not `EF 01`
fail with "Read timeout!", not with the header error. -/
theorem readPacket_short_bad_header_times_out :
    readPacketLoop [] [0x00, 0x00, 0xFF, 0xFF, 0xFF, 0xFF, 0x07, 0x00, 0x03]
        = (Except.error FpError.readTimeout, [])
      ∧ readPacketLoop [] [0x00, 0x00, 0xFF, 0xFF, 0xFF, 0xFF, 0x07, 0x00, 0x03, 0x00]
        = (Except.error FpError.readTimeout, [])
      ∧ readPacketLoop [] [0x00, 0x00, 0xFF, 0xFF, 0xFF, 0xFF, 0x07, 0x00, 0x03, 0x00, 0x00]
        = (Except.error FpError.readTimeout, []) := by
  decide

/-- C7 (amended).  For every input stream of at least 12 bytes whose first two bytes are not
`EF 01`, `readPacket` fails with the bad-header error, after reading exactly 12 bytes; a stream
of fewer than 12 bytes (so one of 9, 10 or 11 bytes) fails with the read timeout. -/
theorem readPacket_header_validation (s : List Nat)
    (hbad : s.getD 0 0 ≠ 0xEF ∨ s.getD 1 0 ≠ 0x01) :
    (12 ≤ s.length → readPacketLoop [] s = (Except.error FpError.badHeader, s.drop 12))
      ∧ (s.length < 12 → readPacketLoop [] s = (Except.error FpError.readTimeout, [])) := by
  have hb : headerBad s := by
    unfold headerBad
    rw [rightShift_startcode_hi, rightShift_startcode_lo]
    exact hbad
  rw [readPacketLoop_nil]
  unfold decodeStream
  constructor
  · intro h12
    rw [if_neg (by omega), if_pos hb]
  · intro h12
    rw [if_pos h12]

/-- Witness of C7 (amended): twelve bytes that begin with `EF 02`. -/
theorem readPacket_header_validation_witness :
    readPacketLoop [] [0xEF, 0x02, 0xFF, 0xFF, 0xFF, 0xFF, 0x07, 0x00, 0x03, 0x00, 0x00, 0x0A]
      = (Except.error FpError.badHeader, []) :=
  (readPacket_header_validation
    [0xEF, 0x02, 0xFF, 0xFF, 0xFF, 0xFF, 0x07, 0x00, 0x03, 0x00, 0x00, 0x0A]
    (Or.inr (by decide))).1 (by decide)

/-! ## `verifyPassword` -/

/-- The request payload of `verifyPassword` (lines 258-263). -/
theorem verifyPassword_written (signedChar : Bool) (s : QFingerprint) :
    (s.verifyPassword signedChar).2.m_serial.written
      = s.m_serial.written ++ writePacketData signedChar s.m_address FINGERPRINT_COMMANDPACKET
          [FINGERPRINT_VERIFYPASSWORD, rightShift s.m_password 24, rightShift s.m_password 16,
           rightShift s.m_password 8, rightShift s.m_password 0] := by
  unfold QFingerprint.verifyPassword QFingerprint.writePacket QFingerprint.readPacket
  by_cases hf : s.m_serial.flushes = true
  · rcases hr : readPacketLoop [] s.m_serial.incoming with ⟨r, rest⟩
    cases r with
    | error e => simp only [hf, if_true, hr]
    | ok pkt =>
      simp only [hf, if_true, hr]
      split_ifs <;> rfl
  · simp only [hf]
    rfl

/-- The result of `verifyPassword` once the request is flushed and `readPacket` has returned
the packet `pkt`. -/
theorem verifyPassword_result (signedChar : Bool) (s : QFingerprint) (pkt rest : List Nat)
    (hf : s.m_serial.flushes = true)
    (hr : readPacketLoop [] s.m_serial.incoming = (Except.ok pkt, rest)) :
    (s.verifyPassword signedChar).1
      = if pkt.getD 0 0 ≠ FINGERPRINT_ACKPACKET then Except.error FpError.notAck
        else if (pkt.drop 1).getD 0 0 = FINGERPRINT_OK then Except.ok true
        else if (pkt.drop 1).getD 0 0 = FINGERPRINT_ERROR_COMMUNICATION then
          Except.error FpError.communication
        else if (pkt.drop 1).getD 0 0 = FINGERPRINT_ADDRCODE then
          Except.error FpError.wrongAddress
        else if (pkt.drop 1).getD 0 0 = FINGERPRINT_ERROR_WRONGPASSWORD then Except.ok false
        else Except.error (FpError.unknownError ((pkt.drop 1).getD 0 0)) := by
  unfold QFingerprint.verifyPassword QFingerprint.writePacket QFingerprint.readPacket
  simp only [hf, if_true, hr]
  split_ifs <;> rfl

/-! ## Type validation (C8) -/

/-- C8 (counterexample).  A frame with a valid start marker, a valid checksum and the type byte
`0x03`, which is none of CMD, DATA, ACK, END_DATA: `readPacket` returns the packet. -/
theorem readPacket_accepts_unknown_type :
    readPacketLoop [] [0xEF, 0x01, 0xFF, 0xFF, 0xFF, 0xFF, 0x03, 0x00, 0x03, 0x00, 0x00, 0x06]
        = (Except.ok [0x03, 0x00], [])
      ∧ specFrame 0xFFFFFFFF 0x03 [0x00]
        = [0xEF, 0x01, 0xFF, 0xFF, 0xFF, 0xFF, 0x03, 0x00, 0x03, 0x00, 0x00, 0x06] := by
  decide

/-- C8 (amended).  `readPacket` does not validate the type byte: for every frame with a valid
start marker and a valid checksum (payload of 1 to 253 bytes) whose type byte is not one of
`0x01`, `0x02`, `0x07`, `0x08`, `readPacket` returns the packet, type byte first; the type is
checked by the caller, and `verifyPassword` fails on such a reply with the no-ack error. -/
theorem readPacket_no_type_validation (signedChar : Bool) (s : QFingerprint) (a t : Nat)
    (p rest : List Nat) (ht : t < 256) (hp : IsBytes p) (hlo : 1 ≤ p.length)
    (hhi : p.length ≤ 253)
    (htype : t ≠ FINGERPRINT_COMMANDPACKET ∧ t ≠ FINGERPRINT_DATAPACKET
      ∧ t ≠ FINGERPRINT_ACKPACKET ∧ t ≠ FINGERPRINT_ENDDATAPACKET)
    (hf : s.m_serial.flushes = true)
    (hin : s.m_serial.incoming = specFrame a t p ++ rest) :
    s.readPacket.1 = Except.ok (t :: p)
      ∧ (s.verifyPassword signedChar).1 = Except.error FpError.notAck := by
  constructor
  · rw [readPacket_specFrame s a t p rest ht hp hlo hhi hin]
  · have hr : readPacketLoop [] s.m_serial.incoming = (Except.ok (t :: p), rest) := by
      rw [hin]; exact readPacketLoop_specFrame a t p rest ht hp hlo hhi
    rw [verifyPassword_result signedChar s (t :: p) rest hf hr]
    have h7 : (t :: p).getD 0 0 ≠ FINGERPRINT_ACKPACKET := by simpa using htype.2.2.1
    rw [if_pos h7]

/-- Witness of C8 (amended): the frame `EF 01 FF FF FF FF 03 00 03 00 00 06` of type `0x03`. -/
theorem readPacket_no_type_validation_witness :
    (sessionWith 0xFFFFFFFF 0 (specFrame 0xFFFFFFFF 0x03 [0x00] ++ [])).readPacket.1
        = Except.ok [0x03, 0x00]
      ∧ ((sessionWith 0xFFFFFFFF 0 (specFrame 0xFFFFFFFF 0x03 [0x00] ++ [])).verifyPassword
          true).1 = Except.error FpError.notAck :=
  readPacket_no_type_validation true
    (sessionWith 0xFFFFFFFF 0 (specFrame 0xFFFFFFFF 0x03 [0x00] ++ [])) 0xFFFFFFFF 0x03 [0x00] []
    (by decide) (by decide) (by decide) (by decide) (by decide) rfl rfl

/-! ## `verifyPassword`: request and result (C9, C10) -/

/-- C9.  For every session (address `a`, password `pw`, whatever the port has written and will
deliver), `verifyPassword` appends to the bytes written exactly one frame: `EF 01`, the four
bytes of `a`, the type `01` (CMD), the length `00 07`, the payload `13` followed by the four
bytes of `pw` most-significant first, and the two checksum bytes of `writePacket`; with an
unsigned `char` this is the well-formed frame of the data model. -/
theorem verifyPassword_request (signedChar : Bool) (s : QFingerprint) :
    (s.verifyPassword signedChar).2.m_serial.written
        = s.m_serial.written
          ++ [0xEF, 0x01, s.m_address / 2 ^ 24 % 256, s.m_address / 2 ^ 16 % 256,
              s.m_address / 2 ^ 8 % 256, s.m_address % 256, 0x01, 0x00, 0x07,
              0x13, s.m_password / 2 ^ 24 % 256, s.m_password / 2 ^ 16 % 256,
              s.m_password / 2 ^ 8 % 256, s.m_password % 256,
              (0x01 + 0x07 + ([0x13, s.m_password / 2 ^ 24 % 256, s.m_password / 2 ^ 16 % 256,
                  s.m_password / 2 ^ 8 % 256, s.m_password % 256].map
                    (charToULong signedChar)).sum) % ULONG_MOD / 256 % 256,
              (0x01 + 0x07 + ([0x13, s.m_password / 2 ^ 24 % 256, s.m_password / 2 ^ 16 % 256,
                  s.m_password / 2 ^ 8 % 256, s.m_password % 256].map
                    (charToULong signedChar)).sum) % ULONG_MOD % 256]
      ∧ (s.verifyPassword false).2.m_serial.written
        = s.m_serial.written
          ++ specFrame s.m_address 0x01
              [0x13, s.m_password / 2 ^ 24 % 256, s.m_password / 2 ^ 16 % 256,
               s.m_password / 2 ^ 8 % 256, s.m_password % 256] := by
  have hpay : ([FINGERPRINT_VERIFYPASSWORD, rightShift s.m_password 24,
      rightShift s.m_password 16, rightShift s.m_password 8, rightShift s.m_password 0]
        : List Nat)
      = [0x13, s.m_password / 2 ^ 24 % 256, s.m_password / 2 ^ 16 % 256,
         s.m_password / 2 ^ 8 % 256, s.m_password % 256] := by
    simp [rightShift_eq, FINGERPRINT_VERIFYPASSWORD]
  have hbytes : IsBytes [0x13, s.m_password / 2 ^ 24 % 256, s.m_password / 2 ^ 16 % 256,
      s.m_password / 2 ^ 8 % 256, s.m_password % 256] := by
    intro b hb
    simp only [List.mem_cons, List.mem_singleton, List.not_mem_nil, or_false] at hb
    rcases hb with rfl | rfl | rfl | rfl | rfl <;> omega
  constructor
  · rw [verifyPassword_written, hpay, writePacketData_eq]
    rfl
  · rw [verifyPassword_written, hpay,
      writePacketData_eq_specFrame false s.m_address FINGERPRINT_COMMANDPACKET _ (by decide)
        hbytes (by simp) (Or.inl rfl)]
    rfl

/-- Witness of C9: with address `0xFFFFFFFF` and password `0` the bytes written are
`EF 01 FF FF FF FF 01 00 07 13 00 00 00 00 00 1B`, with a signed and with an unsigned `char`. -/
theorem verifyPassword_request_witness :
    ((sessionWith 0xFFFFFFFF 0 []).verifyPassword true).2.m_serial.written
        = [0xEF, 0x01, 0xFF, 0xFF, 0xFF, 0xFF, 0x01, 0x00, 0x07, 0x13, 0x00, 0x00, 0x00, 0x00,
           0x00, 0x1B]
      ∧ ((sessionWith 0xFFFFFFFF 0 []).verifyPassword false).2.m_serial.written
        = [0xEF, 0x01, 0xFF, 0xFF, 0xFF, 0xFF, 0x01, 0x00, 0x07, 0x13, 0x00, 0x00, 0x00, 0x00,
           0x00, 0x1B] :=
  ⟨(verifyPassword_request true (sessionWith 0xFFFFFFFF 0 [])).1,
   (verifyPassword_request false (sessionWith 0xFFFFFFFF 0 [])).1⟩

/-- C10.  For every ACK reply with status byte `st` (the request having been flushed),
`verifyPassword` returns `true` when `st = 0x00`, returns `false` without raising an error when
`st = 0x13`, and fails with an error for every other status byte: the communication error for
`0x01`, the address error for `0x20`, the unknown-status error carrying `st` otherwise. -/
theorem verifyPassword_status (signedChar : Bool) (s : QFingerprint) (st : Nat)
    (more rest : List Nat) (hf : s.m_serial.flushes = true)
    (hr : readPacketLoop [] s.m_serial.incoming
      = (Except.ok (FINGERPRINT_ACKPACKET :: st :: more), rest)) :
    (s.verifyPassword signedChar).1
      = if st = 0x00 then Except.ok true
        else if st = 0x13 then Except.ok false
        else if st = 0x01 then Except.error FpError.communication
        else if st = 0x20 then Except.error FpError.wrongAddress
        else Except.error (FpError.unknownError st) := by
  rw [verifyPassword_result signedChar s _ rest hf hr]
  simp only [List.getD_cons_zero, List.drop_succ_cons, List.drop_zero, ne_eq, not_true_eq_false,
    if_false, FINGERPRINT_OK, FINGERPRINT_ERROR_COMMUNICATION, FINGERPRINT_ADDRCODE,
    FINGERPRINT_ERROR_WRONGPASSWORD]
  by_cases h0 : st = 0
  · simp [h0]
  · by_cases h13 : st = 0x13
    · simp [h13]
    · by_cases h1 : st = 1
      · simp [h1]
      · by_cases h20 : st = 0x20
        · simp [h20]
        · simp [h0, h13, h1, h20]

/-- Witness of C10: the reply `EF 01 FF FF FF FF 07 00 03 00 00 0A` yields `true`. -/
theorem verifyPassword_status_witness :
    ((sessionWith 0xFFFFFFFF 0
        [0xEF, 0x01, 0xFF, 0xFF, 0xFF, 0xFF, 0x07, 0x00, 0x03, 0x00, 0x00, 0x0A]).verifyPassword
      true).1 = Except.ok true :=
  verifyPassword_status true
    (sessionWith 0xFFFFFFFF 0
      [0xEF, 0x01, 0xFF, 0xFF, 0xFF, 0xFF, 0x07, 0x00, 0x03, 0x00, 0x00, 0x0A])
    0x00 [] [] rfl (by decide)

/-! ## Mirror consistency of `setPassword` and `setAddress` (C11) -/

theorem writePacket_written (signedChar : Bool) (s : QFingerprint) (t : Nat) (p : List Nat) :
    (s.writePacket signedChar t p).2.m_serial.written
      = s.m_serial.written ++ writePacketData signedChar s.m_address t p := by
  unfold QFingerprint.writePacket
  split_ifs <;> rfl

/-- `setPassword` returns `true` exactly when the request is flushed and answered by an ACK
packet whose status byte is OK. -/
theorem setPassword_ok_iff (signedChar : Bool) (s : QFingerprint) (v : Nat) :
    (s.setPassword signedChar v).1 = Except.ok true
      ↔ (v ≤ 0xFFFFFFFF ∧ s.m_serial.flushes = true
          ∧ ∃ pkt rest, readPacketLoop [] s.m_serial.incoming = (Except.ok pkt, rest)
              ∧ pkt.getD 0 0 = 0x07 ∧ (pkt.drop 1).getD 0 0 = 0x00) := by
  unfold QFingerprint.setPassword QFingerprint.writePacket QFingerprint.readPacket
  by_cases hv : v ≤ 0xFFFFFFFF
  · have hv2 : ¬ (v < 0 ∨ v > 0xFFFFFFFF) := by omega
    rw [if_neg hv2]
    by_cases hf : s.m_serial.flushes = true
    · rcases hr : readPacketLoop [] s.m_serial.incoming with ⟨r, rest⟩
      cases r with
      | error e => simp [hf, hr, hv]
      | ok pkt =>
        simp only [hf, if_true, hr, FINGERPRINT_ACKPACKET, FINGERPRINT_OK,
          FINGERPRINT_ERROR_COMMUNICATION]
        split_ifs with h1 h2 h3 <;> simp_all
    · simp [hf, hv]
  · have hv2 : (v < 0 ∨ v > 0xFFFFFFFF) := by omega
    rw [if_pos hv2]
    simp [hv]

/-- The state `setPassword` leaves: the password is the new one after `true`; otherwise the
call has thrown and both mirrors are the old ones. -/
theorem setPassword_mirror (signedChar : Bool) (s : QFingerprint) (v : Nat) :
    ((s.setPassword signedChar v).1 = Except.ok true
        ∧ (s.setPassword signedChar v).2.m_password = v
        ∧ (s.setPassword signedChar v).2.m_address = s.m_address)
      ∨ ((∃ e, (s.setPassword signedChar v).1 = Except.error e)
        ∧ (s.setPassword signedChar v).2.m_password = s.m_password
        ∧ (s.setPassword signedChar v).2.m_address = s.m_address) := by
  unfold QFingerprint.setPassword QFingerprint.writePacket QFingerprint.readPacket
  by_cases hv2 : (v < 0 ∨ v > 0xFFFFFFFF)
  · rw [if_pos hv2]; simp
  · rw [if_neg hv2]
    by_cases hf : s.m_serial.flushes = true
    · rcases hr : readPacketLoop [] s.m_serial.incoming with ⟨r, rest⟩
      cases r with
      | error e => simp [hf, hr]
      | ok pkt =>
        simp only [hf, if_true, hr]
        split_ifs with h1 h2 h3 <;> simp
    · simp [hf]

/-- `setAddress` returns `true` exactly when the request is flushed and answered by an ACK
packet whose status byte is OK. -/
theorem setAddress_ok_iff (signedChar : Bool) (s : QFingerprint) (v : Nat) :
    (s.setAddress signedChar v).1 = Except.ok true
      ↔ (v ≤ 0xFFFFFFFF ∧ s.m_serial.flushes = true
          ∧ ∃ pkt rest, readPacketLoop [] s.m_serial.incoming = (Except.ok pkt, rest)
              ∧ pkt.getD 0 0 = 0x07 ∧ (pkt.drop 1).getD 0 0 = 0x00) := by
  unfold QFingerprint.setAddress QFingerprint.writePacket QFingerprint.readPacket
  by_cases hv : v ≤ 0xFFFFFFFF
  · have hv2 : ¬ (v < 0 ∨ v > 0xFFFFFFFF) := by omega
    rw [if_neg hv2]
    by_cases hf : s.m_serial.flushes = true
    · rcases hr : readPacketLoop [] s.m_serial.incoming with ⟨r, rest⟩
      cases r with
      | error e => simp [hf, hr, hv]
      | ok pkt =>
        simp only [hf, if_true, hr, FINGERPRINT_ACKPACKET, FINGERPRINT_OK,
          FINGERPRINT_ERROR_COMMUNICATION]
        split_ifs with h1 h2 h3 <;> simp_all
    · simp [hf, hv]
  · have hv2 : (v < 0 ∨ v > 0xFFFFFFFF) := by omega
    rw [if_pos hv2]
    simp [hv]

/-- The state `setAddress` leaves: the address is the new one after `true`; otherwise the call
has thrown and both mirrors are the old ones. -/
theorem setAddress_mirror (signedChar : Bool) (s : QFingerprint) (v : Nat) :
    ((s.setAddress signedChar v).1 = Except.ok true
        ∧ (s.setAddress signedChar v).2.m_address = v
        ∧ (s.setAddress signedChar v).2.m_password = s.m_password)
      ∨ ((∃ e, (s.setAddress signedChar v).1 = Except.error e)
        ∧ (s.setAddress signedChar v).2.m_password = s.m_password
        ∧ (s.setAddress signedChar v).2.m_address = s.m_address) := by
  unfold QFingerprint.setAddress QFingerprint.writePacket QFingerprint.readPacket
  by_cases hv2 : (v < 0 ∨ v > 0xFFFFFFFF)
  · rw [if_pos hv2]; simp
  · rw [if_neg hv2]
    by_cases hf : s.m_serial.flushes = true
    · rcases hr : readPacketLoop [] s.m_serial.incoming with ⟨r, rest⟩
      cases r with
      | error e => simp [hf, hr]
      | ok pkt =>
        simp only [hf, if_true, hr]
        split_ifs with h1 h2 h3 <;> simp
    · simp [hf]

/-- C11.  `setPassword(v)` and `setAddress(v)` return `true` exactly when the request is flushed
and answered by an ACK packet with status OK.  After `true` the stored password (resp. address)
is `v`, the other mirror is unchanged, the next `verifyPassword` request carries `v` as its
payload (resp. every frame `writePacket` then writes carries `v` in bytes 2-5).  In every other
case (a non-OK status, a non-ACK reply, a framing error, a read or write timeout) the call fails
with an error and the stored password and the stored address are both unchanged. -/
theorem mirror_consistency (signedChar : Bool) (s : QFingerprint) (v : Nat) :
    ((s.setPassword signedChar v).1 = Except.ok true
        ↔ (v ≤ 0xFFFFFFFF ∧ s.m_serial.flushes = true
            ∧ ∃ pkt rest, readPacketLoop [] s.m_serial.incoming = (Except.ok pkt, rest)
                ∧ pkt.getD 0 0 = 0x07 ∧ (pkt.drop 1).getD 0 0 = 0x00))
    ∧ ((s.setPassword signedChar v).1 = Except.ok true →
        (s.setPassword signedChar v).2.m_password = v
        ∧ (s.setPassword signedChar v).2.m_address = s.m_address
        ∧ ∃ c1 c2, ((s.setPassword signedChar v).2.verifyPassword signedChar).2.m_serial.written
            = (s.setPassword signedChar v).2.m_serial.written
              ++ [0xEF, 0x01, s.m_address / 2 ^ 24 % 256, s.m_address / 2 ^ 16 % 256,
                  s.m_address / 2 ^ 8 % 256, s.m_address % 256, 0x01, 0x00, 0x07,
                  0x13, v / 2 ^ 24 % 256, v / 2 ^ 16 % 256, v / 2 ^ 8 % 256, v % 256, c1, c2])
    ∧ ((s.setPassword signedChar v).1 ≠ Except.ok true →
        (∃ e, (s.setPassword signedChar v).1 = Except.error e)
        ∧ (s.setPassword signedChar v).2.m_password = s.m_password
        ∧ (s.setPassword signedChar v).2.m_address = s.m_address)
    ∧ ((s.setAddress signedChar v).1 = Except.ok true
        ↔ (v ≤ 0xFFFFFFFF ∧ s.m_serial.flushes = true
            ∧ ∃ pkt rest, readPacketLoop [] s.m_serial.incoming = (Except.ok pkt, rest)
                ∧ pkt.getD 0 0 = 0x07 ∧ (pkt.drop 1).getD 0 0 = 0x00))
    ∧ ((s.setAddress signedChar v).1 = Except.ok true →
        (s.setAddress signedChar v).2.m_address = v
        ∧ (s.setAddress signedChar v).2.m_password = s.m_password
        ∧ ∀ (t : Nat) (payload : List Nat),
            ((s.setAddress signedChar v).2.writePacket signedChar t payload).2.m_serial.written
              = (s.setAddress signedChar v).2.m_serial.written
                ++ writePacketData signedChar v t payload
            ∧ (writePacketData signedChar v t payload).take 6
              = [0xEF, 0x01, v / 2 ^ 24 % 256, v / 2 ^ 16 % 256, v / 2 ^ 8 % 256, v % 256])
    ∧ ((s.setAddress signedChar v).1 ≠ Except.ok true →
        (∃ e, (s.setAddress signedChar v).1 = Except.error e)
        ∧ (s.setAddress signedChar v).2.m_password = s.m_password
        ∧ (s.setAddress signedChar v).2.m_address = s.m_address) := by
  refine ⟨setPassword_ok_iff signedChar s v, ?_, ?_, setAddress_ok_iff signedChar s v, ?_, ?_⟩
  · intro hok
    rcases setPassword_mirror signedChar s v with ⟨_, hp, ha⟩ | ⟨⟨e, he⟩, _, _⟩
    · refine ⟨hp, ha, ?_⟩
      rw [verifyPassword_written, hp, ha, writePacketData_eq]
      simp only [rightShift_zero]
      simp only [rightShift_eq, FINGERPRINT_VERIFYPASSWORD, FINGERPRINT_COMMANDPACKET]
      exact ⟨_, _, rfl⟩
    · rw [he] at hok; cases hok
  · intro hno
    rcases setPassword_mirror signedChar s v with ⟨hok, _, _⟩ | ⟨he, hp, ha⟩
    · exact absurd hok hno
    · exact ⟨he, hp, ha⟩
  · intro hok
    rcases setAddress_mirror signedChar s v with ⟨_, ha, hp⟩ | ⟨⟨e, he⟩, _, _⟩
    · refine ⟨ha, hp, ?_⟩
      intro t payload
      rw [writePacket_written, ha, writePacketData_eq]
      exact ⟨rfl, rfl⟩
    · rw [he] at hok; cases hok
  · intro hno
    rcases setAddress_mirror signedChar s v with ⟨hok, _, _⟩ | ⟨he, hp, ha⟩
    · exact absurd hok hno
    · exact ⟨he, hp, ha⟩

/-- Witness of C11: `setPassword(0x12345678)` answered by `EF 01 FF FF FF FF 07 00 03 00 00 0A`
returns `true` and stores the new password; answered by the status `01` it fails and keeps the
old one. -/
theorem mirror_consistency_witness :
    ((sessionWith 0xFFFFFFFF 0
        [0xEF, 0x01, 0xFF, 0xFF, 0xFF, 0xFF, 0x07, 0x00, 0x03, 0x00, 0x00, 0x0A]).setPassword
          true 0x12345678).1 = Except.ok true
    ∧ ((sessionWith 0xFFFFFFFF 0
        [0xEF, 0x01, 0xFF, 0xFF, 0xFF, 0xFF, 0x07, 0x00, 0x03, 0x00, 0x00, 0x0A]).setPassword
          true 0x12345678).2.m_password = 0x12345678
    ∧ ((sessionWith 0xFFFFFFFF 0
        [0xEF, 0x01, 0xFF, 0xFF, 0xFF, 0xFF, 0x07, 0x00, 0x03, 0x01, 0x00, 0x0B]).setPassword
          true 0x12345678).2.m_password = 0 :=
  have h := mirror_consistency true
    (sessionWith 0xFFFFFFFF 0
      [0xEF, 0x01, 0xFF, 0xFF, 0xFF, 0xFF, 0x07, 0x00, 0x03, 0x00, 0x00, 0x0A]) 0x12345678
  have hok := h.1.mpr ⟨by decide, rfl, [0x07, 0x00], [], by decide, rfl, rfl⟩
  have h2 := mirror_consistency true
    (sessionWith 0xFFFFFFFF 0
      [0xEF, 0x01, 0xFF, 0xFF, 0xFF, 0xFF, 0x07, 0x00, 0x03, 0x01, 0x00, 0x0B]) 0x12345678
  ⟨hok, (h.2.1 hok).1, (h2.2.2.1 (by decide)).2.1⟩

/-! ## `setSystemParameter`, `setBaudRate`, `setMaxPacketSize` (C12, C13, C14) -/

/-- The validation of `setSystemParameter` passes exactly on the three documented ranges. -/
theorem setSystemParameterCheck_eq_none_iff (n v : Nat) :
    setSystemParameterCheck n v = none
      ↔ ((n = 4 ∧ 1 ≤ v ∧ v ≤ 12) ∨ (n = 5 ∧ 1 ≤ v ∧ v ≤ 5) ∨ (n = 6 ∧ v ≤ 3)) := by
  unfold setSystemParameterCheck FINGERPRINT_SETSYSTEMPARAMETER_BAUDRATE
    FINGERPRINT_SETSYSTEMPARAMETER_SECURITY_LEVEL FINGERPRINT_SETSYSTEMPARAMETER_PACKAGE_SIZE
  split_ifs <;> simp <;> omega

/-- What the validation of `setSystemParameter` throws is one of its four messages. -/
theorem setSystemParameterCheck_eq_some (n v : Nat) (e : FpError)
    (h : setSystemParameterCheck n v = some e) :
    e = FpError.invalidParameter ∨ e = FpError.invalidSecurityLevel
      ∨ e = FpError.invalidLength ∨ e = FpError.invalidParameterNumber := by
  unfold setSystemParameterCheck at h
  split_ifs at h <;> simp_all

/-- Once the arguments are valid, `setSystemParameter` hands its request to the port. -/
theorem setSystemParameter_written (signedChar : Bool) (s : QFingerprint) (n v : Nat)
    (h : setSystemParameterCheck n v = none) :
    (s.setSystemParameter signedChar n v).2.m_serial.written
      = s.m_serial.written ++ writePacketData signedChar s.m_address FINGERPRINT_COMMANDPACKET
          [FINGERPRINT_SETSYSTEMPARAMETER, n, v] := by
  unfold QFingerprint.setSystemParameter QFingerprint.writePacket QFingerprint.readPacket
  simp only [h]
  by_cases hf : s.m_serial.flushes = true
  · rcases hr : readPacketLoop [] s.m_serial.incoming with ⟨r, rest⟩
    cases r with
    | error e => simp only [hf, if_true, hr]
    | ok pkt =>
      simp only [hf, if_true, hr]
      split_ifs <;> rfl
  · simp only [hf]
    rfl

/-- Invalid arguments: `setSystemParameter` throws and leaves the session as it was. -/
theorem setSystemParameter_rejected (signedChar : Bool) (s : QFingerprint) (n v : Nat)
    (e : FpError) (h : setSystemParameterCheck n v = some e) :
    s.setSystemParameter signedChar n v = (Except.error e, s) := by
  unfold QFingerprint.setSystemParameter
  simp only [h]

/-- C12.  `setSystemParameter(param, value)` writes the frame (CMD, payload `0E param value`)
if and only if `param = 4` and `1 ≤ value ≤ 12`, or `param = 5` and `1 ≤ value ≤ 5`, or
`param = 6` and `0 ≤ value ≤ 3`; for every other pair it fails with one of its
invalid-argument errors and leaves the session, so also the bytes written, unchanged. -/
theorem setSystemParameter_validation (signedChar : Bool) (s : QFingerprint) (n v : Nat) :
    ((s.setSystemParameter signedChar n v).2.m_serial.written
        = s.m_serial.written ++ specFrame s.m_address 0x01 [0x0E, n, v]
      ↔ ((n = 4 ∧ 1 ≤ v ∧ v ≤ 12) ∨ (n = 5 ∧ 1 ≤ v ∧ v ≤ 5) ∨ (n = 6 ∧ 0 ≤ v ∧ v ≤ 3)))
    ∧ (¬ ((n = 4 ∧ 1 ≤ v ∧ v ≤ 12) ∨ (n = 5 ∧ 1 ≤ v ∧ v ≤ 5) ∨ (n = 6 ∧ 0 ≤ v ∧ v ≤ 3)) →
        ((s.setSystemParameter signedChar n v).1 = Except.error FpError.invalidParameter
          ∨ (s.setSystemParameter signedChar n v).1 = Except.error FpError.invalidSecurityLevel
          ∨ (s.setSystemParameter signedChar n v).1 = Except.error FpError.invalidLength
          ∨ (s.setSystemParameter signedChar n v).1
              = Except.error FpError.invalidParameterNumber)
        ∧ (s.setSystemParameter signedChar n v).2 = s) := by
  have hiff := setSystemParameterCheck_eq_none_iff n v
  have hzero : (n = 6 ∧ 0 ≤ v ∧ v ≤ 3) ↔ (n = 6 ∧ v ≤ 3) := by
    constructor
    · rintro ⟨h1, _, h2⟩; exact ⟨h1, h2⟩
    · rintro ⟨h1, h2⟩; exact ⟨h1, Nat.zero_le v, h2⟩
  rw [hzero, ← hiff]
  cases hc : setSystemParameterCheck n v with
  | none =>
    have hvalid := hiff.mp hc
    have hn : n < 128 := by omega
    have hv : v < 128 := by omega
    have hbytes : IsBytes [0x0E, n, v] := by
      intro b hb
      simp only [List.mem_cons, List.mem_singleton, List.not_mem_nil, or_false] at hb
      rcases hb with rfl | rfl | rfl <;> omega
    have hlow : ∀ b ∈ [0x0E, n, v], b < 128 := by
      intro b hb
      simp only [List.mem_cons, List.mem_singleton, List.not_mem_nil, or_false] at hb
      rcases hb with rfl | rfl | rfl <;> omega
    have hw := setSystemParameter_written signedChar s n v hc
    rw [show ([FINGERPRINT_SETSYSTEMPARAMETER, n, v] : List Nat) = [0x0E, n, v] from rfl,
      writePacketData_eq_specFrame signedChar s.m_address FINGERPRINT_COMMANDPACKET _
        (by decide) hbytes (by simp) (Or.inr hlow)] at hw
    refine ⟨⟨fun _ => rfl, fun _ => hw⟩, fun h => absurd rfl h⟩
  | some e =>
    have hrej := setSystemParameter_rejected signedChar s n v e hc
    have hkind := setSystemParameterCheck_eq_some n v e hc
    rw [hrej]
    refine ⟨⟨fun h => ?_, fun h => by cases h⟩, fun _ => ⟨?_, rfl⟩⟩
    · have hlen := congrArg List.length h
      rw [List.length_append, specFrame_length] at hlen
      simp only [List.length_cons, List.length_nil] at hlen
      omega
    · rcases hkind with rfl | rfl | rfl | rfl <;> simp

/-- Witness of C12: the pair (4, 12) is sent as `EF 01 FF FF FF FF 01 00 05 0E 04 0C 00 24`, the
pair (4, 13) is rejected and nothing is written. -/
theorem setSystemParameter_validation_witness :
    ((sessionWith 0xFFFFFFFF 0 []).setSystemParameter true 4 12).2.m_serial.written
        = [] ++ specFrame 0xFFFFFFFF 0x01 [0x0E, 4, 12]
    ∧ ((sessionWith 0xFFFFFFFF 0 []).setSystemParameter true 4 13).2
        = sessionWith 0xFFFFFFFF 0 [] :=
  ⟨(setSystemParameter_validation true (sessionWith 0xFFFFFFFF 0 []) 4 12).1.mpr
      (Or.inl (by decide)),
   ((setSystemParameter_validation true (sessionWith 0xFFFFFFFF 0 []) 4 13).2 (by decide)).2⟩

/-- C13 (evaluation at the failing input).  `2467200 = 257 * 9600` is a multiple of 9600 whose
quotient 257 lies outside `1..12`; `setBaudRate` casts the quotient to `uint8_t`, which gives 1,
and sends the request `0E 04 01` instead of rejecting the value. -/
theorem setBaudRate_truncates_quotient :
    2467200 % 9600 = 0 ∧ 2467200 / 9600 = 257 ∧ 2467200 < 2 ^ 32
    ∧ ((sessionWith 0xFFFFFFFF 0
          [0xEF, 0x01, 0xFF, 0xFF, 0xFF, 0xFF, 0x07, 0x00, 0x03, 0x00, 0x00, 0x0A]).setBaudRate
        true 2467200).1 = Except.ok true
    ∧ ((sessionWith 0xFFFFFFFF 0
          [0xEF, 0x01, 0xFF, 0xFF, 0xFF, 0xFF, 0x07, 0x00, 0x03, 0x00, 0x00, 0x0A]).setBaudRate
        true 2467200).2.m_serial.written
      = [0xEF, 0x01, 0xFF, 0xFF, 0xFF, 0xFF, 0x01, 0x00, 0x05, 0x0E, 0x04, 0x01, 0x00, 0x19]
    ∧ ((sessionWith 0xFFFFFFFF 0 []).setBaudRate false 2467200).2.m_serial.written
      = [0xEF, 0x01, 0xFF, 0xFF, 0xFF, 0xFF, 0x01, 0x00, 0x05, 0x0E, 0x04, 0x01, 0x00, 0x19] := by
  decide

/-- C14 (evaluation at the failing input).  The keys of the map are `uint8_t`, so the key
written `256` is `0`: `setMaxPacketSize(0)` is accepted and sends the package-size code 3
(request `0E 06 03`), where the value 0 has to be rejected. -/
theorem setMaxPacketSize_accepts_zero :
    packetSizesMap = [(32, 0), (64, 1), (128, 2), (0, 3)]
    ∧ ((sessionWith 0xFFFFFFFF 0
          [0xEF, 0x01, 0xFF, 0xFF, 0xFF, 0xFF, 0x07, 0x00, 0x03, 0x00, 0x00, 0x0A]).setMaxPacketSize
        true 0).1 = Except.ok true
    ∧ ((sessionWith 0xFFFFFFFF 0
          [0xEF, 0x01, 0xFF, 0xFF, 0xFF, 0xFF, 0x07, 0x00, 0x03, 0x00, 0x00, 0x0A]).setMaxPacketSize
        true 0).2.m_serial.written
      = [0xEF, 0x01, 0xFF, 0xFF, 0xFF, 0xFF, 0x01, 0x00, 0x05, 0x0E, 0x06, 0x03, 0x00, 0x1D]
    ∧ ((sessionWith 0xFFFFFFFF 0 []).setMaxPacketSize false 0).2.m_serial.written
      = [0xEF, 0x01, 0xFF, 0xFF, 0xFF, 0xFF, 0x01, 0x00, 0x05, 0x0E, 0x06, 0x03, 0x00, 0x1D] := by
  decide

/-! ## The parameter block (C15, C16, C17) -/

/-- `getSystemParameters` on a flushed request answered by an ACK packet with status OK returns
the payload after the status byte. -/
theorem getSystemParameters_ok (signedChar : Bool) (s : QFingerprint) (P rest : List Nat)
    (hf : s.m_serial.flushes = true)
    (hr : readPacketLoop [] s.m_serial.incoming
      = (Except.ok (FINGERPRINT_ACKPACKET :: FINGERPRINT_OK :: P), rest)) :
    (s.getSystemParameters signedChar).1 = Except.ok P := by
  unfold QFingerprint.getSystemParameters QFingerprint.writePacket QFingerprint.readPacket
  simp only [hf, if_true, hr]
  simp

/-- The getters return what they compute from the block `getSystemParameters` returns. -/
theorem getStorageCapacity_of_block (signedChar : Bool) (s : QFingerprint) (P : List Nat)
    (h : (s.getSystemParameters signedChar).1 = Except.ok P) :
    (s.getStorageCapacity signedChar).1
      = Except.ok ((leftShift (P.getD 4 0) 8 ||| leftShift (P.getD 5 0) 0) % 65536) := by
  unfold QFingerprint.getStorageCapacity
  rcases hg : s.getSystemParameters signedChar with ⟨r, s1⟩
  rw [hg] at h
  cases r with
  | error e => cases h
  | ok Q => cases h; rfl

theorem getSecurityLevel_of_block (signedChar : Bool) (s : QFingerprint) (P : List Nat)
    (h : (s.getSystemParameters signedChar).1 = Except.ok P) :
    (s.getSecurityLevel signedChar).1
      = Except.ok ((leftShift (P.getD 6 0) 8 ||| leftShift (P.getD 7 0) 0) % 65536) := by
  unfold QFingerprint.getSecurityLevel
  rcases hg : s.getSystemParameters signedChar with ⟨r, s1⟩
  rw [hg] at h
  cases r with
  | error e => cases h
  | ok Q => cases h; rfl

theorem getMaxPacketSize_of_block (signedChar : Bool) (s : QFingerprint) (P : List Nat)
    (h : (s.getSystemParameters signedChar).1 = Except.ok P) :
    (s.getMaxPacketSize signedChar).1
      = if (leftShift (P.getD 12 0) 8 ||| leftShift (P.getD 13 0) 0) % 65536 < 0
            ∨ (leftShift (P.getD 12 0) 8 ||| leftShift (P.getD 13 0) 0) % 65536 > 3
        then Except.error FpError.invalidPacketSize
        else Except.ok (([32, 64, 128, 256] : List Nat).getD
          ((leftShift (P.getD 12 0) 8 ||| leftShift (P.getD 13 0) 0) % 65536) 0) := by
  unfold QFingerprint.getMaxPacketSize
  rcases hg : s.getSystemParameters signedChar with ⟨r, s1⟩
  rw [hg] at h
  cases r with
  | error e => cases h
  | ok Q =>
    cases h
    simp only
    split_ifs <;> rfl

theorem getD_lt_of_isBytes (P : List Nat) (h : IsBytes P) (i : Nat) : P.getD i 0 < 256 := by
  by_cases hi : i < P.length
  · rw [List.getD_eq_getElem P 0 hi]
    exact h _ (List.getElem_mem hi)
  · rw [List.getD_eq_default P 0 (by omega)]
    norm_num

/-- Two bytes of a block combined by `leftShift` and truncated to `quint16`. -/
theorem be16_getD (P : List Nat) (h : IsBytes P) (i j : Nat) :
    (leftShift (P.getD i 0) 8 ||| leftShift (P.getD j 0) 0) % 65536
      = 256 * P.getD i 0 + P.getD j 0 := by
  have hi := getD_lt_of_isBytes P h i
  have hj := getD_lt_of_isBytes P h j
  rw [leftShift_or_bytes _ _ hi hj]
  omega

/-- C15.  For every parameter block `P` returned after an OK status (16 bytes for the sensor;
the length plays no role), `getStorageCapacity` returns `256 * P[4] + P[5]` and
`getSecurityLevel` returns `256 * P[6] + P[7]`, each byte read as an unsigned value. -/
theorem parameter_block_fields (signedChar : Bool) (s : QFingerprint) (P rest : List Nat)
    (hf : s.m_serial.flushes = true)
    (hr : readPacketLoop [] s.m_serial.incoming = (Except.ok (0x07 :: 0x00 :: P), rest))
    (hP : IsBytes P) :
    (s.getStorageCapacity signedChar).1 = Except.ok (256 * P.getD 4 0 + P.getD 5 0)
      ∧ (s.getSecurityLevel signedChar).1 = Except.ok (256 * P.getD 6 0 + P.getD 7 0) := by
  have hblock := getSystemParameters_ok signedChar s P rest hf hr
  rw [getStorageCapacity_of_block signedChar s P hblock,
    getSecurityLevel_of_block signedChar s P hblock, be16_getD P hP, be16_getD P hP]
  exact ⟨rfl, rfl⟩

/-- Witness of C15: a block with capacity bytes `03 E8` and security bytes `00 05`. -/
theorem parameter_block_fields_witness :
    ((sessionWith 0xFFFFFFFF 0
        (specFrame 0xFFFFFFFF 0x07
          [0x00, 0, 0, 0, 0, 0x03, 0xE8, 0, 5, 0, 0, 0, 0, 0, 3, 0, 6])).getStorageCapacity
      true).1 = Except.ok 1000
    ∧ ((sessionWith 0xFFFFFFFF 0
        (specFrame 0xFFFFFFFF 0x07
          [0x00, 0, 0, 0, 0, 0x03, 0xE8, 0, 5, 0, 0, 0, 0, 0, 3, 0, 6])).getSecurityLevel
      true).1 = Except.ok 5 :=
  parameter_block_fields true
    (sessionWith 0xFFFFFFFF 0
      (specFrame 0xFFFFFFFF 0x07 [0x00, 0, 0, 0, 0, 0x03, 0xE8, 0, 5, 0, 0, 0, 0, 0, 3, 0, 6]))
    [0, 0, 0, 0, 0x03, 0xE8, 0, 5, 0, 0, 0, 0, 0, 3, 0, 6] [] rfl (by decide) (by decide)

/-- C16.  For every parameter block `P` returned after an OK status, with
`c = 256 * P[12] + P[13]`, `getMaxPacketSize` returns 32, 64, 128, 256 for `c = 0, 1, 2, 3` and
fails with "Invalid packet size" for every `c > 3`. -/
theorem getMaxPacketSize_result (signedChar : Bool) (s : QFingerprint) (P rest : List Nat)
    (hf : s.m_serial.flushes = true)
    (hr : readPacketLoop [] s.m_serial.incoming = (Except.ok (0x07 :: 0x00 :: P), rest))
    (hP : IsBytes P) :
    (256 * P.getD 12 0 + P.getD 13 0 = 0 → (s.getMaxPacketSize signedChar).1 = Except.ok 32)
    ∧ (256 * P.getD 12 0 + P.getD 13 0 = 1 → (s.getMaxPacketSize signedChar).1 = Except.ok 64)
    ∧ (256 * P.getD 12 0 + P.getD 13 0 = 2 → (s.getMaxPacketSize signedChar).1 = Except.ok 128)
    ∧ (256 * P.getD 12 0 + P.getD 13 0 = 3 → (s.getMaxPacketSize signedChar).1 = Except.ok 256)
    ∧ (3 < 256 * P.getD 12 0 + P.getD 13 0 →
        (s.getMaxPacketSize signedChar).1 = Except.error FpError.invalidPacketSize) := by
  have hblock := getSystemParameters_ok signedChar s P rest hf hr
  rw [getMaxPacketSize_of_block signedChar s P hblock, be16_getD P hP]
  refine ⟨?_, ?_, ?_, ?_, ?_⟩
  · intro h; rw [h]; rfl
  · intro h; rw [h]; rfl
  · intro h; rw [h]; rfl
  · intro h; rw [h]; rfl
  · intro h; rw [if_pos (Or.inr h)]

/-- Witness of C16: the code `00 03` gives 256 and the code `00 04` fails. -/
theorem getMaxPacketSize_result_witness :
    ((sessionWith 0xFFFFFFFF 0
        (specFrame 0xFFFFFFFF 0x07
          [0x00, 0, 0, 0, 0, 0x03, 0xE8, 0, 5, 0, 0, 0, 0, 0, 3, 0, 6])).getMaxPacketSize
      true).1 = Except.ok 256
    ∧ ((sessionWith 0xFFFFFFFF 0
        (specFrame 0xFFFFFFFF 0x07
          [0x00, 0, 0, 0, 0, 0x03, 0xE8, 0, 5, 0, 0, 0, 0, 0, 4, 0, 6])).getMaxPacketSize
      true).1 = Except.error FpError.invalidPacketSize :=
  ⟨(getMaxPacketSize_result true
      (sessionWith 0xFFFFFFFF 0
        (specFrame 0xFFFFFFFF 0x07 [0x00, 0, 0, 0, 0, 0x03, 0xE8, 0, 5, 0, 0, 0, 0, 0, 3, 0, 6]))
      [0, 0, 0, 0, 0x03, 0xE8, 0, 5, 0, 0, 0, 0, 0, 3, 0, 6] [] rfl (by decide)
      (by decide)).2.2.2.1 (by decide),
   (getMaxPacketSize_result true
      (sessionWith 0xFFFFFFFF 0
        (specFrame 0xFFFFFFFF 0x07 [0x00, 0, 0, 0, 0, 0x03, 0xE8, 0, 5, 0, 0, 0, 0, 0, 4, 0, 6]))
      [0, 0, 0, 0, 0x03, 0xE8, 0, 5, 0, 0, 0, 0, 0, 4, 0, 6] [] rfl (by decide)
      (by decide)).2.2.2.2 (by decide)⟩

/-- C17 (evaluation at the failing input).  For the baud-rate unit `u = 12` (block bytes
`00 0C`) the product `12 * 9600 = 115200` does not fit the result type `quint16`:
`getBaudRate` returns `115200 mod 65536 = 49664`.  The unit 6 still gives 57600. -/
theorem getBaudRate_wraps_at_16_bits :
    ((sessionWith 0xFFFFFFFF 0
        (specFrame 0xFFFFFFFF 0x07
          [0x00, 0, 0, 0, 0, 0x03, 0xE8, 0, 5, 0, 0, 0, 0, 0, 3, 0, 12])).getBaudRate
      true).1 = Except.ok 49664
    ∧ ((sessionWith 0xFFFFFFFF 0
        (specFrame 0xFFFFFFFF 0x07
          [0x00, 0, 0, 0, 0, 0x03, 0xE8, 0, 5, 0, 0, 0, 0, 0, 3, 0, 12])).getBaudRate
      false).1 = Except.ok 49664
    ∧ 12 * 9600 = 115200 ∧ 115200 % 65536 = 49664
    ∧ ((sessionWith 0xFFFFFFFF 0
        (specFrame 0xFFFFFFFF 0x07
          [0x00, 0, 0, 0, 0, 0x03, 0xE8, 0, 5, 0, 0, 0, 0, 0, 3, 0, 6])).getBaudRate
      true).1 = Except.ok 57600 := by
  decide

/-! ## `getTemplateIndex`, `getTemplateCount`, `readImage` (C18, C19, C20) -/

theorem foldl_invariant {α β : Type} (Q : β → Prop) (f : β → α → β)
    (hf : ∀ b a, Q b → Q (f b a)) : ∀ (l : List α) (b : β), Q b → Q (l.foldl f b) := by
  intro l
  induction l with
  | nil => intro b hb; exact hb
  | cons a l ih => intro b hb; exact ih (f b a) (hf b a hb)

theorem setBit_getD_of_ne (bits : List Bool) (i k : Nat) (val : Bool) (h : i ≠ k) :
    (setBit bits i val).getD k false = bits.getD k false := by
  unfold setBit
  simp only [List.getD_eq_getElem?_getD]
  rw [List.getElem?_set_ne h]

/-- Whatever the page holds, the loops of `getTemplateIndex` leave every bit from position 2 on
as it was: they only ever write the positions 0 and 1. -/
theorem templateIndexLoop_high_bits (signedChar : Bool) (P : List Nat) (bits : List Bool)
    (k : Nat) (hk : 2 ≤ k) (h : bits.getD k false = false) :
    (templateIndexLoop signedChar P bits).getD k false = false := by
  unfold templateIndexLoop
  apply foldl_invariant (fun b : List Bool => b.getD k false = false)
  · intro b i hb
    apply foldl_invariant (fun b : List Bool => b.getD k false = false)
    · intro b2 j hb2
      rw [setBit_getD_of_ne]
      · exact hb2
      · split_ifs <;> omega
    · exact hb
  · exact h

set_option maxRecDepth 100000 in
/-- C18 (evaluation at the failing input).  Page 0 is answered with status OK and the 32-byte
page `04 00 ... 00`, in which only bit 2 of byte 0 is set.  `getTemplateIndex` returns 256 bits
of which bits 0 and 1 are set and bit 2 is not: the arguments of `setBit` are swapped, so only
the positions 0 and 1 are ever written. -/
theorem getTemplateIndex_swapped_setBit :
    ((sessionWith 0xFFFFFFFF 0
        (specFrame 0xFFFFFFFF 0x07 ([0x00, 0x04] ++ List.replicate 31 0))).getTemplateIndex
      true 0).1 = Except.ok ([true, true] ++ List.replicate 254 false)
    ∧ ((sessionWith 0xFFFFFFFF 0
        (specFrame 0xFFFFFFFF 0x07 ([0x00, 0x04] ++ List.replicate 31 0))).getTemplateIndex
      false 0).1 = Except.ok ([true, true] ++ List.replicate 254 false)
    ∧ Nat.testBit 0x04 2 = true ∧ Nat.testBit 0x04 0 = false := by
  decide

/-- The request of `getTemplateCount` (lines 534-537). -/
theorem getTemplateCount_written (signedChar : Bool) (s : QFingerprint) :
    (s.getTemplateCount signedChar).2.m_serial.written
      = s.m_serial.written ++ writePacketData signedChar s.m_address FINGERPRINT_COMMANDPACKET
          [FINGERPRINT_TEMPLATECOUNT] := by
  unfold QFingerprint.getTemplateCount QFingerprint.writePacket QFingerprint.readPacket
  by_cases hf : s.m_serial.flushes = true
  · rcases hr : readPacketLoop [] s.m_serial.incoming with ⟨r, rest⟩
    cases r with
    | error e => simp only [hf, if_true, hr]
    | ok pkt =>
      simp only [hf, if_true, hr]
      split_ifs <;> rfl
  · simp only [hf]
    rfl

/-- The result of `getTemplateCount` once the request is flushed and `readPacket` has returned
the packet `pkt`. -/
theorem getTemplateCount_result (signedChar : Bool) (s : QFingerprint) (pkt rest : List Nat)
    (hf : s.m_serial.flushes = true)
    (hr : readPacketLoop [] s.m_serial.incoming = (Except.ok pkt, rest)) :
    (s.getTemplateCount signedChar).1
      = if pkt.getD 0 0 ≠ FINGERPRINT_ACKPACKET then Except.error FpError.notAck
        else if (pkt.drop 1).getD 0 0 = FINGERPRINT_OK then
          Except.ok ((leftShift ((pkt.drop 1).getD 1 0) 8 % 65536
            ||| leftShift ((pkt.drop 1).getD 2 0) 0) % 65536)
        else if (pkt.drop 1).getD 0 0 = FINGERPRINT_ERROR_COMMUNICATION then
          Except.error FpError.communication
        else Except.error (FpError.unknownError ((pkt.drop 1).getD 0 0)) := by
  unfold QFingerprint.getTemplateCount QFingerprint.writePacket QFingerprint.readPacket
  simp only [hf, if_true, hr]
  split_ifs <;> rfl

/-- C19.  The request payload of `getTemplateCount` is the single byte `1D` (the frame written
is the well-formed CMD frame with that payload), and for every ACK payload `00 b1 b2 ...`,
the request having been flushed, it returns `256 * b1 + b2`. -/
theorem getTemplateCount_count (signedChar : Bool) (s : QFingerprint) :
    (s.getTemplateCount signedChar).2.m_serial.written
        = s.m_serial.written ++ specFrame s.m_address 0x01 [0x1D]
      ∧ ∀ (b1 b2 : Nat) (more rest : List Nat), s.m_serial.flushes = true → b1 < 256 →
          b2 < 256 →
          readPacketLoop [] s.m_serial.incoming
            = (Except.ok (0x07 :: 0x00 :: b1 :: b2 :: more), rest) →
          (s.getTemplateCount signedChar).1 = Except.ok (256 * b1 + b2) := by
  constructor
  · rw [getTemplateCount_written,
      show ([FINGERPRINT_TEMPLATECOUNT] : List Nat) = [0x1D] from rfl,
      writePacketData_eq_specFrame signedChar s.m_address FINGERPRINT_COMMANDPACKET [0x1D]
        (by decide) (by decide) (by decide) (Or.inr (by decide))]
    rfl
  · intro b1 b2 more rest hf hb1 hb2 hr
    rw [getTemplateCount_result signedChar s _ rest hf hr]
    have h8 : leftShift b1 8 % 65536 = leftShift b1 8 := by
      have := leftShift_or_bytes b1 0 hb1 (by norm_num)
      have h0 : leftShift 0 0 = 0 := by decide
      rw [h0, Nat.or_zero] at this
      rw [this]; omega
    simp only [List.getD_cons_zero, List.getD_cons_succ, List.drop_succ_cons, List.drop_zero,
      FINGERPRINT_ACKPACKET, FINGERPRINT_OK, ne_eq, not_true_eq_false, if_false, if_true, h8,
      leftShift_or_bytes b1 b2 hb1 hb2]
    have : (b1 * 256 + b2) % 65536 = 256 * b1 + b2 := by omega
    rw [this]

/-- Witness of C19: the reply payload `00 00 2A` gives 42, and the request for address
`0xFFFFFFFF` is `EF 01 FF FF FF FF 01 00 03 1D 00 21`. -/
theorem getTemplateCount_count_witness :
    ((sessionWith 0xFFFFFFFF 0
        (specFrame 0xFFFFFFFF 0x07 [0x00, 0x00, 0x2A])).getTemplateCount true).2.m_serial.written
      = [0xEF, 0x01, 0xFF, 0xFF, 0xFF, 0xFF, 0x01, 0x00, 0x03, 0x1D, 0x00, 0x21]
    ∧ ((sessionWith 0xFFFFFFFF 0
        (specFrame 0xFFFFFFFF 0x07 [0x00, 0x00, 0x2A])).getTemplateCount true).1
      = Except.ok 42 :=
  have h := getTemplateCount_count true
    (sessionWith 0xFFFFFFFF 0 (specFrame 0xFFFFFFFF 0x07 [0x00, 0x00, 0x2A]))
  ⟨h.1, h.2 0x00 0x2A [] [] rfl (by decide) (by decide) (by decide)⟩

/-- The result of `readImage` once the request is flushed and `readPacket` has returned the
packet `pkt`. -/
theorem readImage_result (signedChar : Bool) (s : QFingerprint) (pkt rest : List Nat)
    (hf : s.m_serial.flushes = true)
    (hr : readPacketLoop [] s.m_serial.incoming = (Except.ok pkt, rest)) :
    (s.readImage signedChar).1
      = if pkt.getD 0 0 ≠ FINGERPRINT_ACKPACKET then Except.error FpError.notAck
        else if (pkt.drop 1).getD 0 0 = FINGERPRINT_OK then Except.ok true
        else if (pkt.drop 1).getD 0 0 = FINGERPRINT_ERROR_COMMUNICATION then
          Except.error FpError.communication
        else if (pkt.drop 1).getD 0 0 = FINGERPRINT_ERROR_NOFINGER then Except.ok false
        else if (pkt.drop 1).getD 0 0 = FINGERPRINT_ERROR_READIMAGE then
          Except.error FpError.couldNotReadImage
        else Except.error (FpError.unknownError ((pkt.drop 1).getD 0 0)) := by
  unfold QFingerprint.readImage QFingerprint.writePacket QFingerprint.readPacket
  simp only [hf, if_true, hr]
  split_ifs <;> rfl

/-- C20.  For every ACK reply with status byte `st` (the request having been flushed),
`readImage` returns `true` when `st = 0x00`, returns `false` without raising an error when
`st = 0x02`, and fails with an error for every other status byte: the communication error for
`0x01`, "Could not read image" for `0x03`, the unknown-status error carrying `st` otherwise. -/
theorem readImage_status (signedChar : Bool) (s : QFingerprint) (st : Nat)
    (more rest : List Nat) (hf : s.m_serial.flushes = true)
    (hr : readPacketLoop [] s.m_serial.incoming = (Except.ok (0x07 :: st :: more), rest)) :
    (s.readImage signedChar).1
      = if st = 0x00 then Except.ok true
        else if st = 0x02 then Except.ok false
        else if st = 0x01 then Except.error FpError.communication
        else if st = 0x03 then Except.error FpError.couldNotReadImage
        else Except.error (FpError.unknownError st) := by
  rw [readImage_result signedChar s _ rest hf hr]
  simp only [List.getD_cons_zero, List.drop_succ_cons, List.drop_zero, ne_eq,
    FINGERPRINT_ACKPACKET, not_true_eq_false, if_false, FINGERPRINT_OK,
    FINGERPRINT_ERROR_COMMUNICATION, FINGERPRINT_ERROR_NOFINGER, FINGERPRINT_ERROR_READIMAGE]
  by_cases h0 : st = 0
  · simp [h0]
  · by_cases h2 : st = 2
    · simp [h2]
    · by_cases h1 : st = 1
      · simp [h1]
      · by_cases h3 : st = 3
        · simp [h3]
        · simp [h0, h2, h1, h3]

/-- Witness of C20: the reply `EF 01 FF FF FF FF 07 00 03 02 00 0C` (no finger) yields `false`. -/
theorem readImage_status_witness :
    ((sessionWith 0xFFFFFFFF 0
        [0xEF, 0x01, 0xFF, 0xFF, 0xFF, 0xFF, 0x07, 0x00, 0x03, 0x02, 0x00, 0x0C]).readImage
      true).1 = Except.ok false :=
  readImage_status true
    (sessionWith 0xFFFFFFFF 0
      [0xEF, 0x01, 0xFF, 0xFF, 0xFF, 0xFF, 0x07, 0x00, 0x03, 0x02, 0x00, 0x0C])
    0x02 [] [] rfl (by decide)

/-! ## Soft failures of `createTemplate`, `deleteTemplate`, `clearDatabase` (C21, C26) -/

/-- The result of `createTemplate` once the request is flushed and `readPacket` has returned the
packet `pkt`. -/
theorem createTemplate_result (signedChar : Bool) (s : QFingerprint) (pkt rest : List Nat)
    (hf : s.m_serial.flushes = true)
    (hr : readPacketLoop [] s.m_serial.incoming = (Except.ok pkt, rest)) :
    (s.createTemplate signedChar).1
      = if pkt.getD 0 0 ≠ FINGERPRINT_ACKPACKET then Except.error FpError.notAck
        else if (pkt.drop 1).getD 0 0 = FINGERPRINT_OK then Except.ok true
        else if (pkt.drop 1).getD 0 0 = FINGERPRINT_ERROR_COMMUNICATION then
          Except.error FpError.communication
        else if (pkt.drop 1).getD 0 0 = FINGERPRINT_ERROR_CHARACTERISTICSMISMATCH then
          Except.ok false
        else Except.error (FpError.unknownError ((pkt.drop 1).getD 0 0)) := by
  unfold QFingerprint.createTemplate QFingerprint.writePacket QFingerprint.readPacket
  simp only [hf, if_true, hr]
  split_ifs <;> rfl

/-- The result of `clearDatabase` once the request is flushed and `readPacket` has returned the
packet `pkt`. -/
theorem clearDatabase_result (signedChar : Bool) (s : QFingerprint) (pkt rest : List Nat)
    (hf : s.m_serial.flushes = true)
    (hr : readPacketLoop [] s.m_serial.incoming = (Except.ok pkt, rest)) :
    (s.clearDatabase signedChar).1
      = if pkt.getD 0 0 ≠ FINGERPRINT_ACKPACKET then Except.error FpError.notAck
        else if (pkt.drop 1).getD 0 0 = FINGERPRINT_OK then Except.ok true
        else if (pkt.drop 1).getD 0 0 = FINGERPRINT_ERROR_COMMUNICATION then
          Except.error FpError.communication
        else if (pkt.drop 1).getD 0 0 = FINGERPRINT_ERROR_CLEARDATABASE then Except.ok false
        else Except.error (FpError.unknownError ((pkt.drop 1).getD 0 0)) := by
  unfold QFingerprint.clearDatabase QFingerprint.writePacket QFingerprint.readPacket
  simp only [hf, if_true, hr]
  split_ifs <;> rfl

/-- `deleteTemplate` with arguments the capacity admits: the result once the delete request is
flushed and `readPacket` has returned the packet `pkt`. -/
theorem deleteTemplate_result (signedChar : Bool) (s s0 : QFingerprint)
    (pos count cap : Nat) (pkt rest : List Nat)
    (hcap : s.getStorageCapacity signedChar = (Except.ok cap, s0))
    (hpos : pos < cap) (hcount : count ≤ cap - pos)
    (hf : s0.m_serial.flushes = true)
    (hr : readPacketLoop [] s0.m_serial.incoming = (Except.ok pkt, rest)) :
    (s.deleteTemplate signedChar pos count).1
      = if pkt.getD 0 0 ≠ FINGERPRINT_ACKPACKET then Except.error FpError.notAck
        else if (pkt.drop 1).getD 0 0 = FINGERPRINT_OK then Except.ok true
        else if (pkt.drop 1).getD 0 0 = FINGERPRINT_ERROR_COMMUNICATION then
          Except.error FpError.communication
        else if (pkt.drop 1).getD 0 0 = FINGERPRINT_ERROR_INVALIDPOSITION then
          Except.error FpError.invalidPosition
        else if (pkt.drop 1).getD 0 0 = FINGERPRINT_ERROR_DELETETEMPLATE then Except.ok false
        else Except.error (FpError.unknownError ((pkt.drop 1).getD 0 0)) := by
  have h1 : ¬ (pos < 0 ∨ pos ≥ cap) := by omega
  have h2 : ¬ (count < 0 ∨ (count : Int) > (cap : Int) - (pos : Int)) := by omega
  unfold QFingerprint.deleteTemplate QFingerprint.writePacket QFingerprint.readPacket
  simp only [hcap, if_neg h1, if_neg h2, hf, if_true, hr]
  split_ifs <;> rfl

/-- `deleteTemplate` with arguments the capacity admits hands the delete request to the port. -/
theorem deleteTemplate_written (signedChar : Bool) (s s0 : QFingerprint)
    (pos count cap : Nat)
    (hcap : s.getStorageCapacity signedChar = (Except.ok cap, s0))
    (hpos : pos < cap) (hcount : count ≤ cap - pos) :
    (s.deleteTemplate signedChar pos count).2.m_serial.written
      = s0.m_serial.written ++ writePacketData signedChar s0.m_address FINGERPRINT_COMMANDPACKET
          [FINGERPRINT_DELETETEMPLATE, rightShift pos 8, rightShift pos 0,
           rightShift count 8, rightShift count 0] := by
  have h1 : ¬ (pos < 0 ∨ pos ≥ cap) := by omega
  have h2 : ¬ (count < 0 ∨ (count : Int) > (cap : Int) - (pos : Int)) := by omega
  unfold QFingerprint.deleteTemplate QFingerprint.writePacket QFingerprint.readPacket
  simp only [hcap, if_neg h1, if_neg h2]
  by_cases hf : s0.m_serial.flushes = true
  · rcases hr : readPacketLoop [] s0.m_serial.incoming with ⟨r, rest⟩
    cases r with
    | error e => simp only [hf, if_true, hr]
    | ok pkt =>
      simp only [hf, if_true, hr]
      split_ifs <;> rfl
  · simp only [hf]
    rfl

/-- `deleteTemplate` with arguments the capacity does not admit throws after the capacity
query and sends nothing more. -/
theorem deleteTemplate_rejected (signedChar : Bool) (s s0 : QFingerprint)
    (pos count cap : Nat)
    (hcap : s.getStorageCapacity signedChar = (Except.ok cap, s0))
    (hbad : ¬ (pos < cap ∧ count ≤ cap - pos)) :
    s.deleteTemplate signedChar pos count = (Except.error FpError.invalidPositionNumber, s0)
      ∨ s.deleteTemplate signedChar pos count = (Except.error FpError.invalidCount, s0) := by
  unfold QFingerprint.deleteTemplate
  simp only [hcap]
  by_cases h1 : pos < 0 ∨ pos ≥ cap
  · left; rw [if_pos h1]
  · right
    have h2 : count < 0 ∨ (count : Int) > (cap : Int) - (pos : Int) := by omega
    rw [if_neg h1, if_pos h2]

/-- The status chain shared by the three soft-failure commands, over the status byte `st`. -/
theorem soft_chain (st soft : Nat) (e : FpError) (hsoft1 : soft ≠ 1) :
    (if st = 0 then (Except.ok true : Except FpError Bool)
      else if st = 1 then Except.error FpError.communication
      else if st = soft then Except.ok false
      else Except.error e)
    = if st = 0 then Except.ok true
      else if st = soft then Except.ok false
      else if st = 1 then Except.error FpError.communication
      else Except.error e := by
  by_cases h0 : st = 0
  · simp [h0]
  · by_cases h1 : st = 1
    · subst h1; simp [Ne.symm hsoft1]
    · simp [h0, h1]

/-- C21.  For every ACK reply with status byte `st` (the request having been flushed):
`createTemplate` returns `false` on `0x0A`, `clearDatabase` returns `false` on `0x11`, and
`deleteTemplate`, whose arguments the queried capacity admits, returns `false` on `0x10`; each
returns `true` on `0x00` and fails with an error on every other status byte. -/
theorem soft_failures (signedChar : Bool) (st : Nat) (more rest : List Nat) :
    (∀ s : QFingerprint, s.m_serial.flushes = true →
        readPacketLoop [] s.m_serial.incoming = (Except.ok (0x07 :: st :: more), rest) →
        (s.createTemplate signedChar).1
          = if st = 0x00 then Except.ok true
            else if st = 0x0A then Except.ok false
            else if st = 0x01 then Except.error FpError.communication
            else Except.error (FpError.unknownError st))
    ∧ (∀ s : QFingerprint, s.m_serial.flushes = true →
        readPacketLoop [] s.m_serial.incoming = (Except.ok (0x07 :: st :: more), rest) →
        (s.clearDatabase signedChar).1
          = if st = 0x00 then Except.ok true
            else if st = 0x11 then Except.ok false
            else if st = 0x01 then Except.error FpError.communication
            else Except.error (FpError.unknownError st))
    ∧ (∀ (s s0 : QFingerprint) (pos count cap : Nat),
        s.getStorageCapacity signedChar = (Except.ok cap, s0) →
        pos < cap → count ≤ cap - pos → s0.m_serial.flushes = true →
        readPacketLoop [] s0.m_serial.incoming = (Except.ok (0x07 :: st :: more), rest) →
        (s.deleteTemplate signedChar pos count).1
          = if st = 0x00 then Except.ok true
            else if st = 0x10 then Except.ok false
            else if st = 0x01 then Except.error FpError.communication
            else if st = 0x0B then Except.error FpError.invalidPosition
            else Except.error (FpError.unknownError st)) := by
  refine ⟨?_, ?_, ?_⟩
  · intro s hf hr
    rw [createTemplate_result signedChar s _ rest hf hr]
    simp only [List.getD_cons_zero, List.drop_succ_cons, List.drop_zero, ne_eq,
      FINGERPRINT_ACKPACKET, not_true_eq_false, if_false, FINGERPRINT_OK,
      FINGERPRINT_ERROR_COMMUNICATION, FINGERPRINT_ERROR_CHARACTERISTICSMISMATCH]
    exact soft_chain st 0x0A _ (by decide)
  · intro s hf hr
    rw [clearDatabase_result signedChar s _ rest hf hr]
    simp only [List.getD_cons_zero, List.drop_succ_cons, List.drop_zero, ne_eq,
      FINGERPRINT_ACKPACKET, not_true_eq_false, if_false, FINGERPRINT_OK,
      FINGERPRINT_ERROR_COMMUNICATION, FINGERPRINT_ERROR_CLEARDATABASE]
    exact soft_chain st 0x11 _ (by decide)
  · intro s s0 pos count cap hcap hpos hcount hf hr
    rw [deleteTemplate_result signedChar s s0 pos count cap _ rest hcap hpos hcount hf hr]
    simp only [List.getD_cons_zero, List.drop_succ_cons, List.drop_zero, ne_eq,
      FINGERPRINT_ACKPACKET, not_true_eq_false, if_false, FINGERPRINT_OK,
      FINGERPRINT_ERROR_COMMUNICATION, FINGERPRINT_ERROR_INVALIDPOSITION,
      FINGERPRINT_ERROR_DELETETEMPLATE]
    by_cases h0 : st = 0
    · simp [h0]
    · by_cases h10 : st = 0x10
      · simp [h10]
      · by_cases h1 : st = 1
        · simp [h1]
        · by_cases hb : st = 0x0B
          · simp [hb]
          · simp [h0, h10, h1, hb]

/-- Witness of C21: `createTemplate` answered with the status `0A`, `clearDatabase` answered
with `11`, and `deleteTemplate(5, 1)` on a sensor of capacity 1000 answered with `10`, all
return `false`. -/
theorem soft_failures_witness :
    ((sessionWith 0xFFFFFFFF 0 (specFrame 0xFFFFFFFF 0x07 [0x0A])).createTemplate true).1
      = Except.ok false
    ∧ ((sessionWith 0xFFFFFFFF 0 (specFrame 0xFFFFFFFF 0x07 [0x11])).clearDatabase true).1
      = Except.ok false
    ∧ ((sessionWith 0xFFFFFFFF 0
        (specFrame 0xFFFFFFFF 0x07 [0x00, 0, 0, 0, 0, 0x03, 0xE8, 0, 5, 0, 0, 0, 0, 0, 3, 0, 6]
          ++ specFrame 0xFFFFFFFF 0x07 [0x10])).deleteTemplate true 5 1).1
      = Except.ok false :=
  ⟨(soft_failures true 0x0A [] []).1
      (sessionWith 0xFFFFFFFF 0 (specFrame 0xFFFFFFFF 0x07 [0x0A])) rfl (by decide),
   (soft_failures true 0x11 [] []).2.1
      (sessionWith 0xFFFFFFFF 0 (specFrame 0xFFFFFFFF 0x07 [0x11])) rfl (by decide),
   (soft_failures true 0x10 [] []).2.2
      (sessionWith 0xFFFFFFFF 0
        (specFrame 0xFFFFFFFF 0x07 [0x00, 0, 0, 0, 0, 0x03, 0xE8, 0, 5, 0, 0, 0, 0, 0, 3, 0, 6]
          ++ specFrame 0xFFFFFFFF 0x07 [0x10]))
      ((sessionWith 0xFFFFFFFF 0
        (specFrame 0xFFFFFFFF 0x07 [0x00, 0, 0, 0, 0, 0x03, 0xE8, 0, 5, 0, 0, 0, 0, 0, 3, 0, 6]
          ++ specFrame 0xFFFFFFFF 0x07 [0x10])).getStorageCapacity true).2
      5 1 1000 (by decide) (by decide) (by decide) (by decide) (by decide)⟩

/-! ## `compareCharacteristics` (C22) -/

/-- C22 (evaluation at the failing input).  An ACK with the status byte `08` (characteristics
do not match) makes `compareCharacteristics` throw "Unknown error 0x08": its soft-failure
branch tests the status against `FINGERPRINT_ERROR_CLEARDATABASE` (`0x11`), so it is the status
`11` that returns the score 0.  A status `00` with the bytes `01 2C` returns the score 300. -/
theorem compareCharacteristics_wrong_constant :
    ((sessionWith 0xFFFFFFFF 0
        [0xEF, 0x01, 0xFF, 0xFF, 0xFF, 0xFF, 0x07, 0x00, 0x03, 0x08, 0x00, 0x12]).compareCharacteristics
      true).1 = Except.error (FpError.unknownError 0x08)
    ∧ ((sessionWith 0xFFFFFFFF 0
        [0xEF, 0x01, 0xFF, 0xFF, 0xFF, 0xFF, 0x07, 0x00, 0x03, 0x08, 0x00, 0x12]).compareCharacteristics
      false).1 = Except.error (FpError.unknownError 0x08)
    ∧ ((sessionWith 0xFFFFFFFF 0
        [0xEF, 0x01, 0xFF, 0xFF, 0xFF, 0xFF, 0x07, 0x00, 0x03, 0x11, 0x00, 0x1B]).compareCharacteristics
      true).1 = Except.ok 0
    ∧ ((sessionWith 0xFFFFFFFF 0
        (specFrame 0xFFFFFFFF 0x07 [0x00, 0x01, 0x2C])).compareCharacteristics true).1
      = Except.ok 300
    ∧ FINGERPRINT_ERROR_CLEARDATABASE = 0x11 ∧ FINGERPRINT_ERROR_NOTMATCHING = 0x08 := by
  decide

/-! ## `deleteTemplate` validation (C26) -/

/-- The capacity query leaves the stored address as it was. -/
theorem getSystemParameters_address (signedChar : Bool) (s : QFingerprint) :
    (s.getSystemParameters signedChar).2.m_address = s.m_address := by
  unfold QFingerprint.getSystemParameters QFingerprint.writePacket QFingerprint.readPacket
  by_cases hf : s.m_serial.flushes = true
  · rcases hr : readPacketLoop [] s.m_serial.incoming with ⟨r, rest⟩
    cases r with
    | error e => simp only [hf, if_true, hr]
    | ok pkt =>
      simp only [hf, if_true, hr]
      split_ifs <;> rfl
  · simp only [hf]
    rfl

theorem getStorageCapacity_address (signedChar : Bool) (s : QFingerprint) :
    (s.getStorageCapacity signedChar).2.m_address = s.m_address := by
  have h := getSystemParameters_address signedChar s
  unfold QFingerprint.getStorageCapacity
  rcases hg : s.getSystemParameters signedChar with ⟨r, s1⟩
  rw [hg] at h
  cases r <;> exact h

/-- C26.  `deleteTemplate(position, count)` first queries the capacity.  With the capacity
`cap` returned, it appends the delete request (CMD, payload `0C`, position big-endian, count
big-endian) to the bytes written if and only if `position < cap` and
`count ≤ cap - position`; otherwise it fails with "The given position number is invalid!" or
"The given count is invalid!" and the session is the one the capacity query left: no delete
request is sent. -/
theorem deleteTemplate_validation (signedChar : Bool) (s s0 : QFingerprint)
    (pos count cap : Nat)
    (hcap : s.getStorageCapacity signedChar = (Except.ok cap, s0)) :
    ((s.deleteTemplate signedChar pos count).2.m_serial.written
        = s0.m_serial.written ++ writePacketData signedChar s.m_address 0x01
            [0x0C, pos / 2 ^ 8 % 256, pos % 256, count / 2 ^ 8 % 256, count % 256]
      ↔ (pos < cap ∧ count ≤ cap - pos))
    ∧ (¬ (pos < cap ∧ count ≤ cap - pos) →
        ((s.deleteTemplate signedChar pos count).1 = Except.error FpError.invalidPositionNumber
          ∨ (s.deleteTemplate signedChar pos count).1 = Except.error FpError.invalidCount)
        ∧ (s.deleteTemplate signedChar pos count).2 = s0) := by
  have haddr : s0.m_address = s.m_address := by
    have h := getStorageCapacity_address signedChar s
    rw [hcap] at h
    exact h
  have hpay : ([FINGERPRINT_DELETETEMPLATE, rightShift pos 8, rightShift pos 0,
      rightShift count 8, rightShift count 0] : List Nat)
      = [0x0C, pos / 2 ^ 8 % 256, pos % 256, count / 2 ^ 8 % 256, count % 256] := by
    simp [rightShift_eq, FINGERPRINT_DELETETEMPLATE]
  by_cases hv : pos < cap ∧ count ≤ cap - pos
  · have hw := deleteTemplate_written signedChar s s0 pos count cap hcap hv.1 hv.2
    rw [hpay, haddr] at hw
    exact ⟨⟨fun _ => hv, fun _ => hw⟩, fun h => absurd hv h⟩
  · have hrej := deleteTemplate_rejected signedChar s s0 pos count cap hcap hv
    refine ⟨⟨fun h => ?_, fun h => absurd h hv⟩, fun _ => ?_⟩
    · exfalso
      have hlen := congrArg List.length h
      rw [List.length_append, writePacketData_eq] at hlen
      rcases hrej with hrej | hrej <;> rw [hrej] at hlen <;> simp at hlen
    · rcases hrej with hrej | hrej <;> rw [hrej] <;> simp

/-- Witness of C26: on a sensor of capacity 1000, `deleteTemplate(5, 1)` sends
`EF 01 FF FF FF FF 01 00 07 0C 00 05 00 01 00 1A` after the capacity query, and
`deleteTemplate(1000, 1)` is rejected. -/
theorem deleteTemplate_validation_witness :
    ((sessionWith 0xFFFFFFFF 0
        (specFrame 0xFFFFFFFF 0x07
          [0x00, 0, 0, 0, 0, 0x03, 0xE8, 0, 5, 0, 0, 0, 0, 0, 3, 0, 6])).deleteTemplate
      true 5 1).2.m_serial.written
      = [0xEF, 0x01, 0xFF, 0xFF, 0xFF, 0xFF, 0x01, 0x00, 0x03, 0x0F, 0x00, 0x13]
        ++ writePacketData true 0xFFFFFFFF 0x01 [0x0C, 5 / 2 ^ 8 % 256, 5 % 256,
            1 / 2 ^ 8 % 256, 1 % 256]
    ∧ ((sessionWith 0xFFFFFFFF 0
        (specFrame 0xFFFFFFFF 0x07
          [0x00, 0, 0, 0, 0, 0x03, 0xE8, 0, 5, 0, 0, 0, 0, 0, 3, 0, 6])).deleteTemplate
      true 1000 1).1 = Except.error FpError.invalidPositionNumber :=
  have h1 := deleteTemplate_validation true
    (sessionWith 0xFFFFFFFF 0
      (specFrame 0xFFFFFFFF 0x07 [0x00, 0, 0, 0, 0, 0x03, 0xE8, 0, 5, 0, 0, 0, 0, 0, 3, 0, 6]))
    ((sessionWith 0xFFFFFFFF 0
      (specFrame 0xFFFFFFFF 0x07
        [0x00, 0, 0, 0, 0, 0x03, 0xE8, 0, 5, 0, 0, 0, 0, 0, 3, 0, 6])).getStorageCapacity true).2
    5 1 1000 (by decide)
  ⟨h1.1.mpr (by decide), by decide⟩

/-! ## `searchTemplate` (C23) -/

/-- The result of `searchTemplate` from the state `s0` in which the request is written (the
session itself when `count > 0`, the state after the capacity query otherwise), once the
request is flushed and `readPacket` has returned the packet `pkt`. -/
theorem searchTemplate_result (signedChar : Bool) (s s0 : QFingerprint) (buf start : Nat)
    (count : Int) (pkt rest : List Nat)
    (hbuf : buf = 1 ∨ buf = 2)
    (hpre : (0 < count ∧ s0 = s)
      ∨ (count ≤ 0 ∧ ∃ cap, s.getStorageCapacity signedChar = (Except.ok cap, s0)))
    (hf : s0.m_serial.flushes = true)
    (hr : readPacketLoop [] s0.m_serial.incoming = (Except.ok pkt, rest)) :
    (s.searchTemplate signedChar buf start count).1
      = if pkt.getD 0 0 ≠ FINGERPRINT_ACKPACKET then Except.error FpError.notAck
        else if (pkt.drop 1).getD 0 0 = FINGERPRINT_OK then
          Except.ok
            [toInt16 (((leftShift ((pkt.drop 1).getD 1 0) 8 % 65536
                ||| leftShift ((pkt.drop 1).getD 2 0) 0) % 65536 : Nat) : Int),
             toInt16 (((leftShift ((pkt.drop 1).getD 3 0) 8 % 65536
                ||| leftShift ((pkt.drop 1).getD 4 0) 0) % 65536 : Nat) : Int)]
        else if (pkt.drop 1).getD 0 0 = FINGERPRINT_ERROR_COMMUNICATION then
          Except.error FpError.communication
        else if (pkt.drop 1).getD 0 0 = FINGERPRINT_ERROR_NOTEMPLATEFOUND then
          Except.ok [-1, -1]
        else Except.error (FpError.unknownError ((pkt.drop 1).getD 0 0)) := by
  have hb : ¬ (buf ≠ FINGERPRINT_CHARBUFFER1 ∧ buf ≠ FINGERPRINT_CHARBUFFER2) := by
    unfold FINGERPRINT_CHARBUFFER1 FINGERPRINT_CHARBUFFER2
    omega
  unfold QFingerprint.searchTemplate
  rw [if_neg hb]
  rcases hpre with ⟨hc, rfl⟩ | ⟨hc, cap, hcap⟩
  · have hc2 : count > 0 := hc
    unfold QFingerprint.writePacket QFingerprint.readPacket
    simp only [hc2, if_true, hf, hr]
    split_ifs <;> rfl
  · have hc2 : ¬ (count > 0) := by omega
    unfold QFingerprint.writePacket QFingerprint.readPacket
    simp only [hc2, if_false, hcap, hf, if_true, hr]
    split_ifs <;> rfl

/-- Two payload bytes combined as `searchTemplate`, `compareCharacteristics` and
`getTemplateCount` combine them into a `quint16`. -/
theorem be16_two_steps (b1 b2 : Nat) (hb1 : b1 < 256) (hb2 : b2 < 256) :
    (leftShift b1 8 % 65536 ||| leftShift b2 0) % 65536 = 256 * b1 + b2 := by
  have h8 : leftShift b1 8 % 65536 = leftShift b1 8 := by
    have := leftShift_or_bytes b1 0 hb1 (by norm_num)
    have h0 : leftShift 0 0 = 0 := by decide
    rw [h0, Nat.or_zero] at this
    rw [this]; omega
  rw [h8, leftShift_or_bytes b1 b2 hb1 hb2]
  omega

theorem toInt16_of_lt (v : Nat) (h : v < 32768) : toInt16 (v : Int) = (v : Int) := by
  unfold toInt16
  omega

/-- C23 (counterexample).  The ACK payload `00 80 00 00 64` carries the position
`256 * 0x80 + 0x00 = 32768` and the score 100: `searchTemplate` returns the position `-32768`,
because the result is a list of `qint16`. -/
theorem searchTemplate_position_wraps :
    ((sessionWith 0xFFFFFFFF 0
        (specFrame 0xFFFFFFFF 0x07 [0x00, 0x80, 0x00, 0x00, 0x64])).searchTemplate
      true 1 0 5).1 = Except.ok [-32768, 100]
    ∧ ((sessionWith 0xFFFFFFFF 0
        (specFrame 0xFFFFFFFF 0x07 [0x00, 0x80, 0x00, 0x00, 0x64])).searchTemplate
      false 1 0 5).1 = Except.ok [-32768, 100]
    ∧ 256 * 0x80 + 0x00 = 32768 := by
  decide

/-- C23 (amended).  For every ACK payload `00 b1 b2 b3 b4 ...` with `b1 < 0x80` and
`b3 < 0x80` (position and score below 32768, the values a `qint16` holds), `searchTemplate`
returns the pair `(256 * b1 + b2, 256 * b3 + b4)`; for an ACK whose status byte is `0x09` it
returns `(-1, -1)` without raising an error; every other status byte is an error. -/
theorem searchTemplate_pair (signedChar : Bool) (s s0 : QFingerprint) (buf start : Nat)
    (count : Int) (st : Nat) (more rest : List Nat)
    (hbuf : buf = 1 ∨ buf = 2)
    (hpre : (0 < count ∧ s0 = s)
      ∨ (count ≤ 0 ∧ ∃ cap, s.getStorageCapacity signedChar = (Except.ok cap, s0)))
    (hf : s0.m_serial.flushes = true)
    (hr : readPacketLoop [] s0.m_serial.incoming = (Except.ok (0x07 :: st :: more), rest)) :
    (∀ b1 b2 b3 b4 tail, st = 0x00 → more = b1 :: b2 :: b3 :: b4 :: tail →
        b1 < 0x80 → b2 < 256 → b3 < 0x80 → b4 < 256 →
        (s.searchTemplate signedChar buf start count).1
          = Except.ok [((256 * b1 + b2 : Nat) : Int), ((256 * b3 + b4 : Nat) : Int)])
    ∧ (st = 0x09 → (s.searchTemplate signedChar buf start count).1 = Except.ok [-1, -1])
    ∧ (st ≠ 0x00 → st ≠ 0x09 →
        (s.searchTemplate signedChar buf start count).1
          = if st = 0x01 then Except.error FpError.communication
            else Except.error (FpError.unknownError st)) := by
  have hres := searchTemplate_result signedChar s s0 buf start count _ rest hbuf hpre hf hr
  simp only [List.getD_cons_zero, List.getD_cons_succ, List.drop_succ_cons, List.drop_zero,
    ne_eq, FINGERPRINT_ACKPACKET, not_true_eq_false, if_false, FINGERPRINT_OK,
    FINGERPRINT_ERROR_COMMUNICATION, FINGERPRINT_ERROR_NOTEMPLATEFOUND] at hres
  refine ⟨?_, ?_, ?_⟩
  · intro b1 b2 b3 b4 tail hst hmore h1 h2 h3 h4
    subst hst hmore
    rw [hres]
    simp only [if_true, List.getD_cons_zero, List.getD_cons_succ]
    rw [be16_two_steps b1 b2 (by omega) h2, be16_two_steps b3 b4 (by omega) h4,
      toInt16_of_lt _ (by omega), toInt16_of_lt _ (by omega)]
  · intro hst
    subst hst
    rw [hres]
    simp
  · intro h0 h9
    rw [hres]
    simp only [h0, h9, if_false]

/-- Witness of C23 (amended): the payload `00 00 05 00 64` gives `(5, 100)`. -/
theorem searchTemplate_pair_witness :
    ((sessionWith 0xFFFFFFFF 0
        (specFrame 0xFFFFFFFF 0x07 [0x00, 0x00, 0x05, 0x00, 0x64])).searchTemplate
      true 1 0 5).1 = Except.ok [5, 100] :=
  (searchTemplate_pair true
    (sessionWith 0xFFFFFFFF 0 (specFrame 0xFFFFFFFF 0x07 [0x00, 0x00, 0x05, 0x00, 0x64]))
    (sessionWith 0xFFFFFFFF 0 (specFrame 0xFFFFFFFF 0x07 [0x00, 0x00, 0x05, 0x00, 0x64]))
    1 0 5 0x00 [0x00, 0x05, 0x00, 0x64] [] (Or.inl rfl) (Or.inl ⟨by decide, rfl⟩) rfl
    (by decide)).1 0x00 0x05 0x00 0x64 [] rfl rfl (by decide) (by decide) (by decide)
    (by decide)

/-! ## `storeTemplate` (C24, C25) -/

/-- The position passed to `storeTemplate` plays no role: the assignment `positionNumber = -1`
in the first condition replaces it before it is read. -/
theorem storeTemplate_ignores_position (signedChar : Bool) (s : QFingerprint) (page0 p : Int)
    (buf : Nat) :
    s.storeTemplate signedChar page0 p buf = s.storeTemplate signedChar page0 (-1) buf := by
  rfl

set_option maxRecDepth 100000 in
/-- C24 (evaluation at the failing input).  `storeTemplate(5, 1)` on a sensor of capacity 1000.
When the uninitialised `page` is 4 (or more) the call throws "The given position number is
invalid!" without writing a byte.  When it is 0 the call queries page 0 (here answered with an
empty page), then the capacity, and sends the store request `06 01 00 01`, for position 1: the
requested position 5 is never sent. -/
theorem storeTemplate_overwrites_position :
    (sessionWith 0xFFFFFFFF 0
        (specFrame 0xFFFFFFFF 0x07 [0x00, 0, 0, 0, 0, 0x03, 0xE8, 0, 5, 0, 0, 0, 0, 0, 3, 0, 6]
          ++ specFrame 0xFFFFFFFF 0x07 [0x00])).storeTemplate true 4 5 1
      = (Except.error FpError.invalidPositionNumber,
         sessionWith 0xFFFFFFFF 0
          (specFrame 0xFFFFFFFF 0x07 [0x00, 0, 0, 0, 0, 0x03, 0xE8, 0, 5, 0, 0, 0, 0, 0, 3, 0, 6]
            ++ specFrame 0xFFFFFFFF 0x07 [0x00]))
    ∧ ((sessionWith 0xFFFFFFFF 0
        (specFrame 0xFFFFFFFF 0x07 ([0x00] ++ List.replicate 32 0x00)
          ++ specFrame 0xFFFFFFFF 0x07
              [0x00, 0, 0, 0, 0, 0x03, 0xE8, 0, 5, 0, 0, 0, 0, 0, 3, 0, 6]
          ++ specFrame 0xFFFFFFFF 0x07 [0x00])).storeTemplate true 0 5 1).1 = Except.ok 1
    ∧ ((sessionWith 0xFFFFFFFF 0
        (specFrame 0xFFFFFFFF 0x07 ([0x00] ++ List.replicate 32 0x00)
          ++ specFrame 0xFFFFFFFF 0x07
              [0x00, 0, 0, 0, 0, 0x03, 0xE8, 0, 5, 0, 0, 0, 0, 0, 3, 0, 6]
          ++ specFrame 0xFFFFFFFF 0x07 [0x00])).storeTemplate true 0 5 1).2.m_serial.written
      = specFrame 0xFFFFFFFF 0x01 [0x1F, 0x00] ++ specFrame 0xFFFFFFFF 0x01 [0x0F]
          ++ specFrame 0xFFFFFFFF 0x01 [0x06, 0x01, 0x00, 0x01] := by
  decide

set_option maxRecDepth 100000 in
/-- C25 (evaluation at the failing input).  `storeTemplate(-1, 1)` with `page` starting at 0,
on a sensor whose page 0 is full (32 bytes `FF`) and whose capacity is 1000.  The index
`getTemplateIndex` returns for the full page has bit 0 clear, so the scan stops at page 0 with
slot 0: the call queries no further page and sends the store request `06 01 00 00`, for the
occupied slot 0.  When `page` starts at 4 nothing is scanned and the call fails. -/
theorem storeTemplate_scan_picks_slot_zero :
    ((sessionWith 0xFFFFFFFF 0
        (specFrame 0xFFFFFFFF 0x07 ([0x00] ++ List.replicate 32 0xFF)
          ++ specFrame 0xFFFFFFFF 0x07
              [0x00, 0, 0, 0, 0, 0x03, 0xE8, 0, 5, 0, 0, 0, 0, 0, 3, 0, 6]
          ++ specFrame 0xFFFFFFFF 0x07 [0x00])).storeTemplate true 0 (-1) 1).1 = Except.ok 0
    ∧ ((sessionWith 0xFFFFFFFF 0
        (specFrame 0xFFFFFFFF 0x07 ([0x00] ++ List.replicate 32 0xFF)
          ++ specFrame 0xFFFFFFFF 0x07
              [0x00, 0, 0, 0, 0, 0x03, 0xE8, 0, 5, 0, 0, 0, 0, 0, 3, 0, 6]
          ++ specFrame 0xFFFFFFFF 0x07 [0x00])).storeTemplate true 0 (-1) 1).2.m_serial.written
      = specFrame 0xFFFFFFFF 0x01 [0x1F, 0x00] ++ specFrame 0xFFFFFFFF 0x01 [0x0F]
          ++ specFrame 0xFFFFFFFF 0x01 [0x06, 0x01, 0x00, 0x00]
    ∧ ((sessionWith 0xFFFFFFFF 0
        (specFrame 0xFFFFFFFF 0x07 ([0x00] ++ List.replicate 32 0xFF)
          ++ specFrame 0xFFFFFFFF 0x07
              [0x00, 0, 0, 0, 0, 0x03, 0xE8, 0, 5, 0, 0, 0, 0, 0, 3, 0, 6]
          ++ specFrame 0xFFFFFFFF 0x07 [0x00])).storeTemplate true 4 (-1) 1).1
      = Except.error FpError.invalidPositionNumber := by
  decide

/-! ## `uploadCharacteristics` (C27, C28) -/

set_option maxRecDepth 100000 in
/-- C27 (evaluation at the failing inputs), maximum packet size 32.  For 40 bytes
`packetNbr = 40 / 32 = 1`, so the data goes out as one END_DATA frame with a payload of 40
bytes, more than 32.  For 96 bytes the frames are DATA with an empty payload (first offset
`(0 - 1) * 32`), DATA with bytes 0..31, DATA with the 64 bytes 32..95 (`mid` takes the end
offset as a length) and END_DATA with bytes 64..95: one payload exceeds 32 bytes and the
payloads concatenated are 128 bytes, not the 96 bytes of the data. -/
theorem uploadData_chunks_wrong :
    (uploadData true (sessionWith 0xFFFFFFFF 0 []) 32 (List.range 40)).2.m_serial.written
      = specFrame 0xFFFFFFFF 0x08 (List.range 40)
    ∧ (uploadData true (sessionWith 0xFFFFFFFF 0 []) 32 (List.range 96)).2.m_serial.written
      = [0xEF, 0x01, 0xFF, 0xFF, 0xFF, 0xFF, 0x02, 0x00, 0x02, 0x00, 0x04]
        ++ specFrame 0xFFFFFFFF 0x02 (List.range 32)
        ++ specFrame 0xFFFFFFFF 0x02 ((List.range 96).drop 32)
        ++ specFrame 0xFFFFFFFF 0x08 ((List.range 96).drop 64)
    ∧ ((List.range 96).drop 32).length = 64
    ∧ ([] ++ List.range 32 ++ (List.range 96).drop 32 ++ (List.range 96).drop 64).length = 128
    ∧ ((sessionWith 0xFFFFFFFF 0
        (specFrame 0xFFFFFFFF 0x07 [0x00, 0, 0, 0, 0, 0x03, 0xE8, 0, 5, 0, 0, 0, 0, 0, 0, 0, 6]
          ++ specFrame 0xFFFFFFFF 0x07 [0x00])).uploadCharacteristics true 1
            (List.range 40)).2.m_serial.written
      = specFrame 0xFFFFFFFF 0x01 [0x0F] ++ specFrame 0xFFFFFFFF 0x01 [0x09, 0x01]
        ++ specFrame 0xFFFFFFFF 0x08 (List.range 40)
        ++ specFrame 0xFFFFFFFF 0x01 [0x08, 0x01] := by
  decide

theorem getMaxPacketSize_address (signedChar : Bool) (s : QFingerprint) :
    (s.getMaxPacketSize signedChar).2.m_address = s.m_address := by
  have h := getSystemParameters_address signedChar s
  unfold QFingerprint.getMaxPacketSize
  rcases hg : s.getSystemParameters signedChar with ⟨r, s1⟩
  rw [hg] at h
  cases r with
  | error e => exact h
  | ok P =>
    simp only
    split_ifs <;> exact h

/-- The `while` loop of `downloadCharacteristics` only reads. -/
theorem downloadCharacteristicsLoop_written (fuel : Nat) :
    ∀ (s : QFingerprint) (t : Nat) (acc : List Nat),
      (downloadCharacteristicsLoop fuel s t acc).2.m_serial.written = s.m_serial.written := by
  induction fuel with
  | zero => intro s t acc; rfl
  | succ n ih =>
    intro s t acc
    rw [downloadCharacteristicsLoop]
    by_cases ht : t ≠ FINGERPRINT_ENDDATAPACKET
    · rw [if_pos ht]
      unfold QFingerprint.readPacket
      rcases hr : readPacketLoop [] s.m_serial.incoming with ⟨r, rest⟩
      cases r with
      | error e => rfl
      | ok pkt =>
        simp only
        split_ifs
        · rfl
        · rw [ih]
    · rw [if_neg ht]

/-- With a valid buffer number `downloadCharacteristics` writes its request and nothing else. -/
theorem downloadCharacteristics_written (signedChar : Bool) (s : QFingerprint) (buf : Nat)
    (hbuf : buf = 1 ∨ buf = 2) :
    (s.downloadCharacteristics signedChar buf).2.m_serial.written
      = s.m_serial.written ++ writePacketData signedChar s.m_address FINGERPRINT_COMMANDPACKET
          [FINGERPRINT_DOWNLOADCHARACTERISTICS, buf] := by
  have hb : ¬ (buf ≠ FINGERPRINT_CHARBUFFER1 ∧ buf ≠ FINGERPRINT_CHARBUFFER2) := by
    unfold FINGERPRINT_CHARBUFFER1 FINGERPRINT_CHARBUFFER2
    omega
  unfold QFingerprint.downloadCharacteristics QFingerprint.writePacket QFingerprint.readPacket
  rw [if_neg hb]
  by_cases hf : s.m_serial.flushes = true
  · rcases hr : readPacketLoop [] s.m_serial.incoming with ⟨r, rest⟩
    cases r with
    | error e => simp only [hf, if_true, hr]
    | ok pkt =>
      simp only [hf, if_true, hr]
      split_ifs
      · rfl
      · rw [downloadCharacteristicsLoop_written]
      · rfl
      · rfl
      · rfl
  · simp only [hf]
    rfl

/-- Data of at most `maxPacketSize` bytes (indeed of fewer than twice as many) leave as one
`writePacket` call of type END_DATA. -/
theorem uploadData_small (signedChar : Bool) (s : QFingerprint) (m : Nat) (d : List Nat)
    (h : d.length ≤ m) :
    uploadData signedChar s m d = s.writePacket signedChar FINGERPRINT_ENDDATAPACKET d := by
  have hq : d.length / m ≤ 1 := by
    rcases Nat.eq_zero_or_pos m with hm | hm
    · subst hm; simp
    · exact (Nat.div_le_iff_le_mul_add_pred hm).mpr (by omega)
  have hq2 : (d.length / m) % 65536 ≤ 1 := le_trans (Nat.mod_le _ _) hq
  unfold uploadData
  simp only [hq2, if_true]

/-- C28 (counterexample).  The one-byte sequence `00` fits every packet size, but
`uploadCharacteristics` takes it for its default argument and throws "The characteristics data
required!" before anything is written. -/
theorem uploadCharacteristics_rejects_zero_byte :
    (sessionWith 0xFFFFFFFF 0
        (specFrame 0xFFFFFFFF 0x07 [0x00, 0, 0, 0, 0, 0x03, 0xE8, 0, 5, 0, 0, 0, 0, 0, 0, 0, 6]
          ++ specFrame 0xFFFFFFFF 0x07 [0x00])).uploadCharacteristics true 1 [0x00]
      = (Except.error FpError.dataRequired,
         sessionWith 0xFFFFFFFF 0
          (specFrame 0xFFFFFFFF 0x07 [0x00, 0, 0, 0, 0, 0x03, 0xE8, 0, 5, 0, 0, 0, 0, 0, 0, 0, 6]
            ++ specFrame 0xFFFFFFFF 0x07 [0x00])) := by
  decide

/-- C28 (amended).  For every byte sequence `d` other than the single byte `00`, with
`|d| ≤ m` where `m` is the maximum packet size `getMaxPacketSize` has returned (leaving the
session `s0`), and with the upload command flushed and answered by an ACK with status OK:
after the command frame `09 buf`, `uploadCharacteristics` writes exactly one data frame, the
`writePacket` frame of type END_DATA (`0x08`) with payload `d`, and no DATA frame; the only
frame that follows is the command `08 buf` of the verifying download. -/
theorem uploadCharacteristics_single_frame (signedChar : Bool) (s s0 : QFingerprint)
    (buf m : Nat) (d more rest : List Nat)
    (hbuf : buf = 1 ∨ buf = 2) (hd : d ≠ [0])
    (hmax : s.getMaxPacketSize signedChar = (Except.ok m, s0))
    (hf : s0.m_serial.flushes = true)
    (hr : readPacketLoop [] s0.m_serial.incoming = (Except.ok (0x07 :: 0x00 :: more), rest))
    (hlen : d.length ≤ m) :
    (s.uploadCharacteristics signedChar buf d).2.m_serial.written
        = s0.m_serial.written ++ writePacketData signedChar s.m_address 0x01 [0x09, buf]
          ++ writePacketData signedChar s.m_address 0x08 d
          ++ writePacketData signedChar s.m_address 0x01 [0x08, buf]
      ∧ (writePacketData signedChar s.m_address 0x08 d).getD 6 0 = 0x08
      ∧ ((writePacketData signedChar s.m_address 0x08 d).drop 9).take d.length = d := by
  have haddr : s0.m_address = s.m_address := by
    have h := getMaxPacketSize_address signedChar s
    rw [hmax] at h
    exact h
  have hb : ¬ (buf ≠ FINGERPRINT_CHARBUFFER1 ∧ buf ≠ FINGERPRINT_CHARBUFFER2) := by
    unfold FINGERPRINT_CHARBUFFER1 FINGERPRINT_CHARBUFFER2
    omega
  refine ⟨?_, ?_, ?_⟩
  · unfold QFingerprint.uploadCharacteristics
    rw [if_neg hb, if_neg hd]
    simp only [hmax, uploadData_small signedChar _ m d hlen]
    unfold QFingerprint.writePacket QFingerprint.readPacket
    simp only [hf, if_true, hr, List.getD_cons_zero, List.drop_succ_cons, List.drop_zero, ne_eq,
      FINGERPRINT_ACKPACKET, not_true_eq_false, if_false, FINGERPRINT_OK]
    rcases hdl : QFingerprint.downloadCharacteristics signedChar
      { m_address := s0.m_address, m_password := s0.m_password, m_timeout := s0.m_timeout,
        m_serial :=
          { incoming := rest,
            written := s0.m_serial.written
              ++ writePacketData signedChar s0.m_address FINGERPRINT_COMMANDPACKET
                  [FINGERPRINT_UPLOADCHARACTERISTICS, buf]
              ++ writePacketData signedChar s0.m_address FINGERPRINT_ENDDATAPACKET d,
            flushes := true } } buf with ⟨r, s4⟩
    have hw := downloadCharacteristics_written signedChar
      { m_address := s0.m_address, m_password := s0.m_password, m_timeout := s0.m_timeout,
        m_serial :=
          { incoming := rest,
            written := s0.m_serial.written
              ++ writePacketData signedChar s0.m_address FINGERPRINT_COMMANDPACKET
                  [FINGERPRINT_UPLOADCHARACTERISTICS, buf]
              ++ writePacketData signedChar s0.m_address FINGERPRINT_ENDDATAPACKET d,
            flushes := true } } buf hbuf
    rw [hdl] at hw
    simp only at hw
    rw [haddr] at hw
    cases r <;> exact hw
  · rw [writePacketData_eq]; rfl
  · rw [writePacketData_eq]
    simp

/-- Witness of C28 (amended): three bytes with the maximum packet size 32. -/
theorem uploadCharacteristics_single_frame_witness :
    ((sessionWith 0xFFFFFFFF 0
        (specFrame 0xFFFFFFFF 0x07 [0x00, 0, 0, 0, 0, 0x03, 0xE8, 0, 5, 0, 0, 0, 0, 0, 0, 0, 6]
          ++ specFrame 0xFFFFFFFF 0x07 [0x00])).uploadCharacteristics true 1
            [0x0A, 0x0B, 0x0C]).2.m_serial.written
      = specFrame 0xFFFFFFFF 0x01 [0x0F] ++ writePacketData true 0xFFFFFFFF 0x01 [0x09, 1]
        ++ writePacketData true 0xFFFFFFFF 0x08 [0x0A, 0x0B, 0x0C]
        ++ writePacketData true 0xFFFFFFFF 0x01 [0x08, 1] :=
  (uploadCharacteristics_single_frame true
    (sessionWith 0xFFFFFFFF 0
      (specFrame 0xFFFFFFFF 0x07 [0x00, 0, 0, 0, 0, 0x03, 0xE8, 0, 5, 0, 0, 0, 0, 0, 0, 0, 6]
        ++ specFrame 0xFFFFFFFF 0x07 [0x00]))
    ((sessionWith 0xFFFFFFFF 0
      (specFrame 0xFFFFFFFF 0x07 [0x00, 0, 0, 0, 0, 0x03, 0xE8, 0, 5, 0, 0, 0, 0, 0, 0, 0, 6]
        ++ specFrame 0xFFFFFFFF 0x07 [0x00])).getMaxPacketSize true).2
    1 32 [0x0A, 0x0B, 0x0C] [] [] (Or.inl rfl) (by decide) (by decide) (by decide)
    (by decide) (by decide)).1

/-- A `readPacket` that returns a packet has consumed at least twelve bytes. -/
theorem readPacketLoop_consumes (s rest pkt : List Nat)
    (h : readPacketLoop [] s = (Except.ok pkt, rest)) : rest.length + 12 ≤ s.length := by
  rw [readPacketLoop_nil] at h
  unfold decodeStream at h
  split_ifs at h with h1 h2 h3
  · simp at h
  · simp at h
  · simp at h
  · have hr : rest = s.drop (max 12 (lengthField s + 9)) := by
      have := congrArg Prod.snd h
      exact this.symm
    rw [hr, List.length_drop]
    have : 12 ≤ max 12 (lengthField s + 9) := le_max_left _ _
    have : max 12 (lengthField s + 9) ≤ s.length := by
      apply max_le <;> omega
    omega

theorem readPackets_succ (n : Nat) (s : List Nat) (pkt : List Nat) (pkts : List (List Nat))
    (rest : List Nat) (h : readPackets (n + 1) s = some (pkt :: pkts, rest)) :
    ∃ s1, readPacketLoop [] s = (Except.ok pkt, s1) ∧ readPackets n s1 = some (pkts, rest) := by
  rw [readPackets] at h
  rcases hr : readPacketLoop [] s with ⟨r, s1⟩
  rw [hr] at h
  cases r with
  | error e => simp at h
  | ok p =>
    simp only at h
    cases hq : readPackets n s1 with
    | none => rw [hq] at h; simp at h
    | some ab =>
      rw [hq] at h
      simp only [Option.map_some', Option.some.injEq, Prod.mk.injEq, List.cons.injEq] at h
      obtain ⟨⟨hp, ha⟩, hb⟩ := h
      subst hp
      refine ⟨s1, rfl, ?_⟩
      rw [← ha, ← hb]
      exact hq

/-- The `while` loop of `downloadCharacteristics` on a stream from which `readPacket` returns
the packets `pkts`, all of type DATA, and then the packet `last`. -/
theorem downloadCharacteristicsLoop_packets (pkts : List (List Nat)) (last rest : List Nat) :
    ∀ (fuel : Nat) (s : QFingerprint) (t : Nat) (acc : List Nat),
      t ≠ FINGERPRINT_ENDDATAPACKET →
      s.m_serial.incoming.length < fuel →
      readPackets (pkts.length + 1) s.m_serial.incoming = some (pkts ++ [last], rest) →
      (∀ p ∈ pkts, p.getD 0 0 = FINGERPRINT_DATAPACKET) →
      (last.getD 0 0 = FINGERPRINT_ENDDATAPACKET →
        downloadCharacteristicsLoop fuel s t acc
          = (Except.ok (acc ++ ((pkts ++ [last]).map (List.drop 1)).flatten),
             { s with m_serial := { s.m_serial with incoming := rest } }))
      ∧ (last.getD 0 0 ≠ FINGERPRINT_DATAPACKET → last.getD 0 0 ≠ FINGERPRINT_ENDDATAPACKET →
        downloadCharacteristicsLoop fuel s t acc
          = (Except.error FpError.notDataPacket,
             { s with m_serial := { s.m_serial with incoming := rest } })) := by
  induction pkts with
  | nil =>
    intro fuel s t acc ht hfuel hread _
    obtain ⟨s1, hr, h0⟩ := readPackets_succ 0 s.m_serial.incoming last [] rest hread
    simp only [readPackets, Option.some.injEq, Prod.mk.injEq, true_and] at h0
    subst h0
    have hc := readPacketLoop_consumes _ _ _ hr
    obtain ⟨f, rfl⟩ : ∃ f, fuel = f + 1 := ⟨fuel - 1, by omega⟩
    obtain ⟨g, rfl⟩ : ∃ g, f = g + 1 := ⟨f - 1, by omega⟩
    constructor
    · intro hlast
      rw [downloadCharacteristicsLoop, if_pos ht]
      unfold QFingerprint.readPacket
      simp only [hr, hlast, ne_eq, not_true_eq_false, and_false, if_false]
      rw [downloadCharacteristicsLoop]
      simp
    · intro h2 h8
      rw [downloadCharacteristicsLoop, if_pos ht]
      unfold QFingerprint.readPacket
      simp only [hr, ne_eq, h2, h8, not_false_eq_true, and_self, if_true]
  | cons pkt pkts ih =>
    intro fuel s t acc ht hfuel hread hdata
    obtain ⟨s1, hr, hrest⟩ := readPackets_succ (pkts.length + 1) s.m_serial.incoming pkt
      (pkts ++ [last]) rest hread
    have hc := readPacketLoop_consumes _ _ _ hr
    obtain ⟨f, rfl⟩ : ∃ f, fuel = f + 1 := ⟨fuel - 1, by omega⟩
    have hpd : pkt.getD 0 0 = FINGERPRINT_DATAPACKET := hdata pkt (List.mem_cons_self _ _)
    have hne : FINGERPRINT_DATAPACKET ≠ FINGERPRINT_ENDDATAPACKET := by decide
    have hstep : ∀ acc, downloadCharacteristicsLoop (f + 1) s t acc
        = downloadCharacteristicsLoop f
            { s with m_serial := { s.m_serial with incoming := s1 } } FINGERPRINT_DATAPACKET
            (acc ++ pkt.drop 1) := by
      intro acc
      rw [downloadCharacteristicsLoop, if_pos ht]
      unfold QFingerprint.readPacket
      simp only [hr, hpd, ne_eq, not_true_eq_false, false_and, if_false]
    have h := ih f { s with m_serial := { s.m_serial with incoming := s1 } }
      FINGERPRINT_DATAPACKET (acc ++ pkt.drop 1) hne (by simp only; omega) hrest
      (fun p hp => hdata p (List.mem_cons_of_mem _ hp))
    rw [hstep]
    constructor
    · intro hlast
      rw [(h.1 hlast)]
      simp [List.append_assoc]
    · intro h2 h8
      rw [(h.2 h2 h8)]

/-- With a valid buffer number, the request flushed and an ACK with status OK read,
`downloadCharacteristics` is its `while` loop, entered with the type of the ACK. -/
theorem downloadCharacteristics_enters_loop (signedChar : Bool) (s : QFingerprint) (buf : Nat)
    (more s1 : List Nat) (hbuf : buf = 1 ∨ buf = 2) (hf : s.m_serial.flushes = true)
    (hack : readPacketLoop [] s.m_serial.incoming = (Except.ok (0x07 :: 0x00 :: more), s1)) :
    s.downloadCharacteristics signedChar buf
      = downloadCharacteristicsLoop (s1.length + 1)
          { s with m_serial :=
            { incoming := s1,
              written := s.m_serial.written
                ++ writePacketData signedChar s.m_address FINGERPRINT_COMMANDPACKET
                    [FINGERPRINT_DOWNLOADCHARACTERISTICS, buf],
              flushes := s.m_serial.flushes } } 0x07 [] := by
  have hb : ¬ (buf ≠ FINGERPRINT_CHARBUFFER1 ∧ buf ≠ FINGERPRINT_CHARBUFFER2) := by
    unfold FINGERPRINT_CHARBUFFER1 FINGERPRINT_CHARBUFFER2
    omega
  unfold QFingerprint.downloadCharacteristics QFingerprint.writePacket QFingerprint.readPacket
  rw [if_neg hb]
  simp only [hf, if_true, hack, List.getD_cons_zero, List.drop_succ_cons, List.drop_zero, ne_eq,
    FINGERPRINT_ACKPACKET, not_true_eq_false, if_false, FINGERPRINT_OK]

/-- The bulk download on packets.  With a valid buffer number, the request flushed and an ACK
with status OK read: when the following calls of `readPacket` return `n ≥ 0` packets of type
DATA (`0x02`) and then one more packet, `downloadCharacteristics` returns the payloads of the
`n + 1` packets concatenated in arrival order and leaves unread exactly what follows the last
of them, if that packet has type END_DATA (`0x08`); and it throws "The received packet is no
data packet!" if that packet has any type other than DATA and END_DATA. -/
theorem downloadCharacteristics_concat (signedChar : Bool) (s : QFingerprint) (buf : Nat)
    (more s1 rest last : List Nat) (pkts : List (List Nat))
    (hbuf : buf = 1 ∨ buf = 2) (hf : s.m_serial.flushes = true)
    (hack : readPacketLoop [] s.m_serial.incoming = (Except.ok (0x07 :: 0x00 :: more), s1))
    (hread : readPackets (pkts.length + 1) s1 = some (pkts ++ [last], rest))
    (hdata : ∀ p ∈ pkts, p.getD 0 0 = 0x02) :
    (last.getD 0 0 = 0x08 →
      (s.downloadCharacteristics signedChar buf).1
          = Except.ok (((pkts ++ [last]).map (List.drop 1)).flatten)
        ∧ (s.downloadCharacteristics signedChar buf).2.m_serial.incoming = rest)
    ∧ (last.getD 0 0 ≠ 0x02 → last.getD 0 0 ≠ 0x08 →
      (s.downloadCharacteristics signedChar buf).1 = Except.error FpError.notDataPacket) := by
  have h := downloadCharacteristicsLoop_packets pkts last rest (s1.length + 1)
    { s with m_serial :=
      { incoming := s1,
        written := s.m_serial.written
          ++ writePacketData signedChar s.m_address FINGERPRINT_COMMANDPACKET
              [FINGERPRINT_DOWNLOADCHARACTERISTICS, buf],
        flushes := s.m_serial.flushes } } 0x07 [] (by decide) (Nat.lt_succ_self _) hread hdata
  rw [downloadCharacteristics_enters_loop signedChar s buf more s1 hbuf hf hack]
  constructor
  · intro hlast
    rw [h.1 hlast]
    exact ⟨rfl, rfl⟩
  · intro h2 h8
    rw [h.2 h2 h8]

/-- The bulk download on packets, on a concrete stream: two DATA frames and an END_DATA frame,
followed by one more frame that stays unread. -/
theorem downloadCharacteristics_concat_witness :
    ((sessionWith 0xFFFFFFFF 0
        (specFrame 0xFFFFFFFF 0x07 [0x00] ++ (specFrame 0xFFFFFFFF 0x02 [1, 2]
          ++ (specFrame 0xFFFFFFFF 0x02 [3] ++ (specFrame 0xFFFFFFFF 0x08 [4, 5]
          ++ specFrame 0xFFFFFFFF 0x07 [0x00]))))).downloadCharacteristics true 1).1
        = Except.ok [1, 2, 3, 4, 5]
      ∧ ((sessionWith 0xFFFFFFFF 0
        (specFrame 0xFFFFFFFF 0x07 [0x00] ++ (specFrame 0xFFFFFFFF 0x02 [1, 2]
          ++ (specFrame 0xFFFFFFFF 0x02 [3] ++ (specFrame 0xFFFFFFFF 0x08 [4, 5]
          ++ specFrame 0xFFFFFFFF 0x07 [0x00]))))).downloadCharacteristics true 1).2.m_serial.incoming
        = specFrame 0xFFFFFFFF 0x07 [0x00] :=
  (downloadCharacteristics_concat true
    (sessionWith 0xFFFFFFFF 0
      (specFrame 0xFFFFFFFF 0x07 [0x00] ++ (specFrame 0xFFFFFFFF 0x02 [1, 2]
        ++ (specFrame 0xFFFFFFFF 0x02 [3] ++ (specFrame 0xFFFFFFFF 0x08 [4, 5]
        ++ specFrame 0xFFFFFFFF 0x07 [0x00])))))
    1 []
    (specFrame 0xFFFFFFFF 0x02 [1, 2] ++ (specFrame 0xFFFFFFFF 0x02 [3]
      ++ (specFrame 0xFFFFFFFF 0x08 [4, 5] ++ specFrame 0xFFFFFFFF 0x07 [0x00])))
    (specFrame 0xFFFFFFFF 0x07 [0x00]) [0x08, 4, 5] [[0x02, 1, 2], [0x02, 3]]
    (Or.inl rfl) rfl (by decide) (by decide) (by decide)).1 rfl

/-- The pixel loop stores at `ptr`, `ptr - 1`, ..., one offset per iteration, whatever the data. -/
theorem imagePixelLoop_offsets (signedChar : Bool) (imageData : List (List Nat)) (n : Nat) :
    ∀ ptr x row col : Nat,
      (imagePixelLoop signedChar imageData n ptr x row col).map Prod.fst
        = (List.range n).map (fun j => ptr - j) := by
  induction n with
  | zero => intro ptr x row col; rfl
  | succ n ih =>
    intro ptr x row col
    have hr : (List.range (n + 1)).map (fun j => ptr - j)
        = ptr :: (List.range n).map (fun j => ptr - 1 - j) := by
      rw [List.range_succ_eq_map, List.map_cons, List.map_map]
      simp only [Nat.sub_zero, List.cons.injEq, true_and]
      apply List.map_congr_left
      intro j _
      simp only [Function.comp_apply]
      omega
    rw [imagePixelLoop, hr]
    split_ifs <;> simp only [List.map_cons, ih]

/-- The first store of the pixel loop: at the starting offset, the high nibble of the first
byte of the first array. -/
theorem imagePixelLoop_head (signedChar : Bool) (imageData : List (List Nat)) (n ptr : Nat) :
    (imagePixelLoop signedChar imageData (n + 1) ptr 0 0 0).head?
      = some (ptr,
          (((charToInt signedChar ((imageData.getD 0 []).getD 0 0)) / 16 * 17) % 256).toNat) := by
  rw [imagePixelLoop]
  simp only [Nat.zero_mod, if_true]
  split_ifs <;> rfl

/-- C30 (evaluation, for every received image `imageData` and both signednesses of `char`).
The pixel loop of `downloadImage` stores at the offsets `73728, 73727, ..., 1` in this order:
its first store, the high nibble of the first stream byte, falls at offset `73728 = 256 * 288`,
one past the last byte of the buffer; no store has offset 0, so pixel 0 is never written; and
the nibbles run from the end of the buffer backwards.  Where plain `char` is signed the high
nibble of the byte `F0` is stored as 239, not as `17 * 15 = 255`. -/
theorem downloadImage_stores_misplaced (signedChar : Bool) (imageData : List (List Nat)) :
    (imagePixelStores signedChar imageData).map Prod.fst
        = (List.range (256 * 288)).map (fun j => 256 * 288 - j)
      ∧ (imagePixelStores signedChar imageData).head?
        = some (256 * 288,
            (((charToInt signedChar ((imageData.getD 0 []).getD 0 0)) / 16 * 17) % 256).toNat)
      ∧ 0 ∉ (imagePixelStores signedChar imageData).map Prod.fst
      ∧ (((charToInt true 0xF0) / 16 * 17) % 256).toNat = 239
      ∧ (((charToInt false 0xF0) / 16 * 17) % 256).toNat = 255 := by
  have hoff := imagePixelLoop_offsets signedChar imageData (256 * 288) (256 * 288) 0 0 0
  refine ⟨hoff, imagePixelLoop_head signedChar imageData 73727 (256 * 288), ?_, by decide,
    by decide⟩
  unfold imagePixelStores
  rw [hoff]
  intro h
  obtain ⟨j, hj, he⟩ := List.mem_map.mp h
  have hj2 := List.mem_range.mp hj
  omega

/-! ## The reply to a command frame: type test and unknown status (C31, C32) -/

/-- A status byte outside the table differs from every constant a status chain tests. -/
theorem not_mem_statusTable (c : Nat) (h : c ∉ statusTable) :
    c ≠ 0x00 ∧ c ≠ 0x01 ∧ c ≠ 0x02 ∧ c ≠ 0x03 ∧ c ≠ 0x06 ∧ c ≠ 0x07 ∧ c ≠ 0x08 ∧ c ≠ 0x09
      ∧ c ≠ 0x0A ∧ c ≠ 0x0B ∧ c ≠ 0x0C ∧ c ≠ 0x0D ∧ c ≠ 0x0E ∧ c ≠ 0x0F ∧ c ≠ 0x10
      ∧ c ≠ 0x11 ∧ c ≠ 0x13 ∧ c ≠ 0x15 ∧ c ≠ 0x18 ∧ c ≠ 0x1A ∧ c ≠ 0x20 := by
  simpa [statusTable] using h

theorem verifyPassword_notAck (signedChar : Bool) (pkt : List Nat)
    (ht : pkt.getD 0 0 ≠ 0x07) :
    ThrowsOnReply (fun s => s.verifyPassword signedChar) pkt FpError.notAck := by
  intro s rest hf hr
  unfold QFingerprint.verifyPassword QFingerprint.writePacket QFingerprint.readPacket
  simp only [hf, if_true, if_false, hr, FINGERPRINT_ACKPACKET, ne_eq, ht, not_false_eq_true,
    and_self]

theorem verifyPassword_unknown (signedChar : Bool) (c : Nat) (more : List Nat)
    (hc : c ∉ statusTable) :
    ThrowsOnReply (fun s => s.verifyPassword signedChar) (0x07 :: c :: more)
      (FpError.unknownError c) := by
  obtain ⟨h00, h01, h02, h03, h06, h07, h08, h09, h0A, h0B, h0C, h0D, h0E, h0F, h10, h11, h13,
    h15, h18, h1A, h20⟩ := not_mem_statusTable c hc
  intro s rest hf hr
  unfold QFingerprint.verifyPassword QFingerprint.writePacket QFingerprint.readPacket
  simp only [hf, if_true, if_false, hr, List.getD_cons_zero, List.drop_succ_cons, List.drop_zero,
    ne_eq, not_true_eq_false, FINGERPRINT_ACKPACKET, FINGERPRINT_OK,
    FINGERPRINT_ERROR_COMMUNICATION, FINGERPRINT_ADDRCODE,
    FINGERPRINT_ERROR_WRONGPASSWORD, FINGERPRINT_ERROR_INVALIDREGISTER, FINGERPRINT_ERROR_NOFINGER,
    FINGERPRINT_ERROR_READIMAGE, FINGERPRINT_ERROR_INVALIDPOSITION,
    FINGERPRINT_ERROR_CHARACTERISTICSMISMATCH, FINGERPRINT_ERROR_FLASH,
    FINGERPRINT_ERROR_NOTEMPLATEFOUND, FINGERPRINT_ERROR_DELETETEMPLATE,
    FINGERPRINT_ERROR_CLEARDATABASE, FINGERPRINT_ERROR_DOWNLOADIMAGE,
    FINGERPRINT_ERROR_DOWNLOADCHARACTERISTICS, FINGERPRINT_PACKETRESPONSEFAIL,
    FINGERPRINT_ERROR_MESSYIMAGE, FINGERPRINT_ERROR_FEWFEATUREPOINTS,
    FINGERPRINT_ERROR_INVALIDIMAGE, FINGERPRINT_ERROR_LOADTEMPLATE,
    h00, h01, h02, h03, h06, h07, h08, h09, h0A, h0B, h0C, h0D, h0E, h0F, h10, h11, h13,
    h15, h18, h1A, h20, and_self]

theorem setPassword_notAck (signedChar : Bool) (v : Nat) (pkt : List Nat)
    (hv : v ≤ 0xFFFFFFFF) (ht : pkt.getD 0 0 ≠ 0x07) :
    ThrowsOnReply (fun s => s.setPassword signedChar v) pkt FpError.notAck := by
  have hv2 : ¬ (v < 0x00000000 ∨ v > 0xFFFFFFFF) := by omega
  intro s rest hf hr
  unfold QFingerprint.setPassword QFingerprint.writePacket QFingerprint.readPacket
  simp only [hv2, hf, if_true, if_false, hr, FINGERPRINT_ACKPACKET, ne_eq, ht, not_false_eq_true,
    and_self]

theorem setPassword_unknown (signedChar : Bool) (v : Nat) (c : Nat) (more : List Nat)
    (hv : v ≤ 0xFFFFFFFF) (hc : c ∉ statusTable) :
    ThrowsOnReply (fun s => s.setPassword signedChar v) (0x07 :: c :: more)
      (FpError.unknownError c) := by
  obtain ⟨h00, h01, h02, h03, h06, h07, h08, h09, h0A, h0B, h0C, h0D, h0E, h0F, h10, h11, h13,
    h15, h18, h1A, h20⟩ := not_mem_statusTable c hc
  have hv2 : ¬ (v < 0x00000000 ∨ v > 0xFFFFFFFF) := by omega
  intro s rest hf hr
  unfold QFingerprint.setPassword QFingerprint.writePacket QFingerprint.readPacket
  simp only [hv2, hf, if_true, if_false, hr, List.getD_cons_zero, List.drop_succ_cons,
    List.drop_zero,
    ne_eq, not_true_eq_false, FINGERPRINT_ACKPACKET, FINGERPRINT_OK,
    FINGERPRINT_ERROR_COMMUNICATION, FINGERPRINT_ADDRCODE,
    FINGERPRINT_ERROR_WRONGPASSWORD, FINGERPRINT_ERROR_INVALIDREGISTER, FINGERPRINT_ERROR_NOFINGER,
    FINGERPRINT_ERROR_READIMAGE, FINGERPRINT_ERROR_INVALIDPOSITION,
    FINGERPRINT_ERROR_CHARACTERISTICSMISMATCH, FINGERPRINT_ERROR_FLASH,
    FINGERPRINT_ERROR_NOTEMPLATEFOUND, FINGERPRINT_ERROR_DELETETEMPLATE,
    FINGERPRINT_ERROR_CLEARDATABASE, FINGERPRINT_ERROR_DOWNLOADIMAGE,
    FINGERPRINT_ERROR_DOWNLOADCHARACTERISTICS, FINGERPRINT_PACKETRESPONSEFAIL,
    FINGERPRINT_ERROR_MESSYIMAGE, FINGERPRINT_ERROR_FEWFEATUREPOINTS,
    FINGERPRINT_ERROR_INVALIDIMAGE, FINGERPRINT_ERROR_LOADTEMPLATE,
    h00, h01, h02, h03, h06, h07, h08, h09, h0A, h0B, h0C, h0D, h0E, h0F, h10, h11, h13,
    h15, h18, h1A, h20, and_self]

theorem setAddress_notAck (signedChar : Bool) (v : Nat) (pkt : List Nat)
    (hv : v ≤ 0xFFFFFFFF) (ht : pkt.getD 0 0 ≠ 0x07) :
    ThrowsOnReply (fun s => s.setAddress signedChar v) pkt FpError.notAck := by
  have hv2 : ¬ (v < 0x00000000 ∨ v > 0xFFFFFFFF) := by omega
  intro s rest hf hr
  unfold QFingerprint.setAddress QFingerprint.writePacket QFingerprint.readPacket
  simp only [hv2, hf, if_true, if_false, hr, FINGERPRINT_ACKPACKET, ne_eq, ht, not_false_eq_true,
    and_self]

theorem setAddress_unknown (signedChar : Bool) (v : Nat) (c : Nat) (more : List Nat)
    (hv : v ≤ 0xFFFFFFFF) (hc : c ∉ statusTable) :
    ThrowsOnReply (fun s => s.setAddress signedChar v) (0x07 :: c :: more)
      (FpError.unknownError c) := by
  obtain ⟨h00, h01, h02, h03, h06, h07, h08, h09, h0A, h0B, h0C, h0D, h0E, h0F, h10, h11, h13,
    h15, h18, h1A, h20⟩ := not_mem_statusTable c hc
  have hv2 : ¬ (v < 0x00000000 ∨ v > 0xFFFFFFFF) := by omega
  intro s rest hf hr
  unfold QFingerprint.setAddress QFingerprint.writePacket QFingerprint.readPacket
  simp only [hv2, hf, if_true, if_false, hr, List.getD_cons_zero, List.drop_succ_cons,
    List.drop_zero,
    ne_eq, not_true_eq_false, FINGERPRINT_ACKPACKET, FINGERPRINT_OK,
    FINGERPRINT_ERROR_COMMUNICATION, FINGERPRINT_ADDRCODE,
    FINGERPRINT_ERROR_WRONGPASSWORD, FINGERPRINT_ERROR_INVALIDREGISTER, FINGERPRINT_ERROR_NOFINGER,
    FINGERPRINT_ERROR_READIMAGE, FINGERPRINT_ERROR_INVALIDPOSITION,
    FINGERPRINT_ERROR_CHARACTERISTICSMISMATCH, FINGERPRINT_ERROR_FLASH,
    FINGERPRINT_ERROR_NOTEMPLATEFOUND, FINGERPRINT_ERROR_DELETETEMPLATE,
    FINGERPRINT_ERROR_CLEARDATABASE, FINGERPRINT_ERROR_DOWNLOADIMAGE,
    FINGERPRINT_ERROR_DOWNLOADCHARACTERISTICS, FINGERPRINT_PACKETRESPONSEFAIL,
    FINGERPRINT_ERROR_MESSYIMAGE, FINGERPRINT_ERROR_FEWFEATUREPOINTS,
    FINGERPRINT_ERROR_INVALIDIMAGE, FINGERPRINT_ERROR_LOADTEMPLATE,
    h00, h01, h02, h03, h06, h07, h08, h09, h0A, h0B, h0C, h0D, h0E, h0F, h10, h11, h13,
    h15, h18, h1A, h20, and_self]

theorem setSystemParameter_notAck (signedChar : Bool) (n v : Nat) (pkt : List Nat)
    (hv : setSystemParameterCheck n v = none) (ht : pkt.getD 0 0 ≠ 0x07) :
    ThrowsOnReply (fun s => s.setSystemParameter signedChar n v) pkt FpError.notAck := by
  intro s rest hf hr
  unfold QFingerprint.setSystemParameter QFingerprint.writePacket QFingerprint.readPacket
  simp only [hv, hf, if_true, if_false, hr, FINGERPRINT_ACKPACKET, ne_eq, ht, not_false_eq_true,
    and_self]

theorem setSystemParameter_unknown (signedChar : Bool) (n v : Nat) (c : Nat) (more : List Nat)
    (hv : setSystemParameterCheck n v = none) (hc : c ∉ statusTable) :
    ThrowsOnReply (fun s => s.setSystemParameter signedChar n v) (0x07 :: c :: more)
      (FpError.unknownError c) := by
  obtain ⟨h00, h01, h02, h03, h06, h07, h08, h09, h0A, h0B, h0C, h0D, h0E, h0F, h10, h11, h13,
    h15, h18, h1A, h20⟩ := not_mem_statusTable c hc
  intro s rest hf hr
  unfold QFingerprint.setSystemParameter QFingerprint.writePacket QFingerprint.readPacket
  simp only [hv, hf, if_true, if_false, hr, List.getD_cons_zero, List.drop_succ_cons,
    List.drop_zero,
    ne_eq, not_true_eq_false, FINGERPRINT_ACKPACKET, FINGERPRINT_OK,
    FINGERPRINT_ERROR_COMMUNICATION, FINGERPRINT_ADDRCODE,
    FINGERPRINT_ERROR_WRONGPASSWORD, FINGERPRINT_ERROR_INVALIDREGISTER, FINGERPRINT_ERROR_NOFINGER,
    FINGERPRINT_ERROR_READIMAGE, FINGERPRINT_ERROR_INVALIDPOSITION,
    FINGERPRINT_ERROR_CHARACTERISTICSMISMATCH, FINGERPRINT_ERROR_FLASH,
    FINGERPRINT_ERROR_NOTEMPLATEFOUND, FINGERPRINT_ERROR_DELETETEMPLATE,
    FINGERPRINT_ERROR_CLEARDATABASE, FINGERPRINT_ERROR_DOWNLOADIMAGE,
    FINGERPRINT_ERROR_DOWNLOADCHARACTERISTICS, FINGERPRINT_PACKETRESPONSEFAIL,
    FINGERPRINT_ERROR_MESSYIMAGE, FINGERPRINT_ERROR_FEWFEATUREPOINTS,
    FINGERPRINT_ERROR_INVALIDIMAGE, FINGERPRINT_ERROR_LOADTEMPLATE,
    h00, h01, h02, h03, h06, h07, h08, h09, h0A, h0B, h0C, h0D, h0E, h0F, h10, h11, h13,
    h15, h18, h1A, h20, and_self]

theorem setBaudRate_notAck (signedChar : Bool) (b : Nat) (pkt : List Nat)
    (hb : b % 9600 = 0)
    (hv : setSystemParameterCheck FINGERPRINT_SETSYSTEMPARAMETER_BAUDRATE (b / 9600 % 256) = none) (ht : pkt.getD 0 0 ≠ 0x07) :
    ThrowsOnReply (fun s => s.setBaudRate signedChar b) pkt FpError.notAck := by
  intro s rest hf hr
  unfold QFingerprint.setBaudRate QFingerprint.setSystemParameter QFingerprint.writePacket
    QFingerprint.readPacket
  simp only [hb, hv, not_true_eq_false, hf, if_true, if_false, hr, FINGERPRINT_ACKPACKET, ne_eq,
    ht, not_false_eq_true,
    and_self]

theorem setBaudRate_unknown (signedChar : Bool) (b : Nat) (c : Nat) (more : List Nat)
    (hb : b % 9600 = 0)
    (hv : setSystemParameterCheck FINGERPRINT_SETSYSTEMPARAMETER_BAUDRATE (b / 9600 % 256) = none) (hc : c ∉ statusTable) :
    ThrowsOnReply (fun s => s.setBaudRate signedChar b) (0x07 :: c :: more)
      (FpError.unknownError c) := by
  obtain ⟨h00, h01, h02, h03, h06, h07, h08, h09, h0A, h0B, h0C, h0D, h0E, h0F, h10, h11, h13,
    h15, h18, h1A, h20⟩ := not_mem_statusTable c hc
  intro s rest hf hr
  unfold QFingerprint.setBaudRate QFingerprint.setSystemParameter QFingerprint.writePacket
    QFingerprint.readPacket
  simp only [hb, hv, not_true_eq_false, hf, if_true, if_false, hr, List.getD_cons_zero,
    List.drop_succ_cons, List.drop_zero,
    ne_eq, not_true_eq_false, FINGERPRINT_ACKPACKET, FINGERPRINT_OK,
    FINGERPRINT_ERROR_COMMUNICATION, FINGERPRINT_ADDRCODE,
    FINGERPRINT_ERROR_WRONGPASSWORD, FINGERPRINT_ERROR_INVALIDREGISTER, FINGERPRINT_ERROR_NOFINGER,
    FINGERPRINT_ERROR_READIMAGE, FINGERPRINT_ERROR_INVALIDPOSITION,
    FINGERPRINT_ERROR_CHARACTERISTICSMISMATCH, FINGERPRINT_ERROR_FLASH,
    FINGERPRINT_ERROR_NOTEMPLATEFOUND, FINGERPRINT_ERROR_DELETETEMPLATE,
    FINGERPRINT_ERROR_CLEARDATABASE, FINGERPRINT_ERROR_DOWNLOADIMAGE,
    FINGERPRINT_ERROR_DOWNLOADCHARACTERISTICS, FINGERPRINT_PACKETRESPONSEFAIL,
    FINGERPRINT_ERROR_MESSYIMAGE, FINGERPRINT_ERROR_FEWFEATUREPOINTS,
    FINGERPRINT_ERROR_INVALIDIMAGE, FINGERPRINT_ERROR_LOADTEMPLATE,
    h00, h01, h02, h03, h06, h07, h08, h09, h0A, h0B, h0C, h0D, h0E, h0F, h10, h11, h13,
    h15, h18, h1A, h20, and_self]

theorem setSecurityLevel_notAck (signedChar : Bool) (v : Nat) (pkt : List Nat)
    (hv : setSystemParameterCheck FINGERPRINT_SETSYSTEMPARAMETER_SECURITY_LEVEL v = none) (ht : pkt.getD 0 0 ≠ 0x07) :
    ThrowsOnReply (fun s => s.setSecurityLevel signedChar v) pkt FpError.notAck := by
  intro s rest hf hr
  unfold QFingerprint.setSecurityLevel QFingerprint.setSystemParameter QFingerprint.writePacket
    QFingerprint.readPacket
  simp only [hv, hf, if_true, if_false, hr, FINGERPRINT_ACKPACKET, ne_eq, ht, not_false_eq_true,
    and_self]

theorem setSecurityLevel_unknown (signedChar : Bool) (v : Nat) (c : Nat) (more : List Nat)
    (hv : setSystemParameterCheck FINGERPRINT_SETSYSTEMPARAMETER_SECURITY_LEVEL v = none) (hc : c ∉ statusTable) :
    ThrowsOnReply (fun s => s.setSecurityLevel signedChar v) (0x07 :: c :: more)
      (FpError.unknownError c) := by
  obtain ⟨h00, h01, h02, h03, h06, h07, h08, h09, h0A, h0B, h0C, h0D, h0E, h0F, h10, h11, h13,
    h15, h18, h1A, h20⟩ := not_mem_statusTable c hc
  intro s rest hf hr
  unfold QFingerprint.setSecurityLevel QFingerprint.setSystemParameter QFingerprint.writePacket
    QFingerprint.readPacket
  simp only [hv, hf, if_true, if_false, hr, List.getD_cons_zero, List.drop_succ_cons,
    List.drop_zero,
    ne_eq, not_true_eq_false, FINGERPRINT_ACKPACKET, FINGERPRINT_OK,
    FINGERPRINT_ERROR_COMMUNICATION, FINGERPRINT_ADDRCODE,
    FINGERPRINT_ERROR_WRONGPASSWORD, FINGERPRINT_ERROR_INVALIDREGISTER, FINGERPRINT_ERROR_NOFINGER,
    FINGERPRINT_ERROR_READIMAGE, FINGERPRINT_ERROR_INVALIDPOSITION,
    FINGERPRINT_ERROR_CHARACTERISTICSMISMATCH, FINGERPRINT_ERROR_FLASH,
    FINGERPRINT_ERROR_NOTEMPLATEFOUND, FINGERPRINT_ERROR_DELETETEMPLATE,
    FINGERPRINT_ERROR_CLEARDATABASE, FINGERPRINT_ERROR_DOWNLOADIMAGE,
    FINGERPRINT_ERROR_DOWNLOADCHARACTERISTICS, FINGERPRINT_PACKETRESPONSEFAIL,
    FINGERPRINT_ERROR_MESSYIMAGE, FINGERPRINT_ERROR_FEWFEATUREPOINTS,
    FINGERPRINT_ERROR_INVALIDIMAGE, FINGERPRINT_ERROR_LOADTEMPLATE,
    h00, h01, h02, h03, h06, h07, h08, h09, h0A, h0B, h0C, h0D, h0E, h0F, h10, h11, h13,
    h15, h18, h1A, h20, and_self]

theorem setMaxPacketSize_notAck (signedChar : Bool) (v k : Nat) (pkt : List Nat)
    (hk : packetSizesMap.lookup v = some k)
    (hv : setSystemParameterCheck FINGERPRINT_SETSYSTEMPARAMETER_PACKAGE_SIZE k = none) (ht : pkt.getD 0 0 ≠ 0x07) :
    ThrowsOnReply (fun s => s.setMaxPacketSize signedChar v) pkt FpError.notAck := by
  intro s rest hf hr
  unfold QFingerprint.setMaxPacketSize QFingerprint.setSystemParameter QFingerprint.writePacket
    QFingerprint.readPacket
  simp only [hk, hv, hf, if_true, if_false, hr, FINGERPRINT_ACKPACKET, ne_eq, ht, not_false_eq_true,
    and_self]

theorem setMaxPacketSize_unknown (signedChar : Bool) (v k : Nat) (c : Nat) (more : List Nat)
    (hk : packetSizesMap.lookup v = some k)
    (hv : setSystemParameterCheck FINGERPRINT_SETSYSTEMPARAMETER_PACKAGE_SIZE k = none) (hc : c ∉ statusTable) :
    ThrowsOnReply (fun s => s.setMaxPacketSize signedChar v) (0x07 :: c :: more)
      (FpError.unknownError c) := by
  obtain ⟨h00, h01, h02, h03, h06, h07, h08, h09, h0A, h0B, h0C, h0D, h0E, h0F, h10, h11, h13,
    h15, h18, h1A, h20⟩ := not_mem_statusTable c hc
  intro s rest hf hr
  unfold QFingerprint.setMaxPacketSize QFingerprint.setSystemParameter QFingerprint.writePacket
    QFingerprint.readPacket
  simp only [hk, hv, hf, if_true, if_false, hr, List.getD_cons_zero, List.drop_succ_cons,
    List.drop_zero,
    ne_eq, not_true_eq_false, FINGERPRINT_ACKPACKET, FINGERPRINT_OK,
    FINGERPRINT_ERROR_COMMUNICATION, FINGERPRINT_ADDRCODE,
    FINGERPRINT_ERROR_WRONGPASSWORD, FINGERPRINT_ERROR_INVALIDREGISTER, FINGERPRINT_ERROR_NOFINGER,
    FINGERPRINT_ERROR_READIMAGE, FINGERPRINT_ERROR_INVALIDPOSITION,
    FINGERPRINT_ERROR_CHARACTERISTICSMISMATCH, FINGERPRINT_ERROR_FLASH,
    FINGERPRINT_ERROR_NOTEMPLATEFOUND, FINGERPRINT_ERROR_DELETETEMPLATE,
    FINGERPRINT_ERROR_CLEARDATABASE, FINGERPRINT_ERROR_DOWNLOADIMAGE,
    FINGERPRINT_ERROR_DOWNLOADCHARACTERISTICS, FINGERPRINT_PACKETRESPONSEFAIL,
    FINGERPRINT_ERROR_MESSYIMAGE, FINGERPRINT_ERROR_FEWFEATUREPOINTS,
    FINGERPRINT_ERROR_INVALIDIMAGE, FINGERPRINT_ERROR_LOADTEMPLATE,
    h00, h01, h02, h03, h06, h07, h08, h09, h0A, h0B, h0C, h0D, h0E, h0F, h10, h11, h13,
    h15, h18, h1A, h20, and_self]

theorem getSystemParameters_notAck (signedChar : Bool) (pkt : List Nat)
    (ht : pkt.getD 0 0 ≠ 0x07) :
    ThrowsOnReply (fun s => s.getSystemParameters signedChar) pkt FpError.notAck := by
  intro s rest hf hr
  unfold QFingerprint.getSystemParameters QFingerprint.writePacket QFingerprint.readPacket
  simp only [hf, if_true, if_false, hr, FINGERPRINT_ACKPACKET, ne_eq, ht, not_false_eq_true,
    and_self]

theorem getSystemParameters_unknown (signedChar : Bool) (c : Nat) (more : List Nat)
    (hc : c ∉ statusTable) :
    ThrowsOnReply (fun s => s.getSystemParameters signedChar) (0x07 :: c :: more)
      (FpError.unknownError c) := by
  obtain ⟨h00, h01, h02, h03, h06, h07, h08, h09, h0A, h0B, h0C, h0D, h0E, h0F, h10, h11, h13,
    h15, h18, h1A, h20⟩ := not_mem_statusTable c hc
  intro s rest hf hr
  unfold QFingerprint.getSystemParameters QFingerprint.writePacket QFingerprint.readPacket
  simp only [hf, if_true, if_false, hr, List.getD_cons_zero, List.drop_succ_cons, List.drop_zero,
    ne_eq, not_true_eq_false, FINGERPRINT_ACKPACKET, FINGERPRINT_OK,
    FINGERPRINT_ERROR_COMMUNICATION, FINGERPRINT_ADDRCODE,
    FINGERPRINT_ERROR_WRONGPASSWORD, FINGERPRINT_ERROR_INVALIDREGISTER, FINGERPRINT_ERROR_NOFINGER,
    FINGERPRINT_ERROR_READIMAGE, FINGERPRINT_ERROR_INVALIDPOSITION,
    FINGERPRINT_ERROR_CHARACTERISTICSMISMATCH, FINGERPRINT_ERROR_FLASH,
    FINGERPRINT_ERROR_NOTEMPLATEFOUND, FINGERPRINT_ERROR_DELETETEMPLATE,
    FINGERPRINT_ERROR_CLEARDATABASE, FINGERPRINT_ERROR_DOWNLOADIMAGE,
    FINGERPRINT_ERROR_DOWNLOADCHARACTERISTICS, FINGERPRINT_PACKETRESPONSEFAIL,
    FINGERPRINT_ERROR_MESSYIMAGE, FINGERPRINT_ERROR_FEWFEATUREPOINTS,
    FINGERPRINT_ERROR_INVALIDIMAGE, FINGERPRINT_ERROR_LOADTEMPLATE,
    h00, h01, h02, h03, h06, h07, h08, h09, h0A, h0B, h0C, h0D, h0E, h0F, h10, h11, h13,
    h15, h18, h1A, h20, and_self]

theorem getStorageCapacity_notAck (signedChar : Bool) (pkt : List Nat)
    (ht : pkt.getD 0 0 ≠ 0x07) :
    ThrowsOnReply (fun s => s.getStorageCapacity signedChar) pkt FpError.notAck := by
  intro s rest hf hr
  unfold QFingerprint.getStorageCapacity QFingerprint.getSystemParameters QFingerprint.writePacket
    QFingerprint.readPacket
  simp only [hf, if_true, if_false, hr, FINGERPRINT_ACKPACKET, ne_eq, ht, not_false_eq_true,
    and_self]

theorem getStorageCapacity_unknown (signedChar : Bool) (c : Nat) (more : List Nat)
    (hc : c ∉ statusTable) :
    ThrowsOnReply (fun s => s.getStorageCapacity signedChar) (0x07 :: c :: more)
      (FpError.unknownError c) := by
  obtain ⟨h00, h01, h02, h03, h06, h07, h08, h09, h0A, h0B, h0C, h0D, h0E, h0F, h10, h11, h13,
    h15, h18, h1A, h20⟩ := not_mem_statusTable c hc
  intro s rest hf hr
  unfold QFingerprint.getStorageCapacity QFingerprint.getSystemParameters QFingerprint.writePacket
    QFingerprint.readPacket
  simp only [hf, if_true, if_false, hr, List.getD_cons_zero, List.drop_succ_cons, List.drop_zero,
    ne_eq, not_true_eq_false, FINGERPRINT_ACKPACKET, FINGERPRINT_OK,
    FINGERPRINT_ERROR_COMMUNICATION, FINGERPRINT_ADDRCODE,
    FINGERPRINT_ERROR_WRONGPASSWORD, FINGERPRINT_ERROR_INVALIDREGISTER, FINGERPRINT_ERROR_NOFINGER,
    FINGERPRINT_ERROR_READIMAGE, FINGERPRINT_ERROR_INVALIDPOSITION,
    FINGERPRINT_ERROR_CHARACTERISTICSMISMATCH, FINGERPRINT_ERROR_FLASH,
    FINGERPRINT_ERROR_NOTEMPLATEFOUND, FINGERPRINT_ERROR_DELETETEMPLATE,
    FINGERPRINT_ERROR_CLEARDATABASE, FINGERPRINT_ERROR_DOWNLOADIMAGE,
    FINGERPRINT_ERROR_DOWNLOADCHARACTERISTICS, FINGERPRINT_PACKETRESPONSEFAIL,
    FINGERPRINT_ERROR_MESSYIMAGE, FINGERPRINT_ERROR_FEWFEATUREPOINTS,
    FINGERPRINT_ERROR_INVALIDIMAGE, FINGERPRINT_ERROR_LOADTEMPLATE,
    h00, h01, h02, h03, h06, h07, h08, h09, h0A, h0B, h0C, h0D, h0E, h0F, h10, h11, h13,
    h15, h18, h1A, h20, and_self]

theorem getSecurityLevel_notAck (signedChar : Bool) (pkt : List Nat)
    (ht : pkt.getD 0 0 ≠ 0x07) :
    ThrowsOnReply (fun s => s.getSecurityLevel signedChar) pkt FpError.notAck := by
  intro s rest hf hr
  unfold QFingerprint.getSecurityLevel QFingerprint.getSystemParameters QFingerprint.writePacket
    QFingerprint.readPacket
  simp only [hf, if_true, if_false, hr, FINGERPRINT_ACKPACKET, ne_eq, ht, not_false_eq_true,
    and_self]

theorem getSecurityLevel_unknown (signedChar : Bool) (c : Nat) (more : List Nat)
    (hc : c ∉ statusTable) :
    ThrowsOnReply (fun s => s.getSecurityLevel signedChar) (0x07 :: c :: more)
      (FpError.unknownError c) := by
  obtain ⟨h00, h01, h02, h03, h06, h07, h08, h09, h0A, h0B, h0C, h0D, h0E, h0F, h10, h11, h13,
    h15, h18, h1A, h20⟩ := not_mem_statusTable c hc
  intro s rest hf hr
  unfold QFingerprint.getSecurityLevel QFingerprint.getSystemParameters QFingerprint.writePacket
    QFingerprint.readPacket
  simp only [hf, if_true, if_false, hr, List.getD_cons_zero, List.drop_succ_cons, List.drop_zero,
    ne_eq, not_true_eq_false, FINGERPRINT_ACKPACKET, FINGERPRINT_OK,
    FINGERPRINT_ERROR_COMMUNICATION, FINGERPRINT_ADDRCODE,
    FINGERPRINT_ERROR_WRONGPASSWORD, FINGERPRINT_ERROR_INVALIDREGISTER, FINGERPRINT_ERROR_NOFINGER,
    FINGERPRINT_ERROR_READIMAGE, FINGERPRINT_ERROR_INVALIDPOSITION,
    FINGERPRINT_ERROR_CHARACTERISTICSMISMATCH, FINGERPRINT_ERROR_FLASH,
    FINGERPRINT_ERROR_NOTEMPLATEFOUND, FINGERPRINT_ERROR_DELETETEMPLATE,
    FINGERPRINT_ERROR_CLEARDATABASE, FINGERPRINT_ERROR_DOWNLOADIMAGE,
    FINGERPRINT_ERROR_DOWNLOADCHARACTERISTICS, FINGERPRINT_PACKETRESPONSEFAIL,
    FINGERPRINT_ERROR_MESSYIMAGE, FINGERPRINT_ERROR_FEWFEATUREPOINTS,
    FINGERPRINT_ERROR_INVALIDIMAGE, FINGERPRINT_ERROR_LOADTEMPLATE,
    h00, h01, h02, h03, h06, h07, h08, h09, h0A, h0B, h0C, h0D, h0E, h0F, h10, h11, h13,
    h15, h18, h1A, h20, and_self]

theorem getMaxPacketSize_notAck (signedChar : Bool) (pkt : List Nat)
    (ht : pkt.getD 0 0 ≠ 0x07) :
    ThrowsOnReply (fun s => s.getMaxPacketSize signedChar) pkt FpError.notAck := by
  intro s rest hf hr
  unfold QFingerprint.getMaxPacketSize QFingerprint.getSystemParameters QFingerprint.writePacket
    QFingerprint.readPacket
  simp only [hf, if_true, if_false, hr, FINGERPRINT_ACKPACKET, ne_eq, ht, not_false_eq_true,
    and_self]

theorem getMaxPacketSize_unknown (signedChar : Bool) (c : Nat) (more : List Nat)
    (hc : c ∉ statusTable) :
    ThrowsOnReply (fun s => s.getMaxPacketSize signedChar) (0x07 :: c :: more)
      (FpError.unknownError c) := by
  obtain ⟨h00, h01, h02, h03, h06, h07, h08, h09, h0A, h0B, h0C, h0D, h0E, h0F, h10, h11, h13,
    h15, h18, h1A, h20⟩ := not_mem_statusTable c hc
  intro s rest hf hr
  unfold QFingerprint.getMaxPacketSize QFingerprint.getSystemParameters QFingerprint.writePacket
    QFingerprint.readPacket
  simp only [hf, if_true, if_false, hr, List.getD_cons_zero, List.drop_succ_cons, List.drop_zero,
    ne_eq, not_true_eq_false, FINGERPRINT_ACKPACKET, FINGERPRINT_OK,
    FINGERPRINT_ERROR_COMMUNICATION, FINGERPRINT_ADDRCODE,
    FINGERPRINT_ERROR_WRONGPASSWORD, FINGERPRINT_ERROR_INVALIDREGISTER, FINGERPRINT_ERROR_NOFINGER,
    FINGERPRINT_ERROR_READIMAGE, FINGERPRINT_ERROR_INVALIDPOSITION,
    FINGERPRINT_ERROR_CHARACTERISTICSMISMATCH, FINGERPRINT_ERROR_FLASH,
    FINGERPRINT_ERROR_NOTEMPLATEFOUND, FINGERPRINT_ERROR_DELETETEMPLATE,
    FINGERPRINT_ERROR_CLEARDATABASE, FINGERPRINT_ERROR_DOWNLOADIMAGE,
    FINGERPRINT_ERROR_DOWNLOADCHARACTERISTICS, FINGERPRINT_PACKETRESPONSEFAIL,
    FINGERPRINT_ERROR_MESSYIMAGE, FINGERPRINT_ERROR_FEWFEATUREPOINTS,
    FINGERPRINT_ERROR_INVALIDIMAGE, FINGERPRINT_ERROR_LOADTEMPLATE,
    h00, h01, h02, h03, h06, h07, h08, h09, h0A, h0B, h0C, h0D, h0E, h0F, h10, h11, h13,
    h15, h18, h1A, h20, and_self]

theorem getBaudRate_notAck (signedChar : Bool) (pkt : List Nat)
    (ht : pkt.getD 0 0 ≠ 0x07) :
    ThrowsOnReply (fun s => s.getBaudRate signedChar) pkt FpError.notAck := by
  intro s rest hf hr
  unfold QFingerprint.getBaudRate QFingerprint.getSystemParameters QFingerprint.writePacket
    QFingerprint.readPacket
  simp only [hf, if_true, if_false, hr, FINGERPRINT_ACKPACKET, ne_eq, ht, not_false_eq_true,
    and_self]

theorem getBaudRate_unknown (signedChar : Bool) (c : Nat) (more : List Nat)
    (hc : c ∉ statusTable) :
    ThrowsOnReply (fun s => s.getBaudRate signedChar) (0x07 :: c :: more)
      (FpError.unknownError c) := by
  obtain ⟨h00, h01, h02, h03, h06, h07, h08, h09, h0A, h0B, h0C, h0D, h0E, h0F, h10, h11, h13,
    h15, h18, h1A, h20⟩ := not_mem_statusTable c hc
  intro s rest hf hr
  unfold QFingerprint.getBaudRate QFingerprint.getSystemParameters QFingerprint.writePacket
    QFingerprint.readPacket
  simp only [hf, if_true, if_false, hr, List.getD_cons_zero, List.drop_succ_cons, List.drop_zero,
    ne_eq, not_true_eq_false, FINGERPRINT_ACKPACKET, FINGERPRINT_OK,
    FINGERPRINT_ERROR_COMMUNICATION, FINGERPRINT_ADDRCODE,
    FINGERPRINT_ERROR_WRONGPASSWORD, FINGERPRINT_ERROR_INVALIDREGISTER, FINGERPRINT_ERROR_NOFINGER,
    FINGERPRINT_ERROR_READIMAGE, FINGERPRINT_ERROR_INVALIDPOSITION,
    FINGERPRINT_ERROR_CHARACTERISTICSMISMATCH, FINGERPRINT_ERROR_FLASH,
    FINGERPRINT_ERROR_NOTEMPLATEFOUND, FINGERPRINT_ERROR_DELETETEMPLATE,
    FINGERPRINT_ERROR_CLEARDATABASE, FINGERPRINT_ERROR_DOWNLOADIMAGE,
    FINGERPRINT_ERROR_DOWNLOADCHARACTERISTICS, FINGERPRINT_PACKETRESPONSEFAIL,
    FINGERPRINT_ERROR_MESSYIMAGE, FINGERPRINT_ERROR_FEWFEATUREPOINTS,
    FINGERPRINT_ERROR_INVALIDIMAGE, FINGERPRINT_ERROR_LOADTEMPLATE,
    h00, h01, h02, h03, h06, h07, h08, h09, h0A, h0B, h0C, h0D, h0E, h0F, h10, h11, h13,
    h15, h18, h1A, h20, and_self]

theorem getTemplateIndex_notAck (signedChar : Bool) (page : Nat) (pkt : List Nat)
    (hp : page ≤ 3) (ht : pkt.getD 0 0 ≠ 0x07) :
    ThrowsOnReply (fun s => s.getTemplateIndex signedChar page) pkt FpError.notAck0 := by
  have hp2 : ¬ (page < 0 ∨ page > 3) := by omega
  intro s rest hf hr
  unfold QFingerprint.getTemplateIndex QFingerprint.writePacket QFingerprint.readPacket
  simp only [hp2, hf, if_true, if_false, hr, FINGERPRINT_ACKPACKET, ne_eq, ht, not_false_eq_true,
    and_self]

theorem getTemplateIndex_unknown (signedChar : Bool) (page : Nat) (c : Nat) (more : List Nat)
    (hp : page ≤ 3) (hc : c ∉ statusTable) :
    ThrowsOnReply (fun s => s.getTemplateIndex signedChar page) (0x07 :: c :: more)
      (FpError.unknownError c) := by
  obtain ⟨h00, h01, h02, h03, h06, h07, h08, h09, h0A, h0B, h0C, h0D, h0E, h0F, h10, h11, h13,
    h15, h18, h1A, h20⟩ := not_mem_statusTable c hc
  have hp2 : ¬ (page < 0 ∨ page > 3) := by omega
  intro s rest hf hr
  unfold QFingerprint.getTemplateIndex QFingerprint.writePacket QFingerprint.readPacket
  simp only [hp2, hf, if_true, if_false, hr, List.getD_cons_zero, List.drop_succ_cons,
    List.drop_zero,
    ne_eq, not_true_eq_false, FINGERPRINT_ACKPACKET, FINGERPRINT_OK,
    FINGERPRINT_ERROR_COMMUNICATION, FINGERPRINT_ADDRCODE,
    FINGERPRINT_ERROR_WRONGPASSWORD, FINGERPRINT_ERROR_INVALIDREGISTER, FINGERPRINT_ERROR_NOFINGER,
    FINGERPRINT_ERROR_READIMAGE, FINGERPRINT_ERROR_INVALIDPOSITION,
    FINGERPRINT_ERROR_CHARACTERISTICSMISMATCH, FINGERPRINT_ERROR_FLASH,
    FINGERPRINT_ERROR_NOTEMPLATEFOUND, FINGERPRINT_ERROR_DELETETEMPLATE,
    FINGERPRINT_ERROR_CLEARDATABASE, FINGERPRINT_ERROR_DOWNLOADIMAGE,
    FINGERPRINT_ERROR_DOWNLOADCHARACTERISTICS, FINGERPRINT_PACKETRESPONSEFAIL,
    FINGERPRINT_ERROR_MESSYIMAGE, FINGERPRINT_ERROR_FEWFEATUREPOINTS,
    FINGERPRINT_ERROR_INVALIDIMAGE, FINGERPRINT_ERROR_LOADTEMPLATE,
    h00, h01, h02, h03, h06, h07, h08, h09, h0A, h0B, h0C, h0D, h0E, h0F, h10, h11, h13,
    h15, h18, h1A, h20, and_self]

theorem getTemplateCount_notAck (signedChar : Bool) (pkt : List Nat)
    (ht : pkt.getD 0 0 ≠ 0x07) :
    ThrowsOnReply (fun s => s.getTemplateCount signedChar) pkt FpError.notAck := by
  intro s rest hf hr
  unfold QFingerprint.getTemplateCount QFingerprint.writePacket QFingerprint.readPacket
  simp only [hf, if_true, if_false, hr, FINGERPRINT_ACKPACKET, ne_eq, ht, not_false_eq_true,
    and_self]

theorem getTemplateCount_unknown (signedChar : Bool) (c : Nat) (more : List Nat)
    (hc : c ∉ statusTable) :
    ThrowsOnReply (fun s => s.getTemplateCount signedChar) (0x07 :: c :: more)
      (FpError.unknownError c) := by
  obtain ⟨h00, h01, h02, h03, h06, h07, h08, h09, h0A, h0B, h0C, h0D, h0E, h0F, h10, h11, h13,
    h15, h18, h1A, h20⟩ := not_mem_statusTable c hc
  intro s rest hf hr
  unfold QFingerprint.getTemplateCount QFingerprint.writePacket QFingerprint.readPacket
  simp only [hf, if_true, if_false, hr, List.getD_cons_zero, List.drop_succ_cons, List.drop_zero,
    ne_eq, not_true_eq_false, FINGERPRINT_ACKPACKET, FINGERPRINT_OK,
    FINGERPRINT_ERROR_COMMUNICATION, FINGERPRINT_ADDRCODE,
    FINGERPRINT_ERROR_WRONGPASSWORD, FINGERPRINT_ERROR_INVALIDREGISTER, FINGERPRINT_ERROR_NOFINGER,
    FINGERPRINT_ERROR_READIMAGE, FINGERPRINT_ERROR_INVALIDPOSITION,
    FINGERPRINT_ERROR_CHARACTERISTICSMISMATCH, FINGERPRINT_ERROR_FLASH,
    FINGERPRINT_ERROR_NOTEMPLATEFOUND, FINGERPRINT_ERROR_DELETETEMPLATE,
    FINGERPRINT_ERROR_CLEARDATABASE, FINGERPRINT_ERROR_DOWNLOADIMAGE,
    FINGERPRINT_ERROR_DOWNLOADCHARACTERISTICS, FINGERPRINT_PACKETRESPONSEFAIL,
    FINGERPRINT_ERROR_MESSYIMAGE, FINGERPRINT_ERROR_FEWFEATUREPOINTS,
    FINGERPRINT_ERROR_INVALIDIMAGE, FINGERPRINT_ERROR_LOADTEMPLATE,
    h00, h01, h02, h03, h06, h07, h08, h09, h0A, h0B, h0C, h0D, h0E, h0F, h10, h11, h13,
    h15, h18, h1A, h20, and_self]

theorem readImage_notAck (signedChar : Bool) (pkt : List Nat)
    (ht : pkt.getD 0 0 ≠ 0x07) :
    ThrowsOnReply (fun s => s.readImage signedChar) pkt FpError.notAck := by
  intro s rest hf hr
  unfold QFingerprint.readImage QFingerprint.writePacket QFingerprint.readPacket
  simp only [hf, if_true, if_false, hr, FINGERPRINT_ACKPACKET, ne_eq, ht, not_false_eq_true,
    and_self]

theorem readImage_unknown (signedChar : Bool) (c : Nat) (more : List Nat)
    (hc : c ∉ statusTable) :
    ThrowsOnReply (fun s => s.readImage signedChar) (0x07 :: c :: more)
      (FpError.unknownError c) := by
  obtain ⟨h00, h01, h02, h03, h06, h07, h08, h09, h0A, h0B, h0C, h0D, h0E, h0F, h10, h11, h13,
    h15, h18, h1A, h20⟩ := not_mem_statusTable c hc
  intro s rest hf hr
  unfold QFingerprint.readImage QFingerprint.writePacket QFingerprint.readPacket
  simp only [hf, if_true, if_false, hr, List.getD_cons_zero, List.drop_succ_cons, List.drop_zero,
    ne_eq, not_true_eq_false, FINGERPRINT_ACKPACKET, FINGERPRINT_OK,
    FINGERPRINT_ERROR_COMMUNICATION, FINGERPRINT_ADDRCODE,
    FINGERPRINT_ERROR_WRONGPASSWORD, FINGERPRINT_ERROR_INVALIDREGISTER, FINGERPRINT_ERROR_NOFINGER,
    FINGERPRINT_ERROR_READIMAGE, FINGERPRINT_ERROR_INVALIDPOSITION,
    FINGERPRINT_ERROR_CHARACTERISTICSMISMATCH, FINGERPRINT_ERROR_FLASH,
    FINGERPRINT_ERROR_NOTEMPLATEFOUND, FINGERPRINT_ERROR_DELETETEMPLATE,
    FINGERPRINT_ERROR_CLEARDATABASE, FINGERPRINT_ERROR_DOWNLOADIMAGE,
    FINGERPRINT_ERROR_DOWNLOADCHARACTERISTICS, FINGERPRINT_PACKETRESPONSEFAIL,
    FINGERPRINT_ERROR_MESSYIMAGE, FINGERPRINT_ERROR_FEWFEATUREPOINTS,
    FINGERPRINT_ERROR_INVALIDIMAGE, FINGERPRINT_ERROR_LOADTEMPLATE,
    h00, h01, h02, h03, h06, h07, h08, h09, h0A, h0B, h0C, h0D, h0E, h0F, h10, h11, h13,
    h15, h18, h1A, h20, and_self]

theorem downloadImage_notAck (signedChar : Bool) (pkt : List Nat)
    (ht : pkt.getD 0 0 ≠ 0x07) :
    ThrowsOnReply (fun s => s.downloadImage signedChar true) pkt FpError.notAck := by
  intro s rest hf hr
  unfold QFingerprint.downloadImage QFingerprint.writePacket QFingerprint.readPacket
  simp only [Bool.true_eq_false, hf, if_true, if_false, hr, FINGERPRINT_ACKPACKET, ne_eq, ht,
    not_false_eq_true,
    and_self]

theorem downloadImage_unknown (signedChar : Bool) (c : Nat) (more : List Nat)
    (hc : c ∉ statusTable) :
    ThrowsOnReply (fun s => s.downloadImage signedChar true) (0x07 :: c :: more)
      (FpError.unknownError c) := by
  obtain ⟨h00, h01, h02, h03, h06, h07, h08, h09, h0A, h0B, h0C, h0D, h0E, h0F, h10, h11, h13,
    h15, h18, h1A, h20⟩ := not_mem_statusTable c hc
  intro s rest hf hr
  unfold QFingerprint.downloadImage QFingerprint.writePacket QFingerprint.readPacket
  simp only [Bool.true_eq_false, hf, if_true, if_false, hr, List.getD_cons_zero,
    List.drop_succ_cons, List.drop_zero,
    ne_eq, not_true_eq_false, FINGERPRINT_ACKPACKET, FINGERPRINT_OK,
    FINGERPRINT_ERROR_COMMUNICATION, FINGERPRINT_ADDRCODE,
    FINGERPRINT_ERROR_WRONGPASSWORD, FINGERPRINT_ERROR_INVALIDREGISTER, FINGERPRINT_ERROR_NOFINGER,
    FINGERPRINT_ERROR_READIMAGE, FINGERPRINT_ERROR_INVALIDPOSITION,
    FINGERPRINT_ERROR_CHARACTERISTICSMISMATCH, FINGERPRINT_ERROR_FLASH,
    FINGERPRINT_ERROR_NOTEMPLATEFOUND, FINGERPRINT_ERROR_DELETETEMPLATE,
    FINGERPRINT_ERROR_CLEARDATABASE, FINGERPRINT_ERROR_DOWNLOADIMAGE,
    FINGERPRINT_ERROR_DOWNLOADCHARACTERISTICS, FINGERPRINT_PACKETRESPONSEFAIL,
    FINGERPRINT_ERROR_MESSYIMAGE, FINGERPRINT_ERROR_FEWFEATUREPOINTS,
    FINGERPRINT_ERROR_INVALIDIMAGE, FINGERPRINT_ERROR_LOADTEMPLATE,
    h00, h01, h02, h03, h06, h07, h08, h09, h0A, h0B, h0C, h0D, h0E, h0F, h10, h11, h13,
    h15, h18, h1A, h20, and_self]

theorem convertImage_notAck (signedChar : Bool) (buf : Nat) (pkt : List Nat)
    (hbuf : buf = 1 ∨ buf = 2) (ht : pkt.getD 0 0 ≠ 0x07) :
    ThrowsOnReply (fun s => s.convertImage signedChar buf) pkt FpError.notAck := by
  have hb : ¬ (buf ≠ FINGERPRINT_CHARBUFFER1 ∧ buf ≠ FINGERPRINT_CHARBUFFER2) := by
    unfold FINGERPRINT_CHARBUFFER1 FINGERPRINT_CHARBUFFER2
    omega
  intro s rest hf hr
  unfold QFingerprint.convertImage QFingerprint.writePacket QFingerprint.readPacket
  simp only [hb, hf, if_true, if_false, hr, FINGERPRINT_ACKPACKET, ne_eq, ht, not_false_eq_true,
    and_self]

theorem convertImage_unknown (signedChar : Bool) (buf : Nat) (c : Nat) (more : List Nat)
    (hbuf : buf = 1 ∨ buf = 2) (hc : c ∉ statusTable) :
    ThrowsOnReply (fun s => s.convertImage signedChar buf) (0x07 :: c :: more)
      (FpError.unknownError c) := by
  obtain ⟨h00, h01, h02, h03, h06, h07, h08, h09, h0A, h0B, h0C, h0D, h0E, h0F, h10, h11, h13,
    h15, h18, h1A, h20⟩ := not_mem_statusTable c hc
  have hb : ¬ (buf ≠ FINGERPRINT_CHARBUFFER1 ∧ buf ≠ FINGERPRINT_CHARBUFFER2) := by
    unfold FINGERPRINT_CHARBUFFER1 FINGERPRINT_CHARBUFFER2
    omega
  intro s rest hf hr
  unfold QFingerprint.convertImage QFingerprint.writePacket QFingerprint.readPacket
  simp only [hb, hf, if_true, if_false, hr, List.getD_cons_zero, List.drop_succ_cons,
    List.drop_zero,
    ne_eq, not_true_eq_false, FINGERPRINT_ACKPACKET, FINGERPRINT_OK,
    FINGERPRINT_ERROR_COMMUNICATION, FINGERPRINT_ADDRCODE,
    FINGERPRINT_ERROR_WRONGPASSWORD, FINGERPRINT_ERROR_INVALIDREGISTER, FINGERPRINT_ERROR_NOFINGER,
    FINGERPRINT_ERROR_READIMAGE, FINGERPRINT_ERROR_INVALIDPOSITION,
    FINGERPRINT_ERROR_CHARACTERISTICSMISMATCH, FINGERPRINT_ERROR_FLASH,
    FINGERPRINT_ERROR_NOTEMPLATEFOUND, FINGERPRINT_ERROR_DELETETEMPLATE,
    FINGERPRINT_ERROR_CLEARDATABASE, FINGERPRINT_ERROR_DOWNLOADIMAGE,
    FINGERPRINT_ERROR_DOWNLOADCHARACTERISTICS, FINGERPRINT_PACKETRESPONSEFAIL,
    FINGERPRINT_ERROR_MESSYIMAGE, FINGERPRINT_ERROR_FEWFEATUREPOINTS,
    FINGERPRINT_ERROR_INVALIDIMAGE, FINGERPRINT_ERROR_LOADTEMPLATE,
    h00, h01, h02, h03, h06, h07, h08, h09, h0A, h0B, h0C, h0D, h0E, h0F, h10, h11, h13,
    h15, h18, h1A, h20, and_self]

theorem createTemplate_notAck (signedChar : Bool) (pkt : List Nat)
    (ht : pkt.getD 0 0 ≠ 0x07) :
    ThrowsOnReply (fun s => s.createTemplate signedChar) pkt FpError.notAck := by
  intro s rest hf hr
  unfold QFingerprint.createTemplate QFingerprint.writePacket QFingerprint.readPacket
  simp only [hf, if_true, if_false, hr, FINGERPRINT_ACKPACKET, ne_eq, ht, not_false_eq_true,
    and_self]

theorem createTemplate_unknown (signedChar : Bool) (c : Nat) (more : List Nat)
    (hc : c ∉ statusTable) :
    ThrowsOnReply (fun s => s.createTemplate signedChar) (0x07 :: c :: more)
      (FpError.unknownError c) := by
  obtain ⟨h00, h01, h02, h03, h06, h07, h08, h09, h0A, h0B, h0C, h0D, h0E, h0F, h10, h11, h13,
    h15, h18, h1A, h20⟩ := not_mem_statusTable c hc
  intro s rest hf hr
  unfold QFingerprint.createTemplate QFingerprint.writePacket QFingerprint.readPacket
  simp only [hf, if_true, if_false, hr, List.getD_cons_zero, List.drop_succ_cons, List.drop_zero,
    ne_eq, not_true_eq_false, FINGERPRINT_ACKPACKET, FINGERPRINT_OK,
    FINGERPRINT_ERROR_COMMUNICATION, FINGERPRINT_ADDRCODE,
    FINGERPRINT_ERROR_WRONGPASSWORD, FINGERPRINT_ERROR_INVALIDREGISTER, FINGERPRINT_ERROR_NOFINGER,
    FINGERPRINT_ERROR_READIMAGE, FINGERPRINT_ERROR_INVALIDPOSITION,
    FINGERPRINT_ERROR_CHARACTERISTICSMISMATCH, FINGERPRINT_ERROR_FLASH,
    FINGERPRINT_ERROR_NOTEMPLATEFOUND, FINGERPRINT_ERROR_DELETETEMPLATE,
    FINGERPRINT_ERROR_CLEARDATABASE, FINGERPRINT_ERROR_DOWNLOADIMAGE,
    FINGERPRINT_ERROR_DOWNLOADCHARACTERISTICS, FINGERPRINT_PACKETRESPONSEFAIL,
    FINGERPRINT_ERROR_MESSYIMAGE, FINGERPRINT_ERROR_FEWFEATUREPOINTS,
    FINGERPRINT_ERROR_INVALIDIMAGE, FINGERPRINT_ERROR_LOADTEMPLATE,
    h00, h01, h02, h03, h06, h07, h08, h09, h0A, h0B, h0C, h0D, h0E, h0F, h10, h11, h13,
    h15, h18, h1A, h20, and_self]

theorem clearDatabase_notAck (signedChar : Bool) (pkt : List Nat)
    (ht : pkt.getD 0 0 ≠ 0x07) :
    ThrowsOnReply (fun s => s.clearDatabase signedChar) pkt FpError.notAck := by
  intro s rest hf hr
  unfold QFingerprint.clearDatabase QFingerprint.writePacket QFingerprint.readPacket
  simp only [hf, if_true, if_false, hr, FINGERPRINT_ACKPACKET, ne_eq, ht, not_false_eq_true,
    and_self]

theorem clearDatabase_unknown (signedChar : Bool) (c : Nat) (more : List Nat)
    (hc : c ∉ statusTable) :
    ThrowsOnReply (fun s => s.clearDatabase signedChar) (0x07 :: c :: more)
      (FpError.unknownError c) := by
  obtain ⟨h00, h01, h02, h03, h06, h07, h08, h09, h0A, h0B, h0C, h0D, h0E, h0F, h10, h11, h13,
    h15, h18, h1A, h20⟩ := not_mem_statusTable c hc
  intro s rest hf hr
  unfold QFingerprint.clearDatabase QFingerprint.writePacket QFingerprint.readPacket
  simp only [hf, if_true, if_false, hr, List.getD_cons_zero, List.drop_succ_cons, List.drop_zero,
    ne_eq, not_true_eq_false, FINGERPRINT_ACKPACKET, FINGERPRINT_OK,
    FINGERPRINT_ERROR_COMMUNICATION, FINGERPRINT_ADDRCODE,
    FINGERPRINT_ERROR_WRONGPASSWORD, FINGERPRINT_ERROR_INVALIDREGISTER, FINGERPRINT_ERROR_NOFINGER,
    FINGERPRINT_ERROR_READIMAGE, FINGERPRINT_ERROR_INVALIDPOSITION,
    FINGERPRINT_ERROR_CHARACTERISTICSMISMATCH, FINGERPRINT_ERROR_FLASH,
    FINGERPRINT_ERROR_NOTEMPLATEFOUND, FINGERPRINT_ERROR_DELETETEMPLATE,
    FINGERPRINT_ERROR_CLEARDATABASE, FINGERPRINT_ERROR_DOWNLOADIMAGE,
    FINGERPRINT_ERROR_DOWNLOADCHARACTERISTICS, FINGERPRINT_PACKETRESPONSEFAIL,
    FINGERPRINT_ERROR_MESSYIMAGE, FINGERPRINT_ERROR_FEWFEATUREPOINTS,
    FINGERPRINT_ERROR_INVALIDIMAGE, FINGERPRINT_ERROR_LOADTEMPLATE,
    h00, h01, h02, h03, h06, h07, h08, h09, h0A, h0B, h0C, h0D, h0E, h0F, h10, h11, h13,
    h15, h18, h1A, h20, and_self]

theorem compareCharacteristics_notAck (signedChar : Bool) (pkt : List Nat)
    (ht : pkt.getD 0 0 ≠ 0x07) :
    ThrowsOnReply (fun s => s.compareCharacteristics signedChar) pkt FpError.notAck := by
  intro s rest hf hr
  unfold QFingerprint.compareCharacteristics QFingerprint.writePacket QFingerprint.readPacket
  simp only [hf, if_true, if_false, hr, FINGERPRINT_ACKPACKET, ne_eq, ht, not_false_eq_true,
    and_self]

theorem compareCharacteristics_unknown (signedChar : Bool) (c : Nat) (more : List Nat)
    (hc : c ∉ statusTable) :
    ThrowsOnReply (fun s => s.compareCharacteristics signedChar) (0x07 :: c :: more)
      (FpError.unknownError c) := by
  obtain ⟨h00, h01, h02, h03, h06, h07, h08, h09, h0A, h0B, h0C, h0D, h0E, h0F, h10, h11, h13,
    h15, h18, h1A, h20⟩ := not_mem_statusTable c hc
  intro s rest hf hr
  unfold QFingerprint.compareCharacteristics QFingerprint.writePacket QFingerprint.readPacket
  simp only [hf, if_true, if_false, hr, List.getD_cons_zero, List.drop_succ_cons, List.drop_zero,
    ne_eq, not_true_eq_false, FINGERPRINT_ACKPACKET, FINGERPRINT_OK,
    FINGERPRINT_ERROR_COMMUNICATION, FINGERPRINT_ADDRCODE,
    FINGERPRINT_ERROR_WRONGPASSWORD, FINGERPRINT_ERROR_INVALIDREGISTER, FINGERPRINT_ERROR_NOFINGER,
    FINGERPRINT_ERROR_READIMAGE, FINGERPRINT_ERROR_INVALIDPOSITION,
    FINGERPRINT_ERROR_CHARACTERISTICSMISMATCH, FINGERPRINT_ERROR_FLASH,
    FINGERPRINT_ERROR_NOTEMPLATEFOUND, FINGERPRINT_ERROR_DELETETEMPLATE,
    FINGERPRINT_ERROR_CLEARDATABASE, FINGERPRINT_ERROR_DOWNLOADIMAGE,
    FINGERPRINT_ERROR_DOWNLOADCHARACTERISTICS, FINGERPRINT_PACKETRESPONSEFAIL,
    FINGERPRINT_ERROR_MESSYIMAGE, FINGERPRINT_ERROR_FEWFEATUREPOINTS,
    FINGERPRINT_ERROR_INVALIDIMAGE, FINGERPRINT_ERROR_LOADTEMPLATE,
    h00, h01, h02, h03, h06, h07, h08, h09, h0A, h0B, h0C, h0D, h0E, h0F, h10, h11, h13,
    h15, h18, h1A, h20, and_self]

theorem generateRandomNumber_notAck (signedChar : Bool) (pkt : List Nat)
    (ht : pkt.getD 0 0 ≠ 0x07) :
    ThrowsOnReply (fun s => s.generateRandomNumber signedChar) pkt FpError.notAck := by
  intro s rest hf hr
  unfold QFingerprint.generateRandomNumber QFingerprint.writePacket QFingerprint.readPacket
  simp only [hf, if_true, if_false, hr, FINGERPRINT_ACKPACKET, ne_eq, ht, not_false_eq_true,
    and_self]

theorem generateRandomNumber_unknown (signedChar : Bool) (c : Nat) (more : List Nat)
    (hc : c ∉ statusTable) :
    ThrowsOnReply (fun s => s.generateRandomNumber signedChar) (0x07 :: c :: more)
      (FpError.unknownError c) := by
  obtain ⟨h00, h01, h02, h03, h06, h07, h08, h09, h0A, h0B, h0C, h0D, h0E, h0F, h10, h11, h13,
    h15, h18, h1A, h20⟩ := not_mem_statusTable c hc
  intro s rest hf hr
  unfold QFingerprint.generateRandomNumber QFingerprint.writePacket QFingerprint.readPacket
  simp only [hf, if_true, if_false, hr, List.getD_cons_zero, List.drop_succ_cons, List.drop_zero,
    ne_eq, not_true_eq_false, FINGERPRINT_ACKPACKET, FINGERPRINT_OK,
    FINGERPRINT_ERROR_COMMUNICATION, FINGERPRINT_ADDRCODE,
    FINGERPRINT_ERROR_WRONGPASSWORD, FINGERPRINT_ERROR_INVALIDREGISTER, FINGERPRINT_ERROR_NOFINGER,
    FINGERPRINT_ERROR_READIMAGE, FINGERPRINT_ERROR_INVALIDPOSITION,
    FINGERPRINT_ERROR_CHARACTERISTICSMISMATCH, FINGERPRINT_ERROR_FLASH,
    FINGERPRINT_ERROR_NOTEMPLATEFOUND, FINGERPRINT_ERROR_DELETETEMPLATE,
    FINGERPRINT_ERROR_CLEARDATABASE, FINGERPRINT_ERROR_DOWNLOADIMAGE,
    FINGERPRINT_ERROR_DOWNLOADCHARACTERISTICS, FINGERPRINT_PACKETRESPONSEFAIL,
    FINGERPRINT_ERROR_MESSYIMAGE, FINGERPRINT_ERROR_FEWFEATUREPOINTS,
    FINGERPRINT_ERROR_INVALIDIMAGE, FINGERPRINT_ERROR_LOADTEMPLATE,
    h00, h01, h02, h03, h06, h07, h08, h09, h0A, h0B, h0C, h0D, h0E, h0F, h10, h11, h13,
    h15, h18, h1A, h20, and_self]

theorem downloadCharacteristics_notAck (signedChar : Bool) (buf : Nat) (pkt : List Nat)
    (hbuf : buf = 1 ∨ buf = 2) (ht : pkt.getD 0 0 ≠ 0x07) :
    ThrowsOnReply (fun s => s.downloadCharacteristics signedChar buf) pkt FpError.notAck := by
  have hb : ¬ (buf ≠ FINGERPRINT_CHARBUFFER1 ∧ buf ≠ FINGERPRINT_CHARBUFFER2) := by
    unfold FINGERPRINT_CHARBUFFER1 FINGERPRINT_CHARBUFFER2
    omega
  intro s rest hf hr
  unfold QFingerprint.downloadCharacteristics QFingerprint.writePacket QFingerprint.readPacket
  simp only [hb, hf, if_true, if_false, hr, FINGERPRINT_ACKPACKET, ne_eq, ht, not_false_eq_true,
    and_self]

theorem downloadCharacteristics_unknown (signedChar : Bool) (buf : Nat) (c : Nat) (more : List Nat)
    (hbuf : buf = 1 ∨ buf = 2) (hc : c ∉ statusTable) :
    ThrowsOnReply (fun s => s.downloadCharacteristics signedChar buf) (0x07 :: c :: more)
      (FpError.unknownError c) := by
  obtain ⟨h00, h01, h02, h03, h06, h07, h08, h09, h0A, h0B, h0C, h0D, h0E, h0F, h10, h11, h13,
    h15, h18, h1A, h20⟩ := not_mem_statusTable c hc
  have hb : ¬ (buf ≠ FINGERPRINT_CHARBUFFER1 ∧ buf ≠ FINGERPRINT_CHARBUFFER2) := by
    unfold FINGERPRINT_CHARBUFFER1 FINGERPRINT_CHARBUFFER2
    omega
  intro s rest hf hr
  unfold QFingerprint.downloadCharacteristics QFingerprint.writePacket QFingerprint.readPacket
  simp only [hb, hf, if_true, if_false, hr, List.getD_cons_zero, List.drop_succ_cons,
    List.drop_zero,
    ne_eq, not_true_eq_false, FINGERPRINT_ACKPACKET, FINGERPRINT_OK,
    FINGERPRINT_ERROR_COMMUNICATION, FINGERPRINT_ADDRCODE,
    FINGERPRINT_ERROR_WRONGPASSWORD, FINGERPRINT_ERROR_INVALIDREGISTER, FINGERPRINT_ERROR_NOFINGER,
    FINGERPRINT_ERROR_READIMAGE, FINGERPRINT_ERROR_INVALIDPOSITION,
    FINGERPRINT_ERROR_CHARACTERISTICSMISMATCH, FINGERPRINT_ERROR_FLASH,
    FINGERPRINT_ERROR_NOTEMPLATEFOUND, FINGERPRINT_ERROR_DELETETEMPLATE,
    FINGERPRINT_ERROR_CLEARDATABASE, FINGERPRINT_ERROR_DOWNLOADIMAGE,
    FINGERPRINT_ERROR_DOWNLOADCHARACTERISTICS, FINGERPRINT_PACKETRESPONSEFAIL,
    FINGERPRINT_ERROR_MESSYIMAGE, FINGERPRINT_ERROR_FEWFEATUREPOINTS,
    FINGERPRINT_ERROR_INVALIDIMAGE, FINGERPRINT_ERROR_LOADTEMPLATE,
    h00, h01, h02, h03, h06, h07, h08, h09, h0A, h0B, h0C, h0D, h0E, h0F, h10, h11, h13,
    h15, h18, h1A, h20, and_self]

theorem deleteTemplate_notAck (signedChar : Bool) (pos count : Nat) (pkt : List Nat)
    (ht : pkt.getD 0 0 ≠ 0x07) :
    ThrowsOnReply (fun s => s.deleteTemplate signedChar pos count) pkt FpError.notAck := by
  intro s rest hf hr
  unfold QFingerprint.deleteTemplate QFingerprint.getStorageCapacity
    QFingerprint.getSystemParameters
    QFingerprint.writePacket QFingerprint.readPacket
  simp only [hf, if_true, if_false, hr, FINGERPRINT_ACKPACKET, ne_eq, ht, not_false_eq_true,
    and_self]

theorem deleteTemplate_unknown (signedChar : Bool) (pos count : Nat) (c : Nat) (more : List Nat)
    (hc : c ∉ statusTable) :
    ThrowsOnReply (fun s => s.deleteTemplate signedChar pos count) (0x07 :: c :: more)
      (FpError.unknownError c) := by
  obtain ⟨h00, h01, h02, h03, h06, h07, h08, h09, h0A, h0B, h0C, h0D, h0E, h0F, h10, h11, h13,
    h15, h18, h1A, h20⟩ := not_mem_statusTable c hc
  intro s rest hf hr
  unfold QFingerprint.deleteTemplate QFingerprint.getStorageCapacity
    QFingerprint.getSystemParameters
    QFingerprint.writePacket QFingerprint.readPacket
  simp only [hf, if_true, if_false, hr, List.getD_cons_zero, List.drop_succ_cons, List.drop_zero,
    ne_eq, not_true_eq_false, FINGERPRINT_ACKPACKET, FINGERPRINT_OK,
    FINGERPRINT_ERROR_COMMUNICATION, FINGERPRINT_ADDRCODE,
    FINGERPRINT_ERROR_WRONGPASSWORD, FINGERPRINT_ERROR_INVALIDREGISTER, FINGERPRINT_ERROR_NOFINGER,
    FINGERPRINT_ERROR_READIMAGE, FINGERPRINT_ERROR_INVALIDPOSITION,
    FINGERPRINT_ERROR_CHARACTERISTICSMISMATCH, FINGERPRINT_ERROR_FLASH,
    FINGERPRINT_ERROR_NOTEMPLATEFOUND, FINGERPRINT_ERROR_DELETETEMPLATE,
    FINGERPRINT_ERROR_CLEARDATABASE, FINGERPRINT_ERROR_DOWNLOADIMAGE,
    FINGERPRINT_ERROR_DOWNLOADCHARACTERISTICS, FINGERPRINT_PACKETRESPONSEFAIL,
    FINGERPRINT_ERROR_MESSYIMAGE, FINGERPRINT_ERROR_FEWFEATUREPOINTS,
    FINGERPRINT_ERROR_INVALIDIMAGE, FINGERPRINT_ERROR_LOADTEMPLATE,
    h00, h01, h02, h03, h06, h07, h08, h09, h0A, h0B, h0C, h0D, h0E, h0F, h10, h11, h13,
    h15, h18, h1A, h20, and_self]

theorem loadTemplate_notAck (signedChar : Bool) (pos buf : Nat) (pkt : List Nat)
    (ht : pkt.getD 0 0 ≠ 0x07) :
    ThrowsOnReply (fun s => s.loadTemplate signedChar pos buf) pkt FpError.notAck := by
  intro s rest hf hr
  unfold QFingerprint.loadTemplate QFingerprint.getStorageCapacity QFingerprint.getSystemParameters
    QFingerprint.writePacket QFingerprint.readPacket
  simp only [hf, if_true, if_false, hr, FINGERPRINT_ACKPACKET, ne_eq, ht, not_false_eq_true,
    and_self]

theorem loadTemplate_unknown (signedChar : Bool) (pos buf : Nat) (c : Nat) (more : List Nat)
    (hc : c ∉ statusTable) :
    ThrowsOnReply (fun s => s.loadTemplate signedChar pos buf) (0x07 :: c :: more)
      (FpError.unknownError c) := by
  obtain ⟨h00, h01, h02, h03, h06, h07, h08, h09, h0A, h0B, h0C, h0D, h0E, h0F, h10, h11, h13,
    h15, h18, h1A, h20⟩ := not_mem_statusTable c hc
  intro s rest hf hr
  unfold QFingerprint.loadTemplate QFingerprint.getStorageCapacity QFingerprint.getSystemParameters
    QFingerprint.writePacket QFingerprint.readPacket
  simp only [hf, if_true, if_false, hr, List.getD_cons_zero, List.drop_succ_cons, List.drop_zero,
    ne_eq, not_true_eq_false, FINGERPRINT_ACKPACKET, FINGERPRINT_OK,
    FINGERPRINT_ERROR_COMMUNICATION, FINGERPRINT_ADDRCODE,
    FINGERPRINT_ERROR_WRONGPASSWORD, FINGERPRINT_ERROR_INVALIDREGISTER, FINGERPRINT_ERROR_NOFINGER,
    FINGERPRINT_ERROR_READIMAGE, FINGERPRINT_ERROR_INVALIDPOSITION,
    FINGERPRINT_ERROR_CHARACTERISTICSMISMATCH, FINGERPRINT_ERROR_FLASH,
    FINGERPRINT_ERROR_NOTEMPLATEFOUND, FINGERPRINT_ERROR_DELETETEMPLATE,
    FINGERPRINT_ERROR_CLEARDATABASE, FINGERPRINT_ERROR_DOWNLOADIMAGE,
    FINGERPRINT_ERROR_DOWNLOADCHARACTERISTICS, FINGERPRINT_PACKETRESPONSEFAIL,
    FINGERPRINT_ERROR_MESSYIMAGE, FINGERPRINT_ERROR_FEWFEATUREPOINTS,
    FINGERPRINT_ERROR_INVALIDIMAGE, FINGERPRINT_ERROR_LOADTEMPLATE,
    h00, h01, h02, h03, h06, h07, h08, h09, h0A, h0B, h0C, h0D, h0E, h0F, h10, h11, h13,
    h15, h18, h1A, h20, and_self]

theorem uploadCharacteristics_notAck (signedChar : Bool) (buf : Nat) (d : List Nat) (pkt : List Nat)
    (hbuf : buf = 1 ∨ buf = 2) (hd : d ≠ [0]) (ht : pkt.getD 0 0 ≠ 0x07) :
    ThrowsOnReply (fun s => s.uploadCharacteristics signedChar buf d) pkt FpError.notAck := by
  have hb : ¬ (buf ≠ FINGERPRINT_CHARBUFFER1 ∧ buf ≠ FINGERPRINT_CHARBUFFER2) := by
    unfold FINGERPRINT_CHARBUFFER1 FINGERPRINT_CHARBUFFER2
    omega
  intro s rest hf hr
  unfold QFingerprint.uploadCharacteristics QFingerprint.getMaxPacketSize
    QFingerprint.getSystemParameters
    QFingerprint.writePacket QFingerprint.readPacket
  simp only [hb, hd, hf, if_true, if_false, hr, FINGERPRINT_ACKPACKET, ne_eq, ht, not_false_eq_true,
    and_self]

theorem uploadCharacteristics_unknown (signedChar : Bool) (buf : Nat) (d : List Nat) (c : Nat) (more : List Nat)
    (hbuf : buf = 1 ∨ buf = 2) (hd : d ≠ [0]) (hc : c ∉ statusTable) :
    ThrowsOnReply (fun s => s.uploadCharacteristics signedChar buf d) (0x07 :: c :: more)
      (FpError.unknownError c) := by
  obtain ⟨h00, h01, h02, h03, h06, h07, h08, h09, h0A, h0B, h0C, h0D, h0E, h0F, h10, h11, h13,
    h15, h18, h1A, h20⟩ := not_mem_statusTable c hc
  have hb : ¬ (buf ≠ FINGERPRINT_CHARBUFFER1 ∧ buf ≠ FINGERPRINT_CHARBUFFER2) := by
    unfold FINGERPRINT_CHARBUFFER1 FINGERPRINT_CHARBUFFER2
    omega
  intro s rest hf hr
  unfold QFingerprint.uploadCharacteristics QFingerprint.getMaxPacketSize
    QFingerprint.getSystemParameters
    QFingerprint.writePacket QFingerprint.readPacket
  simp only [hb, hd, hf, if_true, if_false, hr, List.getD_cons_zero, List.drop_succ_cons,
    List.drop_zero,
    ne_eq, not_true_eq_false, FINGERPRINT_ACKPACKET, FINGERPRINT_OK,
    FINGERPRINT_ERROR_COMMUNICATION, FINGERPRINT_ADDRCODE,
    FINGERPRINT_ERROR_WRONGPASSWORD, FINGERPRINT_ERROR_INVALIDREGISTER, FINGERPRINT_ERROR_NOFINGER,
    FINGERPRINT_ERROR_READIMAGE, FINGERPRINT_ERROR_INVALIDPOSITION,
    FINGERPRINT_ERROR_CHARACTERISTICSMISMATCH, FINGERPRINT_ERROR_FLASH,
    FINGERPRINT_ERROR_NOTEMPLATEFOUND, FINGERPRINT_ERROR_DELETETEMPLATE,
    FINGERPRINT_ERROR_CLEARDATABASE, FINGERPRINT_ERROR_DOWNLOADIMAGE,
    FINGERPRINT_ERROR_DOWNLOADCHARACTERISTICS, FINGERPRINT_PACKETRESPONSEFAIL,
    FINGERPRINT_ERROR_MESSYIMAGE, FINGERPRINT_ERROR_FEWFEATUREPOINTS,
    FINGERPRINT_ERROR_INVALIDIMAGE, FINGERPRINT_ERROR_LOADTEMPLATE,
    h00, h01, h02, h03, h06, h07, h08, h09, h0A, h0B, h0C, h0D, h0E, h0F, h10, h11, h13,
    h15, h18, h1A, h20, and_self]

theorem searchTemplate_notAck (signedChar : Bool) (buf start : Nat) (count : Int)
    (pkt : List Nat) (hbuf : buf = 1 ∨ buf = 2) (ht : pkt.getD 0 0 ≠ 0x07) :
    ThrowsOnReply (fun s => s.searchTemplate signedChar buf start count) pkt FpError.notAck := by
  have hb : ¬ (buf ≠ FINGERPRINT_CHARBUFFER1 ∧ buf ≠ FINGERPRINT_CHARBUFFER2) := by
    unfold FINGERPRINT_CHARBUFFER1 FINGERPRINT_CHARBUFFER2
    omega
  intro s rest hf hr
  unfold QFingerprint.searchTemplate QFingerprint.getStorageCapacity
    QFingerprint.getSystemParameters QFingerprint.writePacket QFingerprint.readPacket
  by_cases hcount : count > 0
  · simp only [hb, hcount, hf, if_true, if_false, hr, FINGERPRINT_ACKPACKET, ne_eq, ht,
      not_false_eq_true, and_self]
  · simp only [hb, hcount, hf, if_true, if_false, hr, FINGERPRINT_ACKPACKET, ne_eq, ht,
      not_false_eq_true, and_self]

theorem storeTemplate_notAck (signedChar : Bool) (page0 p : Int) (buf : Nat)
    (pkt : List Nat) (h0 : 0 ≤ page0) (h3 : page0 ≤ 3) (ht : pkt.getD 0 0 ≠ 0x07) :
    ThrowsOnReply (fun s => s.storeTemplate signedChar page0 p buf) pkt FpError.notAck0 := by
  have hp : page0 < 4 := by omega
  have hp2 : ¬ ((page0 % 256).toNat < 0 ∨ (page0 % 256).toNat > 3) := by omega
  intro s rest hf hr
  have hscan : storeTemplateScan signedChar 6 s page0 (-1)
      = (Except.error FpError.notAck0,
          (s.getTemplateIndex signedChar (page0 % 256).toNat).2) := by
    rw [show (6 : Nat) = 5 + 1 from rfl, storeTemplateScan]
    unfold QFingerprint.getTemplateIndex QFingerprint.writePacket QFingerprint.readPacket
    simp only [hp, hp2, hf, if_true, if_false, hr, FINGERPRINT_ACKPACKET, ne_eq, ht,
      not_false_eq_true, ge_iff_le, Left.nonneg_neg_iff, Int.reduceLE]
  have hst := getTemplateIndex_notAck signedChar (page0 % 256).toNat pkt (by omega) ht s rest
    hf hr
  unfold QFingerprint.storeTemplate assign
  simp only [hscan, ne_eq, Int.reduceNeg, neg_eq_zero, one_ne_zero, not_false_eq_true, if_true]
  exact ⟨trivial, hst.2.1, hst.2.2⟩

theorem getSystemParameters_password (signedChar : Bool) (s : QFingerprint) :
    (s.getSystemParameters signedChar).2.m_password = s.m_password := by
  unfold QFingerprint.getSystemParameters QFingerprint.writePacket QFingerprint.readPacket
  by_cases hf : s.m_serial.flushes = true
  · rcases hr : readPacketLoop [] s.m_serial.incoming with ⟨r, rest⟩
    cases r with
    | error e => simp only [hf, if_true, hr]
    | ok pkt =>
      simp only [hf, if_true, hr]
      split_ifs <;> rfl
  · simp only [hf]
    rfl

theorem getStorageCapacity_password (signedChar : Bool) (s : QFingerprint) :
    (s.getStorageCapacity signedChar).2.m_password = s.m_password := by
  have h := getSystemParameters_password signedChar s
  unfold QFingerprint.getStorageCapacity
  rcases hg : s.getSystemParameters signedChar with ⟨r, s1⟩
  rw [hg] at h
  cases r <;> exact h

theorem getMaxPacketSize_password (signedChar : Bool) (s : QFingerprint) :
    (s.getMaxPacketSize signedChar).2.m_password = s.m_password := by
  have h := getSystemParameters_password signedChar s
  unfold QFingerprint.getMaxPacketSize
  rcases hg : s.getSystemParameters signedChar with ⟨r, s1⟩
  rw [hg] at h
  cases r with
  | error e => exact h
  | ok P =>
    simp only
    split_ifs <;> exact h

theorem getTemplateIndex_mirrors (signedChar : Bool) (s : QFingerprint) (page : Nat) :
    (s.getTemplateIndex signedChar page).2.m_address = s.m_address
      ∧ (s.getTemplateIndex signedChar page).2.m_password = s.m_password := by
  unfold QFingerprint.getTemplateIndex QFingerprint.writePacket QFingerprint.readPacket
  by_cases hp : page < 0 ∨ page > 3
  · simp only [hp, if_true, and_self]
  · by_cases hf : s.m_serial.flushes = true
    · rcases hr : readPacketLoop [] s.m_serial.incoming with ⟨r, rest⟩
      cases r with
      | error e => simp only [hp, hf, if_true, if_false, hr, and_self]
      | ok pkt =>
        simp only [hp, hf, if_true, if_false, hr]
        split_ifs <;> exact ⟨rfl, rfl⟩
    · simp only [hp, hf, if_false]
      exact ⟨rfl, rfl⟩

/-- The scan of `storeTemplate` leaves the stored address and password as they were. -/
theorem storeTemplateScan_mirrors (signedChar : Bool) (fuel : Nat) :
    ∀ (s : QFingerprint) (page pos : Int),
      (storeTemplateScan signedChar fuel s page pos).2.m_address = s.m_address
        ∧ (storeTemplateScan signedChar fuel s page pos).2.m_password = s.m_password := by
  induction fuel with
  | zero => intro s page pos; exact ⟨rfl, rfl⟩
  | succ n ih =>
    intro s page pos
    rw [storeTemplateScan]
    split_ifs
    · exact ⟨rfl, rfl⟩
    · have hg := getTemplateIndex_mirrors signedChar s (page % 256).toNat
      rcases hq : s.getTemplateIndex signedChar (page % 256).toNat with ⟨r, s1⟩
      rw [hq] at hg
      cases r with
      | error e => exact hg
      | ok idx =>
        simp only
        have h2 := ih s1 (page + 1)
          (match firstUnsetBit idx with
            | some i => toInt16 ((idx.length : Int) * page + (i : Int))
            | none => pos)
        exact ⟨h2.1.trans hg.1, h2.2.trans hg.2⟩
    · exact ⟨rfl, rfl⟩

theorem storeTemplateQueries_mirrors (signedChar : Bool) (page0 : Int) (s : QFingerprint) :
    (storeTemplateQueries signedChar page0 s).2.m_address = s.m_address
      ∧ (storeTemplateQueries signedChar page0 s).2.m_password = s.m_password := by
  have h1 := storeTemplateScan_mirrors signedChar 6 s page0 (-1)
  unfold storeTemplateQueries
  rcases hq : storeTemplateScan signedChar 6 s page0 (-1) with ⟨r, s0⟩
  rw [hq] at h1
  cases r with
  | error e => exact h1
  | ok pos =>
    simp only
    split_ifs
    · exact h1
    · have ha := getStorageCapacity_address signedChar s0
      have hp := getStorageCapacity_password signedChar s0
      rcases hc : s0.getStorageCapacity signedChar with ⟨r2, s1⟩
      rw [hc] at ha hp
      cases r2 <;> exact ⟨ha.trans h1.1, hp.trans h1.2⟩

theorem deleteTemplate_own_notAck (signedChar : Bool) (pos count : Nat) (pkt : List Nat)
    (ht : pkt.getD 0 0 ≠ 0x07) :
    ThrowsOnReplyAfter (fun s => s.getStorageCapacity signedChar)
      (fun cap => pos < cap ∧ count ≤ cap - pos)
      (fun s => s.deleteTemplate signedChar pos count) pkt FpError.notAck := by
  intro s s0 v rest hpre hadm hf hr
  beta_reduce at hpre hadm ⊢
  have ha := getStorageCapacity_address signedChar s
  have hp := getStorageCapacity_password signedChar s
  rw [hpre] at ha hp
  simp only at ha hp
  have h1 : ¬ (pos < 0 ∨ pos ≥ v) := by omega
  have h2 : ¬ (count < 0 ∨ (count : Int) > (v : Int) - (pos : Int)) := by omega
  unfold QFingerprint.deleteTemplate QFingerprint.writePacket QFingerprint.readPacket
  simp only [hpre, h1, h2, hf, if_true, if_false, hr, FINGERPRINT_ACKPACKET, ne_eq, ht,
    not_false_eq_true, ha, hp, and_self]

theorem deleteTemplate_own_unknown (signedChar : Bool) (pos count : Nat) (c : Nat) (more : List Nat)
    (hc : c ∉ statusTable) :
    ThrowsOnReplyAfter (fun s => s.getStorageCapacity signedChar)
      (fun cap => pos < cap ∧ count ≤ cap - pos)
      (fun s => s.deleteTemplate signedChar pos count) (0x07 :: c :: more)
      (FpError.unknownError c) := by
  obtain ⟨h00, h01, h02, h03, h06, h07, h08, h09, h0A, h0B, h0C, h0D, h0E, h0F, h10, h11, h13,
    h15, h18, h1A, h20⟩ := not_mem_statusTable c hc
  intro s s0 v rest hpre hadm hf hr
  beta_reduce at hpre hadm ⊢
  have ha := getStorageCapacity_address signedChar s
  have hp := getStorageCapacity_password signedChar s
  rw [hpre] at ha hp
  simp only at ha hp
  have h1 : ¬ (pos < 0 ∨ pos ≥ v) := by omega
  have h2 : ¬ (count < 0 ∨ (count : Int) > (v : Int) - (pos : Int)) := by omega
  unfold QFingerprint.deleteTemplate QFingerprint.writePacket QFingerprint.readPacket
  simp only [hpre, h1, h2, hf, if_true, if_false, hr, List.getD_cons_zero, List.drop_succ_cons,
    List.drop_zero, ne_eq, not_true_eq_false, FINGERPRINT_ACKPACKET, FINGERPRINT_OK,
    FINGERPRINT_ERROR_COMMUNICATION, FINGERPRINT_ADDRCODE,
    FINGERPRINT_ERROR_WRONGPASSWORD, FINGERPRINT_ERROR_INVALIDREGISTER, FINGERPRINT_ERROR_NOFINGER,
    FINGERPRINT_ERROR_READIMAGE, FINGERPRINT_ERROR_INVALIDPOSITION,
    FINGERPRINT_ERROR_CHARACTERISTICSMISMATCH, FINGERPRINT_ERROR_FLASH,
    FINGERPRINT_ERROR_NOTEMPLATEFOUND, FINGERPRINT_ERROR_DELETETEMPLATE,
    FINGERPRINT_ERROR_CLEARDATABASE, FINGERPRINT_ERROR_DOWNLOADIMAGE,
    FINGERPRINT_ERROR_DOWNLOADCHARACTERISTICS, FINGERPRINT_PACKETRESPONSEFAIL,
    FINGERPRINT_ERROR_MESSYIMAGE, FINGERPRINT_ERROR_FEWFEATUREPOINTS,
    FINGERPRINT_ERROR_INVALIDIMAGE, FINGERPRINT_ERROR_LOADTEMPLATE,
    h00, h01, h02, h03, h06, h07, h08, h09, h0A, h0B, h0C, h0D, h0E, h0F, h10, h11, h13,
    h15, h18, h1A, h20, ha, hp, and_self]

theorem loadTemplate_own_notAck (signedChar : Bool) (pos buf : Nat) (pkt : List Nat)
    (hbuf : buf = 1 ∨ buf = 2) (ht : pkt.getD 0 0 ≠ 0x07) :
    ThrowsOnReplyAfter (fun s => s.getStorageCapacity signedChar)
      (fun cap => pos < cap)
      (fun s => s.loadTemplate signedChar pos buf) pkt FpError.notAck := by
  have hb : ¬ (buf ≠ FINGERPRINT_CHARBUFFER1 ∧ buf ≠ FINGERPRINT_CHARBUFFER2) := by
    unfold FINGERPRINT_CHARBUFFER1 FINGERPRINT_CHARBUFFER2
    omega
  intro s s0 v rest hpre hadm hf hr
  beta_reduce at hpre hadm ⊢
  have ha := getStorageCapacity_address signedChar s
  have hp := getStorageCapacity_password signedChar s
  rw [hpre] at ha hp
  simp only at ha hp
  have h1 : ¬ (pos < 0 ∨ pos ≥ v) := by omega
  unfold QFingerprint.loadTemplate QFingerprint.writePacket QFingerprint.readPacket
  simp only [hpre, h1, hb, hf, if_true, if_false, hr, FINGERPRINT_ACKPACKET, ne_eq, ht,
    not_false_eq_true, ha, hp, and_self]

theorem loadTemplate_own_unknown (signedChar : Bool) (pos buf : Nat) (c : Nat) (more : List Nat)
    (hbuf : buf = 1 ∨ buf = 2) (hc : c ∉ statusTable) :
    ThrowsOnReplyAfter (fun s => s.getStorageCapacity signedChar)
      (fun cap => pos < cap)
      (fun s => s.loadTemplate signedChar pos buf) (0x07 :: c :: more)
      (FpError.unknownError c) := by
  obtain ⟨h00, h01, h02, h03, h06, h07, h08, h09, h0A, h0B, h0C, h0D, h0E, h0F, h10, h11, h13,
    h15, h18, h1A, h20⟩ := not_mem_statusTable c hc
  have hb : ¬ (buf ≠ FINGERPRINT_CHARBUFFER1 ∧ buf ≠ FINGERPRINT_CHARBUFFER2) := by
    unfold FINGERPRINT_CHARBUFFER1 FINGERPRINT_CHARBUFFER2
    omega
  intro s s0 v rest hpre hadm hf hr
  beta_reduce at hpre hadm ⊢
  have ha := getStorageCapacity_address signedChar s
  have hp := getStorageCapacity_password signedChar s
  rw [hpre] at ha hp
  simp only at ha hp
  have h1 : ¬ (pos < 0 ∨ pos ≥ v) := by omega
  unfold QFingerprint.loadTemplate QFingerprint.writePacket QFingerprint.readPacket
  simp only [hpre, h1, hb, hf, if_true, if_false, hr, List.getD_cons_zero, List.drop_succ_cons,
    List.drop_zero, ne_eq, not_true_eq_false, FINGERPRINT_ACKPACKET, FINGERPRINT_OK,
    FINGERPRINT_ERROR_COMMUNICATION, FINGERPRINT_ADDRCODE,
    FINGERPRINT_ERROR_WRONGPASSWORD, FINGERPRINT_ERROR_INVALIDREGISTER, FINGERPRINT_ERROR_NOFINGER,
    FINGERPRINT_ERROR_READIMAGE, FINGERPRINT_ERROR_INVALIDPOSITION,
    FINGERPRINT_ERROR_CHARACTERISTICSMISMATCH, FINGERPRINT_ERROR_FLASH,
    FINGERPRINT_ERROR_NOTEMPLATEFOUND, FINGERPRINT_ERROR_DELETETEMPLATE,
    FINGERPRINT_ERROR_CLEARDATABASE, FINGERPRINT_ERROR_DOWNLOADIMAGE,
    FINGERPRINT_ERROR_DOWNLOADCHARACTERISTICS, FINGERPRINT_PACKETRESPONSEFAIL,
    FINGERPRINT_ERROR_MESSYIMAGE, FINGERPRINT_ERROR_FEWFEATUREPOINTS,
    FINGERPRINT_ERROR_INVALIDIMAGE, FINGERPRINT_ERROR_LOADTEMPLATE,
    h00, h01, h02, h03, h06, h07, h08, h09, h0A, h0B, h0C, h0D, h0E, h0F, h10, h11, h13,
    h15, h18, h1A, h20, ha, hp, and_self]

theorem uploadCharacteristics_own_notAck (signedChar : Bool) (buf : Nat) (d : List Nat) (pkt : List Nat)
    (hbuf : buf = 1 ∨ buf = 2) (hd : d ≠ [0]) (ht : pkt.getD 0 0 ≠ 0x07) :
    ThrowsOnReplyAfter (fun s => s.getMaxPacketSize signedChar)
      (fun _ => True)
      (fun s => s.uploadCharacteristics signedChar buf d) pkt FpError.notAck := by
  have hb : ¬ (buf ≠ FINGERPRINT_CHARBUFFER1 ∧ buf ≠ FINGERPRINT_CHARBUFFER2) := by
    unfold FINGERPRINT_CHARBUFFER1 FINGERPRINT_CHARBUFFER2
    omega
  intro s s0 v rest hpre hadm hf hr
  beta_reduce at hpre hadm ⊢
  have ha := getMaxPacketSize_address signedChar s
  have hp := getMaxPacketSize_password signedChar s
  rw [hpre] at ha hp
  simp only at ha hp
  unfold QFingerprint.uploadCharacteristics QFingerprint.writePacket QFingerprint.readPacket
  simp only [hpre, hb, hd, hf, if_true, if_false, hr, FINGERPRINT_ACKPACKET, ne_eq, ht,
    not_false_eq_true, ha, hp, and_self]

theorem uploadCharacteristics_own_unknown (signedChar : Bool) (buf : Nat) (d : List Nat) (c : Nat) (more : List Nat)
    (hbuf : buf = 1 ∨ buf = 2) (hd : d ≠ [0]) (hc : c ∉ statusTable) :
    ThrowsOnReplyAfter (fun s => s.getMaxPacketSize signedChar)
      (fun _ => True)
      (fun s => s.uploadCharacteristics signedChar buf d) (0x07 :: c :: more)
      (FpError.unknownError c) := by
  obtain ⟨h00, h01, h02, h03, h06, h07, h08, h09, h0A, h0B, h0C, h0D, h0E, h0F, h10, h11, h13,
    h15, h18, h1A, h20⟩ := not_mem_statusTable c hc
  have hb : ¬ (buf ≠ FINGERPRINT_CHARBUFFER1 ∧ buf ≠ FINGERPRINT_CHARBUFFER2) := by
    unfold FINGERPRINT_CHARBUFFER1 FINGERPRINT_CHARBUFFER2
    omega
  intro s s0 v rest hpre hadm hf hr
  beta_reduce at hpre hadm ⊢
  have ha := getMaxPacketSize_address signedChar s
  have hp := getMaxPacketSize_password signedChar s
  rw [hpre] at ha hp
  simp only at ha hp
  unfold QFingerprint.uploadCharacteristics QFingerprint.writePacket QFingerprint.readPacket
  simp only [hpre, hb, hd, hf, if_true, if_false, hr, List.getD_cons_zero, List.drop_succ_cons,
    List.drop_zero, ne_eq, not_true_eq_false, FINGERPRINT_ACKPACKET, FINGERPRINT_OK,
    FINGERPRINT_ERROR_COMMUNICATION, FINGERPRINT_ADDRCODE,
    FINGERPRINT_ERROR_WRONGPASSWORD, FINGERPRINT_ERROR_INVALIDREGISTER, FINGERPRINT_ERROR_NOFINGER,
    FINGERPRINT_ERROR_READIMAGE, FINGERPRINT_ERROR_INVALIDPOSITION,
    FINGERPRINT_ERROR_CHARACTERISTICSMISMATCH, FINGERPRINT_ERROR_FLASH,
    FINGERPRINT_ERROR_NOTEMPLATEFOUND, FINGERPRINT_ERROR_DELETETEMPLATE,
    FINGERPRINT_ERROR_CLEARDATABASE, FINGERPRINT_ERROR_DOWNLOADIMAGE,
    FINGERPRINT_ERROR_DOWNLOADCHARACTERISTICS, FINGERPRINT_PACKETRESPONSEFAIL,
    FINGERPRINT_ERROR_MESSYIMAGE, FINGERPRINT_ERROR_FEWFEATUREPOINTS,
    FINGERPRINT_ERROR_INVALIDIMAGE, FINGERPRINT_ERROR_LOADTEMPLATE,
    h00, h01, h02, h03, h06, h07, h08, h09, h0A, h0B, h0C, h0D, h0E, h0F, h10, h11, h13,
    h15, h18, h1A, h20, ha, hp, and_self]

theorem searchTemplate_unknown (signedChar : Bool) (buf start : Nat) (count : Int)
    (c : Nat) (more : List Nat) (hbuf : buf = 1 ∨ buf = 2) (hc : c ∉ statusTable) :
    ThrowsOnReply (fun s => s.searchTemplate signedChar buf start count) (0x07 :: c :: more)
      (FpError.unknownError c) := by
  obtain ⟨h00, h01, h02, h03, h06, h07, h08, h09, h0A, h0B, h0C, h0D, h0E, h0F, h10, h11, h13,
    h15, h18, h1A, h20⟩ := not_mem_statusTable c hc
  have hb : ¬ (buf ≠ FINGERPRINT_CHARBUFFER1 ∧ buf ≠ FINGERPRINT_CHARBUFFER2) := by
    unfold FINGERPRINT_CHARBUFFER1 FINGERPRINT_CHARBUFFER2
    omega
  intro s rest hf hr
  unfold QFingerprint.searchTemplate QFingerprint.getStorageCapacity
    QFingerprint.getSystemParameters QFingerprint.writePacket QFingerprint.readPacket
  by_cases hcount : count > 0
  · simp only [hb, hcount, hf, if_true, if_false, hr, List.getD_cons_zero, List.drop_succ_cons,
      List.drop_zero, ne_eq, not_true_eq_false, FINGERPRINT_ACKPACKET, FINGERPRINT_OK,
      FINGERPRINT_ERROR_COMMUNICATION, FINGERPRINT_ADDRCODE,
    FINGERPRINT_ERROR_WRONGPASSWORD, FINGERPRINT_ERROR_INVALIDREGISTER, FINGERPRINT_ERROR_NOFINGER,
    FINGERPRINT_ERROR_READIMAGE, FINGERPRINT_ERROR_INVALIDPOSITION,
    FINGERPRINT_ERROR_CHARACTERISTICSMISMATCH, FINGERPRINT_ERROR_FLASH,
    FINGERPRINT_ERROR_NOTEMPLATEFOUND, FINGERPRINT_ERROR_DELETETEMPLATE,
    FINGERPRINT_ERROR_CLEARDATABASE, FINGERPRINT_ERROR_DOWNLOADIMAGE,
    FINGERPRINT_ERROR_DOWNLOADCHARACTERISTICS, FINGERPRINT_PACKETRESPONSEFAIL,
    FINGERPRINT_ERROR_MESSYIMAGE, FINGERPRINT_ERROR_FEWFEATUREPOINTS,
    FINGERPRINT_ERROR_INVALIDIMAGE, FINGERPRINT_ERROR_LOADTEMPLATE,
      h00, h01, h02, h03, h06, h07, h08, h09, h0A, h0B, h0C, h0D, h0E, h0F, h10, h11, h13,
    h15, h18, h1A, h20, and_self]
  · simp only [hb, hcount, hf, if_true, if_false, hr, List.getD_cons_zero, List.drop_succ_cons,
      List.drop_zero, ne_eq, not_true_eq_false, FINGERPRINT_ACKPACKET, FINGERPRINT_OK,
      FINGERPRINT_ERROR_COMMUNICATION, FINGERPRINT_ADDRCODE,
    FINGERPRINT_ERROR_WRONGPASSWORD, FINGERPRINT_ERROR_INVALIDREGISTER, FINGERPRINT_ERROR_NOFINGER,
    FINGERPRINT_ERROR_READIMAGE, FINGERPRINT_ERROR_INVALIDPOSITION,
    FINGERPRINT_ERROR_CHARACTERISTICSMISMATCH, FINGERPRINT_ERROR_FLASH,
    FINGERPRINT_ERROR_NOTEMPLATEFOUND, FINGERPRINT_ERROR_DELETETEMPLATE,
    FINGERPRINT_ERROR_CLEARDATABASE, FINGERPRINT_ERROR_DOWNLOADIMAGE,
    FINGERPRINT_ERROR_DOWNLOADCHARACTERISTICS, FINGERPRINT_PACKETRESPONSEFAIL,
    FINGERPRINT_ERROR_MESSYIMAGE, FINGERPRINT_ERROR_FEWFEATUREPOINTS,
    FINGERPRINT_ERROR_INVALIDIMAGE, FINGERPRINT_ERROR_LOADTEMPLATE,
      h00, h01, h02, h03, h06, h07, h08, h09, h0A, h0B, h0C, h0D, h0E, h0F, h10, h11, h13,
    h15, h18, h1A, h20, and_self]

theorem searchTemplate_own_notAck (signedChar : Bool) (buf start : Nat) (count : Int)
    (pkt : List Nat) (hbuf : buf = 1 ∨ buf = 2) (hcount : count ≤ 0)
    (ht : pkt.getD 0 0 ≠ 0x07) :
    ThrowsOnReplyAfter (fun s => s.getStorageCapacity signedChar) (fun _ => True)
      (fun s => s.searchTemplate signedChar buf start count) pkt FpError.notAck := by
  have hb : ¬ (buf ≠ FINGERPRINT_CHARBUFFER1 ∧ buf ≠ FINGERPRINT_CHARBUFFER2) := by
    unfold FINGERPRINT_CHARBUFFER1 FINGERPRINT_CHARBUFFER2
    omega
  have hcount2 : ¬ count > 0 := by omega
  intro s s0 v rest hpre hadm hf hr
  beta_reduce at hpre hadm ⊢
  have ha := getStorageCapacity_address signedChar s
  have hp := getStorageCapacity_password signedChar s
  rw [hpre] at ha hp
  simp only at ha hp
  unfold QFingerprint.searchTemplate QFingerprint.writePacket QFingerprint.readPacket
  simp only [hpre, hb, hcount2, hf, if_true, if_false, hr, FINGERPRINT_ACKPACKET, ne_eq, ht,
    not_false_eq_true, ha, hp, and_self]

theorem searchTemplate_own_unknown (signedChar : Bool) (buf start : Nat) (count : Int)
    (c : Nat) (more : List Nat) (hbuf : buf = 1 ∨ buf = 2) (hcount : count ≤ 0)
    (hc : c ∉ statusTable) :
    ThrowsOnReplyAfter (fun s => s.getStorageCapacity signedChar) (fun _ => True)
      (fun s => s.searchTemplate signedChar buf start count) (0x07 :: c :: more)
      (FpError.unknownError c) := by
  obtain ⟨h00, h01, h02, h03, h06, h07, h08, h09, h0A, h0B, h0C, h0D, h0E, h0F, h10, h11, h13,
    h15, h18, h1A, h20⟩ := not_mem_statusTable c hc
  have hb : ¬ (buf ≠ FINGERPRINT_CHARBUFFER1 ∧ buf ≠ FINGERPRINT_CHARBUFFER2) := by
    unfold FINGERPRINT_CHARBUFFER1 FINGERPRINT_CHARBUFFER2
    omega
  have hcount2 : ¬ count > 0 := by omega
  intro s s0 v rest hpre hadm hf hr
  beta_reduce at hpre hadm ⊢
  have ha := getStorageCapacity_address signedChar s
  have hp := getStorageCapacity_password signedChar s
  rw [hpre] at ha hp
  simp only at ha hp
  unfold QFingerprint.searchTemplate QFingerprint.writePacket QFingerprint.readPacket
  simp only [hpre, hb, hcount2, hf, if_true, if_false, hr, List.getD_cons_zero,
    List.drop_succ_cons, List.drop_zero, ne_eq, not_true_eq_false, FINGERPRINT_ACKPACKET,
    FINGERPRINT_OK, FINGERPRINT_ERROR_COMMUNICATION, FINGERPRINT_ADDRCODE,
    FINGERPRINT_ERROR_WRONGPASSWORD, FINGERPRINT_ERROR_INVALIDREGISTER, FINGERPRINT_ERROR_NOFINGER,
    FINGERPRINT_ERROR_READIMAGE, FINGERPRINT_ERROR_INVALIDPOSITION,
    FINGERPRINT_ERROR_CHARACTERISTICSMISMATCH, FINGERPRINT_ERROR_FLASH,
    FINGERPRINT_ERROR_NOTEMPLATEFOUND, FINGERPRINT_ERROR_DELETETEMPLATE,
    FINGERPRINT_ERROR_CLEARDATABASE, FINGERPRINT_ERROR_DOWNLOADIMAGE,
    FINGERPRINT_ERROR_DOWNLOADCHARACTERISTICS, FINGERPRINT_PACKETRESPONSEFAIL,
    FINGERPRINT_ERROR_MESSYIMAGE, FINGERPRINT_ERROR_FEWFEATUREPOINTS,
    FINGERPRINT_ERROR_INVALIDIMAGE, FINGERPRINT_ERROR_LOADTEMPLATE,
    h00, h01, h02, h03, h06, h07, h08, h09, h0A, h0B, h0C, h0D, h0E, h0F, h10, h11, h13,
    h15, h18, h1A, h20, ha, hp, and_self]

theorem storeTemplate_unknown (signedChar : Bool) (page0 p : Int) (buf : Nat)
    (c : Nat) (more : List Nat) (h0 : 0 ≤ page0) (h3 : page0 ≤ 3) (hc : c ∉ statusTable) :
    ThrowsOnReply (fun s => s.storeTemplate signedChar page0 p buf) (0x07 :: c :: more)
      (FpError.unknownError c) := by
  have hp : page0 < 4 := by omega
  intro s rest hf hr
  have hst := getTemplateIndex_unknown signedChar (page0 % 256).toNat c more (by omega) hc s
    rest hf hr
  beta_reduce at hst ⊢
  have hscan : storeTemplateScan signedChar 6 s page0 (-1)
      = (Except.error (FpError.unknownError c),
          (s.getTemplateIndex signedChar (page0 % 256).toNat).2) := by
    rw [show (6 : Nat) = 5 + 1 from rfl, storeTemplateScan]
    rcases hq : s.getTemplateIndex signedChar (page0 % 256).toNat with ⟨r, s1⟩
    rw [hq] at hst
    simp only at hst
    simp only [hp, if_true, ge_iff_le, Left.nonneg_neg_iff, Int.reduceLE, if_false, hst.1]
  unfold QFingerprint.storeTemplate assign
  simp only [hscan, ne_eq, Int.reduceNeg, neg_eq_zero, one_ne_zero, not_false_eq_true, if_true]
  exact ⟨trivial, hst.2.1, hst.2.2⟩

/-- The value of `storeTemplateQueries` in terms of the two queries. -/
theorem storeTemplateQueries_ok (signedChar : Bool) (page0 : Int) (s s0 : QFingerprint)
    (v : Int × Nat) (h : storeTemplateQueries signedChar page0 s = (Except.ok v, s0)) :
    ∃ s00, storeTemplateScan signedChar 6 s page0 (-1) = (Except.ok v.1, s00) ∧ ¬ v.1 < 0
      ∧ s00.getStorageCapacity signedChar = (Except.ok v.2, s0) := by
  unfold storeTemplateQueries at h
  rcases hq : storeTemplateScan signedChar 6 s page0 (-1) with ⟨r, s00⟩
  rw [hq] at h
  cases r with
  | error e => simp at h
  | ok pos =>
    simp only at h
    split_ifs at h with hneg
    · simp at h
    · rcases hcap : s00.getStorageCapacity signedChar with ⟨r2, s1⟩
      rw [hcap] at h
      cases r2 with
      | error e => simp at h
      | ok cap =>
        simp only [Prod.mk.injEq, Except.ok.injEq] at h
        obtain ⟨hv, hs⟩ := h
        subst hv hs
        exact ⟨s00, rfl, hneg, hcap⟩

theorem storeTemplate_own_notAck (signedChar : Bool) (page0 p : Int) (buf : Nat)
    (pkt : List Nat) (hbuf : buf = 1 ∨ buf = 2) (ht : pkt.getD 0 0 ≠ 0x07) :
    ThrowsOnReplyAfter (storeTemplateQueries signedChar page0) (fun v => v.1 < (v.2 : Int))
      (fun s => s.storeTemplate signedChar page0 p buf) pkt FpError.notAck := by
  have hb : ¬ (buf ≠ FINGERPRINT_CHARBUFFER1 ∧ buf ≠ FINGERPRINT_CHARBUFFER2) := by
    unfold FINGERPRINT_CHARBUFFER1 FINGERPRINT_CHARBUFFER2
    omega
  intro s s0 v rest hpre hadm hf hr
  beta_reduce at hpre hadm ⊢
  have hm := storeTemplateQueries_mirrors signedChar page0 s
  rw [hpre] at hm
  obtain ⟨ha, hp⟩ := hm
  simp only at ha hp
  obtain ⟨s00, hscan, hneg, hcap⟩ := storeTemplateQueries_ok signedChar page0 s s0 v hpre
  have hlt : ¬ v.1 ≥ (v.2 : Int) := by omega
  unfold QFingerprint.storeTemplate assign QFingerprint.writePacket QFingerprint.readPacket
  simp only [hscan, hneg, hcap, hlt, hb, ne_eq, Int.reduceNeg, neg_eq_zero, one_ne_zero,
    hf, if_true, if_false, hr, FINGERPRINT_ACKPACKET, ne_eq, ht,
      not_false_eq_true, and_self, ha, hp]

theorem storeTemplate_own_unknown (signedChar : Bool) (page0 p : Int) (buf : Nat)
    (c : Nat) (more : List Nat) (hbuf : buf = 1 ∨ buf = 2) (hc : c ∉ statusTable) :
    ThrowsOnReplyAfter (storeTemplateQueries signedChar page0) (fun v => v.1 < (v.2 : Int))
      (fun s => s.storeTemplate signedChar page0 p buf) (0x07 :: c :: more)
      (FpError.unknownError c) := by
  obtain ⟨h00, h01, h02, h03, h06, h07, h08, h09, h0A, h0B, h0C, h0D, h0E, h0F, h10, h11, h13,
    h15, h18, h1A, h20⟩ := not_mem_statusTable c hc
  have hb : ¬ (buf ≠ FINGERPRINT_CHARBUFFER1 ∧ buf ≠ FINGERPRINT_CHARBUFFER2) := by
    unfold FINGERPRINT_CHARBUFFER1 FINGERPRINT_CHARBUFFER2
    omega
  intro s s0 v rest hpre hadm hf hr
  beta_reduce at hpre hadm ⊢
  have hm := storeTemplateQueries_mirrors signedChar page0 s
  rw [hpre] at hm
  obtain ⟨ha, hp⟩ := hm
  simp only at ha hp
  obtain ⟨s00, hscan, hneg, hcap⟩ := storeTemplateQueries_ok signedChar page0 s s0 v hpre
  have hlt : ¬ v.1 ≥ (v.2 : Int) := by omega
  unfold QFingerprint.storeTemplate assign QFingerprint.writePacket QFingerprint.readPacket
  simp only [hscan, hneg, hcap, hlt, hb, Int.reduceNeg, neg_eq_zero, one_ne_zero,
    not_false_eq_true,
    hf, if_true, if_false, hr, List.getD_cons_zero, List.drop_succ_cons,
      List.drop_zero, ne_eq, not_true_eq_false, FINGERPRINT_ACKPACKET, FINGERPRINT_OK,
      FINGERPRINT_ERROR_COMMUNICATION, FINGERPRINT_ADDRCODE,
    FINGERPRINT_ERROR_WRONGPASSWORD, FINGERPRINT_ERROR_INVALIDREGISTER, FINGERPRINT_ERROR_NOFINGER,
    FINGERPRINT_ERROR_READIMAGE, FINGERPRINT_ERROR_INVALIDPOSITION,
    FINGERPRINT_ERROR_CHARACTERISTICSMISMATCH, FINGERPRINT_ERROR_FLASH,
    FINGERPRINT_ERROR_NOTEMPLATEFOUND, FINGERPRINT_ERROR_DELETETEMPLATE,
    FINGERPRINT_ERROR_CLEARDATABASE, FINGERPRINT_ERROR_DOWNLOADIMAGE,
    FINGERPRINT_ERROR_DOWNLOADCHARACTERISTICS, FINGERPRINT_PACKETRESPONSEFAIL,
    FINGERPRINT_ERROR_MESSYIMAGE, FINGERPRINT_ERROR_FEWFEATUREPOINTS,
    FINGERPRINT_ERROR_INVALIDIMAGE, FINGERPRINT_ERROR_LOADTEMPLATE,
      h00, h01, h02, h03, h06, h07, h08, h09, h0A, h0B, h0C, h0D, h0E, h0F, h10, h11, h13,
    h15, h18, h1A, h20, and_self, ha, hp]

/-! ## Unknown status bytes (C31) -/

/-- C31.  Let `c` be a status byte that the status table does not list.  Every command, run
in a session whose port flushes the request and answers with an ACK packet whose status byte
is `c`, throws the exception "Unknown error 0x" followed by
`receivedPacketPayload.left(1).toHex()`, the two hexadecimal digits of `c`; it returns no
value.  Commands that validate their arguments are taken with arguments that pass.  For the
commands that run a query before their own request (`deleteTemplate`, `loadTemplate`,
`searchTemplate` with `count ≤ 0`, `storeTemplate`, `uploadCharacteristics`) this holds for
the ACK of the query, which is the first reply they read, and for the ACK of their own request
once the query has returned. -/
theorem unknown_status_surfaced (signedChar : Bool) (c : Nat) (more : List Nat)
    (hc : c ∉ statusTable) :
    unknownErrorMessage (c :: more)
        = "Unknown error 0x" ++ String.mk [hexDigit (c / 16), hexDigit (c % 16)]
    ∧ ThrowsOnReply (fun s => s.verifyPassword signedChar)
        (0x07 :: c :: more) (FpError.unknownError c)
    ∧ (∀ (v : Nat), v ≤ 0xFFFFFFFF →
        ThrowsOnReply (fun s => s.setPassword signedChar v)
          (0x07 :: c :: more) (FpError.unknownError c))
    ∧ (∀ (v : Nat), v ≤ 0xFFFFFFFF →
        ThrowsOnReply (fun s => s.setAddress signedChar v)
          (0x07 :: c :: more) (FpError.unknownError c))
    ∧ (∀ (n v : Nat), setSystemParameterCheck n v = none →
        ThrowsOnReply (fun s => s.setSystemParameter signedChar n v)
          (0x07 :: c :: more) (FpError.unknownError c))
    ∧ (∀ (b : Nat), b % 9600 = 0 → setSystemParameterCheck FINGERPRINT_SETSYSTEMPARAMETER_BAUDRATE (b /
        9600 % 256) = none →
        ThrowsOnReply (fun s => s.setBaudRate signedChar b)
          (0x07 :: c :: more) (FpError.unknownError c))
    ∧ (∀ (v : Nat), setSystemParameterCheck FINGERPRINT_SETSYSTEMPARAMETER_SECURITY_LEVEL v = none →
        ThrowsOnReply (fun s => s.setSecurityLevel signedChar v)
          (0x07 :: c :: more) (FpError.unknownError c))
    ∧ (∀ (v k : Nat), packetSizesMap.lookup v = some k → setSystemParameterCheck
        FINGERPRINT_SETSYSTEMPARAMETER_PACKAGE_SIZE k = none →
        ThrowsOnReply (fun s => s.setMaxPacketSize signedChar v)
          (0x07 :: c :: more) (FpError.unknownError c))
    ∧ ThrowsOnReply (fun s => s.getSystemParameters signedChar)
        (0x07 :: c :: more) (FpError.unknownError c)
    ∧ ThrowsOnReply (fun s => s.getStorageCapacity signedChar)
        (0x07 :: c :: more) (FpError.unknownError c)
    ∧ ThrowsOnReply (fun s => s.getSecurityLevel signedChar)
        (0x07 :: c :: more) (FpError.unknownError c)
    ∧ ThrowsOnReply (fun s => s.getMaxPacketSize signedChar)
        (0x07 :: c :: more) (FpError.unknownError c)
    ∧ ThrowsOnReply (fun s => s.getBaudRate signedChar)
        (0x07 :: c :: more) (FpError.unknownError c)
    ∧ (∀ (page : Nat), page ≤ 3 →
        ThrowsOnReply (fun s => s.getTemplateIndex signedChar page)
          (0x07 :: c :: more) (FpError.unknownError c))
    ∧ ThrowsOnReply (fun s => s.getTemplateCount signedChar)
        (0x07 :: c :: more) (FpError.unknownError c)
    ∧ ThrowsOnReply (fun s => s.readImage signedChar) (0x07 :: c :: more) (FpError.unknownError c)
    ∧ ThrowsOnReply (fun s => s.downloadImage signedChar true)
        (0x07 :: c :: more) (FpError.unknownError c)
    ∧ (∀ (buf : Nat), buf = 1 ∨ buf = 2 →
        ThrowsOnReply (fun s => s.convertImage signedChar buf)
          (0x07 :: c :: more) (FpError.unknownError c))
    ∧ ThrowsOnReply (fun s => s.createTemplate signedChar)
        (0x07 :: c :: more) (FpError.unknownError c)
    ∧ ThrowsOnReply (fun s => s.clearDatabase signedChar)
        (0x07 :: c :: more) (FpError.unknownError c)
    ∧ ThrowsOnReply (fun s => s.compareCharacteristics signedChar)
        (0x07 :: c :: more) (FpError.unknownError c)
    ∧ ThrowsOnReply (fun s => s.generateRandomNumber signedChar)
        (0x07 :: c :: more) (FpError.unknownError c)
    ∧ (∀ (buf : Nat), buf = 1 ∨ buf = 2 →
        ThrowsOnReply (fun s => s.downloadCharacteristics signedChar buf)
          (0x07 :: c :: more) (FpError.unknownError c))
    ∧ (∀ (pos count : Nat),
        ThrowsOnReply (fun s => s.deleteTemplate signedChar pos count)
          (0x07 :: c :: more) (FpError.unknownError c))
    ∧ (∀ (pos buf : Nat),
        ThrowsOnReply (fun s => s.loadTemplate signedChar pos buf)
          (0x07 :: c :: more) (FpError.unknownError c))
    ∧ (∀ (buf start : Nat) (count : Int), buf = 1 ∨ buf = 2 →
        ThrowsOnReply (fun s => s.searchTemplate signedChar buf start count)
          (0x07 :: c :: more) (FpError.unknownError c))
    ∧ (∀ (page0 p : Int) (buf : Nat), 0 ≤ page0 → page0 ≤ 3 →
        ThrowsOnReply (fun s => s.storeTemplate signedChar page0 p buf)
          (0x07 :: c :: more) (FpError.unknownError c))
    ∧ (∀ (buf : Nat) (d : List Nat), buf = 1 ∨ buf = 2 → d ≠ [0] →
        ThrowsOnReply (fun s => s.uploadCharacteristics signedChar buf d)
          (0x07 :: c :: more) (FpError.unknownError c))
    ∧ (∀ (pos count : Nat),
        ThrowsOnReplyAfter (fun s => s.getStorageCapacity signedChar)
          (fun cap => pos < cap ∧ count ≤ cap - pos)
          (fun s => s.deleteTemplate signedChar pos count)
          (0x07 :: c :: more) (FpError.unknownError c))
    ∧ (∀ (pos buf : Nat), buf = 1 ∨ buf = 2 →
        ThrowsOnReplyAfter (fun s => s.getStorageCapacity signedChar)
          (fun cap => pos < cap)
          (fun s => s.loadTemplate signedChar pos buf)
          (0x07 :: c :: more) (FpError.unknownError c))
    ∧ (∀ (buf start : Nat) (count : Int), buf = 1 ∨ buf = 2 → count ≤ 0 →
        ThrowsOnReplyAfter (fun s => s.getStorageCapacity signedChar)
          (fun _ => True)
          (fun s => s.searchTemplate signedChar buf start count)
          (0x07 :: c :: more) (FpError.unknownError c))
    ∧ (∀ (page0 p : Int) (buf : Nat), buf = 1 ∨ buf = 2 →
        ThrowsOnReplyAfter (storeTemplateQueries signedChar page0)
          (fun v => v.1 < (v.2 : Int))
          (fun s => s.storeTemplate signedChar page0 p buf)
          (0x07 :: c :: more) (FpError.unknownError c))
    ∧ (∀ (buf : Nat) (d : List Nat), buf = 1 ∨ buf = 2 → d ≠ [0] →
        ThrowsOnReplyAfter (fun s => s.getMaxPacketSize signedChar)
          (fun _ => True)
          (fun s => s.uploadCharacteristics signedChar buf d)
          (0x07 :: c :: more) (FpError.unknownError c)) := by
  refine ⟨rfl, ?_⟩
  exact ⟨verifyPassword_unknown signedChar c more hc,
    fun v hv => setPassword_unknown signedChar v c more hv hc,
    fun v hv => setAddress_unknown signedChar v c more hv hc,
    fun n v hv => setSystemParameter_unknown signedChar n v c more hv hc,
    fun b hb hv => setBaudRate_unknown signedChar b c more hb hv hc,
    fun v hv => setSecurityLevel_unknown signedChar v c more hv hc,
    fun v k hk hv => setMaxPacketSize_unknown signedChar v k c more hk hv hc,
    getSystemParameters_unknown signedChar c more hc,
    getStorageCapacity_unknown signedChar c more hc,
    getSecurityLevel_unknown signedChar c more hc,
    getMaxPacketSize_unknown signedChar c more hc,
    getBaudRate_unknown signedChar c more hc,
    fun page hp => getTemplateIndex_unknown signedChar page c more hp hc,
    getTemplateCount_unknown signedChar c more hc,
    readImage_unknown signedChar c more hc,
    downloadImage_unknown signedChar c more hc,
    fun buf hbuf => convertImage_unknown signedChar buf c more hbuf hc,
    createTemplate_unknown signedChar c more hc,
    clearDatabase_unknown signedChar c more hc,
    compareCharacteristics_unknown signedChar c more hc,
    generateRandomNumber_unknown signedChar c more hc,
    fun buf hbuf => downloadCharacteristics_unknown signedChar buf c more hbuf hc,
    fun pos count => deleteTemplate_unknown signedChar pos count c more hc,
    fun pos buf => loadTemplate_unknown signedChar pos buf c more hc,
    fun buf start count hbuf => searchTemplate_unknown signedChar buf start count c more hbuf hc,
    fun page0 p buf h0 h3 => storeTemplate_unknown signedChar page0 p buf c more h0 h3 hc,
    fun buf d hbuf hd => uploadCharacteristics_unknown signedChar buf d c more hbuf hd hc,
    fun pos count => deleteTemplate_own_unknown signedChar pos count c more hc,
    fun pos buf hbuf => loadTemplate_own_unknown signedChar pos buf c more hbuf hc,
    fun buf start count hbuf hcount => searchTemplate_own_unknown signedChar buf start count c
      more hbuf hcount hc,
    fun page0 p buf hbuf => storeTemplate_own_unknown signedChar page0 p buf c more hbuf hc,
    fun buf d hbuf hd => uploadCharacteristics_own_unknown signedChar buf d c more hbuf hd hc⟩

/-- Witness of C31: the status byte `0x21`, which the header names `FINGERPRINT_PASSVERIFY`
and no status chain tests, as the reply to `verifyPassword`, `compareCharacteristics` and
`deleteTemplate`. -/
theorem unknown_status_surfaced_witness :
    ((sessionWith 0xFFFFFFFF 0 (specFrame 0xFFFFFFFF 0x07 [0x21])).verifyPassword true).1
        = Except.error (FpError.unknownError 0x21)
      ∧ ((sessionWith 0xFFFFFFFF 0 (specFrame 0xFFFFFFFF 0x07 [0x21])).compareCharacteristics
          true).1 = Except.error (FpError.unknownError 0x21)
      ∧ ((sessionWith 0xFFFFFFFF 0 (specFrame 0xFFFFFFFF 0x07 [0x21])).deleteTemplate true 0
          1).1 = Except.error (FpError.unknownError 0x21)
      ∧ unknownErrorMessage [0x21] = "Unknown error 0x21" := by
  obtain ⟨hm, h1, h2, h3, h4, h5, h6, h7, h8, h9, h10, h11, h12, h13, h14, h15, h16, h17, h18, h19, h20,
      h21, h22, h23, h24, h25, h26, h27, h28, h29, h30, h31, h32⟩ :=
    unknown_status_surfaced true 0x21 [] (by decide)
  exact ⟨(h1 (sessionWith 0xFFFFFFFF 0 (specFrame 0xFFFFFFFF 0x07 [0x21])) [] rfl (by decide)).1,
    (h20 (sessionWith 0xFFFFFFFF 0 (specFrame 0xFFFFFFFF 0x07 [0x21])) [] rfl (by decide)).1,
    (h23 0 1 (sessionWith 0xFFFFFFFF 0 (specFrame 0xFFFFFFFF 0x07 [0x21])) [] rfl (by decide)).1,
    hm⟩

/-! ## The reply must be an ACK (C32) -/

/-- C32.  Let `pkt` be a packet whose type byte is not ACK (`0x07`), whatever its payload.
Every command, run in a session whose port flushes the request and from which `readPacket`
then returns `pkt`, throws the no-ack exception ("The received packet is no ack packet!"; in
`getTemplateIndex`, and so in the scan of `storeTemplate`, the message reads "The received0
packet is no ack packet!"), returns no value, and leaves the stored address and password as
they were.  Commands that validate their arguments are taken with arguments that pass.  For
the commands that run a query before their own request this holds for the reply to the query,
which is the first frame they read, and for the reply to their own request once the query has
returned. -/
theorem reply_must_be_ack (signedChar : Bool) (pkt : List Nat) (ht : pkt.getD 0 0 ≠ 0x07) :
    ThrowsOnReply (fun s => s.verifyPassword signedChar) pkt FpError.notAck
    ∧ (∀ (v : Nat), v ≤ 0xFFFFFFFF →
        ThrowsOnReply (fun s => s.setPassword signedChar v) pkt FpError.notAck)
    ∧ (∀ (v : Nat), v ≤ 0xFFFFFFFF →
        ThrowsOnReply (fun s => s.setAddress signedChar v) pkt FpError.notAck)
    ∧ (∀ (n v : Nat), setSystemParameterCheck n v = none →
        ThrowsOnReply (fun s => s.setSystemParameter signedChar n v) pkt FpError.notAck)
    ∧ (∀ (b : Nat), b % 9600 = 0 → setSystemParameterCheck FINGERPRINT_SETSYSTEMPARAMETER_BAUDRATE (b /
        9600 % 256) = none →
        ThrowsOnReply (fun s => s.setBaudRate signedChar b) pkt FpError.notAck)
    ∧ (∀ (v : Nat), setSystemParameterCheck FINGERPRINT_SETSYSTEMPARAMETER_SECURITY_LEVEL v = none →
        ThrowsOnReply (fun s => s.setSecurityLevel signedChar v) pkt FpError.notAck)
    ∧ (∀ (v k : Nat), packetSizesMap.lookup v = some k → setSystemParameterCheck
        FINGERPRINT_SETSYSTEMPARAMETER_PACKAGE_SIZE k = none →
        ThrowsOnReply (fun s => s.setMaxPacketSize signedChar v) pkt FpError.notAck)
    ∧ ThrowsOnReply (fun s => s.getSystemParameters signedChar) pkt FpError.notAck
    ∧ ThrowsOnReply (fun s => s.getStorageCapacity signedChar) pkt FpError.notAck
    ∧ ThrowsOnReply (fun s => s.getSecurityLevel signedChar) pkt FpError.notAck
    ∧ ThrowsOnReply (fun s => s.getMaxPacketSize signedChar) pkt FpError.notAck
    ∧ ThrowsOnReply (fun s => s.getBaudRate signedChar) pkt FpError.notAck
    ∧ (∀ (page : Nat), page ≤ 3 →
        ThrowsOnReply (fun s => s.getTemplateIndex signedChar page) pkt FpError.notAck0)
    ∧ ThrowsOnReply (fun s => s.getTemplateCount signedChar) pkt FpError.notAck
    ∧ ThrowsOnReply (fun s => s.readImage signedChar) pkt FpError.notAck
    ∧ ThrowsOnReply (fun s => s.downloadImage signedChar true) pkt FpError.notAck
    ∧ (∀ (buf : Nat), buf = 1 ∨ buf = 2 →
        ThrowsOnReply (fun s => s.convertImage signedChar buf) pkt FpError.notAck)
    ∧ ThrowsOnReply (fun s => s.createTemplate signedChar) pkt FpError.notAck
    ∧ ThrowsOnReply (fun s => s.clearDatabase signedChar) pkt FpError.notAck
    ∧ ThrowsOnReply (fun s => s.compareCharacteristics signedChar) pkt FpError.notAck
    ∧ ThrowsOnReply (fun s => s.generateRandomNumber signedChar) pkt FpError.notAck
    ∧ (∀ (buf : Nat), buf = 1 ∨ buf = 2 →
        ThrowsOnReply (fun s => s.downloadCharacteristics signedChar buf) pkt FpError.notAck)
    ∧ (∀ (pos count : Nat),
        ThrowsOnReply (fun s => s.deleteTemplate signedChar pos count) pkt FpError.notAck)
    ∧ (∀ (pos buf : Nat),
        ThrowsOnReply (fun s => s.loadTemplate signedChar pos buf) pkt FpError.notAck)
    ∧ (∀ (buf start : Nat) (count : Int), buf = 1 ∨ buf = 2 →
        ThrowsOnReply (fun s => s.searchTemplate signedChar buf start count) pkt FpError.notAck)
    ∧ (∀ (page0 p : Int) (buf : Nat), 0 ≤ page0 → page0 ≤ 3 →
        ThrowsOnReply (fun s => s.storeTemplate signedChar page0 p buf) pkt FpError.notAck0)
    ∧ (∀ (buf : Nat) (d : List Nat), buf = 1 ∨ buf = 2 → d ≠ [0] →
        ThrowsOnReply (fun s => s.uploadCharacteristics signedChar buf d) pkt FpError.notAck)
    ∧ (∀ (pos count : Nat),
        ThrowsOnReplyAfter (fun s => s.getStorageCapacity signedChar)
          (fun cap => pos < cap ∧ count ≤ cap - pos)
          (fun s => s.deleteTemplate signedChar pos count) pkt FpError.notAck)
    ∧ (∀ (pos buf : Nat), buf = 1 ∨ buf = 2 →
        ThrowsOnReplyAfter (fun s => s.getStorageCapacity signedChar)
          (fun cap => pos < cap)
          (fun s => s.loadTemplate signedChar pos buf) pkt FpError.notAck)
    ∧ (∀ (buf start : Nat) (count : Int), buf = 1 ∨ buf = 2 → count ≤ 0 →
        ThrowsOnReplyAfter (fun s => s.getStorageCapacity signedChar)
          (fun _ => True)
          (fun s => s.searchTemplate signedChar buf start count) pkt FpError.notAck)
    ∧ (∀ (page0 p : Int) (buf : Nat), buf = 1 ∨ buf = 2 →
        ThrowsOnReplyAfter (storeTemplateQueries signedChar page0)
          (fun v => v.1 < (v.2 : Int))
          (fun s => s.storeTemplate signedChar page0 p buf) pkt FpError.notAck)
    ∧ (∀ (buf : Nat) (d : List Nat), buf = 1 ∨ buf = 2 → d ≠ [0] →
        ThrowsOnReplyAfter (fun s => s.getMaxPacketSize signedChar)
          (fun _ => True)
          (fun s => s.uploadCharacteristics signedChar buf d) pkt FpError.notAck) := by
  exact ⟨verifyPassword_notAck signedChar pkt ht,
    fun v hv => setPassword_notAck signedChar v pkt hv ht,
    fun v hv => setAddress_notAck signedChar v pkt hv ht,
    fun n v hv => setSystemParameter_notAck signedChar n v pkt hv ht,
    fun b hb hv => setBaudRate_notAck signedChar b pkt hb hv ht,
    fun v hv => setSecurityLevel_notAck signedChar v pkt hv ht,
    fun v k hk hv => setMaxPacketSize_notAck signedChar v k pkt hk hv ht,
    getSystemParameters_notAck signedChar pkt ht,
    getStorageCapacity_notAck signedChar pkt ht,
    getSecurityLevel_notAck signedChar pkt ht,
    getMaxPacketSize_notAck signedChar pkt ht,
    getBaudRate_notAck signedChar pkt ht,
    fun page hp => getTemplateIndex_notAck signedChar page pkt hp ht,
    getTemplateCount_notAck signedChar pkt ht,
    readImage_notAck signedChar pkt ht,
    downloadImage_notAck signedChar pkt ht,
    fun buf hbuf => convertImage_notAck signedChar buf pkt hbuf ht,
    createTemplate_notAck signedChar pkt ht,
    clearDatabase_notAck signedChar pkt ht,
    compareCharacteristics_notAck signedChar pkt ht,
    generateRandomNumber_notAck signedChar pkt ht,
    fun buf hbuf => downloadCharacteristics_notAck signedChar buf pkt hbuf ht,
    fun pos count => deleteTemplate_notAck signedChar pos count pkt ht,
    fun pos buf => loadTemplate_notAck signedChar pos buf pkt ht,
    fun buf start count hbuf => searchTemplate_notAck signedChar buf start count pkt hbuf ht,
    fun page0 p buf h0 h3 => storeTemplate_notAck signedChar page0 p buf pkt h0 h3 ht,
    fun buf d hbuf hd => uploadCharacteristics_notAck signedChar buf d pkt hbuf hd ht,
    fun pos count => deleteTemplate_own_notAck signedChar pos count pkt ht,
    fun pos buf hbuf => loadTemplate_own_notAck signedChar pos buf pkt hbuf ht,
    fun buf start count hbuf hcount => searchTemplate_own_notAck signedChar buf start count pkt
      hbuf hcount ht,
    fun page0 p buf hbuf => storeTemplate_own_notAck signedChar page0 p buf pkt hbuf ht,
    fun buf d hbuf hd => uploadCharacteristics_own_notAck signedChar buf d pkt hbuf hd ht⟩

/-- Witness of C32: a DATA frame with the payload `00`, which an ACK would carry as the status
OK, as the reply to `setPassword`, `downloadCharacteristics` and `getTemplateIndex`. -/
theorem reply_must_be_ack_witness :
    ((sessionWith 0xFFFFFFFF 7 (specFrame 0xFFFFFFFF 0x02 [0x00])).setPassword true 5).1
        = Except.error FpError.notAck
      ∧ ((sessionWith 0xFFFFFFFF 7 (specFrame 0xFFFFFFFF 0x02 [0x00])).setPassword true
          5).2.m_password = 7
      ∧ ((sessionWith 0xFFFFFFFF 7 (specFrame 0xFFFFFFFF 0x02 [0x00])).setPassword true
          5).2.m_address = 0xFFFFFFFF
      ∧ ((sessionWith 0xFFFFFFFF 7 (specFrame 0xFFFFFFFF 0x02 [0x00])).downloadCharacteristics
          true 1).1 = Except.error FpError.notAck
      ∧ ((sessionWith 0xFFFFFFFF 7 (specFrame 0xFFFFFFFF 0x02 [0x00])).getTemplateIndex
          true 0).1 = Except.error FpError.notAck0 := by
  obtain ⟨h1, h2, h3, h4, h5, h6, h7, h8, h9, h10, h11, h12, h13, h14, h15, h16, h17, h18, h19, h20,
      h21, h22, h23, h24, h25, h26, h27, h28, h29, h30, h31, h32⟩ :=
    reply_must_be_ack true [0x02, 0x00] (by decide)
  exact ⟨(h2 5 (by decide) (sessionWith 0xFFFFFFFF 7 (specFrame 0xFFFFFFFF 0x02 [0x00])) [] rfl (by decide)).1,
    (h2 5 (by decide) (sessionWith 0xFFFFFFFF 7 (specFrame 0xFFFFFFFF 0x02 [0x00])) [] rfl (by decide)).2.2,
    (h2 5 (by decide) (sessionWith 0xFFFFFFFF 7 (specFrame 0xFFFFFFFF 0x02 [0x00])) [] rfl (by decide)).2.1,
    (h22 1 (Or.inl rfl) (sessionWith 0xFFFFFFFF 7 (specFrame 0xFFFFFFFF 0x02 [0x00])) [] rfl (by decide)).1,
    (h13 0 (by decide) (sessionWith 0xFFFFFFFF 7 (specFrame 0xFFFFFFFF 0x02 [0x00])) [] rfl (by decide)).1⟩

/-! ## Round trip on the range the codec handles (C33) -/

/-- C33.  Let `writePacket(t, p)` be called in the session `s`, with any address, any type byte
`t` and a payload `p` of 1 to 253 bytes that are all below `0x80`, and let the port of the
session `r` deliver exactly the bytes that call has handed to its port.  Then `readPacket` in
`r` returns `t` followed by `p` and leaves no byte unread.  This holds for a signed and for an
unsigned plain `char`. -/
theorem writePacket_then_readPacket (signedChar : Bool) (s r : QFingerprint) (t : Nat)
    (p : List Nat) (ht : t < 256) (hlo : 1 ≤ p.length) (hhi : p.length ≤ 253)
    (hlow : ∀ b ∈ p, b < 0x80)
    (hin : (s.writePacket signedChar t p).2.m_serial.written
      = s.m_serial.written ++ r.m_serial.incoming) :
    r.readPacket
      = (Except.ok (t :: p), { r with m_serial := { r.m_serial with incoming := [] } }) := by
  have hp : IsBytes p := fun b hb => by have := hlow b hb; omega
  rw [writePacket_written] at hin
  have hbytes : r.m_serial.incoming = specFrame s.m_address t p := by
    rw [← writePacketData_eq_specFrame signedChar s.m_address t p ht hp hhi (Or.inr hlow)]
    exact (List.append_cancel_left hin).symm
  have h := readPacket_specFrame r s.m_address t p [] ht hp hlo hhi (by rw [hbytes]; simp)
  exact h

/-- Witness of C33: a DATA frame with three payload bytes, written on a target with signed
`char` under the address `0x01020304`. -/
theorem writePacket_then_readPacket_witness :
    (sessionWith 0 0 (writePacketData true 0x01020304 0x02 [0x7F, 0x00, 0x41])).readPacket
      = (Except.ok [0x02, 0x7F, 0x00, 0x41], sessionWith 0 0 []) :=
  writePacket_then_readPacket true (sessionWith 0x01020304 0 [])
    (sessionWith 0 0 (writePacketData true 0x01020304 0x02 [0x7F, 0x00, 0x41]))
    0x02 [0x7F, 0x00, 0x41] (by decide) (by decide) (by decide) (by decide) (by decide)

/-! ## The no-match result of `searchTemplate` (C34) -/

/-- C34 (counterexample).  The ACK payload `00 FF FF FF FF` has the status OK and carries the
position and the score `0xFFFF`: `searchTemplate` returns `(-1, -1)`, the pair it returns for
the status `0x09`.  The payload `00 80 00 00 64` gives the negative position `-32768`. -/
theorem searchTemplate_ok_reply_yields_no_match :
    ((sessionWith 0xFFFFFFFF 0
        (specFrame 0xFFFFFFFF 0x07 [0x00, 0xFF, 0xFF, 0xFF, 0xFF])).searchTemplate
      true 1 0 5).1 = Except.ok [-1, -1]
    ∧ ((sessionWith 0xFFFFFFFF 0
        (specFrame 0xFFFFFFFF 0x07 [0x00, 0xFF, 0xFF, 0xFF, 0xFF])).searchTemplate
      false 1 0 5).1 = Except.ok [-1, -1]
    ∧ ((sessionWith 0xFFFFFFFF 0 (specFrame 0xFFFFFFFF 0x07 [0x09])).searchTemplate
      true 1 0 5).1 = Except.ok [-1, -1]
    ∧ ((sessionWith 0xFFFFFFFF 0
        (specFrame 0xFFFFFFFF 0x07 [0x00, 0x80, 0x00, 0x00, 0x64])).searchTemplate
      true 1 0 5).1 = Except.ok [-32768, 100] := by
  decide

/-- C34 (amended).  For every ACK reply `st b1 b2 b3 b4 ...` whose bytes `b1` and `b3` are
below `0x80` (position and score below 32768; bytes the payload does not have count as 0):
`searchTemplate` returns the pair `(-1, -1)` if and only if the status byte is `0x09`, and a
reply with the status OK yields a position and a score that are not negative. -/
theorem searchTemplate_no_match_iff (signedChar : Bool) (s s0 : QFingerprint)
    (buf start : Nat) (count : Int) (st : Nat) (more rest : List Nat)
    (hbuf : buf = 1 ∨ buf = 2)
    (hpre : (0 < count ∧ s0 = s)
      ∨ (count ≤ 0 ∧ ∃ cap, s.getStorageCapacity signedChar = (Except.ok cap, s0)))
    (hf : s0.m_serial.flushes = true)
    (hr : readPacketLoop [] s0.m_serial.incoming = (Except.ok (0x07 :: st :: more), rest))
    (h1 : more.getD 0 0 < 0x80) (h2 : more.getD 1 0 < 256)
    (h3 : more.getD 2 0 < 0x80) (h4 : more.getD 3 0 < 256) :
    ((s.searchTemplate signedChar buf start count).1 = Except.ok [-1, -1] ↔ st = 0x09)
    ∧ (st = 0x00 → ∃ position score : Int, 0 ≤ position ∧ 0 ≤ score
        ∧ (s.searchTemplate signedChar buf start count).1 = Except.ok [position, score]) := by
  have hres := searchTemplate_result signedChar s s0 buf start count _ rest hbuf hpre hf hr
  simp only [List.getD_cons_zero, List.getD_cons_succ, List.drop_succ_cons, List.drop_zero,
    ne_eq, FINGERPRINT_ACKPACKET, not_true_eq_false, if_false, FINGERPRINT_OK,
    FINGERPRINT_ERROR_COMMUNICATION, FINGERPRINT_ERROR_NOTEMPLATEFOUND] at hres
  rw [be16_two_steps _ _ (by omega) h2, be16_two_steps _ _ (by omega) h4,
    toInt16_of_lt _ (by omega), toInt16_of_lt _ (by omega)] at hres
  refine ⟨⟨fun h => ?_, fun h => ?_⟩, fun h => ?_⟩
  · rw [hres] at h
    by_cases h0 : st = 0
    · rw [if_pos h0] at h
      simp only [Except.ok.injEq, List.cons.injEq, and_true] at h
      omega
    · rw [if_neg h0] at h
      by_cases hc : st = 1
      · rw [if_pos hc] at h; cases h
      · rw [if_neg hc] at h
        by_cases h9 : st = 9
        · exact h9
        · rw [if_neg h9] at h; cases h
  · rw [hres, h]
    simp
  · rw [hres, if_pos h]
    exact ⟨_, _, Int.natCast_nonneg _, Int.natCast_nonneg _, rfl⟩

/-- Witness of C34 (amended): status OK, position 3, score 100. -/
theorem searchTemplate_no_match_iff_witness :
    ∃ position score : Int, 0 ≤ position ∧ 0 ≤ score
      ∧ ((sessionWith 0xFFFFFFFF 0
          (specFrame 0xFFFFFFFF 0x07 [0x00, 0x00, 0x03, 0x00, 0x64])).searchTemplate
        true 1 0 5).1 = Except.ok [position, score] :=
  (searchTemplate_no_match_iff true
    (sessionWith 0xFFFFFFFF 0 (specFrame 0xFFFFFFFF 0x07 [0x00, 0x00, 0x03, 0x00, 0x64]))
    (sessionWith 0xFFFFFFFF 0 (specFrame 0xFFFFFFFF 0x07 [0x00, 0x00, 0x03, 0x00, 0x64]))
    1 0 5 0x00 [0x00, 0x03, 0x00, 0x64] [] (Or.inl rfl) (Or.inl ⟨by decide, rfl⟩) rfl
    (by decide) (by decide) (by decide) (by decide) (by decide)).2 rfl

/-! ## The value `storeTemplate` returns (C35) -/

/-- Whatever `storeTemplate` returns is below 256: the value is converted to `quint8`. -/
theorem storeTemplate_result_lt (signedChar : Bool) (s : QFingerprint) (page0 p : Int)
    (buf v : Nat) (h : (s.storeTemplate signedChar page0 p buf).1 = Except.ok v) : v < 256 := by
  unfold QFingerprint.storeTemplate at h
  simp only at h
  repeat' split at h
  all_goals first
    | (simp only [reduceCtorEq] at h; done)
    | (simp only [Except.ok.injEq] at h; omega)

set_option maxRecDepth 100000 in
/-- C35 (evaluation at the failing input).  `storeTemplate(-1, 1)` on a sensor of capacity 1000
whose index page 1 is empty, the uninitialised `page` starting at 1.  The scan finds the
position `256 * 1 + 1 = 257`, the store request carries it (`06 01 01 01`), the sensor answers
OK, and the call returns 1: the position converted to `quint8`.  The same happens with `page`
starting at 0 when the reply for page 0 carries no index byte. -/
theorem storeTemplate_returns_low_byte :
    ((sessionWith 0xFFFFFFFF 0
        (specFrame 0xFFFFFFFF 0x07 ([0x00] ++ List.replicate 32 0x00)
          ++ specFrame 0xFFFFFFFF 0x07
              [0x00, 0, 0, 0, 0, 0x03, 0xE8, 0, 5, 0, 0, 0, 0, 0, 3, 0, 6]
          ++ specFrame 0xFFFFFFFF 0x07 [0x00])).storeTemplate true 1 (-1) 1).1 = Except.ok 1
    ∧ ((sessionWith 0xFFFFFFFF 0
        (specFrame 0xFFFFFFFF 0x07 ([0x00] ++ List.replicate 32 0x00)
          ++ specFrame 0xFFFFFFFF 0x07
              [0x00, 0, 0, 0, 0, 0x03, 0xE8, 0, 5, 0, 0, 0, 0, 0, 3, 0, 6]
          ++ specFrame 0xFFFFFFFF 0x07 [0x00])).storeTemplate true 1 (-1) 1).2.m_serial.written
      = specFrame 0xFFFFFFFF 0x01 [0x1F, 0x01] ++ specFrame 0xFFFFFFFF 0x01 [0x0F]
          ++ specFrame 0xFFFFFFFF 0x01 [0x06, 0x01, 0x01, 0x01]
    ∧ ((sessionWith 0xFFFFFFFF 0
        (specFrame 0xFFFFFFFF 0x07 [0x00]
          ++ specFrame 0xFFFFFFFF 0x07 ([0x00] ++ List.replicate 32 0x00)
          ++ specFrame 0xFFFFFFFF 0x07
              [0x00, 0, 0, 0, 0, 0x03, 0xE8, 0, 5, 0, 0, 0, 0, 0, 3, 0, 6]
          ++ specFrame 0xFFFFFFFF 0x07 [0x00])).storeTemplate true 0 (-1) 1).1 = Except.ok 1
    ∧ ((sessionWith 0xFFFFFFFF 0
        (specFrame 0xFFFFFFFF 0x07 [0x00]
          ++ specFrame 0xFFFFFFFF 0x07 ([0x00] ++ List.replicate 32 0x00)
          ++ specFrame 0xFFFFFFFF 0x07
              [0x00, 0, 0, 0, 0, 0x03, 0xE8, 0, 5, 0, 0, 0, 0, 0, 3, 0, 6]
          ++ specFrame 0xFFFFFFFF 0x07 [0x00])).storeTemplate true 0 (-1) 1).2.m_serial.written
      = specFrame 0xFFFFFFFF 0x01 [0x1F, 0x00] ++ specFrame 0xFFFFFFFF 0x01 [0x1F, 0x01]
          ++ specFrame 0xFFFFFFFF 0x01 [0x0F]
          ++ specFrame 0xFFFFFFFF 0x01 [0x06, 0x01, 0x01, 0x01]
    ∧ 256 * 0x01 + 0x01 = 257 := by
  decide

/-! ## Payload indices (C36) -/

/-- A byte string extended by zero bytes reads the same at every index: past its end a
`QByteRef` yields 0. -/
theorem getD_append_replicate_zero (l : List Nat) (k i : Nat) :
    (l ++ List.replicate k 0).getD i 0 = l.getD i 0 := by
  by_cases h : i < l.length
  · rw [List.getD_append l _ 0 i h]
  · rw [List.getD_append_right l _ 0 i (by omega), List.getD_eq_default l 0 (by omega)]
    by_cases h2 : i - l.length < k
    · rw [List.getD_eq_getElem _ 0 (by simpa using h2)]
      simp
    · rw [List.getD_eq_default _ 0 (by simpa using h2)]

theorem getD_drop (l : List Nat) (n i : Nat) : (l.drop n).getD i 0 = l.getD (n + i) 0 := by
  simp [List.getD_eq_getElem?_getD, List.getElem?_drop]

/-- The same for the part of the extended string from index `n` on. -/
theorem getD_drop_append_replicate_zero (l : List Nat) (k n i : Nat) :
    ((l ++ List.replicate k 0).drop n).getD i 0 = (l.drop n).getD i 0 := by
  rw [getD_drop, getD_drop, getD_append_replicate_zero]

set_option maxRecDepth 100000 in
/-- C36 (counterexample).  The ACK frame `EF 01 FF FF FF FF 07 00 03 00 00 0A` carries the
one-byte payload `00`: `getTemplateCount`, `compareCharacteristics`, `generateRandomNumber`
and `searchTemplate` return the values 0, 0, 0 and `(0, 0)`, decoded from the indices 1 to 4
that this payload does not have, and `getStorageCapacity` returns 0 from the indices 4 and 5
of an empty parameter block.  The twelve bytes `EF 01 FF FF FF FF 07 00 02 00 00 09` are
returned by `readPacket` as a packet with an empty payload, and `verifyPassword` returns
`true`: the status byte at index 0 does not exist either. -/
theorem short_reply_read_past_end :
    readPacketLoop [] [0xEF, 0x01, 0xFF, 0xFF, 0xFF, 0xFF, 0x07, 0x00, 0x03, 0x00, 0x00, 0x0A]
        = (Except.ok [0x07, 0x00], [])
    ∧ ((sessionWith 0xFFFFFFFF 0
        [0xEF, 0x01, 0xFF, 0xFF, 0xFF, 0xFF, 0x07, 0x00, 0x03, 0x00, 0x00, 0x0A]).getTemplateCount
          true).1 = Except.ok 0
    ∧ ((sessionWith 0xFFFFFFFF 0
        [0xEF, 0x01, 0xFF, 0xFF, 0xFF, 0xFF, 0x07, 0x00, 0x03, 0x00, 0x00, 0x0A]).compareCharacteristics
          true).1 = Except.ok 0
    ∧ ((sessionWith 0xFFFFFFFF 0
        [0xEF, 0x01, 0xFF, 0xFF, 0xFF, 0xFF, 0x07, 0x00, 0x03, 0x00, 0x00, 0x0A]).generateRandomNumber
          true).1 = Except.ok 0
    ∧ ((sessionWith 0xFFFFFFFF 0
        [0xEF, 0x01, 0xFF, 0xFF, 0xFF, 0xFF, 0x07, 0x00, 0x03, 0x00, 0x00, 0x0A]).searchTemplate
          true 1 0 5).1 = Except.ok [0, 0]
    ∧ ((sessionWith 0xFFFFFFFF 0
        [0xEF, 0x01, 0xFF, 0xFF, 0xFF, 0xFF, 0x07, 0x00, 0x03, 0x00, 0x00, 0x0A]).getStorageCapacity
          true).1 = Except.ok 0
    ∧ readPacketLoop [] [0xEF, 0x01, 0xFF, 0xFF, 0xFF, 0xFF, 0x07, 0x00, 0x02, 0x00, 0x00, 0x09]
        = (Except.ok [0x07], [])
    ∧ ((sessionWith 0xFFFFFFFF 0
        [0xEF, 0x01, 0xFF, 0xFF, 0xFF, 0xFF, 0x07, 0x00, 0x02, 0x00, 0x00, 0x09]).verifyPassword
          true).1 = Except.ok true := by
  decide

/-- C36 (amended).  No command tests the length of the payload before it indexes it, and an
index past the end reads as 0.  So for every packet `pkt` that `readPacket` returns, short or
not, each of `verifyPassword`, `getTemplateCount`, `compareCharacteristics`,
`generateRandomNumber`, `searchTemplate` and the four getters built on `getSystemParameters`
returns exactly what it returns for `pkt` extended by any number of zero bytes. -/
theorem short_reply_reads_zero (signedChar : Bool) (s r : QFingerprint) (pkt : List Nat)
    (k : Nat) (rest rest2 : List Nat)
    (hfs : s.m_serial.flushes = true) (hfr : r.m_serial.flushes = true)
    (hs : readPacketLoop [] s.m_serial.incoming = (Except.ok pkt, rest))
    (hr : readPacketLoop [] r.m_serial.incoming
      = (Except.ok (pkt ++ List.replicate k 0), rest2)) :
    (s.verifyPassword signedChar).1 = (r.verifyPassword signedChar).1
    ∧ (s.getTemplateCount signedChar).1 = (r.getTemplateCount signedChar).1
    ∧ (s.compareCharacteristics signedChar).1 = (r.compareCharacteristics signedChar).1
    ∧ (s.generateRandomNumber signedChar).1 = (r.generateRandomNumber signedChar).1
    ∧ (∀ (buf start : Nat) (count : Int), 0 < count →
        (s.searchTemplate signedChar buf start count).1
          = (r.searchTemplate signedChar buf start count).1)
    ∧ (s.getStorageCapacity signedChar).1 = (r.getStorageCapacity signedChar).1
    ∧ (s.getSecurityLevel signedChar).1 = (r.getSecurityLevel signedChar).1
    ∧ (s.getMaxPacketSize signedChar).1 = (r.getMaxPacketSize signedChar).1
    ∧ (s.getBaudRate signedChar).1 = (r.getBaudRate signedChar).1 := by
  refine ⟨?_, ?_, ?_, ?_, ?_, ?_, ?_, ?_, ?_⟩
  · unfold QFingerprint.verifyPassword QFingerprint.writePacket QFingerprint.readPacket
    simp only [hfs, hfr, hs, hr, if_true, getD_append_replicate_zero,
      getD_drop_append_replicate_zero]
    split_ifs <;> rfl
  · unfold QFingerprint.getTemplateCount QFingerprint.writePacket QFingerprint.readPacket
    simp only [hfs, hfr, hs, hr, if_true, getD_append_replicate_zero,
      getD_drop_append_replicate_zero]
    split_ifs <;> rfl
  · unfold QFingerprint.compareCharacteristics QFingerprint.writePacket QFingerprint.readPacket
    simp only [hfs, hfr, hs, hr, if_true, getD_append_replicate_zero,
      getD_drop_append_replicate_zero]
    split_ifs <;> rfl
  · unfold QFingerprint.generateRandomNumber QFingerprint.writePacket QFingerprint.readPacket
    simp only [hfs, hfr, hs, hr, if_true, getD_append_replicate_zero,
      getD_drop_append_replicate_zero]
    split_ifs <;> rfl
  · intro buf start count hcount
    have hc : count > 0 := hcount
    unfold QFingerprint.searchTemplate QFingerprint.writePacket QFingerprint.readPacket
    by_cases hb : buf ≠ FINGERPRINT_CHARBUFFER1 ∧ buf ≠ FINGERPRINT_CHARBUFFER2
    · rw [if_pos hb, if_pos hb]
    · rw [if_neg hb, if_neg hb]
      simp only [hc, hfs, hfr, hs, hr, if_true, if_false, getD_append_replicate_zero,
        getD_drop_append_replicate_zero]
      split_ifs <;> rfl
  · unfold QFingerprint.getStorageCapacity QFingerprint.getSystemParameters QFingerprint.writePacket
      QFingerprint.readPacket
    simp only [hfs, hfr, hs, hr, if_true, getD_append_replicate_zero,
      getD_drop_append_replicate_zero]
    split_ifs <;> simp only [List.drop_drop, getD_drop_append_replicate_zero]
  · unfold QFingerprint.getSecurityLevel QFingerprint.getSystemParameters QFingerprint.writePacket
      QFingerprint.readPacket
    simp only [hfs, hfr, hs, hr, if_true, getD_append_replicate_zero,
      getD_drop_append_replicate_zero]
    split_ifs <;> simp only [List.drop_drop, getD_drop_append_replicate_zero]
  · unfold QFingerprint.getMaxPacketSize QFingerprint.getSystemParameters QFingerprint.writePacket
      QFingerprint.readPacket
    simp only [hfs, hfr, hs, hr, if_true, getD_append_replicate_zero,
      getD_drop_append_replicate_zero]
    split_ifs <;> simp only [List.drop_drop, getD_drop_append_replicate_zero]
    split_ifs <;> rfl
  · unfold QFingerprint.getBaudRate QFingerprint.getSystemParameters QFingerprint.writePacket
      QFingerprint.readPacket
    simp only [hfs, hfr, hs, hr, if_true, getD_append_replicate_zero,
      getD_drop_append_replicate_zero]
    split_ifs <;> simp only [List.drop_drop, getD_drop_append_replicate_zero]

/-- Witness of C36 (amended): the ACK payload `00` against the ACK payload `00 00 00`, for
`getTemplateCount`. -/
theorem short_reply_reads_zero_witness :
    ((sessionWith 0xFFFFFFFF 0 (specFrame 0xFFFFFFFF 0x07 [0x00])).getTemplateCount true).1
      = ((sessionWith 0xFFFFFFFF 0
          (specFrame 0xFFFFFFFF 0x07 [0x00, 0x00, 0x00])).getTemplateCount true).1 :=
  (short_reply_reads_zero true (sessionWith 0xFFFFFFFF 0 (specFrame 0xFFFFFFFF 0x07 [0x00]))
    (sessionWith 0xFFFFFFFF 0 (specFrame 0xFFFFFFFF 0x07 [0x00, 0x00, 0x00]))
    [0x07, 0x00] 2 [] [] rfl rfl (by decide) (by decide)).2.1

/-! ## Bulk download from frames (C29) -/

/-- Successive calls of `readPacket` on a stream of DATA frames, each with a payload of 1 to
253 bytes, followed by one more such frame of type `t`: they return the frames as packets, in
order, and stop reading at the last byte of the last frame. -/
theorem readPackets_dataFrames (alast tlast : Nat) (plast rest : List Nat)
    (ht : tlast < 256) (hp : IsBytes plast) (hlo : 1 ≤ plast.length)
    (hhi : plast.length ≤ 253) :
    ∀ dataFrames : List (Nat × List Nat),
      (∀ f ∈ dataFrames, IsBytes f.2 ∧ 1 ≤ f.2.length ∧ f.2.length ≤ 253) →
      readPackets (dataFrames.length + 1)
          ((dataFrames.map (fun f => specFrame f.1 0x02 f.2)).flatten
            ++ (specFrame alast tlast plast ++ rest))
        = some (dataFrames.map (fun f => 0x02 :: f.2) ++ [tlast :: plast], rest) := by
  intro dataFrames
  induction dataFrames with
  | nil =>
    intro _
    simp only [List.map_nil, List.flatten_nil, List.nil_append, List.length_nil, Nat.zero_add]
    rw [readPackets, readPacketLoop_specFrame alast tlast plast rest ht hp hlo hhi]
    simp only [readPackets, Option.map_some']
  | cons f fs ih =>
    intro h
    have hf := h f (List.mem_cons_self _ _)
    have hfs := ih (fun g hg => h g (List.mem_cons_of_mem _ hg))
    simp only [List.map_cons, List.flatten_cons, List.length_cons, List.append_assoc,
      List.cons_append]
    rw [readPackets, readPacketLoop_specFrame f.1 0x02 f.2 _ (by decide) hf.1 hf.2.1 hf.2.2]
    simp only [hfs, Option.map_some']

set_option maxRecDepth 100000 in
/-- C29 (counterexample).  After the ACK with status OK the sensor sends the DATA frame with
the payload `01 02` and a well-formed END_DATA frame with an empty payload, the eleven bytes
`EF 01 FF FF FF FF 08 00 02 00 0A`.  `readPacket` decides nothing before twelve bytes have
arrived, so `downloadCharacteristics` ends with "Read timeout!" and does not return `01 02`.
A well-formed END_DATA frame with 256 payload bytes is not returned either: the call ends with
the checksum error. -/
theorem downloadCharacteristics_frame_not_read :
    specFrame 0xFFFFFFFF 0x08 []
        = [0xEF, 0x01, 0xFF, 0xFF, 0xFF, 0xFF, 0x08, 0x00, 0x02, 0x00, 0x0A]
    ∧ ((sessionWith 0xFFFFFFFF 0
        (specFrame 0xFFFFFFFF 0x07 [0x00] ++ specFrame 0xFFFFFFFF 0x02 [0x01, 0x02]
          ++ specFrame 0xFFFFFFFF 0x08 [])).downloadCharacteristics true 1).1
        = Except.error FpError.readTimeout
    ∧ ((sessionWith 0xFFFFFFFF 0
        (specFrame 0xFFFFFFFF 0x07 [0x00] ++ specFrame 0xFFFFFFFF 0x02 [0x01, 0x02]
          ++ specFrame 0xFFFFFFFF 0x08 [])).downloadCharacteristics false 1).1
        = Except.error FpError.readTimeout
    ∧ ((sessionWith 0xFFFFFFFF 0
        (specFrame 0xFFFFFFFF 0x07 [0x00]
          ++ specFrame 0xFFFFFFFF 0x08 (List.replicate 256 0))).downloadCharacteristics true 1).1
        = Except.error FpError.badChecksum := by
  decide

/-- C29 (amended).  With a valid buffer number and the request flushed, let the sensor send a
well-formed ACK frame with the status OK, then `n ≥ 0` well-formed DATA frames and one more
well-formed frame, every frame with a payload of 1 to 253 bytes and under any address, and
then the bytes `rest`.  If the last frame has the type END_DATA, `downloadCharacteristics`
returns the `n + 1` payloads concatenated in arrival order and leaves exactly `rest` unread;
if it has any type other than DATA and END_DATA, the call throws "The received packet is no
data packet!". -/
theorem downloadCharacteristics_frames (signedChar : Bool) (s : QFingerprint) (buf : Nat)
    (a0 : Nat) (more : List Nat) (dataFrames : List (Nat × List Nat))
    (alast tlast : Nat) (plast rest : List Nat)
    (hbuf : buf = 1 ∨ buf = 2) (hf : s.m_serial.flushes = true)
    (hmore : IsBytes more) (hmorelen : more.length ≤ 252)
    (hdata : ∀ f ∈ dataFrames, IsBytes f.2 ∧ 1 ≤ f.2.length ∧ f.2.length ≤ 253)
    (ht : tlast < 256) (hp : IsBytes plast) (hlo : 1 ≤ plast.length)
    (hhi : plast.length ≤ 253)
    (hin : s.m_serial.incoming
      = specFrame a0 0x07 (0x00 :: more)
        ++ ((dataFrames.map (fun f => specFrame f.1 0x02 f.2)).flatten
          ++ (specFrame alast tlast plast ++ rest))) :
    (tlast = 0x08 →
      (s.downloadCharacteristics signedChar buf).1
          = Except.ok ((dataFrames.map (fun f => f.2)).flatten ++ plast)
        ∧ (s.downloadCharacteristics signedChar buf).2.m_serial.incoming = rest)
    ∧ (tlast ≠ 0x02 → tlast ≠ 0x08 →
      (s.downloadCharacteristics signedChar buf).1 = Except.error FpError.notDataPacket) := by
  have hack : readPacketLoop [] s.m_serial.incoming
      = (Except.ok (0x07 :: 0x00 :: more),
          (dataFrames.map (fun f => specFrame f.1 0x02 f.2)).flatten
            ++ (specFrame alast tlast plast ++ rest)) := by
    rw [hin]
    exact readPacketLoop_specFrame a0 0x07 (0x00 :: more) _ (by decide)
      (fun b hb => by
        rcases List.mem_cons.mp hb with h | h
        · omega
        · exact hmore b h)
      (by simp) (by simp only [List.length_cons]; omega)
  have hread := readPackets_dataFrames alast tlast plast rest ht hp hlo hhi dataFrames hdata
  have hlen : (dataFrames.map (fun f => 0x02 :: f.2)).length = dataFrames.length :=
    List.length_map _ _
  rw [← hlen] at hread
  have htypes : ∀ p ∈ dataFrames.map (fun f => 0x02 :: f.2), p.getD 0 0 = 0x02 := by
    intro p hp
    obtain ⟨f, _, rfl⟩ := List.mem_map.mp hp
    rfl
  have hpay : (((dataFrames.map (fun f => 0x02 :: f.2)) ++ [tlast :: plast]).map
      (List.drop 1)).flatten = (dataFrames.map (fun f => f.2)).flatten ++ plast := by
    simp [List.map_map, Function.comp_def]
  have h := downloadCharacteristics_concat signedChar s buf more _ rest (tlast :: plast)
    (dataFrames.map (fun f => 0x02 :: f.2)) hbuf hf hack hread htypes
  simp only [List.getD_cons_zero, hpay] at h
  exact h

/-- Witness of C29 (amended): two DATA frames and an END_DATA frame, followed by one more frame
that stays unread. -/
theorem downloadCharacteristics_frames_witness :
    ((sessionWith 0xFFFFFFFF 0
        (specFrame 0xFFFFFFFF 0x07 [0x00] ++ (specFrame 0xFFFFFFFF 0x02 [1, 2]
          ++ (specFrame 0x01020304 0x02 [3] ++ (specFrame 0xFFFFFFFF 0x08 [4, 5]
          ++ specFrame 0xFFFFFFFF 0x07 [0x00]))))).downloadCharacteristics true 1).1
        = Except.ok [1, 2, 3, 4, 5]
      ∧ ((sessionWith 0xFFFFFFFF 0
        (specFrame 0xFFFFFFFF 0x07 [0x00] ++ (specFrame 0xFFFFFFFF 0x02 [1, 2]
          ++ (specFrame 0x01020304 0x02 [3] ++ (specFrame 0xFFFFFFFF 0x08 [4, 5]
          ++ specFrame 0xFFFFFFFF 0x07 [0x00]))))).downloadCharacteristics true
            1).2.m_serial.incoming
        = specFrame 0xFFFFFFFF 0x07 [0x00] :=
  (downloadCharacteristics_frames true
    (sessionWith 0xFFFFFFFF 0
      (specFrame 0xFFFFFFFF 0x07 [0x00] ++ (specFrame 0xFFFFFFFF 0x02 [1, 2]
        ++ (specFrame 0x01020304 0x02 [3] ++ (specFrame 0xFFFFFFFF 0x08 [4, 5]
        ++ specFrame 0xFFFFFFFF 0x07 [0x00])))))
    1 0xFFFFFFFF [] [(0xFFFFFFFF, [1, 2]), (0x01020304, [3])] 0xFFFFFFFF 0x08 [4, 5]
    (specFrame 0xFFFFFFFF 0x07 [0x00]) (Or.inl rfl) rfl (by decide) (by decide) (by decide)
    (by decide) (by decide) (by decide) (by decide) (by decide)).1 rfl

end QtFingerprint
